import Mathlib

/-! SlicerRT DICOM-RT import/export: a shallow embedding

Embedding of `vtkSlicerDicomRtImportExportModuleLogic.cxx` (examiners, loaders,
RT image geometry) and of the generated DCMTK sequence pattern of `drtrbos1.cc`.

Conventions of the embedding

* `R` is the scalar type standing for the C++ `double`; it is a commutative ring and the
  library trigonometry (degrees) is a parameter (`Trig`).  Rounding is not modelled.
* A `const char*` that may be null is a `String`; the null pointer and the empty string
  are both `""`.
* The subject hierarchy is the list of its items in the order in which
  `GetItemChildren(sceneItemID, ids, true)` enumerates them; the item at list position `i`
  has id `i + 2`, id `0` is `INVALID_ITEM_ID` and id `1` is the scene item.  Items are never
  removed by the embedded code, and a new item is enumerated after the existing ones.
* A MRML data node is stored inside its subject hierarchy item, so a node is named by the
  id of its item.
* Library collaborators that are not part of the sources (VTK, DCMTK element access, the
  DICOM database, string/number conversion) are fields of `Env`.
-/

namespace SlicerRT

/-! ## VTK matrices and transforms -/

/-- Homogeneous 4x4 matrix (`vtkMatrix4x4`). -/
abbrev Matrix4x4 (R : Type) := Matrix (Fin 4) (Fin 4) R

/-- Library cosine and sine of an angle given in degrees. -/
structure Trig (R : Type) where
  cosDeg : R → R
  sinDeg : R → R

/-- Matrix of the translation by `(x, y, z)`. -/
def translationMatrix {R : Type} [CommRing R] (x y z : R) : Matrix4x4 R :=
  !![1, 0, 0, x; 0, 1, 0, y; 0, 0, 1, z; 0, 0, 0, 1]

/-- Modelled from the spec: `vtkTransform::RotateWXYZ` is VTK library code that is not part
of the sources.  Matrix of the rotation by `angle` degrees about the unit axis `(x, y, z)`
(Rodrigues form; the three calls of the source pass a coordinate axis, for which the
normalisation done by VTK divides by one). -/
def rotationMatrix {R : Type} [CommRing R] (trig : Trig R) (angle x y z : R) : Matrix4x4 R :=
  !![trig.cosDeg angle + (1 - trig.cosDeg angle) * x * x,
     (1 - trig.cosDeg angle) * x * y - trig.sinDeg angle * z,
     (1 - trig.cosDeg angle) * x * z + trig.sinDeg angle * y, 0;
     (1 - trig.cosDeg angle) * x * y + trig.sinDeg angle * z,
     trig.cosDeg angle + (1 - trig.cosDeg angle) * y * y,
     (1 - trig.cosDeg angle) * y * z - trig.sinDeg angle * x, 0;
     (1 - trig.cosDeg angle) * x * z - trig.sinDeg angle * y,
     (1 - trig.cosDeg angle) * y * z + trig.sinDeg angle * x,
     trig.cosDeg angle + (1 - trig.cosDeg angle) * z * z, 0;
     0, 0, 0, 1]

/-- Modelled from the spec: `vtkTransform` is VTK library code that is not part of the
sources.  A transform is its current matrix and the concatenation mode. -/
structure vtkTransform (R : Type) where
  Matrix : Matrix4x4 R
  PreMultiplyFlag : Bool

namespace vtkTransform

variable {R : Type} [CommRing R]

/-- A new transform is the identity in pre-multiply mode. -/
def New : vtkTransform R := ⟨1, true⟩

/-- Reset to the identity matrix. -/
def Identity (t : vtkTransform R) : vtkTransform R := { t with Matrix := 1 }

/-- Select pre-multiply mode: a concatenated matrix is applied before the current one. -/
def PreMultiply (t : vtkTransform R) : vtkTransform R := { t with PreMultiplyFlag := true }

/-- Concatenate a matrix according to the current mode. -/
def Concatenate (t : vtkTransform R) (A : Matrix4x4 R) : vtkTransform R :=
  if t.PreMultiplyFlag then { t with Matrix := t.Matrix * A } else { t with Matrix := A * t.Matrix }

/-- Concatenate a translation. -/
def Translate (t : vtkTransform R) (x y z : R) : vtkTransform R :=
  t.Concatenate (translationMatrix x y z)

/-- Concatenate a rotation by `angle` degrees about the axis `(x, y, z)`. -/
def RotateWXYZ (trig : Trig R) (t : vtkTransform R) (angle x y z : R) : vtkTransform R :=
  t.Concatenate (rotationMatrix trig angle x y z)

/-- Concatenate a rotation about the X axis. -/
def RotateX (trig : Trig R) (t : vtkTransform R) (angle : R) : vtkTransform R :=
  RotateWXYZ trig t angle 1 0 0

/-- Current matrix of the transform. -/
def GetMatrix (t : vtkTransform R) : Matrix4x4 R := t.Matrix

end vtkTransform

/-! ## Scene, nodes and subject hierarchy -/

/-- Subject hierarchy item id (`vtkIdType`). -/
abbrev vtkIdType := Nat

/-- Id returned when no item is found. -/
def INVALID_ITEM_ID : vtkIdType := 0

/-- Id of the scene item, the root of the hierarchy. -/
def SceneItemID : vtkIdType := 1

/-- UID namespaces of `vtkMRMLSubjectHierarchyConstants`. -/
inductive UIDName
  | DICOMUIDName
  | DICOMInstanceUIDName
  deriving DecidableEq, Repr

/-- Attribute names of `vtkMRMLSubjectHierarchyConstants` and `SlicerRtCommon` used by
the embedded code.  The string values of the constants are not part of the sources; only
their being pairwise different is used. -/
inductive AttributeName
  | DICOMReferencedInstanceUIDs
  | DICOMPatientName
  | DICOMPatientID
  | DICOMPatientSex
  | DICOMPatientBirthDate
  | DICOMPatientComments
  | DICOMStudyInstanceUID
  | DICOMStudyID
  | DICOMStudyDescription
  | DICOMStudyDate
  | DICOMStudyTime
  | DICOMSeriesModality
  | DICOMSeriesNumber
  | DICOMRTIMPORT_RTIMAGE_IDENTIFIER
  | DICOMRTIMPORT_SOURCE_AXIS_DISTANCE
  | DICOMRTIMPORT_GANTRY_ANGLE
  | DICOMRTIMPORT_COUCH_ANGLE
  | DICOMRTIMPORT_COLLIMATOR_ANGLE
  | DICOMRTIMPORT_BEAM_NUMBER
  | DICOMRTIMPORT_RTIMAGE_SID
  | DICOMRTIMPORT_RTIMAGE_POSITION
  | DICOMRTIMPORT_ROI_REFERENCED_SERIES_UID
  | DICOMRTIMPORT_DOSE_UNIT_NAME
  | DICOMRTIMPORT_DOSE_UNIT_VALUE
  deriving DecidableEq, Repr

/-- Severity of a message sent to the logging collaborator. -/
inductive Severity
  | Error
  | Warning
  | Debug
  deriving DecidableEq, Repr

/-- One logged message: severity and the leading text of the source message. -/
structure Message where
  severity : Severity
  text : String
  deriving DecidableEq, Repr

/-- One segment of a segmentation: name, color and the planar contour point set. -/
structure vtkSegment (R : Type) where
  Name : String
  Color : R × R × R
  PlanarContour : List (R × R × R)

/-- A scalar volume node: the `IJKToRAS` matrix, the voxel values of the image data in
memory order, the node reference to the displayed model of a planar image (the number of the
model node) and the dose volume marker attribute.  Display and storage nodes are not
represented. -/
structure vtkMRMLScalarVolumeNode (R : Type) where
  IJKToRASMatrix : Matrix4x4 R
  ImageData : List R
  DisplayedModel : Option Nat
  DoseVolumeIdentifier : Bool

/-- A beam node: name, beam number, jaw positions, angles in degrees and source-axis
distance. -/
structure vtkMRMLRTBeamNode (R : Type) where
  Name : String
  BeamNumber : Int
  X1Jaw : R
  X2Jaw : R
  Y1Jaw : R
  Y2Jaw : R
  GantryAngle : R
  CollimatorAngle : R
  CouchAngle : R
  SAD : R

/-- MRML data nodes the embedded code creates or inspects. -/
inductive vtkMRMLNode (R : Type)
  | ScalarVolumeNode (volume : vtkMRMLScalarVolumeNode R)
  | RTPlanNode (IsocenterPosition : Option (R × R × R))
  | RTBeamNode (beam : vtkMRMLRTBeamNode R)
  | MarkupsFiducialNode (Name : String) (Position : R × R × R) (Color : R × R × R)
  | SegmentationNode (Segments : List (vtkSegment R)) (ClosedSurfaceDisplay : Bool)
  | OtherNode

/-- One subject hierarchy item. -/
structure ShItem (R : Type) where
  Parent : vtkIdType
  Name : String
  Attributes : AttributeName → String
  UIDs : UIDName → String
  DataNode : Option (vtkMRMLNode R)

/-- The MRML scene with its subject hierarchy. -/
structure Scene (R : Type) where
  Items : List (ShItem R)
  ModelNodes : Nat
  BatchProcessDepth : Int
  Messages : List Message

namespace Scene

variable {R : Type}

/-- The empty scene: only the scene item. -/
def empty : Scene R := ⟨[], 0, 0, []⟩

/-- Item with the given id, if there is one. -/
def GetItem (s : Scene R) (itemID : vtkIdType) : Option (ShItem R) :=
  if itemID < 2 then none else s.Items[itemID - 2]?

/-- Apply `f` to the item with the given id (nothing happens for an id without item). -/
def modifyItem (s : Scene R) (itemID : vtkIdType) (f : ShItem R → ShItem R) : Scene R :=
  if itemID < 2 then s else { s with Items := s.Items.modify f (itemID - 2) }

/-- Append a message to the log. -/
def log (s : Scene R) (sev : Severity) (text : String) : Scene R :=
  { s with Messages := s.Messages ++ [⟨sev, text⟩] }

/-- Create an item under `parent` (`CreateItem`, `CreateFolderItem`): the new item is last
in the enumeration; returns the scene and the new id. -/
def CreateItem (s : Scene R) (parent : vtkIdType) (name : String)
    (node : Option (vtkMRMLNode R)) : Scene R × vtkIdType :=
  ({ s with Items := s.Items ++ [⟨parent, name, fun _ => "", fun _ => "", node⟩] },
   s.Items.length + 2)

/-- Attribute value of an item; empty when the item or the attribute is missing. -/
def GetItemAttribute (s : Scene R) (itemID : vtkIdType) (name : AttributeName) : String :=
  match s.GetItem itemID with
  | some it => it.Attributes name
  | none => ""

/-- Set an attribute of an item. -/
def SetItemAttribute (s : Scene R) (itemID : vtkIdType) (name : AttributeName)
    (value : String) : Scene R :=
  s.modifyItem itemID (fun it => { it with Attributes := Function.update it.Attributes name value })

/-- UID of an item in a namespace; empty when missing. -/
def GetItemUID (s : Scene R) (itemID : vtkIdType) (name : UIDName) : String :=
  match s.GetItem itemID with
  | some it => it.UIDs name
  | none => ""

/-- Set the UID of an item in a namespace. -/
def SetItemUID (s : Scene R) (itemID : vtkIdType) (name : UIDName) (value : String) : Scene R :=
  s.modifyItem itemID (fun it => { it with UIDs := Function.update it.UIDs name value })

/-- Set the name of an item. -/
def SetItemName (s : Scene R) (itemID : vtkIdType) (name : String) : Scene R :=
  s.modifyItem itemID (fun it => { it with Name := name })

/-- Name of an item. -/
def GetItemName (s : Scene R) (itemID : vtkIdType) : String :=
  match s.GetItem itemID with
  | some it => it.Name
  | none => ""

/-- Move an item under another parent. -/
def SetItemParent (s : Scene R) (itemID parent : vtkIdType) : Scene R :=
  s.modifyItem itemID (fun it => { it with Parent := parent })

/-- Parent of an item; invalid when the item is missing. -/
def GetItemParent (s : Scene R) (itemID : vtkIdType) : vtkIdType :=
  match s.GetItem itemID with
  | some it => it.Parent
  | none => INVALID_ITEM_ID

/-- Data node of an item. -/
def GetItemDataNode (s : Scene R) (itemID : vtkIdType) : Option (vtkMRMLNode R) :=
  match s.GetItem itemID with
  | some it => it.DataNode
  | none => none

/-- Replace the data node of an item (a node mutated in place). -/
def SetItemDataNode (s : Scene R) (itemID : vtkIdType) (node : vtkMRMLNode R) : Scene R :=
  s.modifyItem itemID (fun it => { it with DataNode := some node })

/-- Position of the first item carrying the UID in the namespace. -/
def findUID (name : UIDName) (value : String) : List (ShItem R) → Option Nat
  | [] => none
  | it :: rest =>
    if it.UIDs name = value then some 0 else (findUID name value rest).map (· + 1)

/-- Modelled from the spec: `vtkMRMLSubjectHierarchyNode::GetItemByUID` is application code
that is not part of the sources.  First item carrying the UID in the namespace; a null or
empty UID and a UID nobody carries give the invalid id ("returns a sentinel not found
value rather than failing"). -/
def GetItemByUID (s : Scene R) (name : UIDName) (value : String) : vtkIdType :=
  if value = "" then INVALID_ITEM_ID
  else
    match findUID name value s.Items with
    | some i => i + 2
    | none => INVALID_ITEM_ID

/-- Ids of all items in enumeration order (`GetItemChildren` of the scene item, recursive). -/
def GetItemChildren (s : Scene R) : List vtkIdType :=
  (List.range s.Items.length).map (· + 2)

/-- Number of direct children of an item. -/
def GetNumberOfItemChildren (s : Scene R) (itemID : vtkIdType) : Nat :=
  (s.Items.filter (fun it => it.Parent = itemID)).length

/-- The `IJKToRAS` matrix of the scalar volume stored in an item. -/
def GetIJKToRASMatrix [CommRing R] (s : Scene R) (itemID : vtkIdType) : Option (Matrix4x4 R) :=
  match s.GetItemDataNode itemID with
  | some (.ScalarVolumeNode volume) => some volume.IJKToRASMatrix
  | _ => none

end Scene

/-- Library collaborators used by the loaders and the geometry engine. -/
structure Env (R : Type) where
  /-- Cosine and sine in degrees used by the rotations of `vtkTransform`. -/
  trig : Trig R
  /-- Conversion `vtkVariant(str).ToDouble()`. -/
  ToDouble : String → R
  /-- Conversion `vtkVariant(str).ToInt()`. -/
  ToInt : String → Int
  /-- Extraction of two numbers from a string stream (`ss >> a >> b`). -/
  ReadPosition : String → R × R
  /-- Insertion of a number into a string stream. -/
  FormatDouble : R → String
  /-- Insertion of an integer into a string stream. -/
  FormatInt : Int → String
  /-- Split of a referenced-instance-UID attribute into its UIDs
  (`vtkMRMLSubjectHierarchyNode::DeserializeUIDList`). -/
  DeserializeUIDList : String → List String
  /-- Comparison `SlicerRtCommon::AreEqualWithTolerance`. -/
  AreEqualWithTolerance : R → R → Bool
  /-- Test `fabs(x - y) > EPSILON`. -/
  DiffersBeyondEpsilon : R → R → Bool
  /-- The default isodose and dose color tables can be created. -/
  DefaultColorTablesAvailable : Bool
  /-- Application setting `SubjectHierarchy/DisplayPatientIDInSubjectHierarchyItemName`. -/
  DisplayPatientIDInItemName : Bool
  /-- Application setting `SubjectHierarchy/DisplayPatientBirthDateInSubjectHierarchyItemName`. -/
  DisplayPatientBirthDateInItemName : Bool
  /-- Application setting `SubjectHierarchy/DisplayStudyIDInSubjectHierarchyItemName`. -/
  DisplayStudyIDInItemName : Bool
  /-- Application setting `SubjectHierarchy/DisplayStudyDateInSubjectHierarchyItemName`. -/
  DisplayStudyDateInItemName : Bool
  /-- Beam number that `vtkMRMLRTPlanNode::AddBeam`, repository code that is not part of the
  sources, gives to a beam node added to a plan node that has this many beams. -/
  AddBeamNumber : Nat → Int

namespace Scene

variable {R : Type}

/-- Modelled from the spec: `vtkMRMLSubjectHierarchyNode::GetItemsReferencedFromItemByDICOM`
is application code that is not part of the sources.  The items named by the UIDs of the
referenced-instance-UID attribute of an item, found by instance UID, in attribute order. -/
def GetItemsReferencedFromItemByDICOM (env : Env R) (s : Scene R) (itemID : vtkIdType) :
    List vtkIdType :=
  ((env.DeserializeUIDList (s.GetItemAttribute itemID .DICOMReferencedInstanceUIDs)).map
    (fun uid => s.GetItemByUID .DICOMInstanceUIDName uid)).filter (fun i => i ≠ INVALID_ITEM_ID)

/-- Modelled from the spec: `vtkMRMLRTBeamNode::GetParentPlanNode` and
`vtkMRMLRTPlanNode::GetPlanSubjectHierarchyItemID` are repository code that is not part of
the sources.  The plan of a beam is the plan node stored in the parent of the beam item;
the result is the id of that item, invalid when the parent holds no plan. -/
def GetParentPlanItem (s : Scene R) (beamShItemID : vtkIdType) : vtkIdType :=
  match s.GetItemDataNode (s.GetItemParent beamShItemID) with
  | some (.RTPlanNode _) => s.GetItemParent beamShItemID
  | _ => INVALID_ITEM_ID

/-- Position of the first beam with the given number among the children of the plan. -/
def findBeam (planShItemID : vtkIdType) (beamNumber : Int) : List (ShItem R) → Option Nat
  | [] => none
  | it :: rest =>
    match it.DataNode with
    | some (.RTBeamNode beam) =>
      if it.Parent = planShItemID ∧ beam.BeamNumber = beamNumber then some 0
      else (findBeam planShItemID beamNumber rest).map (· + 1)
    | _ => (findBeam planShItemID beamNumber rest).map (· + 1)

/-- Modelled from the spec: `vtkMRMLRTPlanNode::GetBeamByNumber` is repository code that is
not part of the sources ("locate the beam by number").  The first beam of the plan carrying
the number; the beam number of a beam node is the number the plan node gave it when the
beam was added. -/
def GetBeamByNumber (s : Scene R) (planShItemID : vtkIdType) (beamNumber : Int) : vtkIdType :=
  match findBeam planShItemID beamNumber s.Items with
  | some i => i + 2
  | none => INVALID_ITEM_ID

/-- Modelled from the spec: `vtkMRMLRTPlanNode::GetIsocenterPosition` is repository code that
is not part of the sources.  The isocenter stored in the plan node of an item, if any. -/
def GetIsocenterPosition (s : Scene R) (planShItemID : vtkIdType) : Option (R × R × R) :=
  match s.GetItemDataNode planShItemID with
  | some (.RTPlanNode iso) => iso
  | _ => none

/-- Modelled from the spec: `vtkMRMLRTBeamNode::GetPlanIsocenterPosition` is repository code
that is not part of the sources.  The isocenter of the parent plan of a beam. -/
def GetPlanIsocenterPosition (s : Scene R) (beamShItemID : vtkIdType) : Option (R × R × R) :=
  s.GetIsocenterPosition (s.GetParentPlanItem beamShItemID)

/-- The displayed-model node reference of the scalar volume stored in an item. -/
def GetDisplayedModel (s : Scene R) (itemID : vtkIdType) : Option Nat :=
  match s.GetItemDataNode itemID with
  | some (.ScalarVolumeNode volume) => volume.DisplayedModel
  | _ => none

/-- The item holds a scalar volume node (`IsA("vtkMRMLScalarVolumeNode")`, `SafeDownCast`). -/
def IsScalarVolume (s : Scene R) (itemID : vtkIdType) : Bool :=
  match s.GetItemDataNode itemID with
  | some (.ScalarVolumeNode _) => true
  | _ => false

/-- The item holds a beam node. -/
def IsBeam (s : Scene R) (itemID : vtkIdType) : Bool :=
  match s.GetItemDataNode itemID with
  | some (.RTBeamNode _) => true
  | _ => false

/-- Beam number of the beam node stored in an item. -/
def GetBeamNumber (s : Scene R) (itemID : vtkIdType) : Int :=
  match s.GetItemDataNode itemID with
  | some (.RTBeamNode beam) => beam.BeamNumber
  | _ => 0

end Scene

/-! ## RT image geometry (`SetupRtImageGeometry`) -/

section Geometry

variable {R : Type} [CommRing R]

/-- Lines 1412-1469 of `SetupRtImageGeometry`: the seven component transforms and their
concatenation, in pre-multiply mode, with the image matrix. -/
def isocenterToRtImageRas (trig : Trig R) (isocenterWorldCoordinates : R × R × R)
    (sourceAxisDistance gantryAngle couchAngle rtImageSid : R) (rtImagePosition : R × R)
    (rtImageIjkToRtImageRasTransformMatrix : Matrix4x4 R) : Matrix4x4 R :=
  let fixedToIsocenterTransform :=
    (vtkTransform.New.Identity).Translate isocenterWorldCoordinates.1
      isocenterWorldCoordinates.2.1 isocenterWorldCoordinates.2.2
  let couchToFixedTransform :=
    vtkTransform.RotateWXYZ trig (vtkTransform.New.Identity) ((-1) * couchAngle) 0 1 0
  let gantryToCouchTransform :=
    vtkTransform.RotateWXYZ trig (vtkTransform.New.Identity) gantryAngle 0 0 1
  let sourceToGantryTransform := (vtkTransform.New.Identity).Translate 0 sourceAxisDistance 0
  let rtImageToSourceTransform := (vtkTransform.New.Identity).Translate 0 (-rtImageSid) 0
  let rtImageCenterToCornerTransform :=
    (vtkTransform.New.Identity).Translate (-rtImagePosition.1) 0 rtImagePosition.2
  let iecToLpsTransform := vtkTransform.RotateX trig (vtkTransform.New.Identity) 90
  let t := (vtkTransform.New.Identity).PreMultiply
  let t := t.Concatenate fixedToIsocenterTransform.GetMatrix
  let t := t.Concatenate couchToFixedTransform.GetMatrix
  let t := t.Concatenate gantryToCouchTransform.GetMatrix
  let t := t.Concatenate sourceToGantryTransform.GetMatrix
  let t := t.Concatenate rtImageToSourceTransform.GetMatrix
  let t := t.Concatenate rtImageCenterToCornerTransform.GetMatrix
  let t := t.Concatenate iecToLpsTransform.GetMatrix
  let t := t.Concatenate rtImageIjkToRtImageRasTransformMatrix
  t.GetMatrix

/-- Source to image distance read from the attributes of the RT image item (lines 1382-1388). -/
def rtImageSidOf (env : Env R) (s : Scene R) (rtImageShItemID : vtkIdType) : R :=
  if s.GetItemAttribute rtImageShItemID .DICOMRTIMPORT_RTIMAGE_SID ≠ "" then
    env.ToDouble (s.GetItemAttribute rtImageShItemID .DICOMRTIMPORT_RTIMAGE_SID)
  else 0

/-- Image position read from the attributes of the RT image item (lines 1389-1397). -/
def rtImagePositionOf (env : Env R) (s : Scene R) (rtImageShItemID : vtkIdType) : R × R :=
  if s.GetItemAttribute rtImageShItemID .DICOMRTIMPORT_RTIMAGE_POSITION ≠ "" then
    env.ReadPosition (s.GetItemAttribute rtImageShItemID .DICOMRTIMPORT_RTIMAGE_POSITION)
  else (0, 0)

/-- Lines 1380-1495 of `SetupRtImageGeometry`: both the RT image and the beam are known.
Reads the parameters, composes the transform, stores it in the volume, creates the
displayed model node and links it to the volume (`CreateModelForPlanarImage`). -/
def setupGeometryOfPair (env : Env R) (s : Scene R) (rtImageShItemID beamShItemID : vtkIdType) :
    Scene R :=
  match s.GetItemDataNode beamShItemID with
  | some (.RTBeamNode beamNode) =>
    match s.GetPlanIsocenterPosition beamShItemID with
    | none => s.log .Error "SetupRtImageGeometry: Failed to get plan isocenter position"
    | some isocenterWorldCoordinates =>
      match s.GetItemDataNode rtImageShItemID with
      | some (.ScalarVolumeNode rtImageVolumeNode) =>
        let s1 := s.SetItemDataNode rtImageShItemID
          (.ScalarVolumeNode
            { rtImageVolumeNode with
              IJKToRASMatrix :=
                isocenterToRtImageRas env.trig isocenterWorldCoordinates beamNode.SAD
                  beamNode.GantryAngle beamNode.CouchAngle (rtImageSidOf env s rtImageShItemID)
                  (rtImagePositionOf env s rtImageShItemID) rtImageVolumeNode.IJKToRASMatrix
              DisplayedModel := some s.ModelNodes })
        { s1 with ModelNodes := s1.ModelNodes + 1 }
      | _ => s
  | _ => s

/-- Outcome of the search loop of the beam entry. -/
inductive RtImageSearch
  /-- The loop ended (by `break` or at the end of the list) with this value of
  `rtImageShItemID`; the invalid id stands for a null `rtImageVolumeNode`. -/
  | finished (rtImageShItemID : vtkIdType)
  /-- The function returned from inside the loop: a displayed model was present. -/
  | returned
  deriving DecidableEq, Repr

/-- Lines 1319-1364 of `SetupRtImageGeometry`: the loop over all items.  The second argument
is the value of `rtImageShItemID` on entry of the iteration (invalid for a null
`rtImageVolumeNode`). -/
def searchRtImageForBeam (env : Env R) (s : Scene R) (planShItemID : vtkIdType)
    (beamNumber : Int) (oneBeamInPlan : Bool) :
    List vtkIdType → vtkIdType → RtImageSearch
  | [], rtImageShItemID => .finished rtImageShItemID
  | currentShItemID :: rest, rtImageShItemID =>
    if s.IsScalarVolume currentShItemID
        ∧ s.GetItemAttribute currentShItemID .DICOMRTIMPORT_RTIMAGE_IDENTIFIER ≠ ""
        ∧ planShItemID ∈ s.GetItemsReferencedFromItemByDICOM env currentShItemID
        ∧ (env.ToInt (s.GetItemAttribute currentShItemID .DICOMRTIMPORT_BEAM_NUMBER) = beamNumber
            ∨ oneBeamInPlan = true) then
      .finished currentShItemID
    else if rtImageShItemID ≠ INVALID_ITEM_ID ∧ (s.GetDisplayedModel rtImageShItemID).isSome then
      .returned
    else
      searchRtImageForBeam env s planShItemID beamNumber oneBeamInPlan rest rtImageShItemID

/-- The function `vtkInternal::SetupRtImageGeometry`.  The argument is the item of the node
passed in: the volume node of an RT image (called by `LoadRtImage`) or a beam node (called by
`LoadRtPlan`). -/
def SetupRtImageGeometry (env : Env R) (s : Scene R) (node : vtkIdType) : Scene R :=
  if s.IsScalarVolume node then
    -- called with an RT image volume: find the corresponding beam
    if s.GetItemAttribute node .DICOMReferencedInstanceUIDs = "" then
      s.log .Error "SetupRtImageGeometry: Unable to find referenced plan SOP instance UID for RT image"
    else if s.GetItemByUID .DICOMInstanceUIDName
        (s.GetItemAttribute node .DICOMReferencedInstanceUIDs) = INVALID_ITEM_ID then
      s.log .Debug "SetupRtImageGeometry: Cannot set up geometry of RT image without the referenced RT plan"
    else if s.GetItemAttribute node .DICOMRTIMPORT_BEAM_NUMBER = "" then
      s.log .Error "SetupRtImageGeometry: No referenced beam number specified in RT image"
    else if s.GetBeamByNumber
        (s.GetItemByUID .DICOMInstanceUIDName (s.GetItemAttribute node .DICOMReferencedInstanceUIDs))
        (env.ToInt (s.GetItemAttribute node .DICOMRTIMPORT_BEAM_NUMBER)) = INVALID_ITEM_ID then
      s.log .Error "SetupRtImageGeometry: Failed to retrieve beam node for RT image"
    else
      setupGeometryOfPair env s node
        (s.GetBeamByNumber
          (s.GetItemByUID .DICOMInstanceUIDName (s.GetItemAttribute node .DICOMReferencedInstanceUIDs))
          (env.ToInt (s.GetItemAttribute node .DICOMRTIMPORT_BEAM_NUMBER)))
  else if s.IsBeam node then
    -- called with a beam: find the corresponding RT image
    if s.GetParentPlanItem node = INVALID_ITEM_ID then
      s.log .Error "SetupRtImageGeometry: Failed to retrieve valid plan node for beam"
    else if s.GetItemUID (s.GetParentPlanItem node) .DICOMInstanceUIDName = "" then
      s.log .Error "SetupRtImageGeometry: Failed to get RT Plan DICOM UID for beam"
    else
      match searchRtImageForBeam env s (s.GetParentPlanItem node) (s.GetBeamNumber node)
          (decide (s.GetNumberOfItemChildren (s.GetParentPlanItem node) = 1))
          s.GetItemChildren INVALID_ITEM_ID with
      | .returned =>
        s.log .Debug "SetupRtImageGeometry: RT image seems to have been set up already"
      | .finished rtImageShItemID =>
        if rtImageShItemID = INVALID_ITEM_ID then
          s.log .Debug "SetupRtImageGeometry: Cannot set up geometry because the RT image is not loaded yet"
        else setupGeometryOfPair env s rtImageShItemID node
  else
    s.log .Error "SetupRtImageGeometry: Input node is neither a volume node nor a beam node"

end Geometry

/-! ## Concrete data used by the evaluations -/

/-- Exact cosine and sine at the multiples of a quarter turn between -180 and 180 degrees
(zero elsewhere; only used at those angles). -/
def quarterTurnTrig : Trig ℤ where
  cosDeg := fun a => if a = 0 then 1 else if a = 180 ∨ a = -180 then -1 else 0
  sinDeg := fun a => if a = 90 then 1 else if a = -90 then -1 else 0

/-- Number conversions on the few decimal strings used by the evaluations; the plan node
numbers its beams 1, 2, 3 and so on as they are added. -/
def sampleEnv : Env ℤ where
  trig := quarterTurnTrig
  ToDouble := fun str => if str = "1500" then 1500 else if str = "1000" then 1000 else 0
  ToInt := fun str => if str = "1" then 1 else if str = "2" then 2 else 0
  ReadPosition := fun str => if str = "-200 -200" then (-200, -200) else (0, 0)
  FormatDouble := fun x =>
    if x = 1500 then "1500" else if x = 1000 then "1000" else if x = 90 then "90"
    else if x = -200 then "-200" else "0"
  FormatInt := fun n => if n = 1 then "1" else if n = 2 then "2" else "0"
  DeserializeUIDList := fun str => if str = "" then [] else [str]
  AreEqualWithTolerance := fun x y => decide (x = y)
  DiffersBeyondEpsilon := fun x y => decide (x ≠ y)
  DefaultColorTablesAvailable := true
  DisplayPatientIDInItemName := false
  DisplayPatientBirthDateInItemName := false
  DisplayStudyIDInItemName := false
  DisplayStudyDateInItemName := false
  AddBeamNumber := fun n => n + 1

/-- A scene holding a plan (item 2, isocenter at the origin) with one beam (item 3: number 1,
SAD 1000, gantry 90, couch 0) and an RT image volume (item 4: identity matrix, SID 1500,
position (-200, -200), referencing the plan and beam 1). -/
def sampleScene : Scene ℤ where
  Items :=
    [ ⟨SceneItemID, "plan", fun _ => "",
        fun n => if n = .DICOMInstanceUIDName then "1.2.3" else "", some (.RTPlanNode (some (0, 0, 0)))⟩,
      ⟨2, "beam", fun _ => "", fun _ => "", some (.RTBeamNode ⟨"beam", 1, 0, 0, 0, 0, 90, 0, 0, 1000⟩)⟩,
      ⟨SceneItemID, "image",
        fun a =>
          if a = .DICOMRTIMPORT_RTIMAGE_IDENTIFIER then "1"
          else if a = .DICOMReferencedInstanceUIDs then "1.2.3"
          else if a = .DICOMRTIMPORT_BEAM_NUMBER then "1"
          else if a = .DICOMRTIMPORT_RTIMAGE_SID then "1500"
          else if a = .DICOMRTIMPORT_RTIMAGE_POSITION then "-200 -200"
          else "",
        fun _ => "", some (.ScalarVolumeNode ⟨1, [], none, false⟩)⟩ ]
  ModelNodes := 0
  BatchProcessDepth := 0
  Messages := []

/-! ## Specification-side matrices -/

section SpecMatrices

variable {R : Type} [CommRing R]

/-- Translation `T(x, y, z)`. -/
def T (x y z : R) : Matrix4x4 R :=
  !![1, 0, 0, x; 0, 1, 0, y; 0, 0, 1, z; 0, 0, 0, 1]

/-- Rotation `Rx(a)` about the X axis, angle in degrees. -/
def Rx (trig : Trig R) (a : R) : Matrix4x4 R :=
  !![1, 0, 0, 0; 0, trig.cosDeg a, -trig.sinDeg a, 0; 0, trig.sinDeg a, trig.cosDeg a, 0; 0, 0, 0, 1]

/-- Rotation `Ry(a)` about the Y axis, angle in degrees. -/
def Ry (trig : Trig R) (a : R) : Matrix4x4 R :=
  !![trig.cosDeg a, 0, trig.sinDeg a, 0; 0, 1, 0, 0; -trig.sinDeg a, 0, trig.cosDeg a, 0; 0, 0, 0, 1]

/-- Rotation `Rz(a)` about the Z axis, angle in degrees. -/
def Rz (trig : Trig R) (a : R) : Matrix4x4 R :=
  !![trig.cosDeg a, -trig.sinDeg a, 0, 0; trig.sinDeg a, trig.cosDeg a, 0, 0; 0, 0, 1, 0; 0, 0, 0, 1]

/-- The placement chain of the specification, steps 1 to 8. -/
def placementChain (trig : Trig R) (c : R × R × R) (a g SAD SID px py : R) (M : Matrix4x4 R) :
    Matrix4x4 R :=
  T c.1 c.2.1 c.2.2 * Ry trig (-a) * Rz trig g * T 0 SAD 0 * T 0 (-SID) 0 * T (-px) 0 py *
    Rx trig 90 * M

end SpecMatrices

/-! ## The generated DCMTK sequence pattern (`drtrbos1.cc`) -/

/-- Status codes returned by the DCMTK calls (`OFCondition`). -/
inductive OFCondition
  | EC_Normal
  | EC_IllegalCall
  | EC_IllegalParameter
  | EC_MemoryExhausted
  | EC_CorruptedData
  deriving DecidableEq, Repr

/-- Success test of a status code. -/
def OFCondition.good : OFCondition → Bool
  | .EC_Normal => true
  | _ => false

/-- What the sequence class needs from its item class: the item built with
`emptyDefaultItem = OFTrue` (the member `EmptyItem` of the sequence) and `Item::isValid`. -/
class DRTItem (α : Type) where
  EmptyItem : α
  isValid : α → Bool

/-- State of a generated sequence class: the flag `EmptyDefaultSequence`, the list
`SequenceOfItems` and the iterator `CurrentItem`, kept as a position in the list; the
position `SequenceOfItems.length` is `SequenceOfItems.end()`. -/
structure DRTSequence (α : Type) where
  EmptyDefaultSequence : Bool
  SequenceOfItems : List α
  CurrentItem : Nat

namespace DRTSequence

variable {α : Type}

/-- Function `gotoFirstItem` (lines 326-335 of `drtrbos1.cc`). -/
def gotoFirstItem (seq : DRTSequence α) : OFCondition × DRTSequence α :=
  if ¬ seq.SequenceOfItems.isEmpty then (.EC_Normal, { seq with CurrentItem := 0 })
  else (.EC_IllegalCall, seq)

/-- Function `gotoNextItem` (lines 338-347). -/
def gotoNextItem (seq : DRTSequence α) : OFCondition × DRTSequence α :=
  if seq.CurrentItem ≠ seq.SequenceOfItems.length then
    (.EC_Normal, { seq with CurrentItem := seq.CurrentItem + 1 })
  else (.EC_IllegalCall, seq)

/-- Function `getCurrentItem()` returning a reference (lines 408-414): the item under the
iterator, or the empty default item when the iterator is at the end. -/
def getCurrentItem [DRTItem α] (seq : DRTSequence α) : α :=
  if seq.CurrentItem ≠ seq.SequenceOfItems.length then
    (seq.SequenceOfItems[seq.CurrentItem]?).getD (DRTItem.EmptyItem)
  else DRTItem.EmptyItem

/-- The loop `do body while (seq.gotoNextItem().good())`, entered with the iterator on an
item.  The first argument bounds the number of rounds; `SequenceOfItems.length + 1` rounds
are never exceeded because every successful `gotoNextItem` advances the iterator. -/
def doWhileNext [DRTItem α] {σ : Type} (body : σ → α → σ) : Nat → DRTSequence α → σ → σ
  | 0, _, acc => acc
  | fuel + 1, seq, acc =>
    if (seq.gotoNextItem).1.good then
      doWhileNext body fuel (seq.gotoNextItem).2 (body acc seq.getCurrentItem)
    else body acc seq.getCurrentItem

/-- The idiom `if (seq.gotoFirstItem().good()) do body while (seq.gotoNextItem().good())`. -/
def forAllItems [DRTItem α] {σ : Type} (seq : DRTSequence α) (body : σ → α → σ) (acc : σ) : σ :=
  if (seq.gotoFirstItem).1.good then
    doWhileNext body (seq.SequenceOfItems.length + 1) (seq.gotoFirstItem).2 acc
  else acc

end DRTSequence

/-! ## Parsed datasets -/

/-- Item of `DRTContourImageSequence` (also of the referenced RT plan sequences): the flag
`EmptyDefaultItem` and the element Referenced SOP Instance UID; `none` when reading the
element value fails. -/
structure ReferencedInstanceItem where
  EmptyDefaultItem : Bool
  ReferencedSOPInstanceUID : Option String
  deriving DecidableEq, Repr

/-- Getter `getReferencedSOPInstanceUID` of the generated item classes: illegal call on the
empty default item, otherwise the element value. -/
def ReferencedInstanceItem.getReferencedSOPInstanceUID (item : ReferencedInstanceItem) :
    OFCondition × String :=
  if item.EmptyDefaultItem then (.EC_IllegalCall, "")
  else
    match item.ReferencedSOPInstanceUID with
    | some value => (.EC_Normal, value)
    | none => (.EC_IllegalParameter, "")

instance : DRTItem ReferencedInstanceItem where
  EmptyItem := ⟨true, none⟩
  isValid := fun item => !item.EmptyDefaultItem

/-- Item of `DRTContourSequence`. -/
structure ContourItem where
  EmptyDefaultItem : Bool
  ContourImageSequence : DRTSequence ReferencedInstanceItem

instance : DRTItem ContourItem where
  EmptyItem := ⟨true, ⟨true, [], 0⟩⟩
  isValid := fun item => !item.EmptyDefaultItem

/-- Item of `DRTROIContourSequence`. -/
structure ROIContourItem where
  EmptyDefaultItem : Bool
  ContourSequence : DRTSequence ContourItem

instance : DRTItem ROIContourItem where
  EmptyItem := ⟨true, ⟨true, [], 0⟩⟩
  isValid := fun item => !item.EmptyDefaultItem

/-- Item of `DRTRTReferencedSeriesSequence`. -/
structure RTReferencedSeriesItem where
  EmptyDefaultItem : Bool
  ContourImageSequence : DRTSequence ReferencedInstanceItem

instance : DRTItem RTReferencedSeriesItem where
  EmptyItem := ⟨true, ⟨true, [], 0⟩⟩
  isValid := fun item => !item.EmptyDefaultItem

/-- Item of `DRTRTReferencedStudySequence`. -/
structure RTReferencedStudyItem where
  EmptyDefaultItem : Bool
  RTReferencedSeriesSequence : DRTSequence RTReferencedSeriesItem

instance : DRTItem RTReferencedStudyItem where
  EmptyItem := ⟨true, ⟨true, [], 0⟩⟩
  isValid := fun item => !item.EmptyDefaultItem

/-- Item of `DRTReferencedFrameOfReferenceSequence`. -/
structure ReferencedFrameOfReferenceItem where
  EmptyDefaultItem : Bool
  RTReferencedStudySequence : DRTSequence RTReferencedStudyItem

instance : DRTItem ReferencedFrameOfReferenceItem where
  EmptyItem := ⟨true, ⟨true, [], 0⟩⟩
  isValid := fun item => !item.EmptyDefaultItem

/-- The part of `DRTDoseIOD` the examiner reads. -/
structure DRTDoseIOD where
  ReferencedRTPlanSequence : DRTSequence ReferencedInstanceItem

/-- The part of `DRTStructureSetIOD` the examiner reads. -/
structure DRTStructureSetIOD where
  ROIContourSequence : DRTSequence ROIContourItem
  ReferencedFrameOfReferenceSequence : DRTSequence ReferencedFrameOfReferenceItem

/-- The part of `DRTImageIOD` the examiner reads. -/
structure DRTImageIOD where
  ReferencedRTPlanSequence : DRTSequence ReferencedInstanceItem

/-- A parsed dataset (`DcmDataset`): the string elements read with `findAndGetOFString`
(empty when the element is absent) and the result of reading the dataset as each RT object
(`none` when `read` is not good). -/
structure DcmDataset where
  SOPClassUID : String
  SeriesNumber : String
  InstanceNumber : String
  SeriesDescription : String
  RTPlanLabel : String
  RTPlanName : String
  StructureSetLabel : String
  RTImageLabel : String
  rtDoseObject : Option DRTDoseIOD
  rtStructureSetObject : Option DRTStructureSetIOD
  rtImageObject : Option DRTImageIOD

/-- The indexed file registry (`ctkDICOMDatabase`): file of an instance UID (empty when the
instance is not indexed) and value of a tag of a file. -/
structure ctkDICOMDatabase where
  fileForInstance : String → String
  fileValue : String → String → String

/-! ## Dataset examiners -/

/-- Lines 207-224 of `ExamineRtDoseDataset`: the referenced plan of a dose.  Returns the
local variable `referencedSOPInstanceUID` and the extended list. -/
def doseReferencedPlan (dataset : DcmDataset) (referencedSOPInstanceUIDs : List String) :
    String × List String :=
  match dataset.rtDoseObject with
  | none => ("", referencedSOPInstanceUIDs)
  | some rtDoseObject =>
    if (rtDoseObject.ReferencedRTPlanSequence.gotoFirstItem).1.good then
      if DRTItem.isValid (rtDoseObject.ReferencedRTPlanSequence.gotoFirstItem).2.getCurrentItem then
        if ((rtDoseObject.ReferencedRTPlanSequence.gotoFirstItem).2.getCurrentItem
            ).getReferencedSOPInstanceUID.1.good then
          (((rtDoseObject.ReferencedRTPlanSequence.gotoFirstItem).2.getCurrentItem
              ).getReferencedSOPInstanceUID.2,
           referencedSOPInstanceUIDs ++
            [((rtDoseObject.ReferencedRTPlanSequence.gotoFirstItem).2.getCurrentItem
              ).getReferencedSOPInstanceUID.2])
        else
          (((rtDoseObject.ReferencedRTPlanSequence.gotoFirstItem).2.getCurrentItem
              ).getReferencedSOPInstanceUID.2, referencedSOPInstanceUIDs)
      else ("", referencedSOPInstanceUIDs)
    else ("", referencedSOPInstanceUIDs)

/-- The function `vtkInternal::ExamineRtDoseDataset`; `none` is the null dataset.  Returns
the name and the referenced UID list, both passed by reference in the source. -/
def ExamineRtDoseDataset (dicomDatabase : ctkDICOMDatabase) (dataset : Option DcmDataset)
    (name : String) (referencedSOPInstanceUIDs : List String) : String × List String :=
  match dataset with
  | none => (name, referencedSOPInstanceUIDs)
  | some dataset =>
    let name := name ++ "RTDOSE"
    let name :=
      if dataset.SeriesDescription ≠ "" then name ++ (": " ++ dataset.SeriesDescription) else name
    let name :=
      if dataset.InstanceNumber ≠ "" then name ++ (" [" ++ dataset.InstanceNumber ++ "]") else name
    let rtPlanFileName :=
      dicomDatabase.fileForInstance (doseReferencedPlan dataset referencedSOPInstanceUIDs).1
    let name :=
      if rtPlanFileName ≠ "" then
        name ++ (": " ++ dicomDatabase.fileValue rtPlanFileName "300a,0002")
      else name
    (name, (doseReferencedPlan dataset referencedSOPInstanceUIDs).2)

/-- The function `vtkInternal::ExamineRtPlanDataset`. -/
def ExamineRtPlanDataset (dataset : Option DcmDataset) (name : String)
    (referencedSOPInstanceUIDs : List String) : String × List String :=
  match dataset with
  | none => (name, referencedSOPInstanceUIDs)
  | some dataset =>
    let name := name ++ "RTPLAN"
    let planLabel := dataset.RTPlanLabel
    let planName := dataset.RTPlanName
    if planLabel ≠ "" ∧ planName ≠ "" then
      if planLabel ≠ planName then
        (name ++ (": " ++ planLabel ++ " (" ++ planName ++ ")"), referencedSOPInstanceUIDs)
      else (name ++ (": " ++ planLabel), referencedSOPInstanceUIDs)
    else if planLabel ≠ "" ∧ planName = "" then
      (name ++ (": " ++ planLabel), referencedSOPInstanceUIDs)
    else if planLabel = "" ∧ planName ≠ "" then
      (name ++ (": " ++ planName), referencedSOPInstanceUIDs)
    else (name, referencedSOPInstanceUIDs)

/-- Lines 319-335 of `ExamineRtStructureSetDataset`: the body of the loop over the contours
of one ROI. -/
def examineContour (referencedSOPInstanceUIDs : List String) (contourItem : ContourItem) :
    List String :=
  if ¬ (DRTItem.isValid contourItem = true) then
    if (contourItem.ContourImageSequence.gotoFirstItem).1.good then
      if DRTItem.isValid (contourItem.ContourImageSequence.gotoFirstItem).2.getCurrentItem then
        if ((contourItem.ContourImageSequence.gotoFirstItem).2.getCurrentItem
            ).getReferencedSOPInstanceUID.1.good then
          referencedSOPInstanceUIDs ++
            [((contourItem.ContourImageSequence.gotoFirstItem).2.getCurrentItem
              ).getReferencedSOPInstanceUID.2]
        else referencedSOPInstanceUIDs
      else referencedSOPInstanceUIDs
    else referencedSOPInstanceUIDs
  else referencedSOPInstanceUIDs

/-- Lines 311-339: the body of the loop over the ROIs. -/
def examineRoi (referencedSOPInstanceUIDs : List String) (currentRoiObject : ROIContourItem) :
    List String :=
  if DRTItem.isValid currentRoiObject then
    currentRoiObject.ContourSequence.forAllItems examineContour referencedSOPInstanceUIDs
  else referencedSOPInstanceUIDs

/-- Lines 372-380: the body of the loop over the image references of the fallback series. -/
def examineSeriesImage (referencedSOPInstanceUIDs : List String)
    (rtContourImageSequenceItem : ReferencedInstanceItem) : List String :=
  if DRTItem.isValid rtContourImageSequenceItem then
    if rtContourImageSequenceItem.getReferencedSOPInstanceUID.1.good then
      referencedSOPInstanceUIDs ++ [rtContourImageSequenceItem.getReferencedSOPInstanceUID.2]
    else referencedSOPInstanceUIDs
  else referencedSOPInstanceUIDs

/-- Lines 347-390: the structure-set-level chain referenced frame of reference, referenced
study, referenced series, image references; the first item of each of the three outer
sequences is followed. -/
def examineReferencedFrameOfReference (rtStructureSetObject : DRTStructureSetIOD)
    (referencedSOPInstanceUIDs : List String) : List String :=
  if (rtStructureSetObject.ReferencedFrameOfReferenceSequence.gotoFirstItem).1.good then
    let currentReferencedFrameOfReferenceSequenceItem :=
      (rtStructureSetObject.ReferencedFrameOfReferenceSequence.gotoFirstItem).2.getCurrentItem
    if DRTItem.isValid currentReferencedFrameOfReferenceSequenceItem then
      if (currentReferencedFrameOfReferenceSequenceItem.RTReferencedStudySequence.gotoFirstItem
          ).1.good then
        let rtReferencedStudySequenceItem :=
          (currentReferencedFrameOfReferenceSequenceItem.RTReferencedStudySequence.gotoFirstItem
            ).2.getCurrentItem
        if DRTItem.isValid rtReferencedStudySequenceItem then
          if (rtReferencedStudySequenceItem.RTReferencedSeriesSequence.gotoFirstItem).1.good then
            let rtReferencedSeriesSequenceObject :=
              (rtReferencedStudySequenceItem.RTReferencedSeriesSequence.gotoFirstItem).2
            if (rtReferencedSeriesSequenceObject.gotoFirstItem).1.good then
              let rtReferencedSeriesSequenceItem :=
                (rtReferencedSeriesSequenceObject.gotoFirstItem).2.getCurrentItem
              if DRTItem.isValid rtReferencedSeriesSequenceItem then
                rtReferencedSeriesSequenceItem.ContourImageSequence.forAllItems
                  examineSeriesImage referencedSOPInstanceUIDs
              else referencedSOPInstanceUIDs
            else referencedSOPInstanceUIDs
          else referencedSOPInstanceUIDs
        else referencedSOPInstanceUIDs
      else referencedSOPInstanceUIDs
    else referencedSOPInstanceUIDs
  else referencedSOPInstanceUIDs

/-- The function `vtkInternal::ExamineRtStructureSetDataset`. -/
def ExamineRtStructureSetDataset (dataset : Option DcmDataset) (name : String)
    (referencedSOPInstanceUIDs : List String) : String × List String :=
  match dataset with
  | none => (name, referencedSOPInstanceUIDs)
  | some dataset =>
    let name := name ++ "RTSTRUCT"
    let name :=
      if dataset.StructureSetLabel ≠ "" then name ++ (": " ++ dataset.StructureSetLabel) else name
    match dataset.rtStructureSetObject with
    | none => (name, referencedSOPInstanceUIDs)
    | some rtStructureSetObject =>
      let referencedSOPInstanceUIDs :=
        rtStructureSetObject.ROIContourSequence.forAllItems examineRoi referencedSOPInstanceUIDs
      if referencedSOPInstanceUIDs.isEmpty then
        (name, examineReferencedFrameOfReference rtStructureSetObject referencedSOPInstanceUIDs)
      else (name, referencedSOPInstanceUIDs)

/-- The function `vtkInternal::ExamineRtImageDataset`. -/
def ExamineRtImageDataset (dataset : Option DcmDataset) (name : String)
    (referencedSOPInstanceUIDs : List String) : String × List String :=
  match dataset with
  | none => (name, referencedSOPInstanceUIDs)
  | some dataset =>
    let name := name ++ "RTIMAGE"
    let name := if dataset.RTImageLabel ≠ "" then name ++ (": " ++ dataset.RTImageLabel) else name
    match dataset.rtImageObject with
    | none => (name, referencedSOPInstanceUIDs)
    | some rtImageObject =>
      if (rtImageObject.ReferencedRTPlanSequence.gotoFirstItem).1.good then
        if ((rtImageObject.ReferencedRTPlanSequence.gotoFirstItem).2.getCurrentItem
            ).getReferencedSOPInstanceUID.1.good then
          (name, referencedSOPInstanceUIDs ++
            [((rtImageObject.ReferencedRTPlanSequence.gotoFirstItem).2.getCurrentItem
              ).getReferencedSOPInstanceUID.2])
        else (name, referencedSOPInstanceUIDs)
      else (name, referencedSOPInstanceUIDs)

/-! ## Specification-side readings of a dataset -/

/-- The SOP Instance UID of the first item of the Referenced RT Plan sequence of a dose
dataset, when the dataset reads as an RT dose, the sequence has a first item and the UID of
that item can be read. -/
def firstReferencedRTPlanUID (dataset : DcmDataset) : Option String :=
  match dataset.rtDoseObject with
  | none => none
  | some rtDoseObject =>
    match rtDoseObject.ReferencedRTPlanSequence.SequenceOfItems with
    | [] => none
    | item :: _ => if item.EmptyDefaultItem then none else item.ReferencedSOPInstanceUID

/-- The SOP Instance UIDs of the readable image references of a contour image sequence, in
order. -/
def imageReferenceUIDs (seq : DRTSequence ReferencedInstanceItem) : List String :=
  seq.SequenceOfItems.filterMap
    (fun item => if item.EmptyDefaultItem then none else item.ReferencedSOPInstanceUID)

/-- The SOP Instance UIDs of the image references of the first referenced series of the first
referenced study of the first referenced frame of reference of a structure set. -/
def firstSeriesImageUIDs (rtStructureSetObject : DRTStructureSetIOD) : List String :=
  match rtStructureSetObject.ReferencedFrameOfReferenceSequence.SequenceOfItems with
  | [] => []
  | frame :: _ =>
    if frame.EmptyDefaultItem then []
    else
      match frame.RTReferencedStudySequence.SequenceOfItems with
      | [] => []
      | study :: _ =>
        if study.EmptyDefaultItem then []
        else
          match study.RTReferencedSeriesSequence.SequenceOfItems with
          | [] => []
          | series :: _ =>
            if series.EmptyDefaultItem then [] else imageReferenceUIDs series.ContourImageSequence

/-- A dataset with the given plan label and plan name and nothing else. -/
def planDataset (label name : String) : DcmDataset :=
  ⟨"1.2.840.10008.5.1.4.1.1.481.5", "", "", "", label, name, "", "", none, none, none⟩

/-- A dose dataset with series description `Dose`, instance number `7` and one referenced
plan `1.2.3`. -/
def doseDataset : DcmDataset :=
  ⟨"1.2.840.10008.5.1.4.1.1.481.2", "", "7", "Dose", "", "", "", "",
    some ⟨⟨false, [⟨false, some "1.2.3"⟩], 0⟩⟩, none, none⟩

/-- A registry that indexes no file. -/
def emptyDatabase : ctkDICOMDatabase := ⟨fun _ => "", fun _ _ => ""⟩

/-- A structure set with one ROI holding one valid contour whose image reference names the
instance `1.2.3`, and without referenced frame of reference. -/
def contourReferenceDataset : DcmDataset :=
  ⟨"1.2.840.10008.5.1.4.1.1.481.3", "", "", "", "", "", "", "", none,
    some ⟨⟨false, [⟨false, ⟨false, [⟨false, ⟨false, [⟨false, some "1.2.3"⟩], 0⟩⟩], 0⟩⟩], 0⟩,
          ⟨false, [], 0⟩⟩,
    none⟩

/-- A structure set without ROI contours whose first referenced series lists the same image
instance `1.2.3` twice. -/
def repeatedReferenceDataset : DcmDataset :=
  ⟨"1.2.840.10008.5.1.4.1.1.481.3", "", "", "", "", "", "", "", none,
    some ⟨⟨false, [], 0⟩,
          ⟨false,
            [⟨false, ⟨false,
              [⟨false, ⟨false,
                [⟨false, ⟨false, [⟨false, some "1.2.3"⟩, ⟨false, some "1.2.3"⟩], 0⟩⟩], 0⟩⟩], 0⟩⟩],
            0⟩⟩,
    none⟩

/-- A structure set without ROI contours whose first referenced series lists the image
instances `1.2.3` and `1.2.4`. -/
def distinctReferenceDataset : DcmDataset :=
  ⟨"1.2.840.10008.5.1.4.1.1.481.3", "", "", "", "", "", "", "", none,
    some ⟨⟨false, [], 0⟩,
          ⟨false,
            [⟨false, ⟨false,
              [⟨false, ⟨false,
                [⟨false, ⟨false, [⟨false, some "1.2.3"⟩, ⟨false, some "1.2.4"⟩], 0⟩⟩], 0⟩⟩], 0⟩⟩],
            0⟩⟩,
    none⟩

/-! ## The reader and the loadable -/

/-- What `vtkSlicerDicomRtReader` returns for one beam of a plan. -/
structure BeamData (R : Type) where
  BeamNumber : Int
  BeamName : String
  LeafJawPositions : (R × R) × (R × R)
  GantryAngle : R
  BeamLimitingDeviceAngle : R
  PatientSupportAngle : R
  SourceAxisDistance : R
  IsocenterPositionRas : R × R × R

/-- What `vtkSlicerDicomRtReader` returns for one ROI of a structure set; the poly data is
`none` for a null pointer, otherwise the list of its points. -/
structure RoiData (R : Type) where
  RoiName : String
  RoiDisplayColor : R × R × R
  RoiPolyData : Option (List (R × R × R))
  RoiReferencedSeriesUid : String

/-- The values the loaders read from `vtkSlicerDicomRtReader` after `Update()`. -/
structure vtkSlicerDicomRtReader (R : Type) where
  PatientName : String
  PatientId : String
  PatientSex : String
  PatientBirthDate : String
  PatientComments : String
  StudyInstanceUid : String
  StudyId : String
  StudyDescription : String
  StudyDate : String
  StudyTime : String
  SeriesInstanceUid : String
  SeriesModality : String
  SeriesNumber : String
  SOPInstanceUID : String
  DoseUnits : String
  DoseGridScaling : String
  RTDoseReferencedRTPlanSOPInstanceUID : String
  Beams : List (BeamData R)
  RTPlanReferencedStructureSetSOPInstanceUID : String
  RTPlanReferencedDoseSOPInstanceUIDs : String
  Rois : List (RoiData R)
  RTStructureSetReferencedSOPInstanceUIDs : String
  RTImageReferencedRTPlanSOPInstanceUID : String
  RadiationMachineSAD : R
  GantryAngle : R
  PatientSupportAngle : R
  BeamLimitingDeviceAngle : R
  ReferencedBeamNumber : Int
  RTImageSID : R
  RTImagePosition : R × R
  LoadRTStructureSetSuccessful : Bool
  LoadRTDoseSuccessful : Bool
  LoadRTPlanSuccessful : Bool
  LoadRTImageSuccessful : Bool

namespace vtkSlicerDicomRtReader

variable {R : Type}

/-- Getter `GetBeamNumberForIndex`; zero for an index without beam. -/
def GetBeamNumberForIndex (rtReader : vtkSlicerDicomRtReader R) (index : Nat) : Int :=
  match rtReader.Beams[index]? with
  | some beam => beam.BeamNumber
  | none => 0

/-- The entry the per-beam getters find for a beam number: the first beam with that number. -/
def FindBeamByNumber (rtReader : vtkSlicerDicomRtReader R) (beamNumber : Int) :
    Option (BeamData R) :=
  rtReader.Beams.find? (fun beam => beam.BeamNumber = beamNumber)

end vtkSlicerDicomRtReader

/-- A loadable (`vtkSlicerDICOMLoadable`): name, files, confidence, and the result of reading
its first file as a volume with `vtkMRMLVolumeArchetypeStorageNode::ReadData` (`none` when
reading fails): the `IJKToRAS` matrix and the voxel values. -/
structure vtkSlicerDICOMLoadable (R : Type) where
  Name : String
  Files : List String
  ConfidenceIsZero : Bool
  ReadData : Option (Matrix4x4 R × List R)

/-! ## Scene operations used by the loaders -/

namespace Scene

variable {R : Type}

/-- Call `scene->StartState(BatchProcessState)`. -/
def StartState (s : Scene R) : Scene R := { s with BatchProcessDepth := s.BatchProcessDepth + 1 }

/-- Call `scene->EndState(BatchProcessState)`. -/
def EndState (s : Scene R) : Scene R := { s with BatchProcessDepth := s.BatchProcessDepth - 1 }

/-- Call `scene->AddNode(node)` for a node shown in the subject hierarchy: the node gets its
item, under the scene item; returns the scene and the id of the item. -/
def AddNode (s : Scene R) (name : String) (node : vtkMRMLNode R) : Scene R × vtkIdType :=
  s.CreateItem SceneItemID name (some node)

/-- Call `shNode->CreateItem(parent, node)` for a node that is in the scene: its item is
placed under `parent`; returns the scene and the id of the item. -/
def CreateItemForNode (s : Scene R) (parent nodeItemID : vtkIdType) : Scene R × vtkIdType :=
  (s.SetItemParent nodeItemID parent, nodeItemID)

/-- Modelled from the spec: `vtkMRMLRTPlanNode::SetIsocenterPosition` is repository code that
is not part of the sources.  Stores the isocenter in the plan node of the item; fails when
the item holds no plan node. -/
def SetIsocenterPosition (s : Scene R) (planShItemID : vtkIdType) (isocenter : R × R × R) :
    Scene R × Bool :=
  match s.GetItemDataNode planShItemID with
  | some (.RTPlanNode _) => (s.SetItemDataNode planShItemID (.RTPlanNode (some isocenter)), true)
  | _ => (s, false)

/-- Items of the beams of a plan, in order (`planNode->GetBeams`). -/
def GetBeams (s : Scene R) (planShItemID : vtkIdType) : List vtkIdType :=
  s.GetItemChildren.filter (fun i => s.IsBeam i ∧ s.GetItemParent i = planShItemID)

/-- Modelled from the spec: `vtkMRMLRTPlanNode::AddBeam` is repository code that is not part
of the sources.  The plan node gives the beam node its beam number (`LoadRtPlan` sets none),
the number `env.AddBeamNumber` for the count of the beams the plan has, and the item of the
beam node becomes a child of the plan item. -/
def AddBeam (env : Env R) (s : Scene R) (planShItemID beamShItemID : vtkIdType) : Scene R :=
  match s.GetItemDataNode beamShItemID with
  | some (.RTBeamNode beamNode) =>
    (s.SetItemDataNode beamShItemID
        (.RTBeamNode
          { beamNode with
            BeamNumber := env.AddBeamNumber (s.GetBeams planShItemID).length })).SetItemParent
      beamShItemID planShItemID
  | _ => s.SetItemParent beamShItemID planShItemID

/-- Call `segmentationNode->GetSegmentation()->AddSegment(segment)` on the segmentation node
of an item. -/
def AddSegment (s : Scene R) (segmentationShItemID : vtkIdType) (segment : vtkSegment R) :
    Scene R :=
  match s.GetItemDataNode segmentationShItemID with
  | some (.SegmentationNode segments closedSurface) =>
    s.SetItemDataNode segmentationShItemID (.SegmentationNode (segments ++ [segment]) closedSurface)
  | _ => s

/-- Select the closed surface representation for the display of a segmentation node. -/
def SetClosedSurfaceDisplay (s : Scene R) (segmentationShItemID : vtkIdType) : Scene R :=
  match s.GetItemDataNode segmentationShItemID with
  | some (.SegmentationNode segments _) =>
    s.SetItemDataNode segmentationShItemID (.SegmentationNode segments true)
  | _ => s

/-- Create an item without data node that carries a DICOM UID (`CreateSubjectItem`,
`CreateStudyItem` followed by `SetItemUID`). -/
def CreateItemWithUID (s : Scene R) (parent : vtkIdType) (name uid : String) : Scene R :=
  (s.CreateItem parent name none).1.SetItemUID (s.CreateItem parent name none).2 .DICOMUIDName uid

/-- The patient item is created under the scene item when no item carries the patient id. -/
def ensurePatientItem (s : Scene R) (patientId : String) : Scene R :=
  if s.GetItemByUID .DICOMUIDName patientId = INVALID_ITEM_ID then
    s.CreateItemWithUID SceneItemID "" patientId
  else s

/-- The study item is created under the patient item when no item carries the study UID. -/
def ensureStudyItem (s : Scene R) (patientId studyInstanceUID : String) : Scene R :=
  if s.GetItemByUID .DICOMUIDName studyInstanceUID = INVALID_ITEM_ID then
    s.CreateItemWithUID (s.GetItemByUID .DICOMUIDName patientId) "" studyInstanceUID
  else s

/-- Modelled from the spec: `vtkSlicerSubjectHierarchyModuleLogic::InsertDicomSeriesInHierarchy`
is application code that is not part of the sources ("creates or returns existing
HierarchyItems for series, study, patient, in that dependency order").  Fails on a missing
UID and when no item carries the series UID; creates the patient and the study item when
absent, the study under the patient; puts the series item under the study. -/
def InsertDicomSeriesInHierarchy (s : Scene R) (patientId studyInstanceUID seriesInstanceUID : String) :
    Scene R × vtkIdType :=
  if patientId = "" ∨ studyInstanceUID = "" ∨ seriesInstanceUID = "" then
    (s.log .Error "InsertDicomSeriesInHierarchy: Invalid input arguments", INVALID_ITEM_ID)
  else if s.GetItemByUID .DICOMUIDName seriesInstanceUID = INVALID_ITEM_ID then
    (s.log .Error "InsertDicomSeriesInHierarchy: Subject hierarchy item with the series UID cannot be found",
      INVALID_ITEM_ID)
  else
    (((s.ensurePatientItem patientId).ensureStudyItem patientId studyInstanceUID).SetItemParent
        (s.GetItemByUID .DICOMUIDName seriesInstanceUID)
        (((s.ensurePatientItem patientId).ensureStudyItem patientId studyInstanceUID).GetItemByUID
          .DICOMUIDName studyInstanceUID),
      s.GetItemByUID .DICOMUIDName seriesInstanceUID)

end Scene

/-! ## Loaders -/

section Loaders

variable {R : Type} [CommRing R]

/-- Name constant `SlicerRtCommon::DICOMRTIMPORT_NO_NAME`. -/
def DICOMRTIMPORT_NO_NAME : String := "No name"

/-- Name constant `SlicerRtCommon::DICOMRTIMPORT_NO_STUDY_DESCRIPTION`. -/
def DICOMRTIMPORT_NO_STUDY_DESCRIPTION : String := "No study description"

/-- Lines 1127-1165 of `InsertSeriesInSubjectHierarchy`: attributes and name of a patient item
that has just been created. -/
def fillPatientItem (env : Env R) (s : Scene R) (rtReader : vtkSlicerDicomRtReader R) : Scene R :=
  let patientItemID := s.GetItemByUID .DICOMUIDName rtReader.PatientId
  if patientItemID ≠ INVALID_ITEM_ID then
    let s := s.SetItemAttribute patientItemID .DICOMPatientName rtReader.PatientName
    let s := s.SetItemAttribute patientItemID .DICOMPatientID rtReader.PatientId
    let s := s.SetItemAttribute patientItemID .DICOMPatientSex rtReader.PatientSex
    let s := s.SetItemAttribute patientItemID .DICOMPatientBirthDate rtReader.PatientBirthDate
    let s := s.SetItemAttribute patientItemID .DICOMPatientComments rtReader.PatientComments
    let patientItemName :=
      if rtReader.PatientName ≠ "" then rtReader.PatientName else DICOMRTIMPORT_NO_NAME
    let patientItemName :=
      if env.DisplayPatientIDInItemName = true ∧ rtReader.PatientId ≠ "" then
        patientItemName ++ (" (" ++ rtReader.PatientId ++ ")")
      else patientItemName
    let patientItemName :=
      if env.DisplayPatientBirthDateInItemName = true ∧ rtReader.PatientBirthDate ≠ "" then
        patientItemName ++ (" (" ++ rtReader.PatientBirthDate ++ ")")
      else patientItemName
    s.SetItemName patientItemID patientItemName
  else
    s.log .Error "InsertSeriesInSubjectHierarchy: Patient item has not been created for series"

/-- Lines 1167-1206 of `InsertSeriesInSubjectHierarchy`: attributes and name of a study item
that has just been created. -/
def fillStudyItem (env : Env R) (s : Scene R) (rtReader : vtkSlicerDicomRtReader R) : Scene R :=
  let studyItemID := s.GetItemByUID .DICOMUIDName rtReader.StudyInstanceUid
  if studyItemID ≠ INVALID_ITEM_ID then
    let s := s.SetItemAttribute studyItemID .DICOMStudyInstanceUID rtReader.StudyInstanceUid
    let s := s.SetItemAttribute studyItemID .DICOMStudyID rtReader.StudyId
    let s := s.SetItemAttribute studyItemID .DICOMStudyDescription rtReader.StudyDescription
    let s := s.SetItemAttribute studyItemID .DICOMStudyDate rtReader.StudyDate
    let s := s.SetItemAttribute studyItemID .DICOMStudyTime rtReader.StudyTime
    let studyItemName :=
      if rtReader.StudyDescription ≠ "" then rtReader.StudyDescription
      else DICOMRTIMPORT_NO_STUDY_DESCRIPTION
    let studyItemName :=
      if env.DisplayStudyIDInItemName = true ∧ rtReader.StudyId ≠ "" then
        studyItemName ++ (" (" ++ rtReader.StudyId ++ ")")
      else studyItemName
    let studyItemName :=
      if env.DisplayStudyDateInItemName = true ∧ rtReader.StudyDate ≠ "" then
        studyItemName ++ (" (" ++ rtReader.StudyDate ++ ")")
      else studyItemName
    s.SetItemName studyItemID studyItemName
  else
    s.log .Error "InsertSeriesInSubjectHierarchy: Study item has not been created for series"

/-- The function `vtkInternal::InsertSeriesInSubjectHierarchy`. -/
def InsertSeriesInSubjectHierarchy (env : Env R) (s : Scene R)
    (rtReader : vtkSlicerDicomRtReader R) : Scene R :=
  let patientItemID := s.GetItemByUID .DICOMUIDName rtReader.PatientId
  let studyItemID := s.GetItemByUID .DICOMUIDName rtReader.StudyInstanceUid
  let inserted := s.InsertDicomSeriesInHierarchy rtReader.PatientId rtReader.StudyInstanceUid
    rtReader.SeriesInstanceUid
  let seriesItemID := inserted.2
  let s1 := if patientItemID = INVALID_ITEM_ID then fillPatientItem env inserted.1 rtReader
    else inserted.1
  let s2 := if studyItemID = INVALID_ITEM_ID then fillStudyItem env s1 rtReader else s1
  if seriesItemID ≠ INVALID_ITEM_ID then
    let s3 := s2.SetItemAttribute seriesItemID .DICOMSeriesModality rtReader.SeriesModality
    let s4 := s3.SetItemAttribute seriesItemID .DICOMSeriesNumber rtReader.SeriesNumber
    s4.SetItemUID seriesItemID .DICOMInstanceUIDName rtReader.SOPInstanceUID
  else
    s2.log .Error "InsertSeriesInSubjectHierarchy: Failed to insert series"

/-- Lines 482-489 of `LoadRtDose`: the loop
`for (long i=0; i<N; ++i) { value = (*floatPtr) * doseGridScaling; (*floatPtr) = value; ++floatPtr; }`.
The first argument is the number of rounds left, the second the offset of `floatPtr` from
the scalar pointer. -/
def applyDoseGridScaling (doseGridScaling : R) : Nat → Nat → List R → List R
  | 0, _, floatVolumeData => floatVolumeData
  | rounds + 1, floatPtr, floatVolumeData =>
    applyDoseGridScaling doseGridScaling rounds (floatPtr + 1)
      (floatVolumeData.modify (fun value => value * doseGridScaling) floatPtr)

/-- Lines 551-592 of `LoadRtDose`: dose unit name and value attributes of the study item. -/
def setDoseUnitAttributes (env : Env R) (s : Scene R) (rtReader : vtkSlicerDicomRtReader R)
    (studyItemID : vtkIdType) : Scene R :=
  if studyItemID ≠ INVALID_ITEM_ID then
    let existingDoseUnitName := s.GetItemAttribute studyItemID .DICOMRTIMPORT_DOSE_UNIT_NAME
    let s1 :=
      if rtReader.DoseUnits = "" then
        s.log .Error "LoadRtDose: Empty dose unit name found for dose volume"
      else if existingDoseUnitName ≠ "" ∧ existingDoseUnitName ≠ rtReader.DoseUnits then
        s.log .Error "LoadRtDose: Dose unit name already exists for study and differs from current one"
      else s.SetItemAttribute studyItemID .DICOMRTIMPORT_DOSE_UNIT_NAME rtReader.DoseUnits
    let existingDoseUnitValueStr := s1.GetItemAttribute studyItemID .DICOMRTIMPORT_DOSE_UNIT_VALUE
    if rtReader.DoseGridScaling = "" then
      s1.log .Error "LoadRtDose: Empty dose unit value found for dose volume"
    else if existingDoseUnitValueStr ≠ "" then
      if env.DiffersBeyondEpsilon (env.ToDouble existingDoseUnitValueStr)
          (env.ToDouble rtReader.DoseGridScaling) = true then
        s1.log .Error "LoadRtDose: Dose unit value already exists for study and differs from current one"
      else s1
    else s1.SetItemAttribute studyItemID .DICOMRTIMPORT_DOSE_UNIT_VALUE rtReader.DoseGridScaling
  else
    s.log .Error "LoadRtDose: Unable to get parent study hierarchy node for dose volume"

/-- The function `vtkInternal::LoadRtDose`.  The scene passed in is valid and has its subject
hierarchy node; spacing, color tables, window/level and threshold of the display node and
the selection of the active volume are not represented. -/
def LoadRtDose (env : Env R) (s : Scene R) (rtReader : vtkSlicerDicomRtReader R)
    (loadable : vtkSlicerDICOMLoadable R) : Scene R × Bool :=
  match loadable.ReadData with
  | none => (s.log .Error "LoadRtDose: Failed to load dose volume file", false)
  | some (ijkToRas, imageData) =>
    -- the volume node is added to the scene with the marker attribute
    let added := s.AddNode loadable.Name (.ScalarVolumeNode ⟨ijkToRas, imageData, none, true⟩)
    let volumeItemID := added.2
    let s1 :=
      if rtReader.DoseGridScaling = "" then
        added.1.log .Error "LoadRtDose: Empty dose unit value found for dose volume"
      else added.1
    let doseGridScaling := env.ToDouble rtReader.DoseGridScaling
    -- cast to float and scale
    let floatVolumeData := applyDoseGridScaling doseGridScaling imageData.length 0 imageData
    let s2 := s1.SetItemDataNode volumeItemID
      (.ScalarVolumeNode ⟨ijkToRas, floatVolumeData, none, true⟩)
    if env.DefaultColorTablesAvailable = false then
      (s2.log .Error "LoadRtDose: Failed to get default color tables", false)
    else
      let created := s2.CreateItemForNode SceneItemID volumeItemID
      let seriesItemID := created.2
      let s3 :=
        if rtReader.SeriesInstanceUid ≠ "" then
          created.1.SetItemUID seriesItemID .DICOMUIDName rtReader.SeriesInstanceUid
        else created.1.log .Error "LoadRtDose: series instance UID not found for dose volume"
      let s4 :=
        if rtReader.RTDoseReferencedRTPlanSOPInstanceUID ≠ "" then
          s3.SetItemAttribute seriesItemID .DICOMReferencedInstanceUIDs
            rtReader.RTDoseReferencedRTPlanSOPInstanceUID
        else s3.log .Error "LoadRtDose: RTDoseReferencedRTPlanSOPInstanceUID not found for dose volume"
      let s5 := InsertSeriesInSubjectHierarchy env s4 rtReader
      (setDoseUnitAttributes env s5 rtReader (s5.GetItemParent seriesItemID), true)

/-- Lines 667-683 of `LoadRtPlan`: the beam node with the parameters of the reader.  The
code sets no beam number: the field holds 0 until `AddBeam` gives the node its number. -/
def beamNodeOf (beam : BeamData R) : vtkMRMLRTBeamNode R :=
  { Name := beam.BeamName
    BeamNumber := 0
    X1Jaw := beam.LeafJawPositions.1.1
    X2Jaw := beam.LeafJawPositions.1.2
    Y1Jaw := beam.LeafJawPositions.2.1
    Y2Jaw := beam.LeafJawPositions.2.2
    GantryAngle := beam.GantryAngle
    CollimatorAngle := beam.BeamLimitingDeviceAngle
    CouchAngle := beam.PatientSupportAngle
    SAD := beam.SourceAxisDistance }

/-- Lines 713-718 of `LoadRtPlan`: the beam node is added to the scene and to the plan. -/
def addBeamNode (env : Env R) (s : Scene R) (planShItemID : vtkIdType)
    (beamNode : vtkMRMLRTBeamNode R) : Scene R :=
  (s.AddNode beamNode.Name (.RTBeamNode beamNode)).1.AddBeam env planShItemID
    (s.AddNode beamNode.Name (.RTBeamNode beamNode)).2

/-- Lines 704-710 of `LoadRtPlan`: the diagnostic for a beam whose isocenter differs from the
plan isocenter.  The plan name and the coordinates that the code appends to the text are left
out. -/
def warnDifferentIsocenter (env : Env R) (s : Scene R) (planIsocenter isocenter : R × R × R) :
    Scene R :=
  if env.AreEqualWithTolerance planIsocenter.1 isocenter.1 = false
      ∨ env.AreEqualWithTolerance planIsocenter.2.1 isocenter.2.1 = false
      ∨ env.AreEqualWithTolerance planIsocenter.2.2 isocenter.2.2 = false then
    s.log .Error
      "LoadRtPlan: Different isocenters for each beam are not yet supported! The first isocenter will be used for the whole plan"
  else s

/-- Lines 664-718 of `LoadRtPlan`: one round of the loop over the beams.  The flag is false
when the function returns false from inside the loop. -/
def loadBeam (env : Env R) (rtReader : vtkSlicerDicomRtReader R) (planShItemID : vtkIdType)
    (s : Scene R) (beamIndex : Nat) : Scene R × Bool :=
  match rtReader.FindBeamByNumber (rtReader.GetBeamNumberForIndex beamIndex) with
  | none => (s, true)
  | some beam =>
    if beamIndex = 0 then
      if (s.SetIsocenterPosition planShItemID beam.IsocenterPositionRas).2 = false then
        ((s.SetIsocenterPosition planShItemID beam.IsocenterPositionRas).1.log .Error
          "LoadRtPlan: Failed to set isocenter position", false)
      else
        (addBeamNode env (s.SetIsocenterPosition planShItemID beam.IsocenterPositionRas).1
          planShItemID (beamNodeOf beam), true)
    else
      match s.GetIsocenterPosition planShItemID with
      | none => (s.log .Error "LoadRtPlan: Failed to get plan isocenter position", false)
      | some planIsocenter =>
        (addBeamNode env (warnDifferentIsocenter env s planIsocenter beam.IsocenterPositionRas)
          planShItemID (beamNodeOf beam), true)

/-- Lines 662-756 of `LoadRtPlan`: the loop `for (beamIndex = 0; beamIndex < numberOfBeams;
beamIndex++)`; the first argument is the number of rounds left. -/
def loadBeams (env : Env R) (rtReader : vtkSlicerDicomRtReader R) (planShItemID : vtkIdType) :
    Nat → Nat → Scene R → Scene R × Bool
  | 0, _, s => (s, true)
  | rounds + 1, beamIndex, s =>
    if (loadBeam env rtReader planShItemID s beamIndex).2 = false then
      ((loadBeam env rtReader planShItemID s beamIndex).1, false)
    else
      loadBeams env rtReader planShItemID rounds (beamIndex + 1)
        (loadBeam env rtReader planShItemID s beamIndex).1

/-- Lines 786-790 of `LoadRtPlan`: `SetupRtImageGeometry` for every beam of the plan. -/
def setupGeometryOfBeams (env : Env R) : List vtkIdType → Scene R → Scene R
  | [], s => s
  | beamShItemID :: rest, s => setupGeometryOfBeams env rest (SetupRtImageGeometry env s beamShItemID)

/-- Lines 628-658 of `LoadRtPlan`: the plan node, added to the scene, and the UID, name and
referenced instance UIDs of its item. -/
def createPlanItem (s : Scene R) (rtReader : vtkSlicerDicomRtReader R)
    (loadable : vtkSlicerDICOMLoadable R) : Scene R :=
  (((s.AddNode loadable.Name (.RTPlanNode none)).1.SetItemUID
        (s.AddNode loadable.Name (.RTPlanNode none)).2 .DICOMUIDName
        rtReader.SeriesInstanceUid).SetItemName
      (s.AddNode loadable.Name (.RTPlanNode none)).2 loadable.Name).SetItemAttribute
    (s.AddNode loadable.Name (.RTPlanNode none)).2 .DICOMReferencedInstanceUIDs
    (rtReader.RTPlanReferencedStructureSetSOPInstanceUID ++
      (if rtReader.RTPlanReferencedDoseSOPInstanceUIDs ≠ "" then
        (if rtReader.RTPlanReferencedStructureSetSOPInstanceUID ≠ "" then " " else "") ++
          rtReader.RTPlanReferencedDoseSOPInstanceUIDs
       else ""))

/-- Lines 761-795 of `LoadRtPlan`: the plan item is put under its study and the geometry of
the RT images that reference the beams is set up. -/
def placePlanUnderStudy (env : Env R) (s : Scene R) (rtReader : vtkSlicerDicomRtReader R)
    (planShItemID : vtkIdType) : Scene R × Bool :=
  if s.GetItemByUID .DICOMUIDName rtReader.StudyInstanceUid = INVALID_ITEM_ID then
    (s.log .Error "LoadRtPlan: Failed to find study subject hierarchy item", false)
  else
    ((setupGeometryOfBeams env
        ((s.SetItemParent planShItemID
          (s.GetItemByUID .DICOMUIDName rtReader.StudyInstanceUid)).GetBeams planShItemID)
        (s.SetItemParent planShItemID
          (s.GetItemByUID .DICOMUIDName rtReader.StudyInstanceUid))).EndState,
      true)

/-- The function `vtkInternal::LoadRtPlan`.  The scene passed in is valid and has its subject
hierarchy node; the beam model hierarchy nodes, their display nodes and the markups node of
the plan are not represented. -/
def LoadRtPlan (env : Env R) (s : Scene R) (rtReader : vtkSlicerDicomRtReader R)
    (loadable : vtkSlicerDICOMLoadable R) : Scene R × Bool :=
  if (s.StartState.AddNode loadable.Name (.RTPlanNode none)).2 = INVALID_ITEM_ID then
    ((s.StartState.AddNode loadable.Name (.RTPlanNode none)).1.log .Error
        "LoadRtPlan: Created RT plan node, but it doesn't have a subject hierarchy item",
      false)
  else if (loadBeams env rtReader (s.StartState.AddNode loadable.Name (.RTPlanNode none)).2
      rtReader.Beams.length 0 (createPlanItem s.StartState rtReader loadable)).2 = false then
    ((loadBeams env rtReader (s.StartState.AddNode loadable.Name (.RTPlanNode none)).2
      rtReader.Beams.length 0 (createPlanItem s.StartState rtReader loadable)).1, false)
  else
    placePlanUnderStudy env
      (InsertSeriesInSubjectHierarchy env
        (loadBeams env rtReader (s.StartState.AddNode loadable.Name (.RTPlanNode none)).2
          rtReader.Beams.length 0 (createPlanItem s.StartState rtReader loadable)).1 rtReader)
      rtReader (s.StartState.AddNode loadable.Name (.RTPlanNode none)).2

/-- State of the loop over the ROIs of `LoadRtStructureSet`. -/
structure RoiLoopState (R : Type) where
  scene : Scene R
  fiducialSeriesShItemID : vtkIdType
  segmentationShItemID : vtkIdType
  structureSetReferencedSeriesUid : String
  maximumNumberOfPoints : Int
  totalNumberOfPoints : Int

/-- Lines 861-870 of `LoadRtStructureSet`: the warning for an ROI whose referenced series
differs (ignoring case) from the one of the structure set. -/
def warnDifferentReferencedSeries (st : RoiLoopState R) (roi : RoiData R) : Scene R :=
  if st.structureSetReferencedSeriesUid ≠ "" ∧ roi.RoiReferencedSeriesUid ≠ ""
      ∧ st.structureSetReferencedSeriesUid.toLower ≠ roi.RoiReferencedSeriesUid.toLower then
    st.scene.log .Warning
      "LoadRtStructureSet: ROIs in structure set have different referenced series UIDs"
  else st.scene

/-- Lines 877-887: the folder item of the fiducials of the series, created for the first
point ROI; it carries the series instance UID. -/
def fiducialSeriesItem (rtReader : vtkSlicerDicomRtReader R) (loadable : vtkSlicerDICOMLoadable R)
    (s : Scene R) (fiducialSeriesShItemID : vtkIdType) : Scene R × vtkIdType :=
  if fiducialSeriesShItemID = INVALID_ITEM_ID then
    ((s.CreateItem SceneItemID loadable.Name none).1.SetItemUID
        (s.CreateItem SceneItemID loadable.Name none).2 .DICOMUIDName rtReader.SeriesInstanceUid,
      (s.CreateItem SceneItemID loadable.Name none).2)
  else (s, fiducialSeriesShItemID)

/-- Lines 889-894 and `AddRoiPoint`: the markups fiducial node of a point ROI, its item under
the folder of the series and the referenced series attribute. -/
def addRoiPointItem (s : Scene R) (fiducialSeriesShItemID : vtkIdType) (roi : RoiData R)
    (roiPosition : R × R × R) : Scene R :=
  ((s.AddNode roi.RoiName
        (.MarkupsFiducialNode roi.RoiName roiPosition roi.RoiDisplayColor)).1.SetItemParent
      (s.AddNode roi.RoiName (.MarkupsFiducialNode roi.RoiName roiPosition roi.RoiDisplayColor)).2
      fiducialSeriesShItemID).SetItemAttribute
    (s.AddNode roi.RoiName (.MarkupsFiducialNode roi.RoiName roiPosition roi.RoiDisplayColor)).2
    .DICOMRTIMPORT_ROI_REFERENCED_SERIES_UID roi.RoiReferencedSeriesUid

/-- Lines 912-928: the check of the item that carries the referenced series UID. -/
def checkReferencedVolume (s : Scene R) (roiReferencedSeriesUid : String) : Scene R :=
  if s.GetItemByUID .DICOMUIDName roiReferencedSeriesUid ≠ INVALID_ITEM_ID
      ∧ s.IsScalarVolume (s.GetItemByUID .DICOMUIDName roiReferencedSeriesUid) = false then
    s.log .Error "LoadRtStructureSet: Referenced volume series item does not contain a volume"
  else s

/-- Lines 904-941: the segmentation node of the structure set and its item, which carries
the series instance UID. -/
def createSegmentationItem (rtReader : vtkSlicerDicomRtReader R)
    (loadable : vtkSlicerDICOMLoadable R) (s : Scene R) (roi : RoiData R)
    (structureSetReferencedSeriesUid : String) : Scene R × vtkIdType :=
  (((((checkReferencedVolume (s.AddNode loadable.Name (.SegmentationNode [] false)).1
            roi.RoiReferencedSeriesUid).SetItemParent
          (s.AddNode loadable.Name (.SegmentationNode [] false)).2 SceneItemID).SetItemUID
        (s.AddNode loadable.Name (.SegmentationNode [] false)).2 .DICOMUIDName
        rtReader.SeriesInstanceUid).SetItemAttribute
      (s.AddNode loadable.Name (.SegmentationNode [] false)).2
      .DICOMRTIMPORT_ROI_REFERENCED_SERIES_UID structureSetReferencedSeriesUid).SetItemAttribute
    (s.AddNode loadable.Name (.SegmentationNode [] false)).2 .DICOMReferencedInstanceUIDs
    rtReader.RTStructureSetReferencedSOPInstanceUIDs,
   (s.AddNode loadable.Name (.SegmentationNode [] false)).2)

/-- Lines 901-942: the segmentation item of the structure set, created for the first contour
ROI. -/
def segmentationItem (rtReader : vtkSlicerDicomRtReader R) (loadable : vtkSlicerDICOMLoadable R)
    (s : Scene R) (segmentationShItemID : vtkIdType) (roi : RoiData R)
    (structureSetReferencedSeriesUid : String) : Scene R × vtkIdType :=
  if segmentationShItemID = INVALID_ITEM_ID then
    createSegmentationItem rtReader loadable s roi structureSetReferencedSeriesUid
  else (s, segmentationShItemID)

/-- Lines 835-950 of `LoadRtStructureSet`: one round of the loop over the ROIs. -/
def loadRoi (rtReader : vtkSlicerDicomRtReader R) (loadable : vtkSlicerDICOMLoadable R)
    (st : RoiLoopState R) (roi : RoiData R) : RoiLoopState R :=
  match roi.RoiPolyData with
  | none =>
    { st with scene := st.scene.log .Warning "LoadRtStructureSet: Invalid structure ROI data" }
  | some roiPolyData =>
    if roiPolyData.length = 0 then
      { st with
        scene :=
          st.scene.log .Warning "LoadRtStructureSet: Structure ROI data does not contain any points" }
    else
      let maximumNumberOfPoints :=
        if st.maximumNumberOfPoints < roiPolyData.length then (roiPolyData.length : Int)
        else st.maximumNumberOfPoints
      let totalNumberOfPoints := st.totalNumberOfPoints + roiPolyData.length
      let structureSetReferencedSeriesUid :=
        if st.structureSetReferencedSeriesUid = "" then roi.RoiReferencedSeriesUid
        else st.structureSetReferencedSeriesUid
      if roiPolyData.length = 1 then
        -- point ROI (fiducial)
        { scene :=
            addRoiPointItem
              (fiducialSeriesItem rtReader loadable (warnDifferentReferencedSeries st roi)
                st.fiducialSeriesShItemID).1
              (fiducialSeriesItem rtReader loadable (warnDifferentReferencedSeries st roi)
                st.fiducialSeriesShItemID).2
              roi (roiPolyData.headD (0, 0, 0))
          fiducialSeriesShItemID :=
            (fiducialSeriesItem rtReader loadable (warnDifferentReferencedSeries st roi)
              st.fiducialSeriesShItemID).2
          segmentationShItemID := st.segmentationShItemID
          structureSetReferencedSeriesUid := structureSetReferencedSeriesUid
          maximumNumberOfPoints := maximumNumberOfPoints
          totalNumberOfPoints := totalNumberOfPoints }
      else
        -- contour ROI (segmentation)
        { scene :=
            (segmentationItem rtReader loadable (warnDifferentReferencedSeries st roi)
                st.segmentationShItemID roi structureSetReferencedSeriesUid).1.AddSegment
              (segmentationItem rtReader loadable (warnDifferentReferencedSeries st roi)
                st.segmentationShItemID roi structureSetReferencedSeriesUid).2
              ⟨roi.RoiName, roi.RoiDisplayColor, roiPolyData⟩
          fiducialSeriesShItemID := st.fiducialSeriesShItemID
          segmentationShItemID :=
            (segmentationItem rtReader loadable (warnDifferentReferencedSeries st roi)
              st.segmentationShItemID roi structureSetReferencedSeriesUid).2
          structureSetReferencedSeriesUid := structureSetReferencedSeriesUid
          maximumNumberOfPoints := maximumNumberOfPoints
          totalNumberOfPoints := totalNumberOfPoints }

/-- The function `vtkInternal::LoadRtStructureSet`.  The scene passed in is valid and has its
subject hierarchy node; the display nodes and the reference image geometry of the
segmentation are not represented. -/
def LoadRtStructureSet (env : Env R) (s : Scene R) (rtReader : vtkSlicerDicomRtReader R)
    (loadable : vtkSlicerDICOMLoadable R) : Scene R × Bool :=
  let st := rtReader.Rois.foldl (loadRoi rtReader loadable)
    ⟨s.StartState, INVALID_ITEM_ID, INVALID_ITEM_ID, "", -1, 0⟩
  let s1 :=
    if st.segmentationShItemID ≠ INVALID_ITEM_ID then
      if st.maximumNumberOfPoints < 800000 ∧ st.totalNumberOfPoints < 3000000 then
        st.scene.SetClosedSurfaceDisplay st.segmentationShItemID
      else
        st.scene.log .Warning
          "LoadRtStructureSet: Structure set contains extremely large contours that will most likely take an unreasonably long time to load"
    else st.scene
  ((InsertSeriesInSubjectHierarchy env s1 rtReader).EndState, true)

/-- Lines 1017-1075 of `LoadRtImage`: the volume node, added to the scene, its item, the
series UID and the RT image attributes of the item. -/
def createRtImageItem (env : Env R) (s : Scene R) (rtReader : vtkSlicerDicomRtReader R)
    (loadable : vtkSlicerDICOMLoadable R) (ijkToRas : Matrix4x4 R) (imageData : List R) :
    Scene R :=
  let added := s.AddNode loadable.Name (.ScalarVolumeNode ⟨ijkToRas, imageData, none, false⟩)
  let created := added.1.CreateItemForNode SceneItemID added.2
  let seriesShItemID := created.2
  let s1 := created.1.SetItemUID seriesShItemID .DICOMUIDName rtReader.SeriesInstanceUid
  let s2 := s1.SetItemAttribute seriesShItemID .DICOMRTIMPORT_RTIMAGE_IDENTIFIER "1"
  let s3 := s2.SetItemAttribute seriesShItemID .DICOMReferencedInstanceUIDs
    rtReader.RTImageReferencedRTPlanSOPInstanceUID
  let s4 := s3.SetItemAttribute seriesShItemID .DICOMRTIMPORT_SOURCE_AXIS_DISTANCE
    (env.FormatDouble rtReader.RadiationMachineSAD)
  let s5 := s4.SetItemAttribute seriesShItemID .DICOMRTIMPORT_GANTRY_ANGLE
    (env.FormatDouble rtReader.GantryAngle)
  let s6 := s5.SetItemAttribute seriesShItemID .DICOMRTIMPORT_COUCH_ANGLE
    (env.FormatDouble rtReader.PatientSupportAngle)
  let s7 := s6.SetItemAttribute seriesShItemID .DICOMRTIMPORT_COLLIMATOR_ANGLE
    (env.FormatDouble rtReader.BeamLimitingDeviceAngle)
  let s8 := s7.SetItemAttribute seriesShItemID .DICOMRTIMPORT_BEAM_NUMBER
    (env.FormatInt rtReader.ReferencedBeamNumber)
  let s9 := s8.SetItemAttribute seriesShItemID .DICOMRTIMPORT_RTIMAGE_SID
    (env.FormatDouble rtReader.RTImageSID)
  s9.SetItemAttribute seriesShItemID .DICOMRTIMPORT_RTIMAGE_POSITION
    (env.FormatDouble rtReader.RTImagePosition.1 ++ " " ++
      env.FormatDouble rtReader.RTImagePosition.2)

/-- The function `vtkInternal::LoadRtImage`.  The scene passed in is valid and has its subject
hierarchy node; the display node and its window/level are not represented. -/
def LoadRtImage (env : Env R) (s : Scene R) (rtReader : vtkSlicerDicomRtReader R)
    (loadable : vtkSlicerDICOMLoadable R) : Scene R × Bool :=
  match loadable.ReadData with
  | none => (s.log .Error "LoadRtImage: Failed to load RT image file", false)
  | some (ijkToRas, imageData) =>
    (SetupRtImageGeometry env
      (InsertSeriesInSubjectHierarchy env
        (createRtImageItem env s rtReader loadable ijkToRas imageData) rtReader)
      (s.Items.length + 2), true)

end Loaders

/-- A reader whose values are all empty or zero. -/
def emptyReader : vtkSlicerDicomRtReader ℤ :=
  { PatientName := "", PatientId := "", PatientSex := "", PatientBirthDate := "",
    PatientComments := "", StudyInstanceUid := "", StudyId := "", StudyDescription := "",
    StudyDate := "", StudyTime := "", SeriesInstanceUid := "", SeriesModality := "",
    SeriesNumber := "", SOPInstanceUID := "", DoseUnits := "", DoseGridScaling := "",
    RTDoseReferencedRTPlanSOPInstanceUID := "", Beams := [],
    RTPlanReferencedStructureSetSOPInstanceUID := "", RTPlanReferencedDoseSOPInstanceUIDs := "",
    Rois := [], RTStructureSetReferencedSOPInstanceUIDs := "",
    RTImageReferencedRTPlanSOPInstanceUID := "", RadiationMachineSAD := 0, GantryAngle := 0,
    PatientSupportAngle := 0, BeamLimitingDeviceAngle := 0, ReferencedBeamNumber := 0,
    RTImageSID := 0, RTImagePosition := (0, 0), LoadRTStructureSetSuccessful := false,
    LoadRTDoseSuccessful := false, LoadRTPlanSuccessful := false,
    LoadRTImageSuccessful := false }

/-- A dose reader: patient `P1`, study `1.2`, series `1.2.5`, instance `1.2.5.1`, unit `GY`,
grid scaling `1000`, referenced plan `1.2.3`. -/
def sampleDoseReader : vtkSlicerDicomRtReader ℤ :=
  { emptyReader with
    PatientId := "P1", StudyInstanceUid := "1.2", SeriesInstanceUid := "1.2.5",
    SOPInstanceUID := "1.2.5.1", DoseUnits := "GY", DoseGridScaling := "1000",
    RTDoseReferencedRTPlanSOPInstanceUID := "1.2.3", LoadRTDoseSuccessful := true }

/-- A dose file holding a grid of the three raw voxel values 1, 2, 3. -/
def sampleDoseLoadable : vtkSlicerDICOMLoadable ℤ :=
  ⟨"RTDOSE", ["dose.dcm"], false, some (1, [1, 2, 3])⟩

/-! ## Observations on a scene -/

section Observations

variable {R : Type}

/-- Data nodes of the items of a scene, in item order. -/
def Scene.DataNodes (s : Scene R) : List (Option (vtkMRMLNode R)) :=
  s.Items.map (fun it => it.DataNode)

/-- The point-of-interest entities among a list of data nodes, in order: name, position and
color of every markups fiducial node. -/
def fiducialsOf : List (Option (vtkMRMLNode R)) → List (String × (R × R × R) × (R × R × R))
  | [] => []
  | some (.MarkupsFiducialNode name position color) :: rest =>
    (name, position, color) :: fiducialsOf rest
  | _ :: rest => fiducialsOf rest

/-- The segments among a list of data nodes, in order: the segments of every segmentation
node. -/
def segmentsOf : List (Option (vtkMRMLNode R)) → List (vtkSegment R)
  | [] => []
  | some (.SegmentationNode segments _) :: rest => segments ++ segmentsOf rest
  | _ :: rest => segmentsOf rest

/-- The point-of-interest entities of a scene. -/
def Scene.Fiducials (s : Scene R) : List (String × (R × R × R) × (R × R × R)) :=
  fiducialsOf s.DataNodes

/-- The segments of a scene. -/
def Scene.Segments (s : Scene R) : List (vtkSegment R) := segmentsOf s.DataNodes

/-- The point-of-interest entity an ROI stands for: an ROI with exactly one point. -/
def RoiData.fiducial (roi : RoiData R) : Option (String × (R × R × R) × (R × R × R)) :=
  match roi.RoiPolyData with
  | some [point] => some (roi.RoiName, point, roi.RoiDisplayColor)
  | _ => none

/-- The segment an ROI stands for: an ROI with two or more points. -/
def RoiData.segment (roi : RoiData R) : Option (vtkSegment R) :=
  match roi.RoiPolyData with
  | some (p :: q :: points) => some ⟨roi.RoiName, roi.RoiDisplayColor, p :: q :: points⟩
  | _ => none

end Observations

section LoopInvariants

variable {R : Type}

/-- Invariant of the loop over the ROIs: the data nodes appended so far hold the fiducials
`F`, and the segments `G` sit in the one segmentation node of the structure set. -/
def RoiLoopInvariant (s : Scene R) (st : RoiLoopState R)
    (F : List (String × (R × R × R) × (R × R × R))) (G : List (vtkSegment R)) : Prop :=
  ∃ D : List (Option (vtkMRMLNode R)),
    st.scene.DataNodes = s.DataNodes ++ D ∧ fiducialsOf D = F ∧
    ((st.segmentationShItemID = INVALID_ITEM_ID ∧ G = [] ∧ segmentsOf D = []) ∨
      (∃ (A B : List (Option (vtkMRMLNode R))) (closedSurface : Bool),
        D = A ++ some (.SegmentationNode G closedSurface) :: B
        ∧ st.segmentationShItemID = s.Items.length + A.length + 2
        ∧ segmentsOf A = [] ∧ segmentsOf B = []))

end LoopInvariants

/-- The text of the diagnostic of `LoadRtPlan` for a beam whose isocenter differs. -/
def differentIsocenterMessage : Message :=
  ⟨.Error,
    "LoadRtPlan: Different isocenters for each beam are not yet supported! The first isocenter will be used for the whole plan"⟩

/-- A plan reader with two beams: beam 1 at the origin, beam 2 with its isocenter at
(5, 0, 0). -/
def samplePlanReader : vtkSlicerDicomRtReader ℤ :=
  { emptyReader with
    PatientId := "P1", StudyInstanceUid := "1.2", SeriesInstanceUid := "1.2.3",
    SOPInstanceUID := "1.2.3.1", LoadRTPlanSuccessful := true,
    Beams := [⟨1, "beam 1", ((0, 0), (0, 0)), 90, 0, 0, 1000, (0, 0, 0)⟩,
      ⟨2, "beam 2", ((0, 0), (0, 0)), 0, 0, 0, 1000, (5, 0, 0)⟩] }

/-- The loadable of the sample plan. -/
def samplePlanLoadable : vtkSlicerDICOMLoadable ℤ := ⟨"RTPLAN", ["plan.dcm"], false, none⟩

/-- The sample scene after the geometry of its RT image has been resolved once. -/
def resolvedSampleScene : Scene ℤ := SetupRtImageGeometry sampleEnv sampleScene 4

/-- The attributes of an item that the geometry of an RT image reads. -/
def AttributeName.IsRtImageAttribute : AttributeName → Bool
  | .DICOMRTIMPORT_RTIMAGE_IDENTIFIER => true
  | .DICOMReferencedInstanceUIDs => true
  | .DICOMRTIMPORT_BEAM_NUMBER => true
  | .DICOMRTIMPORT_RTIMAGE_SID => true
  | .DICOMRTIMPORT_RTIMAGE_POSITION => true
  | _ => false

/-- A loaded plan in a scene: item `P` holds the plan node with isocenter `c` and is the first
item carrying the instance UID `planUID`; the items `P + 1 + k`, `k < N`, hold its beam nodes
`node k`, with pairwise distinct beam numbers, and no other item is a beam of the plan. -/
structure PlanInScene {R : Type} (w : Scene R) (P N : Nat)
    (node : Nat → vtkMRMLRTBeamNode R) (c : R × R × R) (planUID : String) : Prop where
  plan : w.GetItemDataNode P = some (.RTPlanNode (some c))
  uid_ne : planUID ≠ ""
  uid : w.GetItemUID P .DICOMInstanceUIDName = planUID
  first : ∀ i : Nat, i < P → w.GetItemUID i .DICOMInstanceUIDName ≠ planUID
  beam : ∀ k : Nat, k < N →
    w.GetItemDataNode (P + 1 + k) = some (.RTBeamNode (node k)) ∧ w.GetItemParent (P + 1 + k) = P
  beams_only : ∀ i : Nat, w.IsBeam i = true → w.GetItemParent i = P → ∃ k, k < N ∧ i = P + 1 + k
  numbers : ∀ j k : Nat, j < N → k < N → (node j).BeamNumber = (node k).BeamNumber → j = k

/-- No RT image of the scene other than item `I` is an image of the beam with the number
`beamNumber` of the plan with `N` beams and the instance UID `planUID`: every other RT image
that references the instance UID names another beam number, and the plan then has two beams
or more (the beam entry of `SetupRtImageGeometry` takes any image of a plan with one beam). -/
def NoOtherImage {R : Type} (env : Env R) (w : Scene R) (I : Nat) (planUID : String)
    (beamNumber : Int) (N : Nat) : Prop :=
  ∀ i : Nat, i ≠ I → w.IsScalarVolume i = true →
    w.GetItemAttribute i .DICOMRTIMPORT_RTIMAGE_IDENTIFIER ≠ "" →
    planUID ∈ env.DeserializeUIDList (w.GetItemAttribute i .DICOMReferencedInstanceUIDs) →
    2 ≤ N ∧ env.ToInt (w.GetItemAttribute i .DICOMRTIMPORT_BEAM_NUMBER) ≠ beamNumber

/-- Item `I` is an RT image whose referenced instance UID is `planUID`. -/
structure ImageOfPlan {R : Type} (env : Env R) (w : Scene R) (I : Nat) (planUID : String) :
    Prop where
  volume : w.IsScalarVolume I = true
  marker : w.GetItemAttribute I .DICOMRTIMPORT_RTIMAGE_IDENTIFIER ≠ ""
  reference : w.GetItemAttribute I .DICOMReferencedInstanceUIDs = planUID
  list : env.DeserializeUIDList planUID = [planUID]

/-- The beam node of `addBeamNode` as it is in the scene afterwards: with the beam number
that `AddBeam` gives it. -/
def numberedBeamNode {R : Type} (env : Env R) (s : Scene R) (planShItemID : vtkIdType)
    (beamNode : vtkMRMLRTBeamNode R) : vtkMRMLRTBeamNode R :=
  { beamNode with
    BeamNumber := env.AddBeamNumber
      ((s.AddNode beamNode.Name (.RTBeamNode beamNode)).1.GetBeams planShItemID).length }

/-- The beam node that `LoadRtPlan` creates in round `k` of its loop over the beams, with the
beam number that `AddBeam` gives to beam `k` of a plan whose beams are all added by the
loop. -/
def planBeamNode {R : Type} (env : Env R) (rtReader : vtkSlicerDicomRtReader R)
    (b0 : BeamData R) (k : Nat) : vtkMRMLRTBeamNode R :=
  { beamNodeOf (rtReader.Beams.getD k b0) with BeamNumber := env.AddBeamNumber k }

/-- The scene of `LoadRtPlan` at line 758, after the loop over the beams: the plan node and
the beam nodes are in the scene. -/
def planItemsCreated {R : Type} [CommRing R] (env : Env R) (s : Scene R)
    (rtReader : vtkSlicerDicomRtReader R) (loadable : vtkSlicerDICOMLoadable R) : Scene R :=
  (loadBeams env rtReader (s.Items.length + 2) rtReader.Beams.length 0
    (createPlanItem s.StartState rtReader loadable)).1

/-- The scene of `LoadRtPlan` at line 780, before the loop that sets up the geometry of the RT
images of the beams: the series is inserted in the hierarchy and the plan item is under its
study. -/
def planBeforeGeometry {R : Type} [CommRing R] (env : Env R) (s : Scene R)
    (rtReader : vtkSlicerDicomRtReader R) (loadable : vtkSlicerDICOMLoadable R) : Scene R :=
  (InsertSeriesInSubjectHierarchy env (planItemsCreated env s rtReader loadable)
      rtReader).SetItemParent (s.Items.length + 2)
    ((InsertSeriesInSubjectHierarchy env (planItemsCreated env s rtReader loadable)
      rtReader).GetItemByUID .DICOMUIDName rtReader.StudyInstanceUid)

/-- The scene of `LoadRtImage` at line 1077, before the call of `SetupRtImageGeometry`: the
volume is in the scene and its series is inserted in the hierarchy. -/
def rtImageBeforeGeometry {R : Type} [CommRing R] (env : Env R) (s : Scene R)
    (rtReader : vtkSlicerDicomRtReader R) (loadable : vtkSlicerDICOMLoadable R)
    (ijkToRas : Matrix4x4 R) (imageData : List R) : Scene R :=
  InsertSeriesInSubjectHierarchy env
    (createRtImageItem env s rtReader loadable ijkToRas imageData) rtReader

/-- The source to image distance that `SetupRtImageGeometry` reads from the attribute that
`LoadRtImage` writes. -/
def rtImageSidWritten {R : Type} [CommRing R] (env : Env R)
    (rtReader : vtkSlicerDicomRtReader R) : R :=
  if env.FormatDouble rtReader.RTImageSID ≠ "" then
    env.ToDouble (env.FormatDouble rtReader.RTImageSID)
  else 0

/-- The image position that `SetupRtImageGeometry` reads from the attribute that `LoadRtImage`
writes. -/
def rtImagePositionWritten {R : Type} [CommRing R] (env : Env R)
    (rtReader : vtkSlicerDicomRtReader R) : R × R :=
  if env.FormatDouble rtReader.RTImagePosition.1 ++ " " ++
      env.FormatDouble rtReader.RTImagePosition.2 ≠ "" then
    env.ReadPosition (env.FormatDouble rtReader.RTImagePosition.1 ++ " " ++
      env.FormatDouble rtReader.RTImagePosition.2)
  else (0, 0)

/-- An RT image reader: patient `P1`, study `1.2`, series `1.2.4`, instance `1.2.4.1`; the
image references plan instance `1.2.3.1` and beam number 1, SID 1500, position (-200, -200). -/
def sampleImageReader : vtkSlicerDicomRtReader ℤ :=
  { emptyReader with
    PatientId := "P1", StudyInstanceUid := "1.2", SeriesInstanceUid := "1.2.4",
    SOPInstanceUID := "1.2.4.1", RTImageReferencedRTPlanSOPInstanceUID := "1.2.3.1",
    ReferencedBeamNumber := 1, RTImageSID := 1500, RTImagePosition := (-200, -200),
    RadiationMachineSAD := 1000, GantryAngle := 90, LoadRTImageSuccessful := true }

/-- An RT image file holding an empty pixel grid with the identity matrix. -/
def sampleImageLoadable : vtkSlicerDICOMLoadable ℤ := ⟨"RTIMAGE", ["image.dcm"], false, some (1, [])⟩

/-- Another RT image of the same beam of the same plan: series `1.2.9`, instance `1.2.9.1`. -/
def earlierImageReader : vtkSlicerDicomRtReader ℤ :=
  { sampleImageReader with SeriesInstanceUid := "1.2.9", SOPInstanceUID := "1.2.9.1" }

/-- The scene after that other RT image has been loaded into the empty scene: the image is
item 2, its patient item 3, its study item 4. -/
def sceneWithEarlierImage : Scene ℤ :=
  (LoadRtImage sampleEnv Scene.empty earlierImageReader sampleImageLoadable).1

/-- A scene holding one RT image (item 2) that references another plan, instance `1.2.8.1`. -/
def sceneWithUnrelatedImage : Scene ℤ where
  Items :=
    [ ⟨SceneItemID, "unrelated image",
        fun a =>
          if a = .DICOMRTIMPORT_RTIMAGE_IDENTIFIER then "1"
          else if a = .DICOMReferencedInstanceUIDs then "1.2.8.1"
          else if a = .DICOMRTIMPORT_BEAM_NUMBER then "1"
          else "",
        fun n => if n = .DICOMUIDName then "1.2.9" else "1.2.9.1",
        some (.ScalarVolumeNode ⟨1, [], none, false⟩)⟩ ]
  ModelNodes := 0
  BatchProcessDepth := 0
  Messages := []

/-- A scene holding one RT image (item 2) of beam 2 of the plan of `samplePlanReader`: it
references the plan instance `1.2.3.1` and names the beam number 2. -/
def sceneWithImageOfOtherBeam : Scene ℤ where
  Items :=
    [ ⟨SceneItemID, "image of beam 2",
        fun a =>
          if a = .DICOMRTIMPORT_RTIMAGE_IDENTIFIER then "1"
          else if a = .DICOMReferencedInstanceUIDs then "1.2.3.1"
          else if a = .DICOMRTIMPORT_BEAM_NUMBER then "2"
          else "",
        fun n => if n = .DICOMUIDName then "1.2.9" else "1.2.9.1",
        some (.ScalarVolumeNode ⟨1, [], none, false⟩)⟩ ]
  ModelNodes := 0
  BatchProcessDepth := 0
  Messages := []

/-- A structure set without ROI contours whose first series lists the image instances `1.2.3`
and `1.2.4`, followed by a second series, a second study and a second frame of reference with
image references of their own. -/
def laterReferencesDataset : DcmDataset :=
  ⟨"1.2.840.10008.5.1.4.1.1.481.3", "", "", "", "", "", "", "", none,
    some ⟨⟨false, [], 0⟩,
          ⟨false,
            [⟨false, ⟨false,
              [⟨false, ⟨false,
                [⟨false, ⟨false, [⟨false, some "1.2.3"⟩, ⟨false, some "1.2.4"⟩], 0⟩⟩,
                 ⟨false, ⟨false, [⟨false, some "1.2.5"⟩], 0⟩⟩], 0⟩⟩,
               ⟨false, ⟨false, [⟨false, ⟨false, [⟨false, some "1.2.6"⟩], 0⟩⟩], 0⟩⟩], 0⟩⟩,
             ⟨false, ⟨false,
              [⟨false, ⟨false, [⟨false, ⟨false, [⟨false, some "1.2.7"⟩], 0⟩⟩], 0⟩⟩], 0⟩⟩],
            0⟩⟩,
    none⟩

/-- Collaborators of `ExamineForLoad` from DCMTK: the dataset of a file (`DcmFileFormat::loadFile`
followed by `getDataset`; `none` when the file does not load) and the SOP class UID constants
of `dcuid.h`. -/
structure DcmtkEnv where
  loadFile : String → Option DcmDataset
  UID_RTDoseStorage : String
  UID_RTPlanStorage : String
  UID_RTStructureSetStorage : String
  UID_RTImageStorage : String

/-- The fields of a `vtkSlicerDICOMLoadable` that `ExamineForLoad` sets: name, files,
confidence, selected flag and referenced instance UIDs. -/
structure ExaminedLoadable where
  Name : String
  Files : List String
  Confidence : ℚ
  Selected : Bool
  ReferencedInstanceUIDs : List String
  deriving DecidableEq, Repr

/-- Lines 1639-1650 of `ExamineForLoad`: the loadable of a recognised file is set up and added
to the collection; the referenced UIDs are added one by one. -/
def addLoadable (loadables : List ExaminedLoadable) (fileName name : String)
    (referencedSOPInstanceUIDs : List String) : List ExaminedLoadable :=
  loadables ++
    [{ Name := name
       Files := [] ++ [fileName]
       Confidence := 1
       Selected := true
       ReferencedInstanceUIDs :=
         referencedSOPInstanceUIDs.foldl (fun uids uid => uids ++ [uid]) [] }]

/-- Lines 1582-1650 of `ExamineForLoad`: one round of the loop over the files. -/
def examineFile (env : DcmtkEnv) (dicomDatabase : ctkDICOMDatabase)
    (loadables : List ExaminedLoadable) (fileName : String) : List ExaminedLoadable :=
  match env.loadFile fileName with
  | none => loadables
  | some dataset =>
    if dataset.SOPClassUID = "" then loadables
    else
      let name := if dataset.SeriesNumber ≠ "" then "" ++ (dataset.SeriesNumber ++ ": ") else ""
      if dataset.SOPClassUID = env.UID_RTDoseStorage then
        addLoadable loadables fileName
          (ExamineRtDoseDataset dicomDatabase (some dataset) name []).1
          (ExamineRtDoseDataset dicomDatabase (some dataset) name []).2
      else if dataset.SOPClassUID = env.UID_RTPlanStorage then
        addLoadable loadables fileName (ExamineRtPlanDataset (some dataset) name []).1
          (ExamineRtPlanDataset (some dataset) name []).2
      else if dataset.SOPClassUID = env.UID_RTStructureSetStorage then
        addLoadable loadables fileName (ExamineRtStructureSetDataset (some dataset) name []).1
          (ExamineRtStructureSetDataset (some dataset) name []).2
      else if dataset.SOPClassUID = env.UID_RTImageStorage then
        addLoadable loadables fileName (ExamineRtImageDataset (some dataset) name []).1
          (ExamineRtImageDataset (some dataset) name []).2
      else loadables

/-- The function `vtkSlicerDicomRtImportExportModuleLogic::ExamineForLoad`; `none` is a null
pointer.  Returns the contents of the collection `loadables`. -/
def ExamineForLoad (env : DcmtkEnv) (dicomDatabase : ctkDICOMDatabase)
    (fileList : Option (List String)) (loadables : Option (List ExaminedLoadable)) :
    Option (List ExaminedLoadable) :=
  match fileList, loadables with
  | some fileList, some _ => some (fileList.foldl (examineFile env dicomDatabase) [])
  | _, _ => loadables

/-- What the examiner selected by the SOP class of a dataset returns for it: name and
referenced instance UIDs. -/
def examinedBySopClass (env : DcmtkEnv) (dicomDatabase : ctkDICOMDatabase) (dataset : DcmDataset)
    (name : String) : String × List String :=
  if dataset.SOPClassUID = env.UID_RTDoseStorage then
    ExamineRtDoseDataset dicomDatabase (some dataset) name []
  else if dataset.SOPClassUID = env.UID_RTPlanStorage then
    ExamineRtPlanDataset (some dataset) name []
  else if dataset.SOPClassUID = env.UID_RTStructureSetStorage then
    ExamineRtStructureSetDataset (some dataset) name []
  else ExamineRtImageDataset (some dataset) name []

/-- Specification-side reading of one file: a record when the file parses, carries a SOP class
and the SOP class is RT Dose, RT Plan, RT Structure Set or RT Image; the record holds the name
assembled by the examiner after the series number, the one file path, confidence 1, the
selected flag and the referenced instance UIDs found by the examiner. -/
def recognizedLoadable (env : DcmtkEnv) (dicomDatabase : ctkDICOMDatabase) (fileName : String) :
    Option ExaminedLoadable :=
  match env.loadFile fileName with
  | none => none
  | some dataset =>
    if dataset.SOPClassUID ≠ ""
        ∧ dataset.SOPClassUID ∈ [env.UID_RTDoseStorage, env.UID_RTPlanStorage,
            env.UID_RTStructureSetStorage, env.UID_RTImageStorage] then
      some
        { Name :=
            (examinedBySopClass env dicomDatabase dataset
              (if dataset.SeriesNumber ≠ "" then dataset.SeriesNumber ++ ": " else "")).1
          Files := [fileName]
          Confidence := 1
          Selected := true
          ReferencedInstanceUIDs :=
            (examinedBySopClass env dicomDatabase dataset
              (if dataset.SeriesNumber ≠ "" then dataset.SeriesNumber ++ ": " else "")).2 }
    else none

/-- The SOP class UID constants of DCMTK and a file system with four files: an RT plan, a file
that does not parse, a CT image and an RT dose. -/
def sampleDcmtkEnv : DcmtkEnv where
  loadFile := fun fileName =>
    if fileName = "plan.dcm" then some (planDataset "Prostate" "Boost")
    else if fileName = "ct.dcm" then
      some ⟨"1.2.840.10008.5.1.4.1.1.2", "3", "", "", "", "", "", "", none, none, none⟩
    else if fileName = "dose.dcm" then some doseDataset
    else none
  UID_RTDoseStorage := "1.2.840.10008.5.1.4.1.1.481.2"
  UID_RTPlanStorage := "1.2.840.10008.5.1.4.1.1.481.5"
  UID_RTStructureSetStorage := "1.2.840.10008.5.1.4.1.1.481.3"
  UID_RTImageStorage := "1.2.840.10008.5.1.4.1.1.481.1"

/-- Lines 456-546 of `LoadRtDose`: the scene with the scaled dose volume node and its item,
before the series is inserted in the hierarchy. -/
def doseBeforeInsertion {R : Type} [CommRing R] (env : Env R) (s : Scene R)
    (rtReader : vtkSlicerDicomRtReader R) (loadable : vtkSlicerDICOMLoadable R)
    (ijkToRas : Matrix4x4 R) (imageData : List R) : Scene R :=
  let added := s.AddNode loadable.Name (.ScalarVolumeNode ⟨ijkToRas, imageData, none, true⟩)
  let s1 :=
    if rtReader.DoseGridScaling = "" then
      added.1.log .Error "LoadRtDose: Empty dose unit value found for dose volume"
    else added.1
  let s2 := s1.SetItemDataNode added.2
    (.ScalarVolumeNode
      ⟨ijkToRas,
        applyDoseGridScaling (env.ToDouble rtReader.DoseGridScaling) imageData.length 0 imageData,
        none, true⟩)
  let created := s2.CreateItemForNode SceneItemID added.2
  let s3 :=
    if rtReader.SeriesInstanceUid ≠ "" then
      created.1.SetItemUID created.2 .DICOMUIDName rtReader.SeriesInstanceUid
    else created.1.log .Error "LoadRtDose: series instance UID not found for dose volume"
  if rtReader.RTDoseReferencedRTPlanSOPInstanceUID ≠ "" then
    s3.SetItemAttribute created.2 .DICOMReferencedInstanceUIDs
      rtReader.RTDoseReferencedRTPlanSOPInstanceUID
  else s3.log .Error "LoadRtDose: RTDoseReferencedRTPlanSOPInstanceUID not found for dose volume"

/-- The diagnostic of `LoadRtDose` for a dose unit name that differs from the one of the
study. -/
def differentDoseUnitMessage : Message :=
  ⟨.Error, "LoadRtDose: Dose unit name already exists for study and differs from current one"⟩

/-- A later dose series of the study of `sampleDoseReader`: series `1.2.6`, unit `RELATIVE`,
grid scaling `1500`. -/
def laterDoseReader : vtkSlicerDicomRtReader ℤ :=
  { sampleDoseReader with
    SeriesInstanceUid := "1.2.6", SOPInstanceUID := "1.2.6.1", DoseUnits := "RELATIVE",
    DoseGridScaling := "1500" }

/-- The scene after the dose series of `sampleDoseReader` has been loaded into an empty
scene: item 2 is the dose volume, item 3 the patient and item 4 the study. -/
def sceneWithDose : Scene ℤ :=
  (LoadRtDose sampleEnv Scene.empty sampleDoseReader sampleDoseLoadable).1

/-- The patient attributes that `InsertSeriesInSubjectHierarchy` writes to a new patient
item. -/
def AttributeName.IsPatientAttribute : AttributeName → Bool
  | .DICOMPatientName => true
  | .DICOMPatientID => true
  | .DICOMPatientSex => true
  | .DICOMPatientBirthDate => true
  | .DICOMPatientComments => true
  | _ => false

/-- The study attributes that `InsertSeriesInSubjectHierarchy` writes to a new study item. -/
def AttributeName.IsStudyAttribute : AttributeName → Bool
  | .DICOMStudyInstanceUID => true
  | .DICOMStudyID => true
  | .DICOMStudyDescription => true
  | .DICOMStudyDate => true
  | .DICOMStudyTime => true
  | _ => false

/-- A reader for a further series `1.2.7` of the patient `P1` and the study `1.2`, whose
dataset carries other patient and study values than the ones recorded first. -/
def renamedPatientReader : vtkSlicerDicomRtReader ℤ :=
  { emptyReader with
    PatientName := "Renamed", PatientId := "P1", PatientSex := "F", PatientBirthDate := "19700101",
    PatientComments := "second", StudyInstanceUid := "1.2", StudyId := "77",
    StudyDescription := "Second description", StudyDate := "20200101", StudyTime := "1200",
    SeriesInstanceUid := "1.2.7", SOPInstanceUID := "1.2.7.1" }

/-- The plan of `samplePlanReader` in a file whose patient id is empty. -/
def noPatientPlanReader : vtkSlicerDicomRtReader ℤ :=
  { samplePlanReader with PatientId := "" }

/-- A dose file that cannot be read as a volume. -/
def unreadableDoseLoadable : vtkSlicerDICOMLoadable ℤ := ⟨"RTDOSE", ["dose.dcm"], false, none⟩

/-- The collaborators of `sampleEnv` when the default color tables cannot be created. -/
def noColorTableEnv : Env ℤ :=
  { sampleEnv with DefaultColorTablesAvailable := false }

/-- The scene after the plan of `samplePlanReader` has been loaded into the empty scene: the
plan is item 2, its beams are the items 3 and 4; no RT image is in the scene. -/
def sceneWithPlan : Scene ℤ :=
  (LoadRtPlan sampleEnv Scene.empty samplePlanReader samplePlanLoadable).1

/-- A structure set reader: patient `P1`, study `1.2`, series `1.2.8`, instance `1.2.8.1`, with
a single-point ROI `marker` and a three-point ROI `organ`, both referencing the series
`1.2.1`. -/
def mixedStructureSetReader : vtkSlicerDicomRtReader ℤ :=
  { emptyReader with
    PatientId := "P1", StudyInstanceUid := "1.2", SeriesInstanceUid := "1.2.8",
    SOPInstanceUID := "1.2.8.1",
    Rois := [⟨"marker", (1, 0, 0), some [(1, 2, 3)], "1.2.1"⟩,
             ⟨"organ", (0, 1, 0), some [(0, 0, 0), (1, 0, 0), (1, 1, 0)], "1.2.1"⟩],
    LoadRTStructureSetSuccessful := true }

/-- A structure set file. -/
def sampleStructureSetLoadable : vtkSlicerDICOMLoadable ℤ :=
  ⟨"RTSTRUCT", ["rtss.dcm"], false, none⟩

/-- The non-empty UIDs of the DICOM UID namespace are carried by one item each. -/
def Scene.UniqueDicomUIDs {R : Type} (s : Scene R) : Prop :=
  ((s.Items.map (fun it => it.UIDs .DICOMUIDName)).filter (fun uid => uid ≠ "")).Nodup

instance {R : Type} (s : Scene R) : Decidable s.UniqueDicomUIDs :=
  inferInstanceAs (Decidable (List.Nodup _))

/-! ## Export (`ExportDicomRTStudy`) -/

/-- An exportable (`vtkSlicerDICOMExportable`): the subject hierarchy item, the tags (`GetTag`
gives a null pointer, `none`, for a tag that is not set) and the output directory. -/
structure vtkSlicerDICOMExportable where
  SubjectHierarchyItemID : vtkIdType
  Tags : String → Option String
  Directory : String

/-- Oriented image data (`vtkOrientedImageData`): the image-to-world matrix and the extent
`(xmin, xmax, ymin, ymax, zmin, zmax)`, both bounds of an axis included; the voxels are not
represented. -/
structure vtkOrientedImageData (R : Type) where
  ImageToWorldMatrix : Matrix4x4 R
  Extent : Fin 6 → Int

/-- An image of Plastimatch (`Plm_image`): the dimensions `dim(0)`, `dim(1)`, `dim(2)`. -/
structure Plm_image where
  dim : Nat × Nat × Nat
  deriving DecidableEq, Repr

/-- Poly data (`vtkPolyData`): the list of its points. -/
abbrev vtkPolyData (R : Type) := List (R × R × R)

/-- One structure handed to the writer by `AddStructure`: a labelmap with name and color, or
the contours of a segment with name, color, slice numbers, slice instance UIDs and the contour
of each slice. -/
inductive RtWriterStructure (R : Type)
  | Labelmap (image : Plm_image) (name : String) (color : R × R × R)
  | Contours (name : String) (color : R × R × R) (sliceNumbers : List Int)
      (sliceUIDs : List String) (sliceContours : List (vtkPolyData R))
  deriving DecidableEq

/-- What `vtkSlicerDicomRtWriter` has been given: image, dose, structures and file name.  The
patient, study and series metadata setters are not represented. -/
structure vtkSlicerDicomRtWriter (R : Type) where
  Image : Option Plm_image
  Dose : Option Plm_image
  Structures : List (RtWriterStructure R)
  FileName : String
  deriving DecidableEq

/-- Collaborators of the export that are not part of the sources (`SlicerRtCommon`,
`PlmCommon`, `vtkOrientedImageDataResample`, `vtkSegmentation`, the VTK filters).  The
properties of a segmentation node that the scene does not carry are functions of the item of
the node; `none` stands for a failed call or a null pointer. -/
structure ExportEnv (R : Type) where
  ConvertVolumeNodeToVtkOrientedImageData :
    vtkMRMLScalarVolumeNode R → Option (vtkOrientedImageData R)
  DoesTransformMatrixContainShear : Matrix4x4 R → Bool
  TransformOrientedImage : vtkOrientedImageData R → Matrix4x4 R → vtkOrientedImageData R
  ConvertVtkOrientedImageDataToPlmImage : vtkOrientedImageData R → Option Plm_image
  IsMasterRepresentationImageData : vtkIdType → Bool
  IsMasterRepresentationPolyData : vtkIdType → Bool
  CreateBinaryLabelmapRepresentation : vtkIdType → Bool
  CreateClosedSurfaceRepresentation : vtkIdType → Bool
  HasParentTransformNode : vtkIdType → Bool
  GetBinaryLabelmapRepresentation : vtkSegment R → Option (vtkOrientedImageData R)
  GetClosedSurfaceRepresentation : vtkSegment R → Option (vtkPolyData R)
  ApplyParentTransformToOrientedImageData :
    vtkIdType → vtkOrientedImageData R → Option (vtkOrientedImageData R)
  DoGeometriesMatch : vtkOrientedImageData R → vtkOrientedImageData R → Bool
  DoExtentsMatch : vtkOrientedImageData R → vtkOrientedImageData R → Bool
  ResampleOrientedImageToReferenceOrientedImage :
    vtkOrientedImageData R → vtkOrientedImageData R → Option (vtkOrientedImageData R)
  /-- Output of `vtkTransformPolyDataFilter` with the transform to world of the node. -/
  TransformPolyData : vtkIdType → vtkPolyData R → vtkPolyData R
  /-- Bounds `(xmin, xmax, ymin, ymax, zmin, zmax)` of poly data. -/
  GetBounds : vtkPolyData R → Fin 6 → R
  /-- Output of `vtkCutter` followed by `vtkStripper` for a plane given by origin and normal. -/
  Cut : vtkPolyData R → R × R × R → R × R × R → vtkPolyData R

/-- The nodes found for the roles of the export (lines 1776-1779): dose, segmentation and
anatomical image, each with its item, and the slice instance UIDs of the image. -/
structure ExportRoles (R : Type) where
  doseNode : Option (vtkIdType × vtkMRMLScalarVolumeNode R)
  segmentationNode : Option (vtkIdType × List (vtkSegment R))
  imageNode : Option (vtkIdType × vtkMRMLScalarVolumeNode R)
  imageSliceUIDs : List String

/-- The containers passed to the writer for one segment (lines 2081-2083). -/
structure SliceContours (R : Type) where
  sliceNumbers : List Int
  sliceUIDs : List String
  sliceContours : List (vtkPolyData R)

section Export

variable {R : Type} [LinearOrderedCommRing R]

/-- Lines 1782-1846 of `ExportDicomRTStudy`: one round of the loop over the exportables.  The
series tags and the warnings are not represented. -/
def assignRole (env : Env R) (s : Scene R) (roles : ExportRoles R)
    (exportable : vtkSlicerDICOMExportable) : ExportRoles R :=
  if exportable.SubjectHierarchyItemID = INVALID_ITEM_ID then roles
  else
    match s.GetItemDataNode exportable.SubjectHierarchyItemID with
    | some (.ScalarVolumeNode volume) =>
      if volume.DoseVolumeIdentifier then
        { roles with doseNode := some (exportable.SubjectHierarchyItemID, volume) }
      else
        { roles with
          imageNode := some (exportable.SubjectHierarchyItemID, volume)
          imageSliceUIDs :=
            env.DeserializeUIDList
              (s.GetItemUID exportable.SubjectHierarchyItemID .DICOMInstanceUIDName) }
    | some (.SegmentationNode segments _) =>
      { roles with segmentationNode := some (exportable.SubjectHierarchyItemID, segments) }
    | _ => roles

/-- Lines 1887-1899 and 1920-1932: image data whose transform contains shear is resampled and
gets the identity transform. -/
def resampleIfSheared (xenv : ExportEnv R) (imageData : vtkOrientedImageData R) :
    vtkOrientedImageData R :=
  if xenv.DoesTransformMatrixContainShear imageData.ImageToWorldMatrix then
    { xenv.TransformOrientedImage imageData imageData.ImageToWorldMatrix with
      ImageToWorldMatrix := 1 }
  else imageData

/-- The test `dim(0) * dim(1) * dim(2) == 0` on a converted image; a null pointer, which the
code would dereference, counts as an empty image. -/
def isEmptyPlmImage (image : Option Plm_image) : Bool :=
  match image with
  | none => true
  | some image => image.dim.1 * image.dim.2.1 * image.dim.2.2 = 0

/-- Lines 1965-2016: one segment of the labelmap path.  The name of the segment stands for its
id in the error text. -/
def exportLabelmapSegment (xenv : ExportEnv R) (segmentationShItemID : vtkIdType)
    (imageOrientedImageData : vtkOrientedImageData R) (rtWriter : vtkSlicerDicomRtWriter R)
    (segment : vtkSegment R) : Except String (vtkSlicerDicomRtWriter R) :=
  match xenv.GetBinaryLabelmapRepresentation segment with
  | none => .error ("Failed to get binary labelmap representation from segment " ++ segment.Name)
  | some binaryLabelmap =>
    match (if xenv.HasParentTransformNode segmentationShItemID then
        xenv.ApplyParentTransformToOrientedImageData segmentationShItemID binaryLabelmap
      else some binaryLabelmap) with
    | none => .error "Failed to apply parent transformation to exported segment"
    | some transformed =>
      match (if xenv.DoGeometriesMatch imageOrientedImageData transformed = false
            ∨ xenv.DoExtentsMatch imageOrientedImageData transformed = false then
          xenv.ResampleOrientedImageToReferenceOrientedImage transformed imageOrientedImageData
        else some transformed) with
      | none =>
        .error ("Failed to resample segment " ++ segment.Name
          ++ " to match anatomical image geometry")
      | some binaryLabelmapCopy =>
        match xenv.ConvertVtkOrientedImageDataToPlmImage binaryLabelmapCopy with
        | none =>
          .error ("Failed to convert segment labelmap " ++ segment.Name ++ " to Plastimatch image")
        | some plmStructure =>
          .ok { rtWriter with
                Structures :=
                  rtWriter.Structures ++ [.Labelmap plmStructure segment.Name segment.Color] }

/-- Lines 2088-2116: the loop `for (int slice=imageExtent[4]; slice<imageExtent[5]; ++slice)`.
The first argument is the number of rounds left, the second the value of `slice`. -/
def cutSlices (xenv : ExportEnv R) (imageToWorldMatrix : Matrix4x4 R) (normal : R × R × R)
    (bounds : Fin 6 → R) (imageExtent : Fin 6 → Int) (imageSliceUIDs : List String)
    (surface : vtkPolyData R) : Nat → Int → SliceContours R → SliceContours R
  | 0, _, contours => contours
  | rounds + 1, slice, contours =>
    if imageToWorldMatrix 2 3 + slice * normal.2.2 < bounds 4
        ∨ imageToWorldMatrix 2 3 + slice * normal.2.2 > bounds 5 then
      cutSlices xenv imageToWorldMatrix normal bounds imageExtent imageSliceUIDs surface rounds
        (slice + 1) contours
    else
      cutSlices xenv imageToWorldMatrix normal bounds imageExtent imageSliceUIDs surface rounds
        (slice + 1)
        { sliceNumbers := contours.sliceNumbers ++ [slice - imageExtent 0]
          sliceUIDs :=
            contours.sliceUIDs ++
              [if 0 ≤ slice - imageExtent 0
                  ∧ (slice - imageExtent 0).toNat < imageSliceUIDs.length then
                imageSliceUIDs.getD (slice - imageExtent 0).toNat ""
              else ""]
          sliceContours :=
            contours.sliceContours ++
              [xenv.Cut surface
                (imageToWorldMatrix 0 3 + slice * normal.1,
                 imageToWorldMatrix 1 3 + slice * normal.2.1,
                 imageToWorldMatrix 2 3 + slice * normal.2.2) normal] }

/-- Lines 2054-2123: one segment of the closed surface path.  The name of the segment stands
for its id in the error text. -/
def exportClosedSurfaceSegment (xenv : ExportEnv R) (segmentationShItemID : vtkIdType)
    (imageOrientedImageData : vtkOrientedImageData R) (imageSliceUIDs : List String)
    (rtWriter : vtkSlicerDicomRtWriter R) (segment : vtkSegment R) :
    Except String (vtkSlicerDicomRtWriter R) :=
  match xenv.GetClosedSurfaceRepresentation segment with
  | none => .error ("Failed to get closed surface representation from segment " ++ segment.Name)
  | some closedSurfacePolyData =>
    let normal : R × R × R :=
      (imageOrientedImageData.ImageToWorldMatrix 0 2, imageOrientedImageData.ImageToWorldMatrix 1 2,
        imageOrientedImageData.ImageToWorldMatrix 2 2)
    let transformed := xenv.TransformPolyData segmentationShItemID closedSurfacePolyData
    let contours :=
      cutSlices xenv imageOrientedImageData.ImageToWorldMatrix normal (xenv.GetBounds transformed)
        imageOrientedImageData.Extent imageSliceUIDs transformed
        (imageOrientedImageData.Extent 5 - imageOrientedImageData.Extent 4).toNat
        (imageOrientedImageData.Extent 4) ⟨[], [], []⟩
    .ok { rtWriter with
          Structures :=
            rtWriter.Structures ++
              [.Contours segment.Name segment.Color contours.sliceNumbers contours.sliceUIDs
                contours.sliceContours] }

/-- The loops over the segments (lines 1963 and 2052): the first error ends the export. -/
def exportSegments (body : vtkSlicerDicomRtWriter R → vtkSegment R →
      Except String (vtkSlicerDicomRtWriter R)) :
    List (vtkSegment R) → vtkSlicerDicomRtWriter R → Except String (vtkSlicerDicomRtWriter R)
  | [], rtWriter => .ok rtWriter
  | segment :: rest, rtWriter =>
    match body rtWriter segment with
    | .error error => .error error
    | .ok rtWriter => exportSegments body rest rtWriter

/-- Lines 1944-2138: the segmentation is converted and handed to the writer. -/
def exportSegmentation (xenv : ExportEnv R) (segmentationShItemID : vtkIdType)
    (segments : List (vtkSegment R)) (segmentationName : String)
    (imageOrientedImageData : vtkOrientedImageData R) (imageSliceUIDs : List String)
    (rtWriter : vtkSlicerDicomRtWriter R) : Except String (vtkSlicerDicomRtWriter R) :=
  if xenv.IsMasterRepresentationImageData segmentationShItemID then
    if xenv.CreateBinaryLabelmapRepresentation segmentationShItemID = false then
      .error ("Failed to get binary labelmap representation from segmentation "
        ++ segmentationName)
    else
      exportSegments (exportLabelmapSegment xenv segmentationShItemID imageOrientedImageData)
        segments rtWriter
  else if xenv.IsMasterRepresentationPolyData segmentationShItemID then
    if xenv.CreateClosedSurfaceRepresentation segmentationShItemID = false then
      .error ("Failed to get closed surface representation from segmentation "
        ++ segmentationName)
    else
      exportSegments
        (exportClosedSurfaceSegment xenv segmentationShItemID imageOrientedImageData
          imageSliceUIDs)
        segments rtWriter
  else .error "Structure set contains unsupported master representation"

/-- Lines 1910-1942: the dose volume is converted and handed to the writer. -/
def exportDose (xenv : ExportEnv R) (doseNode : vtkMRMLScalarVolumeNode R) (doseName : String)
    (rtWriter : vtkSlicerDicomRtWriter R) : Except String (vtkSlicerDicomRtWriter R) :=
  match xenv.ConvertVolumeNodeToVtkOrientedImageData doseNode with
  | none => .error ("Failed to convert dose volume " ++ doseName ++ " to oriented image data")
  | some doseOrientedImageData =>
    if isEmptyPlmImage
        (xenv.ConvertVtkOrientedImageDataToPlmImage
          (resampleIfSheared xenv doseOrientedImageData)) then
      .error "Failed to convert dose volume to Plastimatch format"
    else
      .ok { rtWriter with
            Dose :=
              xenv.ConvertVtkOrientedImageDataToPlmImage
                (resampleIfSheared xenv doseOrientedImageData) }

/-- Lines 1911-1942: the dose volume, when one has been found, is converted and handed to the
writer. -/
def exportDoseRole (xenv : ExportEnv R) (s : Scene R) (roles : ExportRoles R)
    (rtWriter : vtkSlicerDicomRtWriter R) : Except String (vtkSlicerDicomRtWriter R) :=
  match roles.doseNode with
  | some (doseShItemID, doseNode) => exportDose xenv doseNode (s.GetItemName doseShItemID) rtWriter
  | none => .ok rtWriter

/-- Lines 1945-2138: the segmentation, when one has been found, is converted and handed to the
writer. -/
def exportSegmentationRole (xenv : ExportEnv R) (s : Scene R) (roles : ExportRoles R)
    (imageOrientedImageData : vtkOrientedImageData R) (rtWriter : vtkSlicerDicomRtWriter R) :
    Except String (vtkSlicerDicomRtWriter R) :=
  match roles.segmentationNode with
  | some (segmentationShItemID, segments) =>
    exportSegmentation xenv segmentationShItemID segments (s.GetItemName segmentationShItemID)
      imageOrientedImageData roles.imageSliceUIDs rtWriter
  | none => .ok rtWriter

/-- Lines 1857-2145: the conversions for the roles found, and the call of `Write`.  Returns
the error, and the writer when `Write` has been called. -/
def exportRoles (xenv : ExportEnv R) (s : Scene R) (roles : ExportRoles R)
    (imageShItemID : vtkIdType) (imageNode : vtkMRMLScalarVolumeNode R) (outputPath : String) :
    String × Option (vtkSlicerDicomRtWriter R) :=
  match xenv.ConvertVolumeNodeToVtkOrientedImageData imageNode with
  | none =>
    ("Failed to convert anatomical image " ++ s.GetItemName imageShItemID
      ++ " to oriented image data", none)
  | some converted =>
    if isEmptyPlmImage
        (xenv.ConvertVtkOrientedImageDataToPlmImage (resampleIfSheared xenv converted)) then
      ("Failed to convert anatomical (CT/MR) image to Plastimatch format", none)
    else
      match exportDoseRole xenv s roles
          ⟨xenv.ConvertVtkOrientedImageDataToPlmImage (resampleIfSheared xenv converted), none, [],
            ""⟩ with
      | .error error => (error, none)
      | .ok rtWriter =>
        match exportSegmentationRole xenv s roles (resampleIfSheared xenv converted) rtWriter with
        | .error error => (error, none)
        | .ok rtWriter => ("", some { rtWriter with FileName := outputPath })

/-- The function `vtkSlicerDicomRtImportExportModuleLogic::ExportDicomRTStudy`.  The scene
passed in is valid and has its subject hierarchy node.  Returns the error string, and the
writer with what it has been given when `Write` has been called. -/
def ExportDicomRTStudy (env : Env R) (xenv : ExportEnv R) (s : Scene R)
    (exportables : List vtkSlicerDICOMExportable) :
    String × Option (vtkSlicerDicomRtWriter R) :=
  match exportables with
  | [] => ("Exportable list contains no exportables", none)
  | firstExportable :: _ =>
    match (exportables.foldl (assignRole env s) ⟨none, none, none, []⟩).imageNode with
    | none => ("Must export the primary anatomical (CT/MR) image", none)
    | some (imageShItemID, imageNode) =>
      exportRoles xenv s (exportables.foldl (assignRole env s) ⟨none, none, none, []⟩)
        imageShItemID imageNode firstExportable.Directory

end Export

/-- Collaborators for the evaluations of the export: a volume converts to image data with its
`IJKToRAS` matrix and the extent of two columns, two rows and the slices 0 to 2; nothing is
sheared; a segmentation has poly data as master representation, and the closed surface of a
segment is its contour point set, with bounds from -10 to 10 on every axis; a cut gives
the origin of the cutting plane. -/
def sampleExportEnv : ExportEnv ℤ where
  ConvertVolumeNodeToVtkOrientedImageData := fun volume =>
    some ⟨volume.IJKToRASMatrix, ![0, 1, 0, 1, 0, 2]⟩
  DoesTransformMatrixContainShear := fun _ => false
  TransformOrientedImage := fun imageData _ => imageData
  ConvertVtkOrientedImageDataToPlmImage := fun _ => some ⟨(2, 2, 3)⟩
  IsMasterRepresentationImageData := fun _ => false
  IsMasterRepresentationPolyData := fun _ => true
  CreateBinaryLabelmapRepresentation := fun _ => true
  CreateClosedSurfaceRepresentation := fun _ => true
  HasParentTransformNode := fun _ => false
  GetBinaryLabelmapRepresentation := fun _ => none
  GetClosedSurfaceRepresentation := fun segment => some segment.PlanarContour
  ApplyParentTransformToOrientedImageData := fun _ imageData => some imageData
  DoGeometriesMatch := fun _ _ => true
  DoExtentsMatch := fun _ _ => true
  ResampleOrientedImageToReferenceOrientedImage := fun imageData _ => some imageData
  TransformPolyData := fun _ polyData => polyData
  GetBounds := fun _ => ![-10, 10, -10, 10, -10, 10]
  Cut := fun _ origin _ => [origin]

/-- A scene with an anatomical image volume (item 2, identity `IJKToRAS` matrix) and a
segmentation with the segment `organ` (item 3). -/
def exportScene : Scene ℤ where
  Items :=
    [ ⟨SceneItemID, "CT", fun _ => "", fun _ => "", some (.ScalarVolumeNode ⟨1, [], none, false⟩)⟩,
      ⟨SceneItemID, "RTSTRUCT", fun _ => "", fun _ => "",
        some (.SegmentationNode [⟨"organ", (0, 1, 0), [(0, 0, 0), (1, 0, 0), (1, 1, 0)]⟩] true)⟩ ]
  ModelNodes := 0
  BatchProcessDepth := 0
  Messages := []

/-- The exportables of the image and of the segmentation of `exportScene`. -/
def sampleExportables : List vtkSlicerDICOMExportable :=
  [⟨2, fun _ => none, "out"⟩, ⟨3, fun _ => none, "out"⟩]

/-- The test of lines 1785-1822 that gives an exportable the anatomical image role: its item
is valid and holds a scalar volume node that is not a dose volume. -/
def IsAnatomicalImageExportable {R : Type} (s : Scene R) (exportable : vtkSlicerDICOMExportable) :
    Bool :=
  if exportable.SubjectHierarchyItemID = INVALID_ITEM_ID then false
  else
    match s.GetItemDataNode exportable.SubjectHierarchyItemID with
    | some (.ScalarVolumeNode volume) => !volume.DoseVolumeIdentifier
    | _ => false

/-- The exportables of a dose volume and of a segmentation, without anatomical image: the
items 2 and 4 of the scene in which the structure set with two ROIs was loaded after a
dose. -/
def exportablesWithoutImage : List vtkSlicerDICOMExportable :=
  [⟨2, fun _ => none, "out"⟩, ⟨7, fun _ => none, "out"⟩]

/-- The scene in which the structure set with two ROIs was loaded after the dose: the dose
volume is item 2, the segmentation item 7; no anatomical image is in the scene. -/
def sceneWithDoseAndStructures : Scene ℤ :=
  (LoadRtStructureSet sampleEnv sceneWithDose mixedStructureSetReader
    sampleStructureSetLoadable).1

/-- Item of `DRTReferencedBolusSequenceInRTBeamsModule` (lines 20-27 of `drtrbos1.cc`): the flag
`EmptyDefaultItem` and the values of the four elements. -/
structure DRTReferencedBolusSequenceInRTBeamsModule.Item where
  EmptyDefaultItem : Bool
  AccessoryCode : String
  BolusDescription : String
  BolusID : String
  ReferencedROINumber : String
  deriving DecidableEq, Repr

/-- The member `EmptyItem` of the sequence is built with `emptyDefaultItem = OFTrue` (lines
217-224); `Item::isValid` is `!EmptyDefaultItem` (lines 82-85). -/
instance : DRTItem DRTReferencedBolusSequenceInRTBeamsModule.Item where
  EmptyItem := ⟨true, "", "", "", ""⟩
  isValid := fun item => !item.EmptyDefaultItem

/-- The sequence class `DRTReferencedBolusSequenceInRTBeamsModule`. -/
abbrev DRTReferencedBolusSequenceInRTBeamsModule :=
  DRTSequence DRTReferencedBolusSequenceInRTBeamsModule.Item

/-- Number of values of the type `unsigned long` of the index arguments (64 bits). -/
def UNSIGNED_LONG_RANGE : Nat := 2 ^ 64

namespace DRTSequence

variable {α : Type}

/-- The cursor after `gotoFirstItem` followed by `k` calls of `gotoNextItem`. -/
def gotoNextItemTimes (seq : DRTSequence α) : Nat → DRTSequence α
  | 0 => seq
  | k + 1 => ((gotoNextItemTimes seq k).gotoNextItem).2

/-- The loop `while ((--idx > 0) && (iterator != last)) ++iterator;` of `gotoItem` (lines
357-358).  The first argument holds the items from the iterator to the end of the list, the
second the value of `idx` (an `unsigned long`: the decrement of zero wraps around), the third
the position of the iterator.  Returns `idx` and the position of the iterator after the
loop. -/
def gotoItemLoop : List α → Nat → Nat → Nat × Nat
  | [], idx, iterator => ((idx + UNSIGNED_LONG_RANGE - 1) % UNSIGNED_LONG_RANGE, iterator)
  | _ :: rest, idx, iterator =>
    if (idx + UNSIGNED_LONG_RANGE - 1) % UNSIGNED_LONG_RANGE > 0 then
      gotoItemLoop rest ((idx + UNSIGNED_LONG_RANGE - 1) % UNSIGNED_LONG_RANGE) (iterator + 1)
    else ((idx + UNSIGNED_LONG_RANGE - 1) % UNSIGNED_LONG_RANGE, iterator)

/-- Function `gotoItem(num, iterator)` (lines 350-366 and 369-385); the iterator is passed by
reference and is returned with the status. -/
def gotoItemIterator (seq : DRTSequence α) (num : Nat) (iterator : Nat) : OFCondition × Nat :=
  if ¬ seq.SequenceOfItems.isEmpty then
    if (gotoItemLoop seq.SequenceOfItems ((num + 1) % UNSIGNED_LONG_RANGE) 0).1 = 0
        ∧ (gotoItemLoop seq.SequenceOfItems ((num + 1) % UNSIGNED_LONG_RANGE) 0).2
            ≠ seq.SequenceOfItems.length then
      (.EC_Normal, (gotoItemLoop seq.SequenceOfItems ((num + 1) % UNSIGNED_LONG_RANGE) 0).2)
    else
      (.EC_IllegalParameter,
        (gotoItemLoop seq.SequenceOfItems ((num + 1) % UNSIGNED_LONG_RANGE) 0).2)
  else (.EC_IllegalCall, iterator)

/-- Function `gotoItem(num)` (lines 388-391): `gotoItem(num, CurrentItem)`. -/
def gotoItem (seq : DRTSequence α) (num : Nat) : OFCondition × DRTSequence α :=
  ((seq.gotoItemIterator num seq.CurrentItem).1,
    { seq with CurrentItem := (seq.gotoItemIterator num seq.CurrentItem).2 })

/-- Function `getItem(num)` returning a reference (lines 436-443 and 446-453): the item under
the local iterator when `gotoItem` is good, the empty default item otherwise.  The local
iterator starts at the end of the list. -/
def getItem [DRTItem α] (seq : DRTSequence α) (num : Nat) : α :=
  if (seq.gotoItemIterator num seq.SequenceOfItems.length).1.good then
    (seq.SequenceOfItems[(seq.gotoItemIterator num seq.SequenceOfItems.length).2]?).getD
      (DRTItem.EmptyItem)
  else DRTItem.EmptyItem

/-- Function `operator[]` (lines 456-465): `getItem(num)`. -/
def subscript [DRTItem α] (seq : DRTSequence α) (num : Nat) : α := seq.getItem num

/-- Function `removeItem` (lines 508-523).  `CurrentItem` names a list node, so its position
falls by one when the erased node stood before it; when the erased node is the one under
`CurrentItem` the source leaves that iterator invalid, and the position is kept here. -/
def removeItem (seq : DRTSequence α) (pos : Nat) : OFCondition × DRTSequence α :=
  if ¬ seq.EmptyDefaultSequence then
    if (seq.gotoItemIterator pos seq.SequenceOfItems.length).1.good then
      (.EC_Normal,
        { seq with
          SequenceOfItems :=
            seq.SequenceOfItems.eraseIdx (seq.gotoItemIterator pos seq.SequenceOfItems.length).2
          CurrentItem :=
            if (seq.gotoItemIterator pos seq.SequenceOfItems.length).2 < seq.CurrentItem then
              seq.CurrentItem - 1
            else seq.CurrentItem })
    else (.EC_IllegalParameter, seq)
  else (.EC_IllegalCall, seq)

end DRTSequence

/-- A sequence with the two bolus items `B1` and `B2`, as left by the constructor and two
calls of `addItem`: the cursor is at the end. -/
def sampleBolusSequence : DRTReferencedBolusSequenceInRTBeamsModule :=
  ⟨false, [⟨false, "", "", "B1", "1"⟩, ⟨false, "", "", "B2", "2"⟩], 2⟩

section RigidDefinitions

variable {R : Type} [CommRing R]

/-- Specification-side: the 3x3 linear part of a homogeneous matrix. -/
def linearPart (A : Matrix4x4 R) : Matrix (Fin 3) (Fin 3) R :=
  !![A 0 0, A 0 1, A 0 2; A 1 0, A 1 1, A 1 2; A 2 0, A 2 1, A 2 2]

/-- Specification-side: the image of a point under a homogeneous matrix whose last row is
`(0, 0, 0, 1)`. -/
def transformPoint (A : Matrix4x4 R) (x : R × R × R) : R × R × R :=
  (A 0 0 * x.1 + A 0 1 * x.2.1 + A 0 2 * x.2.2 + A 0 3,
   A 1 0 * x.1 + A 1 1 * x.2.1 + A 1 2 * x.2.2 + A 1 3,
   A 2 0 * x.1 + A 2 1 * x.2.1 + A 2 2 * x.2.2 + A 2 3)

/-- Specification-side: the square of the distance between two points. -/
def squaredDistance (x y : R × R × R) : R :=
  (x.1 - y.1) ^ 2 + (x.2.1 - y.2.1) ^ 2 + (x.2.2 - y.2.2) ^ 2

/-- Specification-side: a homogeneous matrix is a rigid motion when its last row is
`(0, 0, 0, 1)` and its linear part is orthogonal with determinant one. -/
def IsRigid (A : Matrix4x4 R) : Prop :=
  (A 3 0 = 0 ∧ A 3 1 = 0 ∧ A 3 2 = 0 ∧ A 3 3 = 1)
  ∧ (linearPart A).transpose * linearPart A = 1
  ∧ linearPart A * (linearPart A).transpose = 1
  ∧ (linearPart A).det = 1

end RigidDefinitions

/-- The test of lines 1322-1345 of `SetupRtImageGeometry` on the item `currentShItemID` of the
loop: the item holds a scalar volume, carries the RT image marker attribute, one of the items
it references by DICOM is the plan item, and its referenced beam number is the number of the
beam or `oneBeamInPlan` is set. -/
def isRtImageOfBeam {R : Type} (env : Env R) (s : Scene R) (planShItemID : vtkIdType)
    (beamNumber : Int) (oneBeamInPlan : Bool) (currentShItemID : vtkIdType) : Bool :=
  decide (s.IsScalarVolume currentShItemID = true
    ∧ s.GetItemAttribute currentShItemID .DICOMRTIMPORT_RTIMAGE_IDENTIFIER ≠ ""
    ∧ planShItemID ∈ s.GetItemsReferencedFromItemByDICOM env currentShItemID
    ∧ (env.ToInt (s.GetItemAttribute currentShItemID .DICOMRTIMPORT_BEAM_NUMBER) = beamNumber
        ∨ oneBeamInPlan = true))

/-- The collaborators of `sampleExportEnv` for a cropped image: a volume converts to image data
with the extent of the columns 1 to 2, the rows 0 to 1 and the slices 0 to 3. -/
def croppedExportEnv : ExportEnv ℤ :=
  { sampleExportEnv with
    ConvertVolumeNodeToVtkOrientedImageData := fun volume =>
      some ⟨volume.IJKToRASMatrix, ![1, 2, 0, 1, 0, 3]⟩ }

/-- The collaborators of `sampleEnv` with the split of the instance UID list of the image of
`sliceUidScene` into the UIDs of its four slices. -/
def sliceUidEnv : Env ℤ :=
  { sampleEnv with
    DeserializeUIDList := fun str =>
      if str = "1.2.0 1.2.1 1.2.2 1.2.3" then ["1.2.0", "1.2.1", "1.2.2", "1.2.3"]
      else if str = "" then [] else [str] }

/-- The scene of `exportScene` in which the anatomical image (item 2) carries the instance UIDs
of its four slices. -/
def sliceUidScene : Scene ℤ where
  Items :=
    [ ⟨SceneItemID, "CT", fun _ => "",
        fun n => if n = .DICOMInstanceUIDName then "1.2.0 1.2.1 1.2.2 1.2.3" else "",
        some (.ScalarVolumeNode ⟨1, [], none, false⟩)⟩,
      ⟨SceneItemID, "RTSTRUCT", fun _ => "", fun _ => "",
        some (.SegmentationNode [⟨"organ", (0, 1, 0), [(0, 0, 0), (1, 0, 0), (1, 1, 0)]⟩] true)⟩ ]
  ModelNodes := 0
  BatchProcessDepth := 0
  Messages := []

section LoadDicomRTDefinitions

variable {R : Type} [CommRing R]

/-- The statement `if (flag) { loadSuccessful = loader(rtReader, loadable); }` of `LoadDicomRT`
(lines 1675-1698): the state is the scene and the value of `loadSuccessful`. -/
def runLoaderIf (flag : Bool) (loader : Scene R → Scene R × Bool) (state : Scene R × Bool) :
    Scene R × Bool :=
  if flag then loader state.1 else state

/-- The function `vtkSlicerDicomRtImportExportModuleLogic::LoadDicomRT`; `none` is the null
loadable.  `Update` is the reader after `SetFileName(firstFileName)` and `Update()`
(`vtkSlicerDicomRtReader` is not part of the sources).  Returns the scene and the value
returned. -/
def LoadDicomRT (env : Env R) (Update : String → vtkSlicerDicomRtReader R) (s : Scene R)
    (loadable : Option (vtkSlicerDICOMLoadable R)) : Scene R × Bool :=
  match loadable with
  | none =>
    (s.log .Error "LoadDicomRT: Unable to load DICOM-RT data due to invalid loadable information",
      false)
  | some loadable =>
    match loadable.Files with
    | [] =>
      (s.log .Error
          "LoadDicomRT: Unable to load DICOM-RT data due to invalid loadable information",
        false)
    | firstFileName :: _ =>
      if loadable.ConfidenceIsZero then
        (s.log .Error
            "LoadDicomRT: Unable to load DICOM-RT data due to invalid loadable information",
          false)
      else
        runLoaderIf (Update firstFileName).LoadRTImageSuccessful
          (fun s => LoadRtImage env s (Update firstFileName) loadable)
          (runLoaderIf (Update firstFileName).LoadRTPlanSuccessful
            (fun s => LoadRtPlan env s (Update firstFileName) loadable)
            (runLoaderIf (Update firstFileName).LoadRTDoseSuccessful
              (fun s => LoadRtDose env s (Update firstFileName) loadable)
              (runLoaderIf (Update firstFileName).LoadRTStructureSetSuccessful
                (fun s => LoadRtStructureSet env s (Update firstFileName) loadable)
                (s, false))))

end LoadDicomRTDefinitions

/-- A file read both as an RT dose and as an RT plan: the plan of `samplePlanReader` with the
dose flag set. -/
def doseAndPlanReader : vtkSlicerDicomRtReader ℤ :=
  { samplePlanReader with LoadRTDoseSuccessful := true }

/-- The files of `sampleDcmtkEnv` and the file `plan5.dcm`, the RT plan with the series number
5. -/
def numberedDcmtkEnv : DcmtkEnv :=
  { sampleDcmtkEnv with
    loadFile := fun fileName =>
      if fileName = "plan5.dcm" then
        some { planDataset "Prostate" "Boost" with SeriesNumber := "5" }
      else sampleDcmtkEnv.loadFile fileName }

/-- The value of `roiPolyData->GetNumberOfPoints()` for an ROI; zero for the null poly data,
which the loop skips like poly data without points. -/
def roiPointCount {R : Type} (roi : RoiData R) : Nat :=
  match roi.RoiPolyData with
  | some roiPolyData => roiPolyData.length
  | none => 0

/-- The point counts of the segments that the ROIs of a structure set give: the ROIs with two
or more points. -/
def segmentPointCounts {R : Type} (rois : List (RoiData R)) : List Nat :=
  (rois.filterMap RoiData.segment).map (fun segment => segment.PlanarContour.length)

/-- The warning of `LoadRtStructureSet` that stands for the closed surface display. -/
def largeContoursWarning : Message :=
  ⟨.Warning,
    "LoadRtStructureSet: Structure set contains extremely large contours that will most likely take an unreasonably long time to load"⟩

/-- A structure set with one single-point ROI and four contour ROIs of 799999, 799999, 799999
and 600002 points: 2999999 points in the segments, 3000000 points in all ROIs. -/
def largeStructureSetReader : vtkSlicerDicomRtReader ℤ :=
  { emptyReader with
    PatientId := "P1", StudyInstanceUid := "1.2", SeriesInstanceUid := "1.2.8",
    SOPInstanceUID := "1.2.8.1",
    Rois := [⟨"marker", (1, 0, 0), some [(1, 2, 3)], "1.2.1"⟩,
             ⟨"organ 1", (0, 1, 0), some (List.replicate 799999 (0, 0, 0)), "1.2.1"⟩,
             ⟨"organ 2", (0, 1, 0), some (List.replicate 799999 (0, 0, 0)), "1.2.1"⟩,
             ⟨"organ 3", (0, 1, 0), some (List.replicate 799999 (0, 0, 0)), "1.2.1"⟩,
             ⟨"organ 4", (0, 1, 0), some (List.replicate 600002 (0, 0, 0)), "1.2.1"⟩],
    LoadRTStructureSetSuccessful := true }

section FlagInvariantDefinition

variable {R : Type}

/-- Invariant of the loop over the ROIs for the display: the segmentation node of the structure
set, once created, does not show the closed surface. -/
def RoiLoopDisplayInvariant (s : Scene R) (st : RoiLoopState R) : Prop :=
  ∃ D : List (Option (vtkMRMLNode R)),
    st.scene.DataNodes = s.DataNodes ++ D ∧
    (st.segmentationShItemID = INVALID_ITEM_ID ∨
      (∃ (A B : List (Option (vtkMRMLNode R))) (G : List (vtkSegment R)),
        D = A ++ some (.SegmentationNode G false) :: B
        ∧ st.segmentationShItemID = s.Items.length + A.length + 2))

end FlagInvariantDefinition

/-- The UIDs that the items carry in the DICOM UID namespace, in enumeration order. -/
def Scene.DicomUIDs {R : Type} (s : Scene R) : List String :=
  s.Items.map (fun it => it.UIDs .DICOMUIDName)

/-- Invariant of the loop over the ROIs for the DICOM UIDs, after `nF` point ROIs and `nG`
contour ROIs: the series instance UID has been given to the folder of the fiducials if there
was a point ROI and to the segmentation item if there was a contour ROI, and no other
non-empty UID has been given to an item. -/
def RoiLoopUidInvariant {R : Type} (s : Scene R) (series : String) (st : RoiLoopState R)
    (nF nG : Nat) : Prop :=
  (∀ v : String, v ≠ "" →
      st.scene.DicomUIDs.count v
        = s.DicomUIDs.count v + (if v = series then min nF 1 + min nG 1 else 0))
  ∧ (st.fiducialSeriesShItemID = INVALID_ITEM_ID ↔ nF = 0)
  ∧ (st.segmentationShItemID = INVALID_ITEM_ID ↔ nG = 0)

/-- A structure set reader: patient `P1`, study `1.2`, series `1.2.8`, instance `1.2.8.1`, with
the three-point ROI `organ` and the two-point ROI `vessel`, both referencing the series
`1.2.1`. -/
def contourStructureSetReader : vtkSlicerDicomRtReader ℤ :=
  { emptyReader with
    PatientId := "P1", StudyInstanceUid := "1.2", SeriesInstanceUid := "1.2.8",
    SOPInstanceUID := "1.2.8.1",
    Rois := [⟨"organ", (0, 1, 0), some [(0, 0, 0), (1, 0, 0), (1, 1, 0)], "1.2.1"⟩,
             ⟨"vessel", (0, 0, 1), some [(0, 0, 0), (0, 0, 1)], "1.2.1"⟩],
    LoadRTStructureSetSuccessful := true }

/-! ## The arithmetic of the transform chain -/

/-- The arithmetic in which the `double` computations of `SetupRtImageGeometry` are carried
out: the whole numbers and the four operations the transform chain uses, without any law. -/
structure Arithmetic (α : Type) where
  ofNat : Nat → α
  add : α → α → α
  sub : α → α → α
  mul : α → α → α
  neg : α → α

namespace Arithmetic

/-- Exact arithmetic: the operations of a commutative ring. -/
def exact (R : Type) [CommRing R] : Arithmetic R :=
  ⟨fun n => (n : R), fun x y => x + y, fun x y => x - y, fun x y => x * y, fun x => -x⟩

variable {α : Type} (ar : Arithmetic α)

/-- The constant `0.0`. -/
def zero : α := ar.ofNat 0

/-- The constant `1.0`. -/
def one : α := ar.ofNat 1

/-- The identity matrix (`vtkMatrix4x4::Identity`). -/
def identityMatrix : Matrix4x4 α :=
  !![ar.one, ar.zero, ar.zero, ar.zero; ar.zero, ar.one, ar.zero, ar.zero;
     ar.zero, ar.zero, ar.one, ar.zero; ar.zero, ar.zero, ar.zero, ar.one]

/-- Modelled from the spec: `vtkMatrix4x4::Multiply4x4` is VTK library code that is not part of
the sources.  Every element of the product is the sum, from left to right, of the four
products of a row of `a` with a column of `b`. -/
def Multiply4x4 (a b : Matrix4x4 α) : Matrix4x4 α :=
  Matrix.of fun i j =>
    ar.add (ar.add (ar.add (ar.mul (a i 0) (b 0 j)) (ar.mul (a i 1) (b 1 j)))
      (ar.mul (a i 2) (b 2 j))) (ar.mul (a i 3) (b 3 j))

/-- The matrix of `translationMatrix` in the arithmetic `ar`. -/
def translationMatrix (x y z : α) : Matrix4x4 α :=
  !![ar.one, ar.zero, ar.zero, x; ar.zero, ar.one, ar.zero, y;
     ar.zero, ar.zero, ar.one, z; ar.zero, ar.zero, ar.zero, ar.one]

/-- The matrix of `rotationMatrix` in the arithmetic `ar`, every operation in the order in
which `rotationMatrix` writes it. -/
def rotationMatrix (trig : Trig α) (angle x y z : α) : Matrix4x4 α :=
  !![ar.add (trig.cosDeg angle) (ar.mul (ar.mul (ar.sub ar.one (trig.cosDeg angle)) x) x),
     ar.sub (ar.mul (ar.mul (ar.sub ar.one (trig.cosDeg angle)) x) y)
       (ar.mul (trig.sinDeg angle) z),
     ar.add (ar.mul (ar.mul (ar.sub ar.one (trig.cosDeg angle)) x) z)
       (ar.mul (trig.sinDeg angle) y), ar.zero;
     ar.add (ar.mul (ar.mul (ar.sub ar.one (trig.cosDeg angle)) x) y)
       (ar.mul (trig.sinDeg angle) z),
     ar.add (trig.cosDeg angle) (ar.mul (ar.mul (ar.sub ar.one (trig.cosDeg angle)) y) y),
     ar.sub (ar.mul (ar.mul (ar.sub ar.one (trig.cosDeg angle)) y) z)
       (ar.mul (trig.sinDeg angle) x), ar.zero;
     ar.sub (ar.mul (ar.mul (ar.sub ar.one (trig.cosDeg angle)) x) z)
       (ar.mul (trig.sinDeg angle) y),
     ar.add (ar.mul (ar.mul (ar.sub ar.one (trig.cosDeg angle)) y) z)
       (ar.mul (trig.sinDeg angle) x),
     ar.add (trig.cosDeg angle) (ar.mul (ar.mul (ar.sub ar.one (trig.cosDeg angle)) z) z),
     ar.zero;
     ar.zero, ar.zero, ar.zero, ar.one]

/-- Lines 1412-1469 of `SetupRtImageGeometry` in the arithmetic `ar`: the seven component
transforms, each the identity concatenated with one translation or rotation, and their
concatenation in pre-multiply mode with the image matrix.  Every concatenation is one
`Multiply4x4` with the current matrix on the left. -/
def isocenterToRtImageRas (trig : Trig α) (isocenterWorldCoordinates : α × α × α)
    (sourceAxisDistance gantryAngle couchAngle rtImageSid : α) (rtImagePosition : α × α)
    (rtImageIjkToRtImageRasTransformMatrix : Matrix4x4 α) : Matrix4x4 α :=
  let fixedToIsocenterTransform :=
    ar.Multiply4x4 ar.identityMatrix
      (ar.translationMatrix isocenterWorldCoordinates.1 isocenterWorldCoordinates.2.1
        isocenterWorldCoordinates.2.2)
  let couchToFixedTransform :=
    ar.Multiply4x4 ar.identityMatrix
      (ar.rotationMatrix trig (ar.mul (ar.neg ar.one) couchAngle) ar.zero ar.one ar.zero)
  let gantryToCouchTransform :=
    ar.Multiply4x4 ar.identityMatrix
      (ar.rotationMatrix trig gantryAngle ar.zero ar.zero ar.one)
  let sourceToGantryTransform :=
    ar.Multiply4x4 ar.identityMatrix (ar.translationMatrix ar.zero sourceAxisDistance ar.zero)
  let rtImageToSourceTransform :=
    ar.Multiply4x4 ar.identityMatrix (ar.translationMatrix ar.zero (ar.neg rtImageSid) ar.zero)
  let rtImageCenterToCornerTransform :=
    ar.Multiply4x4 ar.identityMatrix
      (ar.translationMatrix (ar.neg rtImagePosition.1) ar.zero rtImagePosition.2)
  let iecToLpsTransform :=
    ar.Multiply4x4 ar.identityMatrix
      (ar.rotationMatrix trig (ar.ofNat 90) ar.one ar.zero ar.zero)
  let t := ar.identityMatrix
  let t := ar.Multiply4x4 t fixedToIsocenterTransform
  let t := ar.Multiply4x4 t couchToFixedTransform
  let t := ar.Multiply4x4 t gantryToCouchTransform
  let t := ar.Multiply4x4 t sourceToGantryTransform
  let t := ar.Multiply4x4 t rtImageToSourceTransform
  let t := ar.Multiply4x4 t rtImageCenterToCornerTransform
  let t := ar.Multiply4x4 t iecToLpsTransform
  ar.Multiply4x4 t rtImageIjkToRtImageRasTransformMatrix

end Arithmetic

/-- Number of binary digits of `n`, found by halving at most `fuel` times. -/
def bitLength : Nat → Nat → Nat
  | 0, _ => 0
  | fuel + 1, n => if n = 0 then 0 else bitLength fuel (n / 2) + 1

/-- The power `2 ^ e` for an integer exponent. -/
def twoPow (e : Int) : ℚ :=
  if 0 ≤ e then mkRat (2 ^ e.toNat) 1 else mkRat 1 (2 ^ (-e).toNat)

/-- The exponent `e` with `2 ^ e ≤ x < 2 ^ (e + 1)` of a positive rational number. -/
def binaryExponent (x : ℚ) : Int :=
  if twoPow ((bitLength 4096 x.num.natAbs : Int) - (bitLength 4096 x.den : Int)) ≤ x then
    (bitLength 4096 x.num.natAbs : Int) - (bitLength 4096 x.den : Int)
  else (bitLength 4096 x.num.natAbs : Int) - (bitLength 4096 x.den : Int) - 1

/-- Rounding of a non-negative rational number to an integer, to nearest, ties to even. -/
def roundHalfEven (y : ℚ) : Int :=
  if y - (y.num / (y.den : Int) : Int) < 1 / 2 then y.num / (y.den : Int)
  else if 1 / 2 < y - (y.num / (y.den : Int) : Int) then y.num / (y.den : Int) + 1
  else if (y.num / (y.den : Int)) % 2 = 0 then y.num / (y.den : Int)
  else y.num / (y.den : Int) + 1

/-- Rounding of a rational number to the nearest number with a significand of 53 binary digits,
ties to even (the rounding of IEEE 754 binary64 in its default mode).  The exponent range is
not bounded: overflow, subnormal numbers, infinities and NaN are not represented, and the two
zeros are one. -/
def roundToBinary64 (x : ℚ) : ℚ :=
  if x = 0 then 0
  else
    (if x < 0 then -1 else 1)
      * ((roundHalfEven (|x| * twoPow (52 - binaryExponent |x|)) : Int)
          / twoPow (52 - binaryExponent |x|))

/-- The arithmetic of the C++ type `double`: every operation is the exact operation on the
rational numbers followed by `roundToBinary64`. -/
def binary64 : Arithmetic ℚ :=
  ⟨fun n => roundToBinary64 n, fun x y => roundToBinary64 (x + y), fun x y => roundToBinary64 (x - y),
    fun x y => roundToBinary64 (x * y), fun x => -x⟩

/-- Cosine and sine of the C library at the angles of 0, 30, 90 and -10 degrees, as the
`double` values that `cos` and `sin` return for the double nearest to the angle in radians
(zero elsewhere; only used at those angles). -/
def binary64Trig : Trig ℚ where
  cosDeg := fun a =>
    if a = 0 then 1
    else if a = 30 then 7800463371553963 / 9007199254740992
    else if a = 90 then 4967757600021511 / 81129638414606681695789005144064
    else if a = -10 then 8870359658994711 / 9007199254740992
    else 0
  sinDeg := fun a =>
    if a = 0 then 0
    else if a = 30 then 9007199254740991 / 18014398509481984
    else if a = 90 then 1
    else if a = -10 then -6256334945874825 / 36028797018963968
    else 0

/-! # Theorems -/

section MatrixLemmas

variable {R : Type} [CommRing R]

theorem mul_fin_four (a00 a01 a02 a03 a10 a11 a12 a13 a20 a21 a22 a23 a30 a31 a32 a33 b00 b01 b02 b03 b10 b11 b12 b13 b20 b21 b22 b23 b30 b31 b32 b33 : R) :
    (!![a00, a01, a02, a03; a10, a11, a12, a13; a20, a21, a22, a23; a30, a31, a32, a33] : Matrix4x4 R) * !![b00, b01, b02, b03; b10, b11, b12, b13; b20, b21, b22, b23; b30, b31, b32, b33] =
      !![a00 * b00 + a01 * b10 + a02 * b20 + a03 * b30, a00 * b01 + a01 * b11 + a02 * b21 + a03 * b31, a00 * b02 + a01 * b12 + a02 * b22 + a03 * b32, a00 * b03 + a01 * b13 + a02 * b23 + a03 * b33;
        a10 * b00 + a11 * b10 + a12 * b20 + a13 * b30, a10 * b01 + a11 * b11 + a12 * b21 + a13 * b31, a10 * b02 + a11 * b12 + a12 * b22 + a13 * b32, a10 * b03 + a11 * b13 + a12 * b23 + a13 * b33;
        a20 * b00 + a21 * b10 + a22 * b20 + a23 * b30, a20 * b01 + a21 * b11 + a22 * b21 + a23 * b31, a20 * b02 + a21 * b12 + a22 * b22 + a23 * b32, a20 * b03 + a21 * b13 + a22 * b23 + a23 * b33;
        a30 * b00 + a31 * b10 + a32 * b20 + a33 * b30, a30 * b01 + a31 * b11 + a32 * b21 + a33 * b31, a30 * b02 + a31 * b12 + a32 * b22 + a33 * b32, a30 * b03 + a31 * b13 + a32 * b23 + a33 * b33] := by
  ext i j
  fin_cases i <;> fin_cases j <;> simp [Matrix.mul_apply, Fin.sum_univ_four]

theorem one_fin_four : (1 : Matrix4x4 R) = !![1, 0, 0, 0; 0, 1, 0, 0; 0, 0, 1, 0; 0, 0, 0, 1] := by
  ext i j
  fin_cases i <;> fin_cases j <;> rfl

theorem rotationMatrix_x (trig : Trig R) (a : R) : rotationMatrix trig a 1 0 0 = Rx trig a := by
  ext i j
  fin_cases i <;> fin_cases j <;> simp [rotationMatrix, Rx]

theorem rotationMatrix_y (trig : Trig R) (a : R) : rotationMatrix trig a 0 1 0 = Ry trig a := by
  ext i j
  fin_cases i <;> fin_cases j <;> simp [rotationMatrix, Ry]

theorem rotationMatrix_z (trig : Trig R) (a : R) : rotationMatrix trig a 0 0 1 = Rz trig a := by
  ext i j
  fin_cases i <;> fin_cases j <;> simp [rotationMatrix, Rz]

theorem translationMatrix_eq_T (x y z : R) : translationMatrix x y z = T x y z := rfl

/-- The concatenation of the source equals the placement chain of the specification. -/
theorem isocenterToRtImageRas_eq_chain (trig : Trig R) (c : R × R × R) (SAD g a SID : R)
    (p : R × R) (M : Matrix4x4 R) :
    isocenterToRtImageRas trig c SAD g a SID p M = placementChain trig c a g SAD SID p.1 p.2 M := by
  simp [isocenterToRtImageRas, placementChain, vtkTransform.Concatenate, vtkTransform.New,
    vtkTransform.Identity, vtkTransform.PreMultiply, vtkTransform.Translate,
    vtkTransform.RotateWXYZ, vtkTransform.RotateX, vtkTransform.GetMatrix, rotationMatrix_x,
    rotationMatrix_y, rotationMatrix_z, translationMatrix_eq_T]

/-- The chain of the end-to-end scenario, evaluated. -/
theorem placementChain_sample :
    placementChain quarterTurnTrig (0, 0, 0) 0 90 1000 1500 (-200) (-200) 1
      = !![0, 0, 1, 500; 1, 0, 0, 200; 0, 1, 0, -200; 0, 0, 0, 1] := by
  simp only [placementChain, Ry, Rz, Rx, T, quarterTurnTrig, mul_fin_four, one_fin_four]
  norm_num

end MatrixLemmas

section SceneLemmas

variable {R : Type}

theorem Scene.GetItem_modifyItem (s : Scene R) (i j : Nat) (f : ShItem R → ShItem R) :
    (s.modifyItem j f).GetItem i = if i = j then (s.GetItem i).map f else s.GetItem i := by
  unfold Scene.modifyItem Scene.GetItem
  by_cases hj : j < 2
  · by_cases hi : i < 2
    · simp [hi, hj]
    · have : i ≠ j := by omega
      simp [hi, hj, this]
  · by_cases hi : i < 2
    · simp [hi, hj]
    · by_cases hij : i = j
      · subst hij
        simp [hi, List.getElem?_modify]
      · have : j - 2 ≠ i - 2 := by omega
        simp [hi, hj, hij, List.getElem?_modify, this]

end SceneLemmas

section GeometryTheorems

theorem Scene.GetItem_mk_Items {R : Type} (s : Scene R) (k : Nat) (b : Int) (m : List Message)
    (i : Nat) : (Scene.mk s.Items k b m).GetItem i = s.GetItem i := rfl

/-- Matrix stored by the common tail of `SetupRtImageGeometry`. -/
theorem setupGeometryOfPair_matrix {R : Type} [CommRing R] (env : Env R) (s : Scene R)
    (rtImageShItemID beamShItemID : Nat) (volume : vtkMRMLScalarVolumeNode R)
    (beam : vtkMRMLRTBeamNode R) (c : R × R × R)
    (himage : s.GetItemDataNode rtImageShItemID = some (.ScalarVolumeNode volume))
    (hbeam : s.GetItemDataNode beamShItemID = some (.RTBeamNode beam))
    (hiso : s.GetPlanIsocenterPosition beamShItemID = some c) :
    (setupGeometryOfPair env s rtImageShItemID beamShItemID).GetItemDataNode rtImageShItemID
      = some (.ScalarVolumeNode
          { volume with
            IJKToRASMatrix :=
              placementChain env.trig c beam.CouchAngle beam.GantryAngle beam.SAD
                (rtImageSidOf env s rtImageShItemID)
                (rtImagePositionOf env s rtImageShItemID).1
                (rtImagePositionOf env s rtImageShItemID).2 volume.IJKToRASMatrix
            DisplayedModel := some s.ModelNodes }) := by
  have hitem : ∃ it, s.GetItem rtImageShItemID = some it := by
    unfold Scene.GetItemDataNode at himage
    cases h : s.GetItem rtImageShItemID with
    | none => simp [h] at himage
    | some it => exact ⟨it, rfl⟩
  obtain ⟨it, hit⟩ := hitem
  simp only [setupGeometryOfPair, hbeam, hiso, himage, isocenterToRtImageRas_eq_chain]
  simp [Scene.GetItemDataNode, Scene.SetItemDataNode,
    Scene.GetItem_modifyItem, Scene.GetItem_mk_Items, hit]

theorem Scene.IsScalarVolume_of_node {R : Type} (s : Scene R) (i : Nat)
    (volume : vtkMRMLScalarVolumeNode R) (h : s.GetItemDataNode i = some (.ScalarVolumeNode volume)) :
    s.IsScalarVolume i = true := by
  simp [Scene.IsScalarVolume, h]

theorem Scene.exists_volume_of_matrix {R : Type} [CommRing R] (s : Scene R) (i : Nat)
    (M : Matrix4x4 R) (h : s.GetIJKToRASMatrix i = some M) :
    ∃ volume, s.GetItemDataNode i = some (.ScalarVolumeNode volume) ∧ volume.IJKToRASMatrix = M := by
  unfold Scene.GetIJKToRASMatrix at h
  cases hn : s.GetItemDataNode i with
  | none => simp [hn] at h
  | some node =>
    cases node with
    | ScalarVolumeNode volume => exact ⟨volume, rfl, by simpa [hn] using h⟩
    | _ => simp [hn] at h

theorem Scene.IsBeam_of_node {R : Type} (s : Scene R) (i : Nat) (beam : vtkMRMLRTBeamNode R)
    (h : s.GetItemDataNode i = some (.RTBeamNode beam)) :
    s.IsBeam i = true ∧ s.IsScalarVolume i = false := by
  simp [Scene.IsBeam, Scene.IsScalarVolume, h]

/-- C1. When the RT image and its beam are both available, `SetupRtImageGeometry`, entered
with the image volume or with the beam, stores in the image volume the product
`T(c) * Ry(-a) * Rz(g) * T(0, SAD, 0) * T(0, -SID, 0) * T(-px, 0, py) * Rx(90) * M` of the
specification chain, `M` being the matrix of the image before the call, `c` the plan
isocenter, `a`, `g`, `SAD` the couch angle, gantry angle and source-axis distance of the beam,
`SID` and `(px, py)` the distance and position recorded on the image item. -/
theorem setupRtImageGeometry_matrix {R : Type} [CommRing R] (env : Env R) (s : Scene R)
    (rtImageShItemID beamShItemID : vtkIdType) (M : Matrix4x4 R)
    (beam : vtkMRMLRTBeamNode R) (SAD g a SID px py : R) (c : R × R × R)
    (himage : s.GetIJKToRASMatrix rtImageShItemID = some M)
    (hbeam : s.GetItemDataNode beamShItemID = some (.RTBeamNode beam))
    (hsad : beam.SAD = SAD) (hgantry : beam.GantryAngle = g) (hcouch : beam.CouchAngle = a)
    (hiso : s.GetPlanIsocenterPosition beamShItemID = some c)
    (hsid : rtImageSidOf env s rtImageShItemID = SID)
    (hpos : rtImagePositionOf env s rtImageShItemID = (px, py)) :
    -- entry with the image volume: the plan is present and the beam is found by number
    (s.GetItemAttribute rtImageShItemID .DICOMReferencedInstanceUIDs ≠ "" →
      s.GetItemByUID .DICOMInstanceUIDName
        (s.GetItemAttribute rtImageShItemID .DICOMReferencedInstanceUIDs) ≠ INVALID_ITEM_ID →
      s.GetItemAttribute rtImageShItemID .DICOMRTIMPORT_BEAM_NUMBER ≠ "" →
      s.GetBeamByNumber
        (s.GetItemByUID .DICOMInstanceUIDName
          (s.GetItemAttribute rtImageShItemID .DICOMReferencedInstanceUIDs))
        (env.ToInt (s.GetItemAttribute rtImageShItemID .DICOMRTIMPORT_BEAM_NUMBER)) = beamShItemID →
      beamShItemID ≠ INVALID_ITEM_ID →
      (SetupRtImageGeometry env s rtImageShItemID).GetIJKToRASMatrix rtImageShItemID
        = some (T c.1 c.2.1 c.2.2 * Ry env.trig (-a) * Rz env.trig g * T 0 SAD 0 * T 0 (-SID) 0
            * T (-px) 0 py * Rx env.trig 90 * M))
    ∧
    -- entry with the beam: the search over the items ends at the image
    (s.GetParentPlanItem beamShItemID ≠ INVALID_ITEM_ID →
      s.GetItemUID (s.GetParentPlanItem beamShItemID) .DICOMInstanceUIDName ≠ "" →
      searchRtImageForBeam env s (s.GetParentPlanItem beamShItemID) (s.GetBeamNumber beamShItemID)
        (decide (s.GetNumberOfItemChildren (s.GetParentPlanItem beamShItemID) = 1))
        s.GetItemChildren INVALID_ITEM_ID = .finished rtImageShItemID →
      rtImageShItemID ≠ INVALID_ITEM_ID →
      (SetupRtImageGeometry env s beamShItemID).GetIJKToRASMatrix rtImageShItemID
        = some (T c.1 c.2.1 c.2.2 * Ry env.trig (-a) * Rz env.trig g * T 0 SAD 0 * T 0 (-SID) 0
            * T (-px) 0 py * Rx env.trig 90 * M)) := by
  obtain ⟨volume, hnode, hM⟩ := Scene.exists_volume_of_matrix s rtImageShItemID M himage
  have key := setupGeometryOfPair_matrix env s rtImageShItemID beamShItemID volume beam c
    hnode hbeam hiso
  rw [hsid, hpos, hM, hsad, hgantry, hcouch] at key
  have hres : (setupGeometryOfPair env s rtImageShItemID beamShItemID).GetIJKToRASMatrix
      rtImageShItemID = some (T c.1 c.2.1 c.2.2 * Ry env.trig (-a) * Rz env.trig g * T 0 SAD 0
        * T 0 (-SID) 0 * T (-px) 0 py * Rx env.trig 90 * M) := by
    simp [Scene.GetIJKToRASMatrix, key, placementChain]
  constructor
  · intro h1 h2 h3 h4 h5
    have hv := Scene.IsScalarVolume_of_node s rtImageShItemID volume hnode
    subst h4
    simp only [SetupRtImageGeometry, hv, if_true, h1, h2, h3, h5, if_false]
    exact hres
  · intro h1 h2 h3 h4
    have hb := Scene.IsBeam_of_node s beamShItemID beam hbeam
    simp only [SetupRtImageGeometry, hb.1, hb.2, if_true, h1, h2, h3, h4, if_false]
    simpa using hres

/-- Witness of C1: the end-to-end scenario of the specification (gantry 90, couch 0, SAD 1000,
isocenter at the origin, SID 1500, position (-200, -200), identity image matrix), entered
with the image volume and with the beam. -/
theorem setupRtImageGeometry_matrix_witness :
    (SetupRtImageGeometry sampleEnv sampleScene 4).GetIJKToRASMatrix 4
        = some !![0, 0, 1, 500; 1, 0, 0, 200; 0, 1, 0, -200; 0, 0, 0, 1]
    ∧ (SetupRtImageGeometry sampleEnv sampleScene 3).GetIJKToRASMatrix 4
        = some !![0, 0, 1, 500; 1, 0, 0, 200; 0, 1, 0, -200; 0, 0, 0, 1] := by
  have h := setupRtImageGeometry_matrix sampleEnv sampleScene 4 3 1
    ⟨"beam", 1, 0, 0, 0, 0, 90, 0, 0, 1000⟩ 1000 90 0 1500 (-200) (-200) (0, 0, 0)
    rfl rfl rfl rfl rfl rfl rfl rfl
  have hm := congrArg some placementChain_sample
  simp only [placementChain] at hm
  constructor
  · rw [h.1 (by decide) (by decide) (by decide) rfl (by decide)]
    exact hm
  · rw [h.2 (by decide) (by decide) rfl (by decide)]
    exact hm

end GeometryTheorems

section SequenceLemmas

variable {α : Type} [DRTItem α] {σ : Type}

/-- The do-while loop over a generated sequence runs its body on every item from the
iterator on, and once more on the empty default item. -/
theorem DRTSequence.doWhileNext_eq_foldl (body : σ → α → σ) :
    ∀ (fuel : Nat) (seq : DRTSequence α) (acc : σ),
      seq.CurrentItem ≤ seq.SequenceOfItems.length →
      seq.SequenceOfItems.length + 1 ≤ fuel + seq.CurrentItem →
      DRTSequence.doWhileNext body fuel seq acc
        = (seq.SequenceOfItems.drop seq.CurrentItem ++ [DRTItem.EmptyItem]).foldl body acc := by
  intro fuel
  induction fuel with
  | zero =>
    intro seq acc h1 h2
    omega
  | succ fuel ih =>
    intro seq acc h1 h2
    by_cases hc : seq.CurrentItem = seq.SequenceOfItems.length
    · simp [DRTSequence.doWhileNext, DRTSequence.gotoNextItem, DRTSequence.getCurrentItem, hc,
        OFCondition.good]
    · have hlt : seq.CurrentItem < seq.SequenceOfItems.length := by omega
      have hdrop := List.drop_eq_getElem_cons hlt
      simp only [DRTSequence.doWhileNext, DRTSequence.gotoNextItem, DRTSequence.getCurrentItem, hc,
        ne_eq, not_false_eq_true, if_true, OFCondition.good]
      rw [ih _ _ (by simpa using hlt) (by simp; omega)]
      simp only [List.getElem?_eq_getElem hlt, Option.getD_some]
      conv_rhs => rw [hdrop]
      rfl

/-- The guarded loop idiom over a sequence: nothing for an empty sequence, otherwise the body
on every item and once on the empty default item. -/
theorem DRTSequence.forAllItems_eq_foldl (seq : DRTSequence α) (body : σ → α → σ) (acc : σ) :
    seq.forAllItems body acc
      = if seq.SequenceOfItems.isEmpty then acc
        else (seq.SequenceOfItems ++ [DRTItem.EmptyItem]).foldl body acc := by
  cases hitems : seq.SequenceOfItems with
  | nil => simp [DRTSequence.forAllItems, DRTSequence.gotoFirstItem, hitems, OFCondition.good]
  | cons a l =>
    have h := DRTSequence.doWhileNext_eq_foldl body (seq.SequenceOfItems.length + 1)
      ({ seq with CurrentItem := 0 }) acc (by simp) (by simp)
    simp only [hitems] at h
    simp only [List.length_cons, List.drop_zero] at h
    simp [DRTSequence.forAllItems, DRTSequence.gotoFirstItem, hitems, OFCondition.good, h]

end SequenceLemmas

section ExaminerTheorems

/-- C7. Name assembled by `ExamineRtPlanDataset` from an empty name: label and name both
present and different give `RTPLAN: L (N)`; present and equal give `RTPLAN: L`; only the
label gives `RTPLAN: L`; only the name gives `RTPLAN: N`; neither gives `RTPLAN`. -/
theorem examineRtPlanDataset_name (dataset : DcmDataset) (refs : List String) :
    (dataset.RTPlanLabel ≠ "" → dataset.RTPlanName ≠ "" →
        dataset.RTPlanLabel ≠ dataset.RTPlanName →
        (ExamineRtPlanDataset (some dataset) "" refs).1
          = "RTPLAN: " ++ dataset.RTPlanLabel ++ " (" ++ dataset.RTPlanName ++ ")")
    ∧ (dataset.RTPlanLabel ≠ "" → dataset.RTPlanName ≠ "" →
        dataset.RTPlanLabel = dataset.RTPlanName →
        (ExamineRtPlanDataset (some dataset) "" refs).1 = "RTPLAN: " ++ dataset.RTPlanLabel)
    ∧ (dataset.RTPlanLabel ≠ "" → dataset.RTPlanName = "" →
        (ExamineRtPlanDataset (some dataset) "" refs).1 = "RTPLAN: " ++ dataset.RTPlanLabel)
    ∧ (dataset.RTPlanLabel = "" → dataset.RTPlanName ≠ "" →
        (ExamineRtPlanDataset (some dataset) "" refs).1 = "RTPLAN: " ++ dataset.RTPlanName)
    ∧ (dataset.RTPlanLabel = "" → dataset.RTPlanName = "" →
        (ExamineRtPlanDataset (some dataset) "" refs).1 = "RTPLAN") := by
  have e1 : ("" : String) ++ "RTPLAN" = "RTPLAN" := rfl
  have e2 : ∀ x : String, "RTPLAN" ++ (": " ++ x) = "RTPLAN: " ++ x := by
    intro x
    rw [← String.append_assoc]
    rfl
  refine ⟨?_, ?_, ?_, ?_, ?_⟩
  · intro h1 h2 h3
    simp only [ExamineRtPlanDataset, e1, h1, h2, h3, ne_eq, not_false_eq_true, and_self, if_true]
    simp only [String.append_assoc]
    exact e2 _
  · intro h1 h2 h3
    simp [ExamineRtPlanDataset, e1, h1, h2, h3, e2]
  · intro h1 h2
    simp [ExamineRtPlanDataset, e1, h1, h2, e2]
  · intro h1 h2
    simp [ExamineRtPlanDataset, e1, h1, h2, e2]
  · intro h1 h2
    simp [ExamineRtPlanDataset, e1, h1, h2]


/-- Witness of C7: the five cases at concrete labels and names. -/
theorem examineRtPlanDataset_name_witness :
    (ExamineRtPlanDataset (some (planDataset "Prostate" "Boost")) "" []).1 = "RTPLAN: Prostate (Boost)"
    ∧ (ExamineRtPlanDataset (some (planDataset "Prostate" "Prostate")) "" []).1 = "RTPLAN: Prostate"
    ∧ (ExamineRtPlanDataset (some (planDataset "Prostate" "")) "" []).1 = "RTPLAN: Prostate"
    ∧ (ExamineRtPlanDataset (some (planDataset "" "Boost")) "" []).1 = "RTPLAN: Boost"
    ∧ (ExamineRtPlanDataset (some (planDataset "" "")) "" []).1 = "RTPLAN" :=
  ⟨(examineRtPlanDataset_name (planDataset "Prostate" "Boost") []).1
      (by decide) (by decide) (by decide),
   (examineRtPlanDataset_name (planDataset "Prostate" "Prostate") []).2.1
      (by decide) (by decide) rfl,
   (examineRtPlanDataset_name (planDataset "Prostate" "") []).2.2.1 (by decide) rfl,
   (examineRtPlanDataset_name (planDataset "" "Boost") []).2.2.2.1 rfl (by decide),
   (examineRtPlanDataset_name (planDataset "" "") []).2.2.2.2 rfl rfl⟩

end ExaminerTheorems

section ExaminerReferenceTheorems

/-- What `doseReferencedPlan` returns, in terms of the first item of the sequence. -/
theorem doseReferencedPlan_eq (dataset : DcmDataset) (refs : List String) :
    doseReferencedPlan dataset refs
      = ((firstReferencedRTPlanUID dataset).getD "",
          refs ++ (firstReferencedRTPlanUID dataset).toList) := by
  unfold doseReferencedPlan firstReferencedRTPlanUID
  cases hobj : dataset.rtDoseObject with
  | none => simp
  | some obj =>
    cases hitems : obj.ReferencedRTPlanSequence.SequenceOfItems with
    | nil =>
      simp [DRTSequence.gotoFirstItem, hitems, OFCondition.good]
    | cons item rest =>
      cases hflag : item.EmptyDefaultItem <;> cases huid : item.ReferencedSOPInstanceUID <;>
        simp [DRTSequence.gotoFirstItem, DRTSequence.getCurrentItem, hitems, OFCondition.good,
          DRTItem.isValid, ReferencedInstanceItem.getReferencedSOPInstanceUID, hflag, huid]

/-- C8. For a dose dataset whose referenced plan has no match in the file registry,
`ExamineRtDoseDataset` started with an empty name and an empty list produces `RTDOSE`,
followed by `: D` exactly when the series description `D` is non-empty, followed by ` [I]`
exactly when the instance number `I` is non-empty; the referenced UID list is the single SOP
Instance UID of the first item of the Referenced RT Plan sequence when there is one, and
empty otherwise. -/
theorem examineRtDoseDataset_name_and_reference (dicomDatabase : ctkDICOMDatabase)
    (dataset : DcmDataset)
    (hregistry :
      dicomDatabase.fileForInstance ((firstReferencedRTPlanUID dataset).getD "") = "") :
    ExamineRtDoseDataset dicomDatabase (some dataset) "" []
      = ("RTDOSE"
            ++ (if dataset.SeriesDescription ≠ "" then ": " ++ dataset.SeriesDescription else "")
            ++ (if dataset.InstanceNumber ≠ "" then " [" ++ dataset.InstanceNumber ++ "]" else ""),
          match firstReferencedRTPlanUID dataset with
          | some uid => [uid]
          | none => []) := by
  have e1 : ("" : String) ++ "RTDOSE" = "RTDOSE" := rfl
  have e2 : ∀ x : String, x ++ "" = x := String.append_empty
  simp only [ExamineRtDoseDataset, doseReferencedPlan_eq, hregistry, e1, List.nil_append]
  refine Prod.ext ?_ ?_
  · by_cases hD : dataset.SeriesDescription = "" <;> by_cases hI : dataset.InstanceNumber = "" <;>
      simp [hD, hI, e2]
  · cases firstReferencedRTPlanUID dataset <;> simp

/-- Witness of C8: series description `Dose`, instance number `7`, referenced plan `1.2.3`,
empty registry. -/
theorem examineRtDoseDataset_name_and_reference_witness :
    ExamineRtDoseDataset emptyDatabase (some doseDataset) "" [] = ("RTDOSE: Dose [7]", ["1.2.3"]) :=
  examineRtDoseDataset_name_and_reference emptyDatabase doseDataset rfl

/-- C9, evaluation at the failing input.  The structure set has one ROI with one valid
contour whose image reference names the instance `1.2.3`; the examiner returns an empty
referenced UID list, because the contour loop reads the image references only of items for
which `isValid` is false (line 320). -/
theorem examineRtStructureSetDataset_drops_contour_reference :
    DRTItem.isValid (⟨false, ⟨false, [⟨false, some "1.2.3"⟩], 0⟩⟩ : ContourItem) = true
    ∧ ExamineRtStructureSetDataset (some contourReferenceDataset) "" [] = ("RTSTRUCT", []) := by
  decide


/-- The loop body over the image references of a series appends the readable UIDs. -/
theorem foldl_examineSeriesImage (items : List ReferencedInstanceItem) (refs : List String) :
    items.foldl examineSeriesImage refs
      = refs ++ items.filterMap
          (fun item => if item.EmptyDefaultItem then none else item.ReferencedSOPInstanceUID) := by
  induction items generalizing refs with
  | nil => simp
  | cons item rest ih =>
    rw [List.foldl_cons, ih]
    cases hflag : item.EmptyDefaultItem <;> cases huid : item.ReferencedSOPInstanceUID <;>
      simp [examineSeriesImage, DRTItem.isValid, ReferencedInstanceItem.getReferencedSOPInstanceUID,
        hflag, huid, OFCondition.good]

/-- The guarded loop over the image references of a series appends the readable UIDs. -/
theorem forAllItems_examineSeriesImage (seq : DRTSequence ReferencedInstanceItem)
    (refs : List String) :
    seq.forAllItems examineSeriesImage refs = refs ++ imageReferenceUIDs seq := by
  rw [DRTSequence.forAllItems_eq_foldl]
  cases hitems : seq.SequenceOfItems with
  | nil => simp [imageReferenceUIDs, hitems]
  | cons a l =>
    simp only [List.isEmpty_cons, Bool.false_eq_true, if_false]
    rw [foldl_examineSeriesImage, List.filterMap_append]
    simp [imageReferenceUIDs, hitems, DRTItem.EmptyItem]

/-- The structure-set-level chain appends the image references of the first series of the
first study of the first frame of reference. -/
theorem examineReferencedFrameOfReference_eq (rtStructureSetObject : DRTStructureSetIOD)
    (refs : List String) :
    examineReferencedFrameOfReference rtStructureSetObject refs
      = refs ++ firstSeriesImageUIDs rtStructureSetObject := by
  unfold examineReferencedFrameOfReference firstSeriesImageUIDs
  cases hf : rtStructureSetObject.ReferencedFrameOfReferenceSequence.SequenceOfItems with
  | nil => simp [DRTSequence.gotoFirstItem, hf, OFCondition.good]
  | cons frame _ =>
    cases hfv : frame.EmptyDefaultItem
    · cases hs : frame.RTReferencedStudySequence.SequenceOfItems with
      | nil =>
        simp [DRTSequence.gotoFirstItem, DRTSequence.getCurrentItem, hf, hfv, hs, OFCondition.good,
          DRTItem.isValid]
      | cons study _ =>
        cases hsv : study.EmptyDefaultItem
        · cases hr : study.RTReferencedSeriesSequence.SequenceOfItems with
          | nil =>
            simp [DRTSequence.gotoFirstItem, DRTSequence.getCurrentItem, hf, hfv, hs, hsv, hr,
              OFCondition.good, DRTItem.isValid]
          | cons series _ =>
            cases hrv : series.EmptyDefaultItem
            · simp [DRTSequence.gotoFirstItem, DRTSequence.getCurrentItem, hf, hfv, hs, hsv, hr,
                hrv, OFCondition.good, DRTItem.isValid, forAllItems_examineSeriesImage]
            · simp [DRTSequence.gotoFirstItem, DRTSequence.getCurrentItem, hf, hfv, hs, hsv, hr,
                hrv, OFCondition.good, DRTItem.isValid]
        · simp [DRTSequence.gotoFirstItem, DRTSequence.getCurrentItem, hf, hfv, hs, hsv,
            OFCondition.good, DRTItem.isValid]
    · simp [DRTSequence.gotoFirstItem, DRTSequence.getCurrentItem, hf, hfv, OFCondition.good,
        DRTItem.isValid]

/-- A contour without image references adds nothing, and neither does the empty default
contour item. -/
theorem examineContour_of_no_reference (refs : List String) (contourItem : ContourItem)
    (h : contourItem.ContourImageSequence.SequenceOfItems = []) :
    examineContour refs contourItem = refs := by
  simp [examineContour, DRTSequence.gotoFirstItem, h, OFCondition.good]

theorem foldl_examineContour_of_no_reference (items : List ContourItem) (refs : List String)
    (h : ∀ c ∈ items, c.ContourImageSequence.SequenceOfItems = []) :
    items.foldl examineContour refs = refs := by
  induction items generalizing refs with
  | nil => rfl
  | cons c rest ih =>
    rw [List.foldl_cons, examineContour_of_no_reference refs c (h c (List.mem_cons_self _ _))]
    exact ih refs (fun d hd => h d (List.mem_cons_of_mem _ hd))

/-- An ROI whose contours carry no image reference adds nothing. -/
theorem examineRoi_of_no_reference (refs : List String) (roi : ROIContourItem)
    (h : ∀ c ∈ roi.ContourSequence.SequenceOfItems, c.ContourImageSequence.SequenceOfItems = []) :
    examineRoi refs roi = refs := by
  unfold examineRoi
  split
  · rw [DRTSequence.forAllItems_eq_foldl]
    split
    · rfl
    · apply foldl_examineContour_of_no_reference
      intro c hc
      rcases List.mem_append.1 hc with hc | hc
      · exact h c hc
      · simp only [List.mem_singleton] at hc
        subst hc
        rfl
  · rfl

theorem foldl_examineRoi_of_no_reference (items : List ROIContourItem) (refs : List String)
    (h : ∀ roi ∈ items, ∀ c ∈ roi.ContourSequence.SequenceOfItems,
      c.ContourImageSequence.SequenceOfItems = []) :
    items.foldl examineRoi refs = refs := by
  induction items generalizing refs with
  | nil => rfl
  | cons roi rest ih =>
    rw [List.foldl_cons, examineRoi_of_no_reference refs roi (h roi (List.mem_cons_self _ _))]
    exact ih refs (fun d hd => h d (List.mem_cons_of_mem _ hd))

/-- The per-ROI chain of a structure set whose contours carry no image reference adds
nothing. -/
theorem forAllItems_examineRoi_of_no_reference (seq : DRTSequence ROIContourItem)
    (refs : List String)
    (h : ∀ roi ∈ seq.SequenceOfItems, ∀ c ∈ roi.ContourSequence.SequenceOfItems,
      c.ContourImageSequence.SequenceOfItems = []) :
    seq.forAllItems examineRoi refs = refs := by
  rw [DRTSequence.forAllItems_eq_foldl]
  split
  · rfl
  · apply foldl_examineRoi_of_no_reference
    intro roi hroi
    rcases List.mem_append.1 hroi with hroi | hroi
    · exact h roi hroi
    · simp only [List.mem_singleton] at hroi
      subst hroi
      intro c hc
      simp [DRTItem.EmptyItem] at hc

/-- C10, counterexample.  A structure set without ROI contours whose first referenced series
lists the image instance `1.2.3` twice: the referenced UID list holds that UID twice. -/
theorem examineRtStructureSetDataset_repeats_uid :
    (ExamineRtStructureSetDataset (some repeatedReferenceDataset) "" []).2 = ["1.2.3", "1.2.3"]
    ∧ ¬ (ExamineRtStructureSetDataset (some repeatedReferenceDataset) "" []).2.Nodup := by
  decide

/-- C10, amended.  `ExamineRtStructureSetDataset` removes no repeated UID.  For every
structure set whose contours carry no image reference, the list produced from an empty list is
the list of the SOP Instance UIDs of the image references of the first referenced series, in
order.  Every UID is in the list as many times as those image references name it: a repeated
image reference is repeated in the list, and the list contains no SOP Instance UID twice
exactly when the image references name pairwise different instances. -/
theorem examineRtStructureSetDataset_nodup (dataset : DcmDataset) (name : String)
    (rtStructureSetObject : DRTStructureSetIOD)
    (hobject : dataset.rtStructureSetObject = some rtStructureSetObject)
    (hcontours : ∀ roi ∈ rtStructureSetObject.ROIContourSequence.SequenceOfItems,
      ∀ c ∈ roi.ContourSequence.SequenceOfItems, c.ContourImageSequence.SequenceOfItems = []) :
    (ExamineRtStructureSetDataset (some dataset) name []).2
        = firstSeriesImageUIDs rtStructureSetObject
    ∧ (∀ uid : String, (ExamineRtStructureSetDataset (some dataset) name []).2.count uid
        = (firstSeriesImageUIDs rtStructureSetObject).count uid)
    ∧ ((ExamineRtStructureSetDataset (some dataset) name []).2.Nodup
        ↔ (firstSeriesImageUIDs rtStructureSetObject).Nodup) := by
  have h : (ExamineRtStructureSetDataset (some dataset) name []).2
      = firstSeriesImageUIDs rtStructureSetObject := by
    simp [ExamineRtStructureSetDataset, hobject,
      forAllItems_examineRoi_of_no_reference _ _ hcontours, examineReferencedFrameOfReference_eq]
  exact ⟨h, fun uid => by rw [h], by rw [h]⟩

/-- Witness of the amended C10: a structure set without contours whose first referenced series
names the instances `1.2.3` and `1.2.4`. -/
theorem examineRtStructureSetDataset_nodup_witness :
    (ExamineRtStructureSetDataset (some distinctReferenceDataset) "" []).2 = ["1.2.3", "1.2.4"]
    ∧ (ExamineRtStructureSetDataset (some distinctReferenceDataset) "" []).2.Nodup :=
  ⟨(examineRtStructureSetDataset_nodup distinctReferenceDataset "" _ rfl (by decide)).1,
   (examineRtStructureSetDataset_nodup distinctReferenceDataset "" _ rfl (by decide)).2.2.2
     (by decide)⟩

end ExaminerReferenceTheorems

section FrameLemmas

variable {R : Type}

theorem Scene.GetItem_log (s : Scene R) (sev : Severity) (text : String) (i : Nat) :
    (s.log sev text).GetItem i = s.GetItem i := rfl

theorem Scene.GetItem_of_length_le (s : Scene R) (i : Nat) (h : s.Items.length + 2 ≤ i) :
    s.GetItem i = none := by
  unfold Scene.GetItem
  have : ¬ i < 2 := by omega
  simp only [this, if_false]
  exact List.getElem?_eq_none (by omega)

theorem Scene.GetItem_CreateItem (s : Scene R) (parent : Nat) (name : String)
    (node : Option (vtkMRMLNode R)) (i : Nat) :
    (s.CreateItem parent name node).1.GetItem i
      = if i = s.Items.length + 2 then some ⟨parent, name, fun _ => "", fun _ => "", node⟩
        else s.GetItem i := by
  unfold Scene.CreateItem Scene.GetItem
  by_cases h2 : i < 2
  · have : i ≠ s.Items.length + 2 := by omega
    simp [h2, this]
  · by_cases hi : i = s.Items.length + 2
    · subst hi
      simp
    · simp only [h2, hi, if_false]
      rw [List.getElem?_append]
      by_cases hlt : i - 2 < s.Items.length
      · simp [hlt]
      · simp only [hlt, if_false]
        rw [List.getElem?_eq_none (by simp; omega), List.getElem?_eq_none (by omega)]

theorem Scene.CreateItem_id (s : Scene R) (parent : Nat) (name : String)
    (node : Option (vtkMRMLNode R)) : (s.CreateItem parent name node).2 = s.Items.length + 2 := rfl

theorem Scene.AddNode_id (s : Scene R) (name : String) (node : vtkMRMLNode R) :
    (s.AddNode name node).2 = s.Items.length + 2 := rfl

/-- Data node of an item after a change of the item that keeps its data node. -/
theorem Scene.GetItemDataNode_modifyItem_keep (s : Scene R) (i j : Nat) (f : ShItem R → ShItem R)
    (hf : ∀ it, (f it).DataNode = it.DataNode) :
    (s.modifyItem j f).GetItemDataNode i = s.GetItemDataNode i := by
  unfold Scene.GetItemDataNode
  rw [Scene.GetItem_modifyItem]
  by_cases h : i = j
  · simp only [h, if_true]
    cases s.GetItem j with
    | none => rfl
    | some it => simp [hf]
  · simp [h]

@[simp] theorem Scene.GetItemDataNode_ite (c : Prop) [Decidable c] (a b : Scene R) (i : Nat) :
    (if c then a else b).GetItemDataNode i
      = if c then a.GetItemDataNode i else b.GetItemDataNode i := by
  split_ifs <;> rfl

@[simp] theorem Scene.GetItemDataNode_SetItemAttribute (s : Scene R) (i j : Nat) (a : AttributeName)
    (v : String) : (s.SetItemAttribute j a v).GetItemDataNode i = s.GetItemDataNode i :=
  Scene.GetItemDataNode_modifyItem_keep s i j _ (fun _ => rfl)

@[simp] theorem Scene.GetItemDataNode_SetItemUID (s : Scene R) (i j : Nat) (a : UIDName)
    (v : String) : (s.SetItemUID j a v).GetItemDataNode i = s.GetItemDataNode i :=
  Scene.GetItemDataNode_modifyItem_keep s i j _ (fun _ => rfl)

@[simp] theorem Scene.GetItemDataNode_SetItemName (s : Scene R) (i j : Nat) (v : String) :
    (s.SetItemName j v).GetItemDataNode i = s.GetItemDataNode i :=
  Scene.GetItemDataNode_modifyItem_keep s i j _ (fun _ => rfl)

@[simp] theorem Scene.GetItemDataNode_SetItemParent (s : Scene R) (i j p : Nat) :
    (s.SetItemParent j p).GetItemDataNode i = s.GetItemDataNode i :=
  Scene.GetItemDataNode_modifyItem_keep s i j _ (fun _ => rfl)

@[simp] theorem Scene.GetItemDataNode_log (s : Scene R) (sev : Severity) (text : String) (i : Nat) :
    (s.log sev text).GetItemDataNode i = s.GetItemDataNode i := rfl

@[simp] theorem Scene.GetItemDataNode_StartState (s : Scene R) (i : Nat) :
    s.StartState.GetItemDataNode i = s.GetItemDataNode i := rfl

@[simp] theorem Scene.GetItemDataNode_EndState (s : Scene R) (i : Nat) :
    s.EndState.GetItemDataNode i = s.GetItemDataNode i := rfl

theorem Scene.GetItemDataNode_CreateItem (s : Scene R) (parent : Nat) (name : String)
    (node : Option (vtkMRMLNode R)) (i : Nat) :
    (s.CreateItem parent name node).1.GetItemDataNode i
      = if i = s.Items.length + 2 then node else s.GetItemDataNode i := by
  unfold Scene.GetItemDataNode
  rw [Scene.GetItem_CreateItem]
  by_cases h : i = s.Items.length + 2 <;> simp [h]

@[simp] theorem Scene.GetItemDataNode_CreateItem_none (s : Scene R) (parent : Nat) (name : String)
    (i : Nat) : (s.CreateItem parent name none).1.GetItemDataNode i = s.GetItemDataNode i := by
  rw [Scene.GetItemDataNode_CreateItem]
  by_cases h : i = s.Items.length + 2
  · simp only [h, if_true]
    unfold Scene.GetItemDataNode
    rw [Scene.GetItem_of_length_le s _ (Nat.le_refl _)]
  · simp [h]

theorem Scene.GetItemDataNode_SetItemDataNode (s : Scene R) (i j : Nat) (node : vtkMRMLNode R) :
    (s.SetItemDataNode j node).GetItemDataNode i
      = if i = j ∧ (s.GetItem j).isSome then some node else s.GetItemDataNode i := by
  unfold Scene.GetItemDataNode Scene.SetItemDataNode
  rw [Scene.GetItem_modifyItem]
  by_cases h : i = j
  · subst h
    cases s.GetItem i <;> simp
  · simp [h]

@[simp] theorem Scene.GetItemDataNode_CreateItemWithUID (s : Scene R) (parent : Nat)
    (name uid : String) (i : Nat) :
    (s.CreateItemWithUID parent name uid).GetItemDataNode i = s.GetItemDataNode i := by
  simp [Scene.CreateItemWithUID]

@[simp] theorem Scene.GetItemDataNode_ensurePatientItem (s : Scene R) (patientId : String)
    (i : Nat) : (s.ensurePatientItem patientId).GetItemDataNode i = s.GetItemDataNode i := by
  simp [Scene.ensurePatientItem]

@[simp] theorem Scene.GetItemDataNode_ensureStudyItem (s : Scene R) (patientId studyUid : String)
    (i : Nat) : (s.ensureStudyItem patientId studyUid).GetItemDataNode i = s.GetItemDataNode i := by
  simp [Scene.ensureStudyItem]

/-- The series insertion of the hierarchy resolver changes no data node. -/
@[simp] theorem Scene.GetItemDataNode_InsertDicomSeriesInHierarchy (s : Scene R)
    (patientId studyUid seriesUid : String) (i : Nat) :
    (s.InsertDicomSeriesInHierarchy patientId studyUid seriesUid).1.GetItemDataNode i
      = s.GetItemDataNode i := by
  unfold Scene.InsertDicomSeriesInHierarchy
  split_ifs <;> simp

@[simp] theorem GetItemDataNode_fillPatientItem (env : Env R) (s : Scene R)
    (rtReader : vtkSlicerDicomRtReader R) (i : Nat) :
    (fillPatientItem env s rtReader).GetItemDataNode i = s.GetItemDataNode i := by
  simp [fillPatientItem]

@[simp] theorem GetItemDataNode_fillStudyItem (env : Env R) (s : Scene R)
    (rtReader : vtkSlicerDicomRtReader R) (i : Nat) :
    (fillStudyItem env s rtReader).GetItemDataNode i = s.GetItemDataNode i := by
  simp [fillStudyItem]

/-- Function `InsertSeriesInSubjectHierarchy` changes no data node. -/
@[simp] theorem GetItemDataNode_InsertSeriesInSubjectHierarchy (env : Env R) (s : Scene R)
    (rtReader : vtkSlicerDicomRtReader R) (i : Nat) :
    (InsertSeriesInSubjectHierarchy env s rtReader).GetItemDataNode i = s.GetItemDataNode i := by
  simp [InsertSeriesInSubjectHierarchy]

end FrameLemmas

section DoseTheorems

variable {R : Type} [CommRing R]

/-- The scaling loop multiplies the voxels from `floatPtr` on, `rounds` of them, and leaves
the others as they are. -/
theorem applyDoseGridScaling_getElem? (doseGridScaling : R) :
    ∀ (rounds floatPtr : Nat) (data : List R) (i : Nat),
      (applyDoseGridScaling doseGridScaling rounds floatPtr data)[i]?
        = if floatPtr ≤ i ∧ i < floatPtr + rounds then
            (data[i]?).map (fun value => value * doseGridScaling)
          else data[i]? := by
  intro rounds
  induction rounds with
  | zero =>
    intro floatPtr data i
    have : ¬ (floatPtr ≤ i ∧ i < floatPtr) := by omega
    simp [applyDoseGridScaling, this]
  | succ rounds ih =>
    intro floatPtr data i
    rw [applyDoseGridScaling, ih, List.getElem?_modify]
    by_cases h1 : floatPtr = i
    · subst h1
      have h2 : ¬ (floatPtr + 1 ≤ floatPtr ∧ floatPtr < floatPtr + 1 + rounds) := by omega
      have h3 : floatPtr ≤ floatPtr ∧ floatPtr < floatPtr + (rounds + 1) := by omega
      simp [h2]
    · by_cases h4 : floatPtr + 1 ≤ i ∧ i < floatPtr + 1 + rounds
      · have h5 : floatPtr ≤ i ∧ i < floatPtr + (rounds + 1) := by omega
        simp only [h1, h4, h5, if_false, if_true]
        cases data[i]? <;> simp
      · have h5 : ¬ (floatPtr ≤ i ∧ i < floatPtr + (rounds + 1)) := by omega
        simp only [h1, h4, h5, if_false]
        cases data[i]? <;> simp

theorem applyDoseGridScaling_length (doseGridScaling : R) :
    ∀ (rounds floatPtr : Nat) (data : List R),
      (applyDoseGridScaling doseGridScaling rounds floatPtr data).length = data.length := by
  intro rounds
  induction rounds with
  | zero => intro floatPtr data; rfl
  | succ rounds ih => intro floatPtr data; rw [applyDoseGridScaling, ih, List.length_modify]

/-- The volume node that `LoadRtDose` adds when the file can be read. -/
theorem loadRtDose_volume (env : Env R) (s : Scene R) (rtReader : vtkSlicerDicomRtReader R)
    (loadable : vtkSlicerDICOMLoadable R) (ijkToRas : Matrix4x4 R) (raw : List R)
    (hread : loadable.ReadData = some (ijkToRas, raw)) :
    (LoadRtDose env s rtReader loadable).1.GetItemDataNode (s.Items.length + 2)
      = some (.ScalarVolumeNode
          ⟨ijkToRas,
            applyDoseGridScaling (env.ToDouble rtReader.DoseGridScaling) raw.length 0 raw,
            none, true⟩) := by
  have hitem : ∀ (t : Scene R) (n : vtkMRMLNode R),
      t.Items = s.Items ++ [⟨SceneItemID, loadable.Name, fun _ => "", fun _ => "",
        some (.ScalarVolumeNode ⟨ijkToRas, raw, none, true⟩)⟩] →
      (t.SetItemDataNode (s.Items.length + 2) n).GetItemDataNode (s.Items.length + 2) = some n := by
    intro t n ht
    rw [Scene.GetItemDataNode_SetItemDataNode]
    simp [Scene.GetItem, ht]
  unfold LoadRtDose
  simp only [hread]
  split_ifs with h1 h2 h3 h4
  all_goals
    simp [Scene.CreateItemForNode, setDoseUnitAttributes, Scene.AddNode_id]
  all_goals exact hitem _ _ rfl

/-- C4. For every RT dose whose file can be read, with grid scaling factor `s` (the number
read from the reader's dose grid scaling string), the volume produced by `LoadRtDose` has as
many voxels as the loaded grid, and its voxel at every index `i` of the grid is `s` times the
raw voxel value at `i`: every voxel is scaled, each exactly once. -/
theorem loadRtDose_voxels_scaled (env : Env R) (s : Scene R)
    (rtReader : vtkSlicerDicomRtReader R) (loadable : vtkSlicerDICOMLoadable R)
    (ijkToRas : Matrix4x4 R) (raw : List R)
    (hread : loadable.ReadData = some (ijkToRas, raw)) :
    ∃ volume : vtkMRMLScalarVolumeNode R,
      (LoadRtDose env s rtReader loadable).1.GetItemDataNode (s.Items.length + 2)
        = some (.ScalarVolumeNode volume)
      ∧ volume.ImageData.length = raw.length
      ∧ ∀ (i : Nat) (hi : i < raw.length),
          volume.ImageData[i]? = some (env.ToDouble rtReader.DoseGridScaling * raw[i]) := by
  refine ⟨_, loadRtDose_volume env s rtReader loadable ijkToRas raw hread, ?_, ?_⟩
  · exact applyDoseGridScaling_length _ _ _ _
  · intro i hi
    have h : 0 ≤ i ∧ i < 0 + raw.length := by omega
    simp only [applyDoseGridScaling_getElem?, h, and_self, if_true,
      List.getElem?_eq_getElem hi, Option.map_some']
    rw [mul_comm]

/-- Witness of C4: a grid of three voxels 1, 2, 3 scaled by 1000. -/
theorem loadRtDose_voxels_scaled_witness :
    ∃ volume : vtkMRMLScalarVolumeNode ℤ,
      (LoadRtDose sampleEnv Scene.empty sampleDoseReader sampleDoseLoadable).1.GetItemDataNode 2
        = some (.ScalarVolumeNode volume)
      ∧ volume.ImageData.length = 3
      ∧ ∀ (i : Nat) (hi : i < [(1 : ℤ), 2, 3].length),
          volume.ImageData[i]? = some (1000 * [(1 : ℤ), 2, 3][i]) :=
  loadRtDose_voxels_scaled sampleEnv Scene.empty sampleDoseReader sampleDoseLoadable 1 [1, 2, 3] rfl

end DoseTheorems

section DataNodeLemmas

variable {R : Type}

@[simp] theorem Scene.DataNodes_log (s : Scene R) (sev : Severity) (text : String) :
    (s.log sev text).DataNodes = s.DataNodes := rfl

@[simp] theorem Scene.DataNodes_StartState (s : Scene R) : s.StartState.DataNodes = s.DataNodes := rfl

@[simp] theorem Scene.DataNodes_EndState (s : Scene R) : s.EndState.DataNodes = s.DataNodes := rfl

@[simp] theorem Scene.DataNodes_length (s : Scene R) : s.DataNodes.length = s.Items.length := by
  simp [Scene.DataNodes]

theorem Scene.DataNodes_modifyItem_keep (s : Scene R) (j : Nat) (f : ShItem R → ShItem R)
    (hf : ∀ it, (f it).DataNode = it.DataNode) : (s.modifyItem j f).DataNodes = s.DataNodes := by
  unfold Scene.modifyItem Scene.DataNodes
  split_ifs
  · rfl
  · apply List.ext_getElem?
    intro k
    simp only [List.getElem?_map, List.getElem?_modify]
    cases s.Items[k]? with
    | none => rfl
    | some it =>
      by_cases h : j - 2 = k <;> simp [h, hf]

@[simp] theorem Scene.DataNodes_SetItemAttribute (s : Scene R) (j : Nat) (a : AttributeName)
    (v : String) : (s.SetItemAttribute j a v).DataNodes = s.DataNodes :=
  Scene.DataNodes_modifyItem_keep s j _ (fun _ => rfl)

@[simp] theorem Scene.DataNodes_SetItemUID (s : Scene R) (j : Nat) (a : UIDName) (v : String) :
    (s.SetItemUID j a v).DataNodes = s.DataNodes :=
  Scene.DataNodes_modifyItem_keep s j _ (fun _ => rfl)

@[simp] theorem Scene.DataNodes_SetItemName (s : Scene R) (j : Nat) (v : String) :
    (s.SetItemName j v).DataNodes = s.DataNodes :=
  Scene.DataNodes_modifyItem_keep s j _ (fun _ => rfl)

@[simp] theorem Scene.DataNodes_SetItemParent (s : Scene R) (j p : Nat) :
    (s.SetItemParent j p).DataNodes = s.DataNodes :=
  Scene.DataNodes_modifyItem_keep s j _ (fun _ => rfl)

@[simp] theorem Scene.DataNodes_CreateItem (s : Scene R) (parent : Nat) (name : String)
    (node : Option (vtkMRMLNode R)) :
    (s.CreateItem parent name node).1.DataNodes = s.DataNodes ++ [node] := by
  simp [Scene.CreateItem, Scene.DataNodes]

@[simp] theorem Scene.DataNodes_AddNode (s : Scene R) (name : String) (node : vtkMRMLNode R) :
    (s.AddNode name node).1.DataNodes = s.DataNodes ++ [some node] := by
  simp [Scene.AddNode]

theorem Scene.DataNodes_SetItemDataNode (s : Scene R) (k : Nat) (node : vtkMRMLNode R) :
    (s.SetItemDataNode (k + 2) node).DataNodes = s.DataNodes.set k (some node) := by
  unfold Scene.SetItemDataNode Scene.modifyItem Scene.DataNodes
  have h2 : ¬ k + 2 < 2 := by omega
  simp only [h2, if_false, Nat.add_sub_cancel]
  apply List.ext_getElem?
  intro i
  simp only [List.getElem?_map, List.getElem?_modify, List.getElem?_set]
  by_cases h : k = i
  · subst h
    by_cases hk : k < s.Items.length
    · simp [hk, List.getElem?_eq_getElem hk]
    · simp [hk, List.getElem?_eq_none (Nat.le_of_not_lt hk)]
  · simp [h]

theorem Scene.GetItemDataNode_eq_DataNodes (s : Scene R) (k : Nat) :
    s.GetItemDataNode (k + 2) = (s.DataNodes[k]?).join := by
  unfold Scene.GetItemDataNode Scene.GetItem Scene.DataNodes
  have h2 : ¬ k + 2 < 2 := by omega
  simp only [h2, if_false, Nat.add_sub_cancel, List.getElem?_map]
  cases s.Items[k]? <;> rfl

theorem fiducialsOf_append (l₁ l₂ : List (Option (vtkMRMLNode R))) :
    fiducialsOf (l₁ ++ l₂) = fiducialsOf l₁ ++ fiducialsOf l₂ := by
  induction l₁ with
  | nil => rfl
  | cons a l ih =>
    cases a with
    | none => simpa [fiducialsOf] using ih
    | some n => cases n <;> simp [fiducialsOf, ih]

theorem segmentsOf_append (l₁ l₂ : List (Option (vtkMRMLNode R))) :
    segmentsOf (l₁ ++ l₂) = segmentsOf l₁ ++ segmentsOf l₂ := by
  induction l₁ with
  | nil => rfl
  | cons a l ih =>
    cases a with
    | none => simpa [segmentsOf] using ih
    | some n => cases n <;> simp [segmentsOf, ih]

end DataNodeLemmas

section StructureSetLemmas

variable {R : Type}

@[simp] theorem Scene.DataNodes_ite (c : Prop) [Decidable c] (a b : Scene R) :
    (if c then a else b).DataNodes = if c then a.DataNodes else b.DataNodes := by
  split_ifs <;> rfl

theorem List.set_length_append_cons {α : Type} (L B : List α) (x y : α) :
    (L ++ x :: B).set L.length y = L ++ y :: B := by
  induction L with
  | nil => rfl
  | cons a L ih => simp [ih]

/-- Adding a segment to the segmentation node found at position `L.length`. -/
theorem Scene.DataNodes_AddSegment (s : Scene R) (L B : List (Option (vtkMRMLNode R)))
    (G : List (vtkSegment R)) (closedSurface : Bool) (segment : vtkSegment R) (j : Nat)
    (hj : j = L.length + 2)
    (h : s.DataNodes = L ++ some (.SegmentationNode G closedSurface) :: B) :
    (s.AddSegment j segment).DataNodes
      = L ++ some (.SegmentationNode (G ++ [segment]) closedSurface) :: B := by
  subst hj
  have hget : s.GetItemDataNode (L.length + 2) = some (.SegmentationNode G closedSurface) := by
    rw [Scene.GetItemDataNode_eq_DataNodes, h, List.getElem?_append_right (Nat.le_refl _)]
    simp
  unfold Scene.AddSegment
  rw [hget]
  simp only
  rw [Scene.DataNodes_SetItemDataNode, h, List.set_length_append_cons]

@[simp] theorem DataNodes_warnDifferentReferencedSeries (st : RoiLoopState R) (roi : RoiData R) :
    (warnDifferentReferencedSeries st roi).DataNodes = st.scene.DataNodes := by
  simp [warnDifferentReferencedSeries]

theorem DataNodes_fiducialSeriesItem (rtReader : vtkSlicerDicomRtReader R)
    (loadable : vtkSlicerDICOMLoadable R) (s : Scene R) (fiducialSeriesShItemID : Nat) :
    (fiducialSeriesItem rtReader loadable s fiducialSeriesShItemID).1.DataNodes
      = s.DataNodes ++ (if fiducialSeriesShItemID = INVALID_ITEM_ID then [none] else []) := by
  unfold fiducialSeriesItem
  split_ifs <;> simp

@[simp] theorem DataNodes_addRoiPointItem (s : Scene R) (folder : Nat) (roi : RoiData R)
    (position : R × R × R) :
    (addRoiPointItem s folder roi position).DataNodes
      = s.DataNodes ++ [some (.MarkupsFiducialNode roi.RoiName position roi.RoiDisplayColor)] := by
  simp [addRoiPointItem]

@[simp] theorem DataNodes_checkReferencedVolume (s : Scene R) (uid : String) :
    (checkReferencedVolume s uid).DataNodes = s.DataNodes := by
  simp [checkReferencedVolume]

theorem createSegmentationItem_spec (rtReader : vtkSlicerDicomRtReader R)
    (loadable : vtkSlicerDICOMLoadable R) (s : Scene R) (roi : RoiData R) (uid : String) :
    (createSegmentationItem rtReader loadable s roi uid).1.DataNodes
        = s.DataNodes ++ [some (.SegmentationNode [] false)]
    ∧ (createSegmentationItem rtReader loadable s roi uid).2 = s.Items.length + 2 := by
  simp [createSegmentationItem, Scene.AddNode_id]

end StructureSetLemmas

section StructureSetTheorems

variable {R : Type} [CommRing R]


theorem loadRoi_invariant (s : Scene R) (rtReader : vtkSlicerDicomRtReader R)
    (loadable : vtkSlicerDICOMLoadable R) (st : RoiLoopState R)
    (F : List (String × (R × R × R) × (R × R × R))) (G : List (vtkSegment R))
    (roi : RoiData R) (h : RoiLoopInvariant s st F G) :
    RoiLoopInvariant s (loadRoi rtReader loadable st roi)
      (F ++ roi.fiducial.toList) (G ++ roi.segment.toList) := by
  obtain ⟨D, hD, hF, hG⟩ := h
  cases hpoly : roi.RoiPolyData with
  | none =>
    simp only [RoiData.fiducial, RoiData.segment, hpoly, Option.toList_none, List.append_nil]
    exact ⟨D, by simpa [loadRoi, hpoly] using hD, hF, by simpa [loadRoi, hpoly] using hG⟩
  | some points =>
    cases points with
    | nil =>
      simp only [RoiData.fiducial, RoiData.segment, hpoly, Option.toList_none, List.append_nil]
      exact ⟨D, by simpa [loadRoi, hpoly] using hD, hF, by simpa [loadRoi, hpoly] using hG⟩
    | cons p rest =>
      cases rest with
      | nil =>
        simp only [RoiData.fiducial, RoiData.segment, hpoly, Option.toList_some,
          Option.toList_none, List.append_nil]
        have hseg : (loadRoi rtReader loadable st roi).segmentationShItemID
            = st.segmentationShItemID := by
          simp [loadRoi, hpoly]
        refine ⟨D ++ ((if st.fiducialSeriesShItemID = INVALID_ITEM_ID then [none] else [])
            ++ [some (.MarkupsFiducialNode roi.RoiName p roi.RoiDisplayColor)]), ?_, ?_, ?_⟩
        · simp [loadRoi, hpoly, DataNodes_fiducialSeriesItem, hD]
        · split_ifs <;> simp [fiducialsOf_append, fiducialsOf, hF]
        · rw [hseg]
          rcases hG with ⟨h1, h2, h3⟩ | ⟨A, B, cs, h1, h2, h3, h4⟩
          · refine Or.inl ⟨h1, h2, ?_⟩
            split_ifs <;> simp [segmentsOf_append, segmentsOf, h3]
          · refine Or.inr ⟨A, B ++ ((if st.fiducialSeriesShItemID = INVALID_ITEM_ID then [none]
              else []) ++ [some (.MarkupsFiducialNode roi.RoiName p roi.RoiDisplayColor)]), cs,
              by simp [h1], h2, h3, ?_⟩
            split_ifs <;> simp [segmentsOf_append, segmentsOf, h4]
      | cons q rest =>
        simp only [RoiData.fiducial, RoiData.segment, hpoly, Option.toList_some,
          Option.toList_none, List.append_nil]
        have hlen : st.scene.Items.length = s.Items.length + D.length := by
          have := congrArg List.length hD
          simpa using this
        have hlen' : (warnDifferentReferencedSeries st roi).Items.length
            = s.Items.length + D.length := by
          unfold warnDifferentReferencedSeries
          split_ifs <;> exact hlen
        by_cases hsegid : st.segmentationShItemID = INVALID_ITEM_ID
        · have hG' : G = [] ∧ segmentsOf D = [] := by
            rcases hG with ⟨_, h2, h3⟩ | ⟨A, B, cs, _, h2, _, _⟩
            · exact ⟨h2, h3⟩
            · rw [hsegid] at h2
              simp [INVALID_ITEM_ID] at h2
          have hcreate := createSegmentationItem_spec rtReader loadable
            (warnDifferentReferencedSeries st roi) roi
            (if st.structureSetReferencedSeriesUid = "" then roi.RoiReferencedSeriesUid
              else st.structureSetReferencedSeriesUid)
          refine ⟨D ++ [some (.SegmentationNode
            [⟨roi.RoiName, roi.RoiDisplayColor, p :: q :: rest⟩] false)], ?_, ?_, ?_⟩
          · simp only [loadRoi, hpoly, segmentationItem, hsegid, if_true]
            simp only [List.length_cons, Nat.succ_ne_zero, if_false, Nat.add_eq_zero,
              one_ne_zero, and_false, Nat.succ.injEq]
            rw [Scene.DataNodes_AddSegment _ (s.DataNodes ++ D) [] [] false _ _
              (by rw [hcreate.2, hlen']; simp) (by rw [hcreate.1]; simp [hD])]
            simp
          · simp [fiducialsOf_append, fiducialsOf, hF]
          · refine Or.inr ⟨D, [], false, ?_, ?_, hG'.2, rfl⟩
            · simp [hG'.1]
            · simp [loadRoi, hpoly, segmentationItem, hsegid, hcreate.2, hlen']
        · obtain ⟨A, B, cs, h1, h2, h3, h4⟩ : ∃ (A B : List (Option (vtkMRMLNode R)))
              (closedSurface : Bool), D = A ++ some (.SegmentationNode G closedSurface) :: B
              ∧ st.segmentationShItemID = s.Items.length + A.length + 2
              ∧ segmentsOf A = [] ∧ segmentsOf B = [] := by
            rcases hG with ⟨h1, _, _⟩ | h
            · exact absurd h1 hsegid
            · exact h
          refine ⟨A ++ some (.SegmentationNode
            (G ++ [⟨roi.RoiName, roi.RoiDisplayColor, p :: q :: rest⟩]) cs) :: B, ?_, ?_, ?_⟩
          · simp only [loadRoi, hpoly, segmentationItem, hsegid, if_false]
            simp only [List.length_cons, Nat.succ_ne_zero, if_false, Nat.add_eq_zero,
              one_ne_zero, and_false, Nat.succ.injEq]
            rw [Scene.DataNodes_AddSegment _ (s.DataNodes ++ A) B G cs _ _
              (by rw [h2]; simp) (by simp [hD, h1])]
            simp
          · rw [← hF, h1]
            simp [fiducialsOf_append, fiducialsOf]
          · refine Or.inr ⟨A, B, cs, rfl, ?_, h3, h4⟩
            simp only [loadRoi, hpoly, segmentationItem, hsegid, if_false]
            simp [h2]

end StructureSetTheorems

section LengthLemmas

variable {R : Type}

@[simp] theorem Scene.length_modifyItem (s : Scene R) (j : Nat) (f : ShItem R → ShItem R) :
    (s.modifyItem j f).Items.length = s.Items.length := by
  unfold Scene.modifyItem
  split_ifs <;> simp

@[simp] theorem Scene.length_ite (c : Prop) [Decidable c] (a b : Scene R) :
    (if c then a else b).Items.length = if c then a.Items.length else b.Items.length := by
  split_ifs <;> rfl

@[simp] theorem Scene.length_SetItemAttribute (s : Scene R) (j : Nat) (a : AttributeName)
    (v : String) : (s.SetItemAttribute j a v).Items.length = s.Items.length :=
  Scene.length_modifyItem s j _

@[simp] theorem Scene.length_SetItemUID (s : Scene R) (j : Nat) (a : UIDName) (v : String) :
    (s.SetItemUID j a v).Items.length = s.Items.length :=
  Scene.length_modifyItem s j _

@[simp] theorem Scene.length_SetItemName (s : Scene R) (j : Nat) (v : String) :
    (s.SetItemName j v).Items.length = s.Items.length :=
  Scene.length_modifyItem s j _

@[simp] theorem Scene.length_SetItemParent (s : Scene R) (j p : Nat) :
    (s.SetItemParent j p).Items.length = s.Items.length :=
  Scene.length_modifyItem s j _

@[simp] theorem Scene.length_SetItemDataNode (s : Scene R) (j : Nat) (n : vtkMRMLNode R) :
    (s.SetItemDataNode j n).Items.length = s.Items.length :=
  Scene.length_modifyItem s j _

@[simp] theorem Scene.length_log (s : Scene R) (sev : Severity) (text : String) :
    (s.log sev text).Items.length = s.Items.length := rfl

@[simp] theorem Scene.length_StartState (s : Scene R) :
    s.StartState.Items.length = s.Items.length := rfl

@[simp] theorem Scene.length_EndState (s : Scene R) :
    s.EndState.Items.length = s.Items.length := rfl

@[simp] theorem Scene.length_CreateItem (s : Scene R) (parent : Nat) (name : String)
    (node : Option (vtkMRMLNode R)) :
    (s.CreateItem parent name node).1.Items.length = s.Items.length + 1 := by
  simp [Scene.CreateItem]

@[simp] theorem Scene.length_AddNode (s : Scene R) (name : String) (node : vtkMRMLNode R) :
    (s.AddNode name node).1.Items.length = s.Items.length + 1 := by
  simp [Scene.AddNode]

@[simp] theorem Scene.length_CreateItemWithUID (s : Scene R) (parent : Nat) (name uid : String) :
    (s.CreateItemWithUID parent name uid).Items.length = s.Items.length + 1 := by
  simp [Scene.CreateItemWithUID]

theorem Scene.length_le_ensurePatientItem (s : Scene R) (patientId : String) :
    s.Items.length ≤ (s.ensurePatientItem patientId).Items.length := by
  unfold Scene.ensurePatientItem
  split_ifs <;> simp

theorem Scene.length_le_ensureStudyItem (s : Scene R) (patientId studyUid : String) :
    s.Items.length ≤ (s.ensureStudyItem patientId studyUid).Items.length := by
  unfold Scene.ensureStudyItem
  split_ifs <;> simp

theorem Scene.length_le_InsertDicomSeriesInHierarchy (s : Scene R)
    (patientId studyUid seriesUid : String) :
    s.Items.length ≤ (s.InsertDicomSeriesInHierarchy patientId studyUid seriesUid).1.Items.length := by
  unfold Scene.InsertDicomSeriesInHierarchy
  split_ifs
  · simp
  · simp
  · simp only [Scene.length_SetItemParent]
    exact Nat.le_trans (Scene.length_le_ensurePatientItem s patientId)
      (Scene.length_le_ensureStudyItem _ patientId studyUid)

@[simp] theorem length_fillPatientItem (env : Env R) (s : Scene R)
    (rtReader : vtkSlicerDicomRtReader R) :
    (fillPatientItem env s rtReader).Items.length = s.Items.length := by
  simp [fillPatientItem]

@[simp] theorem length_fillStudyItem (env : Env R) (s : Scene R)
    (rtReader : vtkSlicerDicomRtReader R) :
    (fillStudyItem env s rtReader).Items.length = s.Items.length := by
  simp [fillStudyItem]

theorem length_le_InsertSeriesInSubjectHierarchy (env : Env R) (s : Scene R)
    (rtReader : vtkSlicerDicomRtReader R) :
    s.Items.length ≤ (InsertSeriesInSubjectHierarchy env s rtReader).Items.length := by
  have h := Scene.length_le_InsertDicomSeriesInHierarchy s rtReader.PatientId
    rtReader.StudyInstanceUid rtReader.SeriesInstanceUid
  simp only [InsertSeriesInSubjectHierarchy]
  split_ifs <;> simpa using h

/-- A scene that has the data nodes of another one at every id, and at least as many items,
lists the same data nodes followed by items without data node. -/
theorem Scene.DataNodes_of_frame (s t : Scene R)
    (h : ∀ i, t.GetItemDataNode i = s.GetItemDataNode i)
    (hlen : s.Items.length ≤ t.Items.length) :
    t.DataNodes = s.DataNodes ++ List.replicate (t.Items.length - s.Items.length) none := by
  apply List.ext_getElem?
  intro k
  have hk := h (k + 2)
  rw [Scene.GetItemDataNode_eq_DataNodes, Scene.GetItemDataNode_eq_DataNodes] at hk
  by_cases h1 : k < s.Items.length
  · have h2 : k < t.DataNodes.length := by simp; omega
    have h3 : k < s.DataNodes.length := by simpa using h1
    rw [List.getElem?_append_left h3]
    rw [List.getElem?_eq_getElem h2, List.getElem?_eq_getElem h3] at hk ⊢
    simpa using hk
  · rw [List.getElem?_append_right (by simpa using Nat.le_of_not_lt h1)]
    by_cases h2 : k < t.Items.length
    · have h3 : k < t.DataNodes.length := by simpa using h2
      have hs : s.DataNodes[k]? = none := List.getElem?_eq_none (by simp; omega)
      rw [hs] at hk
      rw [List.getElem?_eq_getElem h3] at hk ⊢
      have h4 : k - s.DataNodes.length < (List.replicate (t.Items.length - s.Items.length)
          (none : Option (vtkMRMLNode R))).length := by simp; omega
      rw [List.getElem?_eq_getElem h4]
      simpa using hk
    · rw [List.getElem?_eq_none (by simpa using Nat.le_of_not_lt h2),
        List.getElem?_eq_none (by simp; omega)]

theorem fiducialsOf_append_replicate_none (l : List (Option (vtkMRMLNode R))) (k : Nat) :
    fiducialsOf (l ++ List.replicate k none) = fiducialsOf l := by
  rw [fiducialsOf_append]
  have : fiducialsOf (List.replicate k (none : Option (vtkMRMLNode R))) = [] := by
    induction k with
    | zero => rfl
    | succ k ih => simpa [List.replicate, fiducialsOf] using ih
  simp [this]

theorem segmentsOf_append_replicate_none (l : List (Option (vtkMRMLNode R))) (k : Nat) :
    segmentsOf (l ++ List.replicate k none) = segmentsOf l := by
  rw [segmentsOf_append]
  have : segmentsOf (List.replicate k (none : Option (vtkMRMLNode R))) = [] := by
    induction k with
    | zero => rfl
    | succ k ih => simpa [List.replicate, segmentsOf] using ih
  simp [this]

/-- Function `InsertSeriesInSubjectHierarchy` adds and removes no fiducial and no segment. -/
theorem observations_InsertSeriesInSubjectHierarchy (env : Env R) (s : Scene R)
    (rtReader : vtkSlicerDicomRtReader R) :
    (InsertSeriesInSubjectHierarchy env s rtReader).Fiducials = s.Fiducials
    ∧ (InsertSeriesInSubjectHierarchy env s rtReader).Segments = s.Segments := by
  have h := Scene.DataNodes_of_frame s (InsertSeriesInSubjectHierarchy env s rtReader)
    (fun i => GetItemDataNode_InsertSeriesInSubjectHierarchy env s rtReader i)
    (length_le_InsertSeriesInSubjectHierarchy env s rtReader)
  unfold Scene.Fiducials Scene.Segments
  rw [h]
  exact ⟨fiducialsOf_append_replicate_none _ _, segmentsOf_append_replicate_none _ _⟩

end LengthLemmas

section StructureSetTheorems2

variable {R : Type} [CommRing R]

theorem foldl_loadRoi_invariant (s : Scene R) (rtReader : vtkSlicerDicomRtReader R)
    (loadable : vtkSlicerDICOMLoadable R) (rois : List (RoiData R)) :
    ∀ (st : RoiLoopState R) (F : List (String × (R × R × R) × (R × R × R)))
      (G : List (vtkSegment R)), RoiLoopInvariant s st F G →
      RoiLoopInvariant s (rois.foldl (loadRoi rtReader loadable) st)
        (F ++ rois.filterMap RoiData.fiducial) (G ++ rois.filterMap RoiData.segment) := by
  induction rois with
  | nil => intro st F G h; simpa using h
  | cons roi rois ih =>
    intro st F G h
    have h1 := ih _ _ _ (loadRoi_invariant s rtReader loadable st F G roi h)
    rw [List.foldl_cons]
    have e1 : F ++ List.filterMap RoiData.fiducial (roi :: rois)
        = F ++ roi.fiducial.toList ++ List.filterMap RoiData.fiducial rois := by
      cases hf : roi.fiducial <;> simp [List.filterMap_cons, hf]
    have e2 : G ++ List.filterMap RoiData.segment (roi :: rois)
        = G ++ roi.segment.toList ++ List.filterMap RoiData.segment rois := by
      cases hf : roi.segment <;> simp [List.filterMap_cons, hf]
    rw [e1, e2]
    exact h1

theorem observations_set_segmentation (segments : List (vtkSegment R)) (cs cs' : Bool) :
    ∀ (l : List (Option (vtkMRMLNode R))) (k : Nat),
      l[k]? = some (some (.SegmentationNode segments cs)) →
      fiducialsOf (l.set k (some (.SegmentationNode segments cs'))) = fiducialsOf l
      ∧ segmentsOf (l.set k (some (.SegmentationNode segments cs'))) = segmentsOf l := by
  intro l
  induction l with
  | nil => intro k h; simp at h
  | cons a l ih =>
    intro k h
    cases k with
    | zero =>
      simp only [List.getElem?_cons_zero, Option.some.injEq] at h
      subst h
      simp [fiducialsOf, segmentsOf]
    | succ k =>
      simp only [List.getElem?_cons_succ] at h
      have := ih k h
      cases a with
      | none => simpa [fiducialsOf, segmentsOf] using this
      | some n => cases n <;> simp [fiducialsOf, segmentsOf, this.1, this.2]

/-- Selecting the closed surface display adds and removes no fiducial and no segment. -/
theorem observations_SetClosedSurfaceDisplay (s : Scene R) (j : Nat) :
    (s.SetClosedSurfaceDisplay j).Fiducials = s.Fiducials
    ∧ (s.SetClosedSurfaceDisplay j).Segments = s.Segments := by
  unfold Scene.SetClosedSurfaceDisplay
  by_cases hj : j < 2
  · have : s.GetItemDataNode j = none := by
      simp [Scene.GetItemDataNode, Scene.GetItem, hj]
    rw [this]
    exact ⟨rfl, rfl⟩
  · obtain ⟨k, rfl⟩ : ∃ k, j = k + 2 := ⟨j - 2, by omega⟩
    cases hn : s.GetItemDataNode (k + 2) with
    | none => exact ⟨rfl, rfl⟩
    | some n =>
      cases n with
      | SegmentationNode segments cs =>
        simp only
        rw [Scene.GetItemDataNode_eq_DataNodes] at hn
        have hk : s.DataNodes[k]? = some (some (.SegmentationNode segments cs)) := by
          cases h : s.DataNodes[k]? with
          | none => simp [h] at hn
          | some x => simpa [h] using hn
        unfold Scene.Fiducials Scene.Segments
        rw [Scene.DataNodes_SetItemDataNode]
        exact observations_set_segmentation segments cs true _ _ hk
      | _ => exact ⟨rfl, rfl⟩

/-- C6. In `LoadRtStructureSet` the kind of entity an ROI becomes depends only on its point
count: the point-of-interest entities of the scene after the call are those before it
followed by one fiducial (name, the point, color) for each ROI with exactly one point, in
ROI order; the segments of the scene after the call are those before it followed by one
segment (name, color, the points) for each ROI with two or more points, in ROI order.  An ROI
without points, or without point data, gives neither. -/
theorem loadRtStructureSet_roi_classification (env : Env R) (s : Scene R)
    (rtReader : vtkSlicerDicomRtReader R) (loadable : vtkSlicerDICOMLoadable R) :
    (LoadRtStructureSet env s rtReader loadable).1.Fiducials
        = s.Fiducials ++ rtReader.Rois.filterMap RoiData.fiducial
    ∧ (LoadRtStructureSet env s rtReader loadable).1.Segments
        = s.Segments ++ rtReader.Rois.filterMap RoiData.segment
    ∧ (∀ roi : RoiData R,
        (roi.fiducial.isSome ↔ ∃ p, roi.RoiPolyData = some [p])
        ∧ (roi.segment.isSome ↔ ∃ points, roi.RoiPolyData = some points ∧ 2 ≤ points.length)) := by
  have hinit : RoiLoopInvariant s
      (⟨s.StartState, INVALID_ITEM_ID, INVALID_ITEM_ID, "", -1, 0⟩ : RoiLoopState R) [] [] :=
    ⟨[], by simp, rfl, Or.inl ⟨rfl, rfl, rfl⟩⟩
  have hloop := foldl_loadRoi_invariant s rtReader loadable rtReader.Rois _ _ _ hinit
  simp only [List.nil_append] at hloop
  obtain ⟨D, hD, hF, hG⟩ := hloop
  have hobs : ∀ st : RoiLoopState R, st.scene.DataNodes = s.DataNodes ++ D →
      st.scene.Fiducials = s.Fiducials ++ rtReader.Rois.filterMap RoiData.fiducial
      ∧ st.scene.Segments = s.Segments ++ rtReader.Rois.filterMap RoiData.segment := by
    intro st hst
    unfold Scene.Fiducials Scene.Segments
    rw [hst, fiducialsOf_append, segmentsOf_append, hF]
    refine ⟨rfl, ?_⟩
    rcases hG with ⟨_, h2, h3⟩ | ⟨A, B, cs, h1, _, h3, h4⟩
    · rw [h3, ← h2]
    · rw [h1, segmentsOf_append]
      simp [segmentsOf, h3, h4]
  have hfinal := hobs _ hD
  have hresult : ∀ t : Scene R, t.Fiducials = s.Fiducials ++ rtReader.Rois.filterMap RoiData.fiducial
      ∧ t.Segments = s.Segments ++ rtReader.Rois.filterMap RoiData.segment →
      (InsertSeriesInSubjectHierarchy env t rtReader).EndState.Fiducials
        = s.Fiducials ++ rtReader.Rois.filterMap RoiData.fiducial
      ∧ (InsertSeriesInSubjectHierarchy env t rtReader).EndState.Segments
        = s.Segments ++ rtReader.Rois.filterMap RoiData.segment := by
    intro t ht
    have h := observations_InsertSeriesInSubjectHierarchy env t rtReader
    exact ⟨h.1.trans ht.1, h.2.trans ht.2⟩
  have hall : (LoadRtStructureSet env s rtReader loadable).1.Fiducials
        = s.Fiducials ++ rtReader.Rois.filterMap RoiData.fiducial
      ∧ (LoadRtStructureSet env s rtReader loadable).1.Segments
        = s.Segments ++ rtReader.Rois.filterMap RoiData.segment := by
    simp only [LoadRtStructureSet]
    apply hresult
    split_ifs
    · have h := observations_SetClosedSurfaceDisplay
        (rtReader.Rois.foldl (loadRoi rtReader loadable)
          (⟨s.StartState, INVALID_ITEM_ID, INVALID_ITEM_ID, "", -1, 0⟩ : RoiLoopState R)).scene
        (rtReader.Rois.foldl (loadRoi rtReader loadable)
          (⟨s.StartState, INVALID_ITEM_ID, INVALID_ITEM_ID, "", -1, 0⟩ :
            RoiLoopState R)).segmentationShItemID
      exact ⟨h.1.trans hfinal.1, h.2.trans hfinal.2⟩
    · exact hfinal
    · exact hfinal
  refine ⟨hall.1, hall.2, ?_⟩
  intro roi
  constructor
  · cases hp : roi.RoiPolyData with
    | none => simp [RoiData.fiducial, hp]
    | some points =>
      rcases points with _ | ⟨p, _ | ⟨q, rest⟩⟩ <;> simp [RoiData.fiducial, hp]
  · cases hp : roi.RoiPolyData with
    | none => simp [RoiData.segment, hp]
    | some points =>
      rcases points with _ | ⟨p, _ | ⟨q, rest⟩⟩ <;> simp [RoiData.segment, hp]

end StructureSetTheorems2

section MessageLemmas

variable {R : Type}

@[simp] theorem Scene.Messages_modifyItem (s : Scene R) (j : Nat) (f : ShItem R → ShItem R) :
    (s.modifyItem j f).Messages = s.Messages := by
  unfold Scene.modifyItem
  split_ifs <;> rfl

@[simp] theorem Scene.Messages_SetItemAttribute (s : Scene R) (j : Nat) (a : AttributeName)
    (v : String) : (s.SetItemAttribute j a v).Messages = s.Messages :=
  Scene.Messages_modifyItem s j _

@[simp] theorem Scene.Messages_SetItemUID (s : Scene R) (j : Nat) (a : UIDName) (v : String) :
    (s.SetItemUID j a v).Messages = s.Messages :=
  Scene.Messages_modifyItem s j _

@[simp] theorem Scene.Messages_SetItemName (s : Scene R) (j : Nat) (v : String) :
    (s.SetItemName j v).Messages = s.Messages :=
  Scene.Messages_modifyItem s j _

@[simp] theorem Scene.Messages_SetItemParent (s : Scene R) (j p : Nat) :
    (s.SetItemParent j p).Messages = s.Messages :=
  Scene.Messages_modifyItem s j _

@[simp] theorem Scene.Messages_SetItemDataNode (s : Scene R) (j : Nat) (n : vtkMRMLNode R) :
    (s.SetItemDataNode j n).Messages = s.Messages :=
  Scene.Messages_modifyItem s j _

@[simp] theorem Scene.Messages_log (s : Scene R) (sev : Severity) (text : String) :
    (s.log sev text).Messages = s.Messages ++ [⟨sev, text⟩] := rfl

@[simp] theorem Scene.Messages_StartState (s : Scene R) : s.StartState.Messages = s.Messages := rfl

@[simp] theorem Scene.Messages_EndState (s : Scene R) : s.EndState.Messages = s.Messages := rfl

@[simp] theorem Scene.Messages_CreateItem (s : Scene R) (parent : Nat) (name : String)
    (node : Option (vtkMRMLNode R)) : (s.CreateItem parent name node).1.Messages = s.Messages := rfl

@[simp] theorem Scene.Messages_AddNode (s : Scene R) (name : String) (node : vtkMRMLNode R) :
    (s.AddNode name node).1.Messages = s.Messages := rfl

@[simp] theorem Scene.Messages_ite (c : Prop) [Decidable c] (a b : Scene R) :
    (if c then a else b).Messages = if c then a.Messages else b.Messages := by
  split_ifs <;> rfl

@[simp] theorem Scene.Messages_CreateItemWithUID (s : Scene R) (parent : Nat) (name uid : String) :
    (s.CreateItemWithUID parent name uid).Messages = s.Messages := by
  simp [Scene.CreateItemWithUID]

@[simp] theorem Scene.Messages_ensurePatientItem (s : Scene R) (patientId : String) :
    (s.ensurePatientItem patientId).Messages = s.Messages := by
  simp [Scene.ensurePatientItem]

@[simp] theorem Scene.Messages_ensureStudyItem (s : Scene R) (patientId studyUid : String) :
    (s.ensureStudyItem patientId studyUid).Messages = s.Messages := by
  simp [Scene.ensureStudyItem]

theorem Scene.Messages_prefix_InsertDicomSeriesInHierarchy (s : Scene R)
    (patientId studyUid seriesUid : String) :
    s.Messages <+: (s.InsertDicomSeriesInHierarchy patientId studyUid seriesUid).1.Messages := by
  unfold Scene.InsertDicomSeriesInHierarchy
  split_ifs <;> simp

theorem Messages_prefix_fillPatientItem (env : Env R) (s : Scene R)
    (rtReader : vtkSlicerDicomRtReader R) :
    s.Messages <+: (fillPatientItem env s rtReader).Messages := by
  simp only [fillPatientItem]
  split_ifs <;> simp

theorem Messages_prefix_fillStudyItem (env : Env R) (s : Scene R)
    (rtReader : vtkSlicerDicomRtReader R) :
    s.Messages <+: (fillStudyItem env s rtReader).Messages := by
  simp only [fillStudyItem]
  split_ifs <;> simp

/-- Function `InsertSeriesInSubjectHierarchy` only appends messages. -/
theorem Messages_prefix_InsertSeriesInSubjectHierarchy (env : Env R) (s : Scene R)
    (rtReader : vtkSlicerDicomRtReader R) :
    s.Messages <+: (InsertSeriesInSubjectHierarchy env s rtReader).Messages := by
  have h0 := Scene.Messages_prefix_InsertDicomSeriesInHierarchy s rtReader.PatientId
    rtReader.StudyInstanceUid rtReader.SeriesInstanceUid
  have h1 := Messages_prefix_fillPatientItem env
    (s.InsertDicomSeriesInHierarchy rtReader.PatientId rtReader.StudyInstanceUid
      rtReader.SeriesInstanceUid).1 rtReader
  simp only [InsertSeriesInSubjectHierarchy]
  split_ifs
  all_goals simp only [Scene.Messages_SetItemUID, Scene.Messages_SetItemAttribute,
    Scene.Messages_log]
  all_goals
    first
    | exact h0
    | exact h0.trans h1
    | exact h0.trans (Messages_prefix_fillStudyItem env _ rtReader)
    | exact (h0.trans h1).trans (Messages_prefix_fillStudyItem env _ rtReader)
    | exact h0.trans (List.prefix_append _ _)
    | exact (h0.trans h1).trans (List.prefix_append _ _)
    | exact (h0.trans (Messages_prefix_fillStudyItem env _ rtReader)).trans (List.prefix_append _ _)
    | exact ((h0.trans h1).trans (Messages_prefix_fillStudyItem env _ rtReader)).trans
        (List.prefix_append _ _)

end MessageLemmas

section GeometryFrameLemmas

variable {R : Type} [CommRing R]

theorem Messages_prefix_setupGeometryOfPair (env : Env R) (s : Scene R) (i b : Nat) :
    s.Messages <+: (setupGeometryOfPair env s i b).Messages := by
  unfold setupGeometryOfPair
  split <;> try exact List.prefix_refl _
  split
  · simp
  · split <;> simp

/-- Function `SetupRtImageGeometry` only appends messages. -/
theorem Messages_prefix_SetupRtImageGeometry (env : Env R) (s : Scene R) (node : Nat) :
    s.Messages <+: (SetupRtImageGeometry env s node).Messages := by
  unfold SetupRtImageGeometry
  split_ifs
  all_goals try simp
  all_goals try exact Messages_prefix_setupGeometryOfPair env s _ _
  split
  · simp
  · split_ifs
    · simp
    · exact Messages_prefix_setupGeometryOfPair env s _ _

theorem Messages_prefix_setupGeometryOfBeams (env : Env R) (beams : List Nat) :
    ∀ s : Scene R, s.Messages <+: (setupGeometryOfBeams env beams s).Messages := by
  induction beams with
  | nil => intro s; exact List.prefix_refl _
  | cons b beams ih =>
    intro s
    exact (Messages_prefix_SetupRtImageGeometry env s b).trans (ih _)

/-- The common tail of `SetupRtImageGeometry` changes no data node but that of the image
volume. -/
theorem GetItemDataNode_setupGeometryOfPair (env : Env R) (s : Scene R) (rtImage b i : Nat)
    (node : vtkMRMLNode R) (hnode : s.GetItemDataNode i = some node)
    (hkind : ∀ v, node ≠ .ScalarVolumeNode v) :
    (setupGeometryOfPair env s rtImage b).GetItemDataNode i = some node := by
  unfold setupGeometryOfPair
  split <;> try exact hnode
  split
  · simpa using hnode
  · split
    · rename_i v hv
      have hne : i ≠ rtImage := by
        intro h
        subst h
        rw [hnode] at hv
        exact hkind v (by simpa using hv)
      show Scene.GetItemDataNode (Scene.mk _ _ _ _) i = some node
      have : ∀ (t : Scene R) (k : Nat) (bd : Int) (m : List Message),
          (Scene.mk t.Items k bd m).GetItemDataNode i = t.GetItemDataNode i := fun _ _ _ _ => rfl
      rw [this, Scene.GetItemDataNode_SetItemDataNode]
      simp [hne, hnode]
    · exact hnode

/-- Function `SetupRtImageGeometry` changes no data node but that of an image volume. -/
theorem GetItemDataNode_SetupRtImageGeometry (env : Env R) (s : Scene R) (n i : Nat)
    (node : vtkMRMLNode R) (hnode : s.GetItemDataNode i = some node)
    (hkind : ∀ v, node ≠ .ScalarVolumeNode v) :
    (SetupRtImageGeometry env s n).GetItemDataNode i = some node := by
  unfold SetupRtImageGeometry
  split_ifs
  all_goals try simpa using hnode
  all_goals try exact GetItemDataNode_setupGeometryOfPair env s _ _ i node hnode hkind
  split
  · simpa using hnode
  · split_ifs
    · simpa using hnode
    · exact GetItemDataNode_setupGeometryOfPair env s _ _ i node hnode hkind

theorem GetItemDataNode_setupGeometryOfBeams (env : Env R) (beams : List Nat) (i : Nat)
    (node : vtkMRMLNode R) (hkind : ∀ v, node ≠ .ScalarVolumeNode v) :
    ∀ s : Scene R, s.GetItemDataNode i = some node →
      (setupGeometryOfBeams env beams s).GetItemDataNode i = some node := by
  induction beams with
  | nil => intro s h; exact h
  | cons b beams ih =>
    intro s h
    exact ih _ (GetItemDataNode_SetupRtImageGeometry env s b i node h hkind)

end GeometryFrameLemmas

section UidLemmas

variable {R : Type}

theorem Scene.findUID_eq_findIdx (name : UIDName) (v : String) (l : List (ShItem R)) :
    Scene.findUID name v l = l.findIdx? (fun it => decide (it.UIDs name = v)) := by
  induction l with
  | nil => rfl
  | cons it rest ih =>
    simp only [Scene.findUID, List.findIdx?_cons, ih, decide_eq_true_eq, Nat.zero_add,
      List.findIdx?_succ]

theorem Scene.GetItemUID_eq_getElem (s : Scene R) (k : Nat) (h : k < s.Items.length)
    (name : UIDName) : s.GetItemUID (k + 2) name = (s.Items[k]).UIDs name := by
  unfold Scene.GetItemUID Scene.GetItem
  have h2 : ¬ k + 2 < 2 := by omega
  simp [h2, List.getElem?_eq_getElem h]

theorem Scene.GetItemUID_of_lt_two (s : Scene R) (i : Nat) (h : i < 2) (name : UIDName) :
    s.GetItemUID i name = "" := by
  unfold Scene.GetItemUID Scene.GetItem
  simp [h]

theorem Scene.GetItemUID_of_length_le (s : Scene R) (i : Nat) (h : s.Items.length + 2 ≤ i)
    (name : UIDName) : s.GetItemUID i name = "" := by
  unfold Scene.GetItemUID
  rw [Scene.GetItem_of_length_le s i h]

/-- An item that carries a non-empty UID exists. -/
theorem Scene.valid_of_GetItemUID (s : Scene R) (i : Nat) (name : UIDName) (v : String)
    (hv : v ≠ "") (h : s.GetItemUID i name = v) : 2 ≤ i ∧ i < s.Items.length + 2 := by
  constructor
  · by_contra hlt
    exact hv (by rw [← h, Scene.GetItemUID_of_lt_two s i (by omega)])
  · by_contra hge
    exact hv (by rw [← h, Scene.GetItemUID_of_length_le s i (by omega)])

/-- The lookup by UID gives the first item that carries the UID. -/
theorem Scene.GetItemByUID_of_first (s : Scene R) (name : UIDName) (v : String) (P : Nat)
    (hv : v ≠ "") (hP : s.GetItemUID P name = v)
    (hfirst : ∀ i : Nat, i < P → s.GetItemUID i name ≠ v) : s.GetItemByUID name v = P := by
  obtain ⟨h2, hlen⟩ := Scene.valid_of_GetItemUID s P name v hv hP
  obtain ⟨k, rfl⟩ : ∃ k, P = k + 2 := ⟨P - 2, by omega⟩
  have hk : k < s.Items.length := by omega
  have hfind : s.Items.findIdx? (fun it => decide (it.UIDs name = v)) = some k := by
    rw [List.findIdx?_eq_some_iff_getElem]
    refine ⟨hk, ?_, ?_⟩
    · rw [Scene.GetItemUID_eq_getElem s k hk] at hP
      simpa using hP
    · intro j hj
      have := hfirst (j + 2) (by omega)
      rw [Scene.GetItemUID_eq_getElem s j (by omega)] at this
      simpa using this
  unfold Scene.GetItemByUID
  rw [if_neg hv, Scene.findUID_eq_findIdx, hfind]

/-- The lookup by UID fails when no item carries the UID. -/
theorem Scene.GetItemByUID_of_none (s : Scene R) (name : UIDName) (v : String)
    (hnone : ∀ i : Nat, s.GetItemUID i name ≠ v) : s.GetItemByUID name v = INVALID_ITEM_ID := by
  unfold Scene.GetItemByUID
  split_ifs with hv
  · rfl
  · have hfind : s.Items.findIdx? (fun it => decide (it.UIDs name = v)) = none := by
      rw [List.findIdx?_eq_none_iff]
      intro x hx
      obtain ⟨k, hk, rfl⟩ := List.getElem_of_mem hx
      have := hnone (k + 2)
      rw [Scene.GetItemUID_eq_getElem s k hk] at this
      simpa using this
    rw [Scene.findUID_eq_findIdx, hfind]

/-- The item found by UID carries the UID, and no item before it does. -/
theorem Scene.GetItemByUID_spec (s : Scene R) (name : UIDName) (v : String)
    (h : s.GetItemByUID name v ≠ INVALID_ITEM_ID) :
    v ≠ "" ∧ s.GetItemUID (s.GetItemByUID name v) name = v
      ∧ ∀ i : Nat, i < s.GetItemByUID name v → s.GetItemUID i name ≠ v := by
  unfold Scene.GetItemByUID at h ⊢
  split_ifs at h ⊢ with hv
  · exact absurd rfl h
  · rw [Scene.findUID_eq_findIdx] at h ⊢
    cases hfind : s.Items.findIdx? (fun it => decide (it.UIDs name = v)) with
    | none => rw [hfind] at h; exact absurd rfl h
    | some k =>
      rw [List.findIdx?_eq_some_iff_getElem] at hfind
      obtain ⟨hk, hp, hfirst⟩ := hfind
      refine ⟨hv, ?_, ?_⟩
      · show s.GetItemUID (k + 2) name = v
        rw [Scene.GetItemUID_eq_getElem s k hk]
        simpa using hp
      · intro i hi
        show s.GetItemUID i name ≠ v
        have hi : i < k + 2 := hi
        by_cases h2 : i < 2
        · rw [Scene.GetItemUID_of_lt_two s i h2]
          exact fun e => hv e.symm
        · obtain ⟨j, rfl⟩ : ∃ j, i = j + 2 := ⟨i - 2, by omega⟩
          have := hfirst j (by omega)
          rw [Scene.GetItemUID_eq_getElem s j (by omega)]
          simpa using this

/-- The lookup by UID succeeds when some item carries the (non-empty) UID. -/
theorem Scene.GetItemByUID_ne_invalid (s : Scene R) (name : UIDName) (v : String) (i : Nat)
    (hv : v ≠ "") (hi : s.GetItemUID i name = v) : s.GetItemByUID name v ≠ INVALID_ITEM_ID := by
  intro h
  unfold Scene.GetItemByUID at h
  rw [if_neg hv, Scene.findUID_eq_findIdx] at h
  cases hfind : s.Items.findIdx? (fun it => decide (it.UIDs name = v)) with
  | some k => rw [hfind] at h; simp [INVALID_ITEM_ID] at h
  | none =>
    rw [List.findIdx?_eq_none_iff] at hfind
    obtain ⟨h2, hlen⟩ := Scene.valid_of_GetItemUID s i name v hv hi
    obtain ⟨k, rfl⟩ : ∃ k, i = k + 2 := ⟨i - 2, by omega⟩
    have hk : k < s.Items.length := by omega
    rw [Scene.GetItemUID_eq_getElem s k hk] at hi
    have := hfind _ (List.getElem_mem hk)
    simp [hi] at this

/-- The lookup by UID depends on the UIDs of the items only. -/
theorem Scene.GetItemByUID_congr (s t : Scene R) (name : UIDName) (v : String)
    (h : ∀ i : Nat, s.GetItemUID i name = t.GetItemUID i name) :
    s.GetItemByUID name v = t.GetItemByUID name v := by
  by_cases ht : t.GetItemByUID name v = INVALID_ITEM_ID
  · rw [ht]
    by_contra hs
    obtain ⟨hv, hP, _⟩ := Scene.GetItemByUID_spec s name v hs
    rw [h] at hP
    exact Scene.GetItemByUID_ne_invalid t name v _ hv hP ht
  · obtain ⟨hv, hP, hfirst⟩ := Scene.GetItemByUID_spec t name v ht
    exact Scene.GetItemByUID_of_first s name v _ hv (by rw [h]; exact hP)
      (fun i hi => by rw [h]; exact hfirst i hi)

end UidLemmas

section GetterLemmas

variable {R : Type}

theorem Scene.GetItem_isSome (s : Scene R) (i : Nat) :
    (s.GetItem i).isSome = true ↔ 2 ≤ i ∧ i < s.Items.length + 2 := by
  unfold Scene.GetItem
  by_cases h2 : i < 2
  · simp only [h2, if_true]
    constructor
    · intro h; exact absurd h (by simp)
    · intro h; omega
  · simp only [h2, if_false]
    by_cases hlen : i - 2 < s.Items.length
    · simp only [List.getElem?_eq_getElem hlen, Option.isSome_some, true_iff]
      omega
    · rw [List.getElem?_eq_none (by omega)]
      constructor
      · intro h; exact absurd h (by simp)
      · intro h; omega

/-! ### UIDs -/

theorem Scene.GetItemUID_modifyItem_keep (s : Scene R) (i j : Nat) (f : ShItem R → ShItem R)
    (name : UIDName) (hf : ∀ it, (f it).UIDs name = it.UIDs name) :
    (s.modifyItem j f).GetItemUID i name = s.GetItemUID i name := by
  unfold Scene.GetItemUID
  rw [Scene.GetItem_modifyItem]
  by_cases h : i = j
  · simp only [h, if_true]
    cases s.GetItem j <;> simp [hf]
  · simp only [h, if_false]

@[simp] theorem Scene.GetItemUID_ite (c : Prop) [Decidable c] (a b : Scene R) (i : Nat)
    (name : UIDName) :
    (if c then a else b).GetItemUID i name
      = if c then a.GetItemUID i name else b.GetItemUID i name := by
  split_ifs <;> rfl

@[simp] theorem Scene.GetItemUID_SetItemAttribute (s : Scene R) (i j : Nat) (a : AttributeName)
    (v : String) (name : UIDName) :
    (s.SetItemAttribute j a v).GetItemUID i name = s.GetItemUID i name :=
  Scene.GetItemUID_modifyItem_keep s i j _ name (fun _ => rfl)

@[simp] theorem Scene.GetItemUID_SetItemName (s : Scene R) (i j : Nat) (v : String)
    (name : UIDName) : (s.SetItemName j v).GetItemUID i name = s.GetItemUID i name :=
  Scene.GetItemUID_modifyItem_keep s i j _ name (fun _ => rfl)

@[simp] theorem Scene.GetItemUID_SetItemParent (s : Scene R) (i j p : Nat) (name : UIDName) :
    (s.SetItemParent j p).GetItemUID i name = s.GetItemUID i name :=
  Scene.GetItemUID_modifyItem_keep s i j _ name (fun _ => rfl)

@[simp] theorem Scene.GetItemUID_SetItemDataNode (s : Scene R) (i j : Nat) (n : vtkMRMLNode R)
    (name : UIDName) : (s.SetItemDataNode j n).GetItemUID i name = s.GetItemUID i name :=
  Scene.GetItemUID_modifyItem_keep s i j _ name (fun _ => rfl)

@[simp] theorem Scene.GetItemUID_log (s : Scene R) (sev : Severity) (text : String) (i : Nat)
    (name : UIDName) : (s.log sev text).GetItemUID i name = s.GetItemUID i name := rfl

@[simp] theorem Scene.GetItemUID_StartState (s : Scene R) (i : Nat) (name : UIDName) :
    s.StartState.GetItemUID i name = s.GetItemUID i name := rfl

@[simp] theorem Scene.GetItemUID_EndState (s : Scene R) (i : Nat) (name : UIDName) :
    s.EndState.GetItemUID i name = s.GetItemUID i name := rfl

@[simp] theorem Scene.GetItemUID_mk_Items (s : Scene R) (k : Nat) (b : Int) (m : List Message)
    (i : Nat) (name : UIDName) :
    (Scene.mk s.Items k b m).GetItemUID i name = s.GetItemUID i name := rfl

@[simp] theorem Scene.GetItemUID_CreateItem (s : Scene R) (parent : Nat) (nm : String)
    (node : Option (vtkMRMLNode R)) (i : Nat) (name : UIDName) :
    (s.CreateItem parent nm node).1.GetItemUID i name = s.GetItemUID i name := by
  unfold Scene.GetItemUID
  rw [Scene.GetItem_CreateItem]
  by_cases h : i = s.Items.length + 2
  · simp only [h, if_true]
    rw [Scene.GetItem_of_length_le s _ (Nat.le_refl _)]
  · simp only [h, if_false]

@[simp] theorem Scene.GetItemUID_AddNode (s : Scene R) (nm : String) (node : vtkMRMLNode R)
    (i : Nat) (name : UIDName) : (s.AddNode nm node).1.GetItemUID i name = s.GetItemUID i name :=
  Scene.GetItemUID_CreateItem s _ nm _ i name

theorem Scene.GetItemUID_SetItemUID (s : Scene R) (i j : Nat) (n m : UIDName) (v : String) :
    (s.SetItemUID j n v).GetItemUID i m
      = if i = j ∧ n = m ∧ 2 ≤ j ∧ j < s.Items.length + 2 then v else s.GetItemUID i m := by
  unfold Scene.GetItemUID Scene.SetItemUID
  rw [Scene.GetItem_modifyItem]
  by_cases h : i = j
  · subst h
    by_cases hv : 2 ≤ i ∧ i < s.Items.length + 2
    · have hsome := (Scene.GetItem_isSome s i).2 hv
      obtain ⟨it, hit⟩ := Option.isSome_iff_exists.1 hsome
      by_cases hnm : n = m
      · simp [hit, hnm, hv]
      · simp [hit, hnm, Function.update_noteq (Ne.symm hnm)]
    · have hnone : s.GetItem i = none := by
        cases hc : s.GetItem i with
        | none => rfl
        | some it =>
          exact absurd ((Scene.GetItem_isSome s i).1 (by rw [hc]; rfl)) hv
      have hc : ¬ (n = m ∧ 2 ≤ i ∧ i < s.Items.length + 2) := fun h => hv h.2
      simp [hnone, hc]
  · simp [h]

@[simp] theorem Scene.GetItemUID_SetItemUID_of_ne (s : Scene R) (i j : Nat) (n m : UIDName)
    (v : String) (h : n ≠ m) : (s.SetItemUID j n v).GetItemUID i m = s.GetItemUID i m := by
  rw [Scene.GetItemUID_SetItemUID]
  simp [h]

theorem Scene.GetItemUID_CreateItemWithUID (s : Scene R) (parent : Nat) (nm uid : String)
    (i : Nat) (name : UIDName) :
    (s.CreateItemWithUID parent nm uid).GetItemUID i name
      = if i = s.Items.length + 2 ∧ name = .DICOMUIDName then uid else s.GetItemUID i name := by
  unfold Scene.CreateItemWithUID
  rw [Scene.GetItemUID_SetItemUID, Scene.GetItemUID_CreateItem, Scene.CreateItem_id,
    Scene.length_CreateItem]
  by_cases h : i = s.Items.length + 2
  · by_cases hn : name = .DICOMUIDName
    · simp [h, hn]
    · simp [h, hn, Ne.symm hn]
  · simp [h]

@[simp] theorem Scene.GetItemUID_instance_CreateItemWithUID (s : Scene R) (parent : Nat)
    (nm uid : String) (i : Nat) :
    (s.CreateItemWithUID parent nm uid).GetItemUID i .DICOMInstanceUIDName
      = s.GetItemUID i .DICOMInstanceUIDName := by
  rw [Scene.GetItemUID_CreateItemWithUID]
  simp

@[simp] theorem Scene.GetItemUID_instance_ensurePatientItem (s : Scene R) (patientId : String)
    (i : Nat) :
    (s.ensurePatientItem patientId).GetItemUID i .DICOMInstanceUIDName
      = s.GetItemUID i .DICOMInstanceUIDName := by
  simp [Scene.ensurePatientItem]

@[simp] theorem Scene.GetItemUID_instance_ensureStudyItem (s : Scene R)
    (patientId studyUid : String) (i : Nat) :
    (s.ensureStudyItem patientId studyUid).GetItemUID i .DICOMInstanceUIDName
      = s.GetItemUID i .DICOMInstanceUIDName := by
  simp [Scene.ensureStudyItem]

@[simp] theorem GetItemUID_fillPatientItem (env : Env R) (s : Scene R)
    (rtReader : vtkSlicerDicomRtReader R) (i : Nat) (name : UIDName) :
    (fillPatientItem env s rtReader).GetItemUID i name = s.GetItemUID i name := by
  simp [fillPatientItem]

@[simp] theorem GetItemUID_fillStudyItem (env : Env R) (s : Scene R)
    (rtReader : vtkSlicerDicomRtReader R) (i : Nat) (name : UIDName) :
    (fillStudyItem env s rtReader).GetItemUID i name = s.GetItemUID i name := by
  simp [fillStudyItem]

/-- An item keeps a non-empty UID of the DICOM namespace when the patient item is created. -/
theorem Scene.GetItemUID_ensurePatientItem_of_valid (s : Scene R) (patientId : String) (i : Nat)
    (hi : i < s.Items.length + 2) :
    (s.ensurePatientItem patientId).GetItemUID i .DICOMUIDName = s.GetItemUID i .DICOMUIDName := by
  unfold Scene.ensurePatientItem
  split_ifs
  · rw [Scene.GetItemUID_CreateItemWithUID]
    have : i ≠ s.Items.length + 2 := by omega
    simp [this]
  · rfl

theorem Scene.GetItemUID_ensureStudyItem_of_valid (s : Scene R) (patientId studyUid : String)
    (i : Nat) (hi : i < s.Items.length + 2) :
    (s.ensureStudyItem patientId studyUid).GetItemUID i .DICOMUIDName
      = s.GetItemUID i .DICOMUIDName := by
  unfold Scene.ensureStudyItem
  split_ifs
  · rw [Scene.GetItemUID_CreateItemWithUID]
    have : i ≠ s.Items.length + 2 := by omega
    simp [this]
  · rfl

/-- After `ensureStudyItem` an item carries the study UID. -/
theorem Scene.ensureStudyItem_found (s : Scene R) (patientId studyUid : String)
    (hv : studyUid ≠ "") :
    (s.ensureStudyItem patientId studyUid).GetItemByUID .DICOMUIDName studyUid
      ≠ INVALID_ITEM_ID := by
  unfold Scene.ensureStudyItem
  split_ifs with h
  · refine Scene.GetItemByUID_ne_invalid _ _ _ (s.Items.length + 2) hv ?_
    rw [Scene.GetItemUID_CreateItemWithUID]
    simp
  · exact h

/-- After `ensurePatientItem` an item carries the patient id. -/
theorem Scene.ensurePatientItem_found (s : Scene R) (patientId : String) (hv : patientId ≠ "") :
    (s.ensurePatientItem patientId).GetItemByUID .DICOMUIDName patientId ≠ INVALID_ITEM_ID := by
  unfold Scene.ensurePatientItem
  split_ifs with h
  · refine Scene.GetItemByUID_ne_invalid _ _ _ (s.Items.length + 2) hv ?_
    rw [Scene.GetItemUID_CreateItemWithUID]
    simp
  · exact h

end GetterLemmas

section InsertSeriesUid

variable {R : Type} [CommRing R]

/-- The series insertion keeps the UIDs of the DICOM namespace that `ensureStudyItem` left. -/
theorem GetItemUID_InsertSeriesInSubjectHierarchy (env : Env R) (s : Scene R)
    (rtReader : vtkSlicerDicomRtReader R) (i : Nat)
    (h1 : rtReader.PatientId ≠ "") (h2 : rtReader.StudyInstanceUid ≠ "")
    (h3 : rtReader.SeriesInstanceUid ≠ "")
    (h4 : s.GetItemByUID .DICOMUIDName rtReader.SeriesInstanceUid ≠ INVALID_ITEM_ID) :
    (InsertSeriesInSubjectHierarchy env s rtReader).GetItemUID i .DICOMUIDName
      = ((s.ensurePatientItem rtReader.PatientId).ensureStudyItem rtReader.PatientId
          rtReader.StudyInstanceUid).GetItemUID i .DICOMUIDName := by
  have hc : ¬ (rtReader.PatientId = "" ∨ rtReader.StudyInstanceUid = ""
      ∨ rtReader.SeriesInstanceUid = "") := by
    rintro (h | h | h)
    · exact h1 h
    · exact h2 h
    · exact h3 h
  simp [InsertSeriesInSubjectHierarchy, Scene.InsertDicomSeriesInHierarchy, hc, h4]

/-- After a successful series insertion the study is found by its UID. -/
theorem InsertSeriesInSubjectHierarchy_study_found (env : Env R) (s : Scene R)
    (rtReader : vtkSlicerDicomRtReader R)
    (h1 : rtReader.PatientId ≠ "") (h2 : rtReader.StudyInstanceUid ≠ "")
    (h3 : rtReader.SeriesInstanceUid ≠ "")
    (h4 : s.GetItemByUID .DICOMUIDName rtReader.SeriesInstanceUid ≠ INVALID_ITEM_ID) :
    (InsertSeriesInSubjectHierarchy env s rtReader).GetItemByUID .DICOMUIDName
      rtReader.StudyInstanceUid ≠ INVALID_ITEM_ID := by
  rw [Scene.GetItemByUID_congr _ _ _ _
    (fun i => GetItemUID_InsertSeriesInSubjectHierarchy env s rtReader i h1 h2 h3 h4)]
  exact Scene.ensureStudyItem_found _ _ _ h2

end InsertSeriesUid

section PlanLemmas
variable {R : Type} [CommRing R]

theorem length_createPlanItem (s : Scene R) (rtReader : vtkSlicerDicomRtReader R)
    (loadable : vtkSlicerDICOMLoadable R) :
    (createPlanItem s rtReader loadable).Items.length = s.Items.length + 1 := by
  simp [createPlanItem]

theorem GetItemDataNode_createPlanItem (s : Scene R) (rtReader : vtkSlicerDicomRtReader R)
    (loadable : vtkSlicerDICOMLoadable R) (i : Nat) :
    (createPlanItem s rtReader loadable).GetItemDataNode i
      = if i = s.Items.length + 2 then some (.RTPlanNode none) else s.GetItemDataNode i := by
  simp [createPlanItem, Scene.AddNode, Scene.GetItemDataNode_CreateItem]

theorem Messages_createPlanItem (s : Scene R) (rtReader : vtkSlicerDicomRtReader R)
    (loadable : vtkSlicerDICOMLoadable R) :
    (createPlanItem s rtReader loadable).Messages = s.Messages := by
  simp [createPlanItem]

theorem GetItemUID_createPlanItem (s : Scene R) (rtReader : vtkSlicerDicomRtReader R)
    (loadable : vtkSlicerDICOMLoadable R) (i : Nat) (name : UIDName) :
    (createPlanItem s rtReader loadable).GetItemUID i name
      = if i = s.Items.length + 2 ∧ name = .DICOMUIDName then rtReader.SeriesInstanceUid
        else s.GetItemUID i name := by
  simp only [createPlanItem, Scene.GetItemUID_SetItemAttribute, Scene.GetItemUID_SetItemName,
    Scene.GetItemUID_SetItemUID, Scene.GetItemUID_AddNode, Scene.AddNode_id,
    Scene.length_AddNode]
  by_cases h : i = s.Items.length + 2
  · by_cases hn : name = .DICOMUIDName
    · simp [h, hn]
    · simp [h, hn, Ne.symm hn]
  · simp [h]

/-- The scene of `addBeamNode`: `AddBeam` finds the beam node that was added to the scene,
gives it its number and places its item under the plan item. -/
theorem addBeamNode_def (env : Env R) (s : Scene R) (P : Nat) (beamNode : vtkMRMLRTBeamNode R) :
    addBeamNode env s P beamNode
      = ((s.AddNode beamNode.Name (.RTBeamNode beamNode)).1.SetItemDataNode
            (s.Items.length + 2)
            (.RTBeamNode (numberedBeamNode env s P beamNode))).SetItemParent
          (s.Items.length + 2) P := by
  have h : (s.AddNode beamNode.Name (.RTBeamNode beamNode)).1.GetItemDataNode
      (s.AddNode beamNode.Name (.RTBeamNode beamNode)).2 = some (.RTBeamNode beamNode) := by
    simp [Scene.AddNode, Scene.GetItemDataNode_CreateItem, Scene.CreateItem_id]
  unfold addBeamNode Scene.AddBeam
  rw [h]
  rfl

theorem length_addBeamNode (env : Env R) (s : Scene R) (P : Nat)
    (beamNode : vtkMRMLRTBeamNode R) :
    (addBeamNode env s P beamNode).Items.length = s.Items.length + 1 := by
  simp [addBeamNode_def]

theorem Messages_addBeamNode (env : Env R) (s : Scene R) (P : Nat)
    (beamNode : vtkMRMLRTBeamNode R) :
    (addBeamNode env s P beamNode).Messages = s.Messages := by
  simp [addBeamNode_def]

theorem GetItemDataNode_addBeamNode (env : Env R) (s : Scene R) (P : Nat)
    (beamNode : vtkMRMLRTBeamNode R) (i : Nat) :
    (addBeamNode env s P beamNode).GetItemDataNode i
      = if i = s.Items.length + 2 then some (.RTBeamNode (numberedBeamNode env s P beamNode))
        else s.GetItemDataNode i := by
  rw [addBeamNode_def, Scene.GetItemDataNode_SetItemParent, Scene.GetItemDataNode_SetItemDataNode]
  by_cases h : i = s.Items.length + 2
  · subst h
    simp [Scene.AddNode, Scene.GetItem_CreateItem, Scene.CreateItem_id]
  · simp [h, Scene.AddNode, Scene.GetItemDataNode_CreateItem]

theorem Messages_prefix_warnDifferentIsocenter (env : Env R) (s : Scene R) (c d : R × R × R) :
    s.Messages <+: (warnDifferentIsocenter env s c d).Messages := by
  unfold warnDifferentIsocenter
  split_ifs <;> simp

@[simp] theorem length_warnDifferentIsocenter (env : Env R) (s : Scene R) (c d : R × R × R) :
    (warnDifferentIsocenter env s c d).Items.length = s.Items.length := by
  simp [warnDifferentIsocenter]

@[simp] theorem GetItemDataNode_warnDifferentIsocenter (env : Env R) (s : Scene R)
    (c d : R × R × R) (i : Nat) :
    (warnDifferentIsocenter env s c d).GetItemDataNode i = s.GetItemDataNode i := by
  simp [warnDifferentIsocenter]

/-- The reader finds the first beam under its own number. -/
theorem FindBeamByNumber_head (rtReader : vtkSlicerDicomRtReader R) (b0 : BeamData R)
    (rest : List (BeamData R)) (hbeams : rtReader.Beams = b0 :: rest) :
    rtReader.FindBeamByNumber (rtReader.GetBeamNumberForIndex 0) = some b0 := by
  simp [vtkSlicerDicomRtReader.FindBeamByNumber, vtkSlicerDicomRtReader.GetBeamNumberForIndex,
    hbeams]

theorem find?_of_nodup_map (l : List (BeamData R)) (h : (l.map (·.BeamNumber)).Nodup)
    (b : BeamData R) (hb : b ∈ l) :
    l.find? (fun beam => beam.BeamNumber = b.BeamNumber) = some b := by
  induction l with
  | nil => simp at hb
  | cons a l ih =>
    rw [List.map_cons, List.nodup_cons] at h
    rcases List.mem_cons.1 hb with rfl | hbl
    · simp
    · have hne : a.BeamNumber ≠ b.BeamNumber := by
        intro e
        exact h.1 (e ▸ List.mem_map_of_mem (·.BeamNumber) hbl)
      rw [List.find?_cons_of_neg]
      · exact ih h.2 hbl
      · simpa using hne

/-- Under pairwise distinct beam numbers the reader finds every beam under its number. -/
theorem FindBeamByNumber_getElem (rtReader : vtkSlicerDicomRtReader R)
    (h : (rtReader.Beams.map (·.BeamNumber)).Nodup) (k : Nat) (hk : k < rtReader.Beams.length) :
    rtReader.FindBeamByNumber (rtReader.GetBeamNumberForIndex k) = some rtReader.Beams[k] := by
  unfold vtkSlicerDicomRtReader.FindBeamByNumber vtkSlicerDicomRtReader.GetBeamNumberForIndex
  rw [List.getElem?_eq_getElem hk]
  exact find?_of_nodup_map _ h _ (List.getElem_mem hk)

/-- One round of the beam loop after the first: the plan isocenter stays, the diagnostic is
logged for a differing isocenter, and the round does not fail. -/
theorem loadBeam_succ (env : Env R) (rtReader : vtkSlicerDicomRtReader R) (P : Nat)
    (s : Scene R) (k : Nat) (hk : k ≠ 0) (iso : R × R × R)
    (hP : s.GetItemDataNode P = some (.RTPlanNode (some iso))) (hlen : P < s.Items.length + 2) :
    (loadBeam env rtReader P s k).2 = true
      ∧ (loadBeam env rtReader P s k).1.GetItemDataNode P = some (.RTPlanNode (some iso))
      ∧ s.Messages <+: (loadBeam env rtReader P s k).1.Messages
      ∧ s.Items.length ≤ (loadBeam env rtReader P s k).1.Items.length
      ∧ ∀ b, rtReader.FindBeamByNumber (rtReader.GetBeamNumberForIndex k) = some b →
          (env.AreEqualWithTolerance iso.1 b.IsocenterPositionRas.1 = false
            ∨ env.AreEqualWithTolerance iso.2.1 b.IsocenterPositionRas.2.1 = false
            ∨ env.AreEqualWithTolerance iso.2.2 b.IsocenterPositionRas.2.2 = false) →
          differentIsocenterMessage ∈ (loadBeam env rtReader P s k).1.Messages := by
  have hiso : s.GetIsocenterPosition P = some iso := by
    simp [Scene.GetIsocenterPosition, hP]
  have hne : P ≠ s.Items.length + 2 := by omega
  unfold loadBeam
  cases hfind : rtReader.FindBeamByNumber (rtReader.GetBeamNumberForIndex k) with
  | none =>
    refine ⟨rfl, hP, List.prefix_refl _, Nat.le_refl _, ?_⟩
    intro b hb
    exact absurd hb (by simp)
  | some beam =>
    simp only [hk, if_false, hiso]
    refine ⟨trivial, ?_, ?_, ?_, ?_⟩
    · rw [GetItemDataNode_addBeamNode]
      simp [hne, hP]
    · rw [Messages_addBeamNode]
      exact Messages_prefix_warnDifferentIsocenter env s _ _
    · rw [length_addBeamNode]
      simp
    · intro b hb hdiff
      obtain rfl : beam = b := by simpa using hb
      rw [Messages_addBeamNode]
      simp [warnDifferentIsocenter, hdiff, differentIsocenterMessage]

/-- The beam loop after its first round. -/
theorem loadBeams_succ (env : Env R) (rtReader : vtkSlicerDicomRtReader R) (P : Nat)
    (iso : R × R × R) :
    ∀ (rounds k : Nat) (s : Scene R), k ≠ 0 →
      s.GetItemDataNode P = some (.RTPlanNode (some iso)) → P < s.Items.length + 2 →
      (loadBeams env rtReader P rounds k s).2 = true
        ∧ (loadBeams env rtReader P rounds k s).1.GetItemDataNode P
            = some (.RTPlanNode (some iso))
        ∧ s.Messages <+: (loadBeams env rtReader P rounds k s).1.Messages
        ∧ ∀ j, k ≤ j → j < k + rounds →
            ∀ b, rtReader.FindBeamByNumber (rtReader.GetBeamNumberForIndex j) = some b →
              (env.AreEqualWithTolerance iso.1 b.IsocenterPositionRas.1 = false
                ∨ env.AreEqualWithTolerance iso.2.1 b.IsocenterPositionRas.2.1 = false
                ∨ env.AreEqualWithTolerance iso.2.2 b.IsocenterPositionRas.2.2 = false) →
              differentIsocenterMessage ∈ (loadBeams env rtReader P rounds k s).1.Messages := by
  intro rounds
  induction rounds with
  | zero =>
    intro k s _ hP _
    refine ⟨rfl, hP, List.prefix_refl _, ?_⟩
    intro j h1 h2
    omega
  | succ rounds ih =>
    intro k s hk hP hlen
    obtain ⟨hflag, hnode, hmsg, hlen1, hdiag⟩ := loadBeam_succ env rtReader P s k hk iso hP hlen
    have hstep : loadBeams env rtReader P (rounds + 1) k s
        = loadBeams env rtReader P rounds (k + 1) (loadBeam env rtReader P s k).1 := by
      rw [loadBeams]
      simp [hflag]
    rw [hstep]
    obtain ⟨h1, h2, h3, h4⟩ := ih (k + 1) (loadBeam env rtReader P s k).1 (by omega) hnode
      (by omega)
    refine ⟨h1, h2, hmsg.trans h3, ?_⟩
    intro j hj1 hj2 b hb hdiff
    by_cases hjk : j = k
    · subst hjk
      exact h3.subset (hdiag b hb hdiff)
    · exact h4 j (by omega) (by omega) b hb hdiff

/-- The beam loop of a plan with a first beam: the plan isocenter is the isocenter of the first
beam, the loop does not fail, and the diagnostic is logged for later beams that differ. -/
theorem loadBeams_spec (env : Env R) (rtReader : vtkSlicerDicomRtReader R) (P : Nat)
    (s : Scene R) (b0 : BeamData R) (rest : List (BeamData R))
    (hbeams : rtReader.Beams = b0 :: rest) (x : Option (R × R × R))
    (hP : s.GetItemDataNode P = some (.RTPlanNode x)) (hlen : P < s.Items.length + 2) :
    (loadBeams env rtReader P rtReader.Beams.length 0 s).2 = true
      ∧ (loadBeams env rtReader P rtReader.Beams.length 0 s).1.GetItemDataNode P
          = some (.RTPlanNode (some b0.IsocenterPositionRas))
      ∧ s.Messages <+: (loadBeams env rtReader P rtReader.Beams.length 0 s).1.Messages
      ∧ ∀ j, 1 ≤ j → j < rtReader.Beams.length →
          ∀ b, rtReader.FindBeamByNumber (rtReader.GetBeamNumberForIndex j) = some b →
            (env.AreEqualWithTolerance b0.IsocenterPositionRas.1 b.IsocenterPositionRas.1 = false
              ∨ env.AreEqualWithTolerance b0.IsocenterPositionRas.2.1 b.IsocenterPositionRas.2.1
                  = false
              ∨ env.AreEqualWithTolerance b0.IsocenterPositionRas.2.2 b.IsocenterPositionRas.2.2
                  = false) →
            differentIsocenterMessage
              ∈ (loadBeams env rtReader P rtReader.Beams.length 0 s).1.Messages := by
  have hvalid : 2 ≤ P := by
    by_contra h
    have hnone : s.GetItem P = none := by
      unfold Scene.GetItem
      simp [show P < 2 by omega]
    simp [Scene.GetItemDataNode, hnone] at hP
  have hsome : (s.GetItem P).isSome = true := (Scene.GetItem_isSome s P).2 ⟨hvalid, hlen⟩
  have hfirst : loadBeam env rtReader P s 0
      = (addBeamNode env (s.SetItemDataNode P (.RTPlanNode (some b0.IsocenterPositionRas))) P
          (beamNodeOf b0), true) := by
    unfold loadBeam
    simp [FindBeamByNumber_head rtReader b0 rest hbeams, Scene.SetIsocenterPosition, hP]
  have hlength : rtReader.Beams.length = rest.length + 1 := by simp [hbeams]
  have hstep : loadBeams env rtReader P rtReader.Beams.length 0 s
      = loadBeams env rtReader P rest.length 1
          (addBeamNode env (s.SetItemDataNode P (.RTPlanNode (some b0.IsocenterPositionRas))) P
            (beamNodeOf b0)) := by
    rw [hlength, loadBeams]
    simp [hfirst]
  rw [hstep]
  have hne : P ≠ s.Items.length + 2 := by omega
  have hnode : (addBeamNode env (s.SetItemDataNode P (.RTPlanNode (some b0.IsocenterPositionRas))) P
      (beamNodeOf b0)).GetItemDataNode P
        = some (.RTPlanNode (some b0.IsocenterPositionRas)) := by
    rw [GetItemDataNode_addBeamNode, Scene.GetItemDataNode_SetItemDataNode]
    simp [hne, hsome]
  obtain ⟨h1, h2, h3, h4⟩ := loadBeams_succ env rtReader P b0.IsocenterPositionRas rest.length 1
    _ (by omega) hnode (by rw [length_addBeamNode]; simp; omega)
  refine ⟨h1, h2, ?_, ?_⟩
  · refine List.IsPrefix.trans ?_ h3
    rw [Messages_addBeamNode, Scene.Messages_SetItemDataNode]
  · intro j hj1 hj2 b hb hdiff
    exact h4 j hj1 (by omega) b hb hdiff

end PlanLemmas

section PlanLemmas2

variable {R : Type} [CommRing R]

@[simp] theorem GetItemUID_addBeamNode (env : Env R) (s : Scene R) (P : Nat)
    (beamNode : vtkMRMLRTBeamNode R) (i : Nat) (name : UIDName) :
    (addBeamNode env s P beamNode).GetItemUID i name = s.GetItemUID i name := by
  simp [addBeamNode_def]

@[simp] theorem GetItemUID_warnDifferentIsocenter (env : Env R) (s : Scene R) (c d : R × R × R)
    (i : Nat) (name : UIDName) :
    (warnDifferentIsocenter env s c d).GetItemUID i name = s.GetItemUID i name := by
  simp [warnDifferentIsocenter]

@[simp] theorem Scene.GetItemUID_SetIsocenterPosition (s : Scene R) (P : Nat) (c : R × R × R)
    (i : Nat) (name : UIDName) :
    (s.SetIsocenterPosition P c).1.GetItemUID i name = s.GetItemUID i name := by
  unfold Scene.SetIsocenterPosition
  split <;> simp

@[simp] theorem GetItemUID_loadBeam (env : Env R) (rtReader : vtkSlicerDicomRtReader R) (P : Nat)
    (s : Scene R) (k : Nat) (i : Nat) (name : UIDName) :
    (loadBeam env rtReader P s k).1.GetItemUID i name = s.GetItemUID i name := by
  unfold loadBeam
  split
  · rfl
  · split_ifs
    · simp
    · simp
    · split <;> simp

@[simp] theorem GetItemUID_loadBeams (env : Env R) (rtReader : vtkSlicerDicomRtReader R) (P : Nat)
    (i : Nat) (name : UIDName) :
    ∀ (rounds k : Nat) (s : Scene R),
      (loadBeams env rtReader P rounds k s).1.GetItemUID i name = s.GetItemUID i name := by
  intro rounds
  induction rounds with
  | zero => intro k s; rfl
  | succ rounds ih =>
    intro k s
    rw [loadBeams]
    split_ifs
    · simp
    · rw [ih]
      simp

/-- The last part of `LoadRtPlan` keeps the plan node and the messages. -/
theorem placePlanUnderStudy_spec (env : Env R) (s : Scene R)
    (rtReader : vtkSlicerDicomRtReader R) (P : Nat) (x : Option (R × R × R))
    (hP : s.GetItemDataNode P = some (.RTPlanNode x)) :
    (placePlanUnderStudy env s rtReader P).1.GetItemDataNode P = some (.RTPlanNode x)
      ∧ s.Messages <+: (placePlanUnderStudy env s rtReader P).1.Messages
      ∧ (s.GetItemByUID .DICOMUIDName rtReader.StudyInstanceUid ≠ INVALID_ITEM_ID →
          (placePlanUnderStudy env s rtReader P).2 = true) := by
  unfold placePlanUnderStudy
  split_ifs with h
  · refine ⟨by simpa using hP, by simp, fun h' => absurd h h'⟩
  · refine ⟨?_, ?_, fun _ => rfl⟩
    · rw [Scene.GetItemDataNode_EndState]
      exact GetItemDataNode_setupGeometryOfBeams env _ P _ (fun v => by simp) _
        (by simpa using hP)
    · rw [Scene.Messages_EndState]
      refine List.IsPrefix.trans ?_ (Messages_prefix_setupGeometryOfBeams env _ _)
      simp

end PlanLemmas2

/-- C5. For a plan with at least one beam, after `LoadRtPlan` the isocenter of the plan
item (the item created for the plan node) is the isocenter of beam 0, whatever the isocenters
of the other beams are.  When the beam numbers are pairwise distinct, every later beam whose
isocenter differs from it beyond the tolerance in some coordinate makes the loader log the
diagnostic.  The load does not fail for that: when the patient id, the study UID and the series
UID of the plan are present, `LoadRtPlan` returns true. -/
theorem loadRtPlan_isocenter {R : Type} [CommRing R] (env : Env R) (s : Scene R)
    (rtReader : vtkSlicerDicomRtReader R) (loadable : vtkSlicerDICOMLoadable R)
    (b0 : BeamData R) (rest : List (BeamData R)) (hbeams : rtReader.Beams = b0 :: rest) :
    (LoadRtPlan env s rtReader loadable).1.GetIsocenterPosition (s.Items.length + 2)
        = some b0.IsocenterPositionRas
      ∧ ((rtReader.Beams.map (·.BeamNumber)).Nodup →
          ∀ b ∈ rest,
            (env.AreEqualWithTolerance b0.IsocenterPositionRas.1 b.IsocenterPositionRas.1 = false
              ∨ env.AreEqualWithTolerance b0.IsocenterPositionRas.2.1 b.IsocenterPositionRas.2.1
                  = false
              ∨ env.AreEqualWithTolerance b0.IsocenterPositionRas.2.2 b.IsocenterPositionRas.2.2
                  = false) →
            differentIsocenterMessage ∈ (LoadRtPlan env s rtReader loadable).1.Messages)
      ∧ (rtReader.PatientId ≠ "" → rtReader.StudyInstanceUid ≠ "" →
          rtReader.SeriesInstanceUid ≠ "" → (LoadRtPlan env s rtReader loadable).2 = true) := by
  have hid : (s.StartState.AddNode loadable.Name (.RTPlanNode none)).2 = s.Items.length + 2 := rfl
  have hP0 : (createPlanItem s.StartState rtReader loadable).GetItemDataNode (s.Items.length + 2)
      = some (.RTPlanNode none) := by
    rw [GetItemDataNode_createPlanItem]
    simp
  have hlen0 : s.Items.length + 2 < (createPlanItem s.StartState rtReader loadable).Items.length + 2 := by
    rw [length_createPlanItem]
    simp
  obtain ⟨hflag, hnode, hmsg, hdiag⟩ := loadBeams_spec env rtReader (s.Items.length + 2)
    (createPlanItem s.StartState rtReader loadable) b0 rest hbeams none hP0 hlen0
  have hnode1 : (InsertSeriesInSubjectHierarchy env
      (loadBeams env rtReader (s.Items.length + 2) rtReader.Beams.length 0
        (createPlanItem s.StartState rtReader loadable)).1 rtReader).GetItemDataNode
        (s.Items.length + 2) = some (.RTPlanNode (some b0.IsocenterPositionRas)) := by
    rw [GetItemDataNode_InsertSeriesInSubjectHierarchy]
    exact hnode
  obtain ⟨hfinal, hmsg2, hret⟩ := placePlanUnderStudy_spec env _ rtReader (s.Items.length + 2) _
    hnode1
  have hload : LoadRtPlan env s rtReader loadable
      = placePlanUnderStudy env
          (InsertSeriesInSubjectHierarchy env
            (loadBeams env rtReader (s.Items.length + 2) rtReader.Beams.length 0
              (createPlanItem s.StartState rtReader loadable)).1 rtReader)
          rtReader (s.Items.length + 2) := by
    unfold LoadRtPlan
    rw [hid]
    have hne : s.Items.length + 2 ≠ INVALID_ITEM_ID := by simp [INVALID_ITEM_ID]
    simp only [hne, if_false, hflag]
    simp
  rw [hload]
  refine ⟨?_, ?_, ?_⟩
  · simp [Scene.GetIsocenterPosition, hfinal]
  · intro hnodup b hb hdiff
    obtain ⟨k, hk, rfl⟩ := List.getElem_of_mem hb
    have hlength : rtReader.Beams.length = rest.length + 1 := by simp [hbeams]
    have hfind := FindBeamByNumber_getElem rtReader hnodup (k + 1) (by omega)
    have hk1 : k + 1 < rtReader.Beams.length := by omega
    have hget : rtReader.Beams[k + 1] = rest[k] := by
      simp [hbeams]
    rw [hget] at hfind
    exact hmsg2.subset ((Messages_prefix_InsertSeriesInSubjectHierarchy env _ rtReader).subset
      (hdiag (k + 1) (by omega) (by omega) _ hfind hdiff))
  · intro h1 h2 h3
    apply hret
    apply InsertSeriesInSubjectHierarchy_study_found env _ rtReader h1 h2 h3
    refine Scene.GetItemByUID_ne_invalid _ _ _ (s.Items.length + 2) h3 ?_
    rw [GetItemUID_loadBeams, GetItemUID_createPlanItem]
    simp

/-- Witness of C5 on the sample plan: two beams, the second with an isocenter 5 mm away. -/
theorem loadRtPlan_isocenter_witness :
    (LoadRtPlan sampleEnv Scene.empty samplePlanReader samplePlanLoadable).1.GetIsocenterPosition 2
        = some (0, 0, 0)
      ∧ differentIsocenterMessage
          ∈ (LoadRtPlan sampleEnv Scene.empty samplePlanReader samplePlanLoadable).1.Messages
      ∧ (LoadRtPlan sampleEnv Scene.empty samplePlanReader samplePlanLoadable).2 = true :=
  have h := loadRtPlan_isocenter sampleEnv Scene.empty samplePlanReader samplePlanLoadable
    ⟨1, "beam 1", ((0, 0), (0, 0)), 90, 0, 0, 1000, (0, 0, 0)⟩
    [⟨2, "beam 2", ((0, 0), (0, 0)), 0, 0, 0, 1000, (5, 0, 0)⟩] rfl
  ⟨h.1, h.2.1 (by decide) _ (List.mem_singleton.2 rfl) (by decide),
    h.2.2 (by decide) (by decide) (by decide)⟩

section EntryLemmas
variable {R : Type} [CommRing R]

/-- The image entry of `SetupRtImageGeometry` when the plan and the beam are found. -/
theorem SetupRtImageGeometry_of_image (env : Env R) (s : Scene R) (I B : Nat)
    (hv : s.IsScalarVolume I = true)
    (h1 : s.GetItemAttribute I .DICOMReferencedInstanceUIDs ≠ "")
    (h2 : s.GetItemByUID .DICOMInstanceUIDName
      (s.GetItemAttribute I .DICOMReferencedInstanceUIDs) ≠ INVALID_ITEM_ID)
    (h3 : s.GetItemAttribute I .DICOMRTIMPORT_BEAM_NUMBER ≠ "")
    (h4 : s.GetBeamByNumber
      (s.GetItemByUID .DICOMInstanceUIDName (s.GetItemAttribute I .DICOMReferencedInstanceUIDs))
      (env.ToInt (s.GetItemAttribute I .DICOMRTIMPORT_BEAM_NUMBER)) = B)
    (h5 : B ≠ INVALID_ITEM_ID) :
    SetupRtImageGeometry env s I = setupGeometryOfPair env s I B := by
  subst h4
  simp only [SetupRtImageGeometry, hv, if_true, h1, h2, h3, h5, if_false]

/-- The image entry of `SetupRtImageGeometry` when the plan is not in the scene. -/
theorem SetupRtImageGeometry_of_image_without_plan (env : Env R) (s : Scene R) (I : Nat)
    (hv : s.IsScalarVolume I = true)
    (h1 : s.GetItemAttribute I .DICOMReferencedInstanceUIDs ≠ "")
    (h2 : s.GetItemByUID .DICOMInstanceUIDName
      (s.GetItemAttribute I .DICOMReferencedInstanceUIDs) = INVALID_ITEM_ID) :
    SetupRtImageGeometry env s I
      = s.log .Debug
          "SetupRtImageGeometry: Cannot set up geometry of RT image without the referenced RT plan" := by
  simp only [SetupRtImageGeometry, hv, if_true, h1, h2, if_false]

/-- The beam entry of `SetupRtImageGeometry` when the search ends at an image. -/
theorem SetupRtImageGeometry_of_beam (env : Env R) (s : Scene R) (I B : Nat)
    (hv : s.IsScalarVolume B = false) (hb : s.IsBeam B = true)
    (h1 : s.GetParentPlanItem B ≠ INVALID_ITEM_ID)
    (h2 : s.GetItemUID (s.GetParentPlanItem B) .DICOMInstanceUIDName ≠ "")
    (h3 : searchRtImageForBeam env s (s.GetParentPlanItem B) (s.GetBeamNumber B)
      (decide (s.GetNumberOfItemChildren (s.GetParentPlanItem B) = 1))
      s.GetItemChildren INVALID_ITEM_ID = .finished I)
    (h4 : I ≠ INVALID_ITEM_ID) :
    SetupRtImageGeometry env s B = setupGeometryOfPair env s I B := by
  simp only [SetupRtImageGeometry, hv, hb, if_true, h1, h2, h3, h4, if_false]
  simp

/-- The beam entry of `SetupRtImageGeometry` when the search finds no image. -/
theorem SetupRtImageGeometry_of_beam_without_image (env : Env R) (s : Scene R) (B : Nat)
    (hv : s.IsScalarVolume B = false) (hb : s.IsBeam B = true)
    (h1 : s.GetParentPlanItem B ≠ INVALID_ITEM_ID)
    (h2 : s.GetItemUID (s.GetParentPlanItem B) .DICOMInstanceUIDName ≠ "")
    (h3 : searchRtImageForBeam env s (s.GetParentPlanItem B) (s.GetBeamNumber B)
      (decide (s.GetNumberOfItemChildren (s.GetParentPlanItem B) = 1))
      s.GetItemChildren INVALID_ITEM_ID = .finished INVALID_ITEM_ID) :
    SetupRtImageGeometry env s B
      = s.log .Debug
          "SetupRtImageGeometry: Cannot set up geometry because the RT image is not loaded yet" := by
  simp only [SetupRtImageGeometry, hv, hb, if_true, h1, h2, h3, if_false]
  simp

/-- Matrix of the image after the common tail of `SetupRtImageGeometry`. -/
theorem setupGeometryOfPair_GetIJKToRASMatrix (env : Env R) (s : Scene R) (I B : Nat)
    (volume : vtkMRMLScalarVolumeNode R) (beam : vtkMRMLRTBeamNode R) (c : R × R × R)
    (himage : s.GetItemDataNode I = some (.ScalarVolumeNode volume))
    (hbeam : s.GetItemDataNode B = some (.RTBeamNode beam))
    (hiso : s.GetPlanIsocenterPosition B = some c) :
    (setupGeometryOfPair env s I B).GetIJKToRASMatrix I
      = some (placementChain env.trig c beam.CouchAngle beam.GantryAngle beam.SAD
          (rtImageSidOf env s I) (rtImagePositionOf env s I).1 (rtImagePositionOf env s I).2
          volume.IJKToRASMatrix) := by
  simp [Scene.GetIJKToRASMatrix, setupGeometryOfPair_matrix env s I B volume beam c himage hbeam hiso]

end EntryLemmas

theorem placementChain_sample_twice :
    placementChain quarterTurnTrig (0, 0, 0) 0 90 1000 1500 (-200) (-200)
        (placementChain quarterTurnTrig (0, 0, 0) 0 90 1000 1500 (-200) (-200) 1)
      = !![0, 1, 0, 300; 0, 0, 1, 700; 1, 0, 0, 0; 0, 0, 0, 1] := by
  rw [placementChain_sample]
  simp only [placementChain, Ry, Rz, Rx, T, quarterTurnTrig, mul_fin_four, one_fin_four]
  norm_num

theorem resolvedSampleScene_eq :
    resolvedSampleScene = setupGeometryOfPair sampleEnv sampleScene 4 3 :=
  SetupRtImageGeometry_of_image sampleEnv sampleScene 4 3 (by decide) (by decide) (by decide)
    (by decide) (by decide) (by decide)

theorem resolvedSampleScene_node :
    resolvedSampleScene.GetItemDataNode 4
      = some (.ScalarVolumeNode
          ⟨placementChain quarterTurnTrig (0, 0, 0) 0 90 1000 1500 (-200) (-200) 1, [], some 0,
            false⟩) := by
  rw [resolvedSampleScene_eq]
  exact setupGeometryOfPair_matrix sampleEnv sampleScene 4 3 ⟨1, [], none, false⟩
    ⟨"beam", 1, 0, 0, 0, 0, 90, 0, 0, 1000⟩ (0, 0, 0) rfl rfl rfl

/-- C3 at the failing input.  In the sample scene the RT image has its geometry resolved by a
first call of `SetupRtImageGeometry`: a displayed model is attached and the matrix is the
placement of the scenario.  A second call, with the image volume (item 4) or with its beam
(item 3), does not return early: it applies the placement transform to the matrix again and
creates a second model node. -/
theorem setupRtImageGeometry_applied_twice :
    resolvedSampleScene.GetDisplayedModel 4 = some 0
    ∧ resolvedSampleScene.ModelNodes = 1
    ∧ resolvedSampleScene.GetIJKToRASMatrix 4
        = some !![0, 0, 1, 500; 1, 0, 0, 200; 0, 1, 0, -200; 0, 0, 0, 1]
    ∧ (SetupRtImageGeometry sampleEnv resolvedSampleScene 4).GetIJKToRASMatrix 4
        = some !![0, 1, 0, 300; 0, 0, 1, 700; 1, 0, 0, 0; 0, 0, 0, 1]
    ∧ (SetupRtImageGeometry sampleEnv resolvedSampleScene 4).ModelNodes = 2
    ∧ (SetupRtImageGeometry sampleEnv resolvedSampleScene 3).GetIJKToRASMatrix 4
        = some !![0, 1, 0, 300; 0, 0, 1, 700; 1, 0, 0, 0; 0, 0, 0, 1]
    ∧ (SetupRtImageGeometry sampleEnv resolvedSampleScene 3).ModelNodes = 2 := by
  have hnode := resolvedSampleScene_node
  have himage : SetupRtImageGeometry sampleEnv resolvedSampleScene 4
      = setupGeometryOfPair sampleEnv resolvedSampleScene 4 3 :=
    SetupRtImageGeometry_of_image sampleEnv resolvedSampleScene 4 3 (by decide) (by decide)
      (by decide) (by decide) (by decide) (by decide)
  have hbeam : SetupRtImageGeometry sampleEnv resolvedSampleScene 3
      = setupGeometryOfPair sampleEnv resolvedSampleScene 4 3 :=
    SetupRtImageGeometry_of_beam sampleEnv resolvedSampleScene 4 3 (by decide) (by decide)
      (by decide) (by decide) (by decide) (by decide)
  have hmatrix := setupGeometryOfPair_GetIJKToRASMatrix sampleEnv resolvedSampleScene 4 3 _
    ⟨"beam", 1, 0, 0, 0, 0, 90, 0, 0, 1000⟩ (0, 0, 0) hnode rfl rfl
  have hsid : rtImageSidOf sampleEnv resolvedSampleScene 4 = 1500 := by decide
  have hpos : rtImagePositionOf sampleEnv resolvedSampleScene 4 = (-200, -200) := by decide
  rw [hsid, hpos] at hmatrix
  refine ⟨by decide, by decide, ?_, ?_, ?_, ?_, ?_⟩
  · simp only [Scene.GetIJKToRASMatrix, hnode, placementChain_sample]
  · rw [himage, hmatrix]
    exact congrArg some placementChain_sample_twice
  · rw [himage]; decide
  · rw [hbeam, hmatrix]
    exact congrArg some placementChain_sample_twice
  · rw [hbeam]; decide

section AttributeLemmas

variable {R : Type}

theorem Scene.GetItemAttribute_modifyItem_keep (s : Scene R) (i j : Nat) (f : ShItem R → ShItem R)
    (a : AttributeName) (hf : ∀ it, (f it).Attributes a = it.Attributes a) :
    (s.modifyItem j f).GetItemAttribute i a = s.GetItemAttribute i a := by
  unfold Scene.GetItemAttribute
  rw [Scene.GetItem_modifyItem]
  by_cases h : i = j
  · simp only [h, if_true]
    cases s.GetItem j <;> simp [hf]
  · simp only [h, if_false]

@[simp] theorem Scene.GetItemAttribute_ite (c : Prop) [Decidable c] (x y : Scene R) (i : Nat)
    (a : AttributeName) :
    (if c then x else y).GetItemAttribute i a
      = if c then x.GetItemAttribute i a else y.GetItemAttribute i a := by
  split_ifs <;> rfl

@[simp] theorem Scene.GetItemAttribute_SetItemUID (s : Scene R) (i j : Nat) (n : UIDName)
    (v : String) (a : AttributeName) :
    (s.SetItemUID j n v).GetItemAttribute i a = s.GetItemAttribute i a :=
  Scene.GetItemAttribute_modifyItem_keep s i j _ a (fun _ => rfl)

@[simp] theorem Scene.GetItemAttribute_SetItemName (s : Scene R) (i j : Nat) (v : String)
    (a : AttributeName) : (s.SetItemName j v).GetItemAttribute i a = s.GetItemAttribute i a :=
  Scene.GetItemAttribute_modifyItem_keep s i j _ a (fun _ => rfl)

@[simp] theorem Scene.GetItemAttribute_SetItemParent (s : Scene R) (i j p : Nat)
    (a : AttributeName) : (s.SetItemParent j p).GetItemAttribute i a = s.GetItemAttribute i a :=
  Scene.GetItemAttribute_modifyItem_keep s i j _ a (fun _ => rfl)

@[simp] theorem Scene.GetItemAttribute_SetItemDataNode (s : Scene R) (i j : Nat)
    (n : vtkMRMLNode R) (a : AttributeName) :
    (s.SetItemDataNode j n).GetItemAttribute i a = s.GetItemAttribute i a :=
  Scene.GetItemAttribute_modifyItem_keep s i j _ a (fun _ => rfl)

@[simp] theorem Scene.GetItemAttribute_log (s : Scene R) (sev : Severity) (text : String)
    (i : Nat) (a : AttributeName) :
    (s.log sev text).GetItemAttribute i a = s.GetItemAttribute i a := rfl

@[simp] theorem Scene.GetItemAttribute_StartState (s : Scene R) (i : Nat) (a : AttributeName) :
    s.StartState.GetItemAttribute i a = s.GetItemAttribute i a := rfl

@[simp] theorem Scene.GetItemAttribute_EndState (s : Scene R) (i : Nat) (a : AttributeName) :
    s.EndState.GetItemAttribute i a = s.GetItemAttribute i a := rfl

@[simp] theorem Scene.GetItemAttribute_mk_Items (s : Scene R) (k : Nat) (b : Int)
    (m : List Message) (i : Nat) (a : AttributeName) :
    (Scene.mk s.Items k b m).GetItemAttribute i a = s.GetItemAttribute i a := rfl

@[simp] theorem Scene.GetItemAttribute_CreateItem (s : Scene R) (parent : Nat) (nm : String)
    (node : Option (vtkMRMLNode R)) (i : Nat) (a : AttributeName) :
    (s.CreateItem parent nm node).1.GetItemAttribute i a = s.GetItemAttribute i a := by
  unfold Scene.GetItemAttribute
  rw [Scene.GetItem_CreateItem]
  by_cases h : i = s.Items.length + 2
  · simp only [h, if_true]
    rw [Scene.GetItem_of_length_le s _ (Nat.le_refl _)]
  · simp only [h, if_false]

@[simp] theorem Scene.GetItemAttribute_AddNode (s : Scene R) (nm : String) (node : vtkMRMLNode R)
    (i : Nat) (a : AttributeName) :
    (s.AddNode nm node).1.GetItemAttribute i a = s.GetItemAttribute i a :=
  Scene.GetItemAttribute_CreateItem s _ nm _ i a

theorem Scene.GetItemAttribute_SetItemAttribute (s : Scene R) (i j : Nat) (a b : AttributeName)
    (v : String) :
    (s.SetItemAttribute j a v).GetItemAttribute i b
      = if i = j ∧ a = b ∧ 2 ≤ j ∧ j < s.Items.length + 2 then v
        else s.GetItemAttribute i b := by
  unfold Scene.GetItemAttribute Scene.SetItemAttribute
  rw [Scene.GetItem_modifyItem]
  by_cases h : i = j
  · subst h
    by_cases hv : 2 ≤ i ∧ i < s.Items.length + 2
    · have hsome := (Scene.GetItem_isSome s i).2 hv
      obtain ⟨it, hit⟩ := Option.isSome_iff_exists.1 hsome
      by_cases hab : a = b
      · simp [hit, hab, hv]
      · simp [hit, hab, Function.update_noteq (Ne.symm hab)]
    · have hnone : s.GetItem i = none := by
        cases hc : s.GetItem i with
        | none => rfl
        | some it =>
          exact absurd ((Scene.GetItem_isSome s i).1 (by rw [hc]; rfl)) hv
      have hc : ¬ (a = b ∧ 2 ≤ i ∧ i < s.Items.length + 2) := fun h => hv h.2
      simp [hnone, hc]
  · simp [h]

@[simp] theorem Scene.GetItemAttribute_SetItemAttribute_of_ne (s : Scene R) (i j : Nat)
    (a b : AttributeName) (v : String) (h : a ≠ b) :
    (s.SetItemAttribute j a v).GetItemAttribute i b = s.GetItemAttribute i b := by
  rw [Scene.GetItemAttribute_SetItemAttribute]
  simp [h]

@[simp] theorem Scene.GetItemAttribute_CreateItemWithUID (s : Scene R) (parent : Nat)
    (nm uid : String) (i : Nat) (a : AttributeName) :
    (s.CreateItemWithUID parent nm uid).GetItemAttribute i a = s.GetItemAttribute i a := by
  simp [Scene.CreateItemWithUID]

@[simp] theorem Scene.GetItemAttribute_ensurePatientItem (s : Scene R) (patientId : String)
    (i : Nat) (a : AttributeName) :
    (s.ensurePatientItem patientId).GetItemAttribute i a = s.GetItemAttribute i a := by
  simp [Scene.ensurePatientItem]

@[simp] theorem Scene.GetItemAttribute_ensureStudyItem (s : Scene R) (patientId studyUid : String)
    (i : Nat) (a : AttributeName) :
    (s.ensureStudyItem patientId studyUid).GetItemAttribute i a = s.GetItemAttribute i a := by
  simp [Scene.ensureStudyItem]

@[simp] theorem Scene.GetItemAttribute_InsertDicomSeriesInHierarchy (s : Scene R)
    (patientId studyUid seriesUid : String) (i : Nat) (a : AttributeName) :
    (s.InsertDicomSeriesInHierarchy patientId studyUid seriesUid).1.GetItemAttribute i a
      = s.GetItemAttribute i a := by
  unfold Scene.InsertDicomSeriesInHierarchy
  split_ifs <;> simp

end AttributeLemmas

section AttributeLemmas2

variable {R : Type} [CommRing R]

theorem GetItemAttribute_fillPatientItem (env : Env R) (s : Scene R)
    (rtReader : vtkSlicerDicomRtReader R) (i : Nat) (a : AttributeName)
    (ha : a.IsRtImageAttribute = true) :
    (fillPatientItem env s rtReader).GetItemAttribute i a = s.GetItemAttribute i a := by
  cases a <;> simp [AttributeName.IsRtImageAttribute] at ha <;> simp [fillPatientItem]

theorem GetItemAttribute_fillStudyItem (env : Env R) (s : Scene R)
    (rtReader : vtkSlicerDicomRtReader R) (i : Nat) (a : AttributeName)
    (ha : a.IsRtImageAttribute = true) :
    (fillStudyItem env s rtReader).GetItemAttribute i a = s.GetItemAttribute i a := by
  cases a <;> simp [AttributeName.IsRtImageAttribute] at ha <;> simp [fillStudyItem]

/-- Function `InsertSeriesInSubjectHierarchy` keeps the attributes that the geometry reads. -/
theorem GetItemAttribute_InsertSeriesInSubjectHierarchy (env : Env R) (s : Scene R)
    (rtReader : vtkSlicerDicomRtReader R) (i : Nat) (a : AttributeName)
    (ha : a.IsRtImageAttribute = true) :
    (InsertSeriesInSubjectHierarchy env s rtReader).GetItemAttribute i a
      = s.GetItemAttribute i a := by
  have h1 := fun t => GetItemAttribute_fillPatientItem env t rtReader i a ha
  have h2 := fun t => GetItemAttribute_fillStudyItem env t rtReader i a ha
  cases a <;> simp [AttributeName.IsRtImageAttribute] at ha <;>
    simp [InsertSeriesInSubjectHierarchy, h1, h2]

end AttributeLemmas2

section ParentLemmas

variable {R : Type}

theorem Scene.GetItemParent_modifyItem_keep (s : Scene R) (i j : Nat) (f : ShItem R → ShItem R)
    (hf : ∀ it, (f it).Parent = it.Parent) :
    (s.modifyItem j f).GetItemParent i = s.GetItemParent i := by
  unfold Scene.GetItemParent
  rw [Scene.GetItem_modifyItem]
  by_cases h : i = j
  · simp only [h, if_true]
    cases s.GetItem j <;> simp [hf]
  · simp only [h, if_false]

@[simp] theorem Scene.GetItemParent_ite (c : Prop) [Decidable c] (x y : Scene R) (i : Nat) :
    (if c then x else y).GetItemParent i
      = if c then x.GetItemParent i else y.GetItemParent i := by
  split_ifs <;> rfl

@[simp] theorem Scene.GetItemParent_SetItemUID (s : Scene R) (i j : Nat) (n : UIDName)
    (v : String) : (s.SetItemUID j n v).GetItemParent i = s.GetItemParent i :=
  Scene.GetItemParent_modifyItem_keep s i j _ (fun _ => rfl)

@[simp] theorem Scene.GetItemParent_SetItemName (s : Scene R) (i j : Nat) (v : String) :
    (s.SetItemName j v).GetItemParent i = s.GetItemParent i :=
  Scene.GetItemParent_modifyItem_keep s i j _ (fun _ => rfl)

@[simp] theorem Scene.GetItemParent_SetItemAttribute (s : Scene R) (i j : Nat)
    (a : AttributeName) (v : String) :
    (s.SetItemAttribute j a v).GetItemParent i = s.GetItemParent i :=
  Scene.GetItemParent_modifyItem_keep s i j _ (fun _ => rfl)

@[simp] theorem Scene.GetItemParent_SetItemDataNode (s : Scene R) (i j : Nat)
    (n : vtkMRMLNode R) : (s.SetItemDataNode j n).GetItemParent i = s.GetItemParent i :=
  Scene.GetItemParent_modifyItem_keep s i j _ (fun _ => rfl)

@[simp] theorem Scene.GetItemParent_log (s : Scene R) (sev : Severity) (text : String)
    (i : Nat) : (s.log sev text).GetItemParent i = s.GetItemParent i := rfl

@[simp] theorem Scene.GetItemParent_StartState (s : Scene R) (i : Nat) :
    s.StartState.GetItemParent i = s.GetItemParent i := rfl

@[simp] theorem Scene.GetItemParent_EndState (s : Scene R) (i : Nat) :
    s.EndState.GetItemParent i = s.GetItemParent i := rfl

@[simp] theorem Scene.GetItemParent_mk_Items (s : Scene R) (k : Nat) (b : Int)
    (m : List Message) (i : Nat) :
    (Scene.mk s.Items k b m).GetItemParent i = s.GetItemParent i := rfl

theorem Scene.GetItemParent_CreateItem (s : Scene R) (parent : Nat) (nm : String)
    (node : Option (vtkMRMLNode R)) (i : Nat) :
    (s.CreateItem parent nm node).1.GetItemParent i
      = if i = s.Items.length + 2 then parent else s.GetItemParent i := by
  unfold Scene.GetItemParent
  rw [Scene.GetItem_CreateItem]
  by_cases h : i = s.Items.length + 2 <;> simp [h]

theorem Scene.GetItemParent_SetItemParent (s : Scene R) (i j p : Nat) :
    (s.SetItemParent j p).GetItemParent i
      = if i = j ∧ 2 ≤ j ∧ j < s.Items.length + 2 then p else s.GetItemParent i := by
  unfold Scene.GetItemParent Scene.SetItemParent
  rw [Scene.GetItem_modifyItem]
  by_cases h : i = j
  · subst h
    by_cases hv : 2 ≤ i ∧ i < s.Items.length + 2
    · have hsome := (Scene.GetItem_isSome s i).2 hv
      obtain ⟨it, hit⟩ := Option.isSome_iff_exists.1 hsome
      simp [hit, hv]
    · have hnone : s.GetItem i = none := by
        cases hc : s.GetItem i with
        | none => rfl
        | some it =>
          exact absurd ((Scene.GetItem_isSome s i).1 (by rw [hc]; rfl)) hv
      simp [hnone, hv]
  · simp [h]

theorem Scene.GetItemParent_SetItemParent_of_ne (s : Scene R) (i j p : Nat) (h : i ≠ j) :
    (s.SetItemParent j p).GetItemParent i = s.GetItemParent i := by
  rw [Scene.GetItemParent_SetItemParent]
  simp [h]

theorem Scene.GetItemParent_of_length_le (s : Scene R) (i : Nat) (h : s.Items.length + 2 ≤ i) :
    s.GetItemParent i = INVALID_ITEM_ID := by
  unfold Scene.GetItemParent
  rw [Scene.GetItem_of_length_le s i h]

/-- The lookup by UID gives an id below the next free id. -/
theorem Scene.GetItemByUID_lt (s : Scene R) (name : UIDName) (v : String) :
    @LT.lt Nat _ (s.GetItemByUID name v) (s.Items.length + 2) := by
  by_cases h : s.GetItemByUID name v = INVALID_ITEM_ID
  · rw [h]
    simp [INVALID_ITEM_ID]
  · obtain ⟨hv, hP, _⟩ := Scene.GetItemByUID_spec s name v h
    exact (Scene.valid_of_GetItemUID s _ name v hv hP).2

/-- A valid result of the lookup by UID is the id of an item. -/
theorem Scene.two_le_GetItemByUID (s : Scene R) (name : UIDName) (v : String)
    (h : s.GetItemByUID name v ≠ INVALID_ITEM_ID) :
    @LE.le Nat _ 2 (s.GetItemByUID name v) := by
  obtain ⟨hv, hP, _⟩ := Scene.GetItemByUID_spec s name v h
  exact (Scene.valid_of_GetItemUID s _ name v hv hP).1

theorem Scene.GetItemUID_SetItemUID_self (s : Scene R) (j : Nat) (n : UIDName) (v : String)
    (h2 : 2 ≤ j) (hlt : j < s.Items.length + 2) : (s.SetItemUID j n v).GetItemUID j n = v := by
  rw [Scene.GetItemUID_SetItemUID]
  simp [h2, hlt]

theorem Scene.GetItemParent_CreateItemWithUID (s : Scene R) (parent : Nat) (nm uid : String)
    (i : Nat) :
    (s.CreateItemWithUID parent nm uid).GetItemParent i
      = if i = s.Items.length + 2 then parent else s.GetItemParent i := by
  simp [Scene.CreateItemWithUID, Scene.GetItemParent_CreateItem]

theorem Scene.GetItemParent_ensurePatientItem_of_valid (s : Scene R) (patientId : String)
    (i : Nat) (hi : i < s.Items.length + 2) :
    (s.ensurePatientItem patientId).GetItemParent i = s.GetItemParent i := by
  have : i ≠ s.Items.length + 2 := by omega
  simp [Scene.ensurePatientItem, Scene.GetItemParent_CreateItemWithUID, this]

theorem Scene.GetItemParent_ensureStudyItem_of_valid (s : Scene R) (patientId studyUid : String)
    (i : Nat) (hi : i < s.Items.length + 2) :
    (s.ensureStudyItem patientId studyUid).GetItemParent i = s.GetItemParent i := by
  have : i ≠ s.Items.length + 2 := by omega
  simp [Scene.ensureStudyItem, Scene.GetItemParent_CreateItemWithUID, this]

end ParentLemmas

section InsertSeriesFrames

variable {R : Type} [CommRing R]

@[simp] theorem GetItemParent_fillPatientItem (env : Env R) (s : Scene R)
    (rtReader : vtkSlicerDicomRtReader R) (i : Nat) :
    (fillPatientItem env s rtReader).GetItemParent i = s.GetItemParent i := by
  simp [fillPatientItem]

@[simp] theorem GetItemParent_fillStudyItem (env : Env R) (s : Scene R)
    (rtReader : vtkSlicerDicomRtReader R) (i : Nat) :
    (fillStudyItem env s rtReader).GetItemParent i = s.GetItemParent i := by
  simp [fillStudyItem]

/-- The series item that `InsertDicomSeriesInHierarchy` returns is the item found by the
series UID, or invalid. -/
theorem Scene.InsertDicomSeriesInHierarchy_id (s : Scene R) (p st se : String) :
    (s.InsertDicomSeriesInHierarchy p st se).2 = s.GetItemByUID .DICOMUIDName se
      ∨ (s.InsertDicomSeriesInHierarchy p st se).2 = INVALID_ITEM_ID := by
  unfold Scene.InsertDicomSeriesInHierarchy
  split_ifs
  · exact Or.inr rfl
  · exact Or.inr rfl
  · exact Or.inl rfl

theorem Scene.InsertDicomSeriesInHierarchy_id_of_found (s : Scene R) (p st se : String)
    (h1 : p ≠ "") (h2 : st ≠ "") (h3 : se ≠ "") :
    (s.InsertDicomSeriesInHierarchy p st se).2 = s.GetItemByUID .DICOMUIDName se := by
  have hc : ¬ (p = "" ∨ st = "" ∨ se = "") := by
    rintro (h | h | h)
    · exact h1 h
    · exact h2 h
    · exact h3 h
  unfold Scene.InsertDicomSeriesInHierarchy
  rw [if_neg hc]
  split_ifs with h
  · exact h.symm
  · rfl

/-- The parent of an item other than the series item stays through the series insertion of
the hierarchy resolver. -/
theorem Scene.GetItemParent_InsertDicomSeriesInHierarchy (s : Scene R) (p st se : String)
    (i : Nat) (hi : i < s.Items.length + 2) (hne : i ≠ s.GetItemByUID .DICOMUIDName se) :
    (s.InsertDicomSeriesInHierarchy p st se).1.GetItemParent i = s.GetItemParent i := by
  unfold Scene.InsertDicomSeriesInHierarchy
  split_ifs
  · rfl
  · rfl
  · rw [Scene.GetItemParent_SetItemParent_of_ne _ _ _ _ hne,
      Scene.GetItemParent_ensureStudyItem_of_valid _ _ _ _
        (Nat.lt_of_lt_of_le hi (Nat.add_le_add_right (Scene.length_le_ensurePatientItem s p) 2)),
      Scene.GetItemParent_ensurePatientItem_of_valid _ _ _ hi]

/-- The parent of an item other than the series item stays through
`InsertSeriesInSubjectHierarchy`. -/
theorem GetItemParent_InsertSeriesInSubjectHierarchy (env : Env R) (s : Scene R)
    (rtReader : vtkSlicerDicomRtReader R) (i : Nat) (hi : i < s.Items.length + 2)
    (hne : i ≠ s.GetItemByUID .DICOMUIDName rtReader.SeriesInstanceUid) :
    (InsertSeriesInSubjectHierarchy env s rtReader).GetItemParent i = s.GetItemParent i := by
  have h := Scene.GetItemParent_InsertDicomSeriesInHierarchy s rtReader.PatientId
    rtReader.StudyInstanceUid rtReader.SeriesInstanceUid i hi hne
  simp [InsertSeriesInSubjectHierarchy, h]

/-- The instance UID of an item other than the series item stays through
`InsertSeriesInSubjectHierarchy`. -/
theorem GetItemUID_instance_InsertSeriesInSubjectHierarchy_of_ne (env : Env R) (s : Scene R)
    (rtReader : vtkSlicerDicomRtReader R) (i : Nat)
    (hne : i ≠ s.GetItemByUID .DICOMUIDName rtReader.SeriesInstanceUid) :
    (InsertSeriesInSubjectHierarchy env s rtReader).GetItemUID i .DICOMInstanceUIDName
      = s.GetItemUID i .DICOMInstanceUIDName := by
  have hins : ∀ j : Nat, (s.InsertDicomSeriesInHierarchy rtReader.PatientId
      rtReader.StudyInstanceUid rtReader.SeriesInstanceUid).1.GetItemUID j .DICOMInstanceUIDName
        = s.GetItemUID j .DICOMInstanceUIDName := by
    intro j
    unfold Scene.InsertDicomSeriesInHierarchy
    split_ifs <;> simp
  simp only [InsertSeriesInSubjectHierarchy]
  split_ifs with h1 h2 h3 h4 h5 h6
  all_goals
    first
    | simp [hins]
    | (rw [Scene.GetItemUID_SetItemUID]
       rcases Scene.InsertDicomSeriesInHierarchy_id s rtReader.PatientId
         rtReader.StudyInstanceUid rtReader.SeriesInstanceUid with hid | hid
       · rw [hid]
         simp [hne, hins]
       · exact absurd hid (by assumption))

/-- Through `InsertSeriesInSubjectHierarchy` the instance UID of an item stays or becomes the
SOP instance UID of the series. -/
theorem GetItemUID_instance_InsertSeriesInSubjectHierarchy (env : Env R) (s : Scene R)
    (rtReader : vtkSlicerDicomRtReader R) (i : Nat) :
    (InsertSeriesInSubjectHierarchy env s rtReader).GetItemUID i .DICOMInstanceUIDName
        = s.GetItemUID i .DICOMInstanceUIDName
      ∨ (InsertSeriesInSubjectHierarchy env s rtReader).GetItemUID i .DICOMInstanceUIDName
        = rtReader.SOPInstanceUID := by
  have hins : ∀ j : Nat, (s.InsertDicomSeriesInHierarchy rtReader.PatientId
      rtReader.StudyInstanceUid rtReader.SeriesInstanceUid).1.GetItemUID j .DICOMInstanceUIDName
        = s.GetItemUID j .DICOMInstanceUIDName := by
    intro j
    unfold Scene.InsertDicomSeriesInHierarchy
    split_ifs <;> simp
  simp only [InsertSeriesInSubjectHierarchy]
  split_ifs with h1 h2 h3 h4 h5 h6
  all_goals
    first
    | (left; simp [hins])
    | (rw [Scene.GetItemUID_SetItemUID]
       split_ifs
       · right; rfl
       · left; simp [hins])

/-- After a successful series insertion the series item carries the SOP instance UID. -/
theorem GetItemUID_instance_InsertSeriesInSubjectHierarchy_self (env : Env R) (s : Scene R)
    (rtReader : vtkSlicerDicomRtReader R)
    (h1 : rtReader.PatientId ≠ "") (h2 : rtReader.StudyInstanceUid ≠ "")
    (h3 : rtReader.SeriesInstanceUid ≠ "")
    (h4 : s.GetItemByUID .DICOMUIDName rtReader.SeriesInstanceUid ≠ INVALID_ITEM_ID) :
    (InsertSeriesInSubjectHierarchy env s rtReader).GetItemUID
        (s.GetItemByUID .DICOMUIDName rtReader.SeriesInstanceUid) .DICOMInstanceUIDName
      = rtReader.SOPInstanceUID := by
  have hid := Scene.InsertDicomSeriesInHierarchy_id_of_found s rtReader.PatientId
    rtReader.StudyInstanceUid rtReader.SeriesInstanceUid h1 h2 h3
  have hlt := Scene.GetItemByUID_lt s .DICOMUIDName rtReader.SeriesInstanceUid
  have hle := Scene.length_le_InsertDicomSeriesInHierarchy s rtReader.PatientId
    rtReader.StudyInstanceUid rtReader.SeriesInstanceUid
  have h2le := Scene.two_le_GetItemByUID s _ _ h4
  simp only [InsertSeriesInSubjectHierarchy, hid]
  rw [if_pos h4]
  apply Scene.GetItemUID_SetItemUID_self _ _ _ _ h2le
  simp only [Scene.length_SetItemAttribute, Scene.length_ite, length_fillStudyItem,
    length_fillPatientItem, ite_self]
  omega

end InsertSeriesFrames

section PlanInSceneLemmas

variable {R : Type} [CommRing R] {env : Env R} {w : Scene R} {I P N : Nat}
  {node : Nat → vtkMRMLRTBeamNode R} {c : R × R × R} {planUID : String}

theorem Scene.valid_of_GetItemDataNode (s : Scene R) (i : Nat) (n : vtkMRMLNode R)
    (h : s.GetItemDataNode i = some n) : 2 ≤ i ∧ i < s.Items.length + 2 := by
  apply (Scene.GetItem_isSome s i).1
  unfold Scene.GetItemDataNode at h
  cases hc : s.GetItem i with
  | none => simp [hc] at h
  | some it => rfl

theorem Scene.valid_of_IsScalarVolume (s : Scene R) (i : Nat) (h : s.IsScalarVolume i = true) :
    2 ≤ i ∧ i < s.Items.length + 2 := by
  unfold Scene.IsScalarVolume at h
  cases hc : s.GetItemDataNode i with
  | none => simp [hc] at h
  | some n => exact Scene.valid_of_GetItemDataNode s i n hc

theorem PlanInScene.lookup (h : PlanInScene w P N node c planUID) :
    w.GetItemByUID .DICOMInstanceUIDName planUID = P :=
  Scene.GetItemByUID_of_first w _ _ P h.uid_ne h.uid h.first

theorem PlanInScene.valid (h : PlanInScene w P N node c planUID) :
    2 ≤ P ∧ P < w.Items.length + 2 :=
  Scene.valid_of_GetItemDataNode w P _ h.plan

theorem PlanInScene.ne_invalid (h : PlanInScene w P N node c planUID) :
    P ≠ INVALID_ITEM_ID := by
  have := h.valid.1
  intro e
  rw [e] at this
  simp [INVALID_ITEM_ID] at this

theorem PlanInScene.isBeam (h : PlanInScene w P N node c planUID) (k : Nat) (hk : k < N) :
    w.IsBeam (P + 1 + k) = true := by
  simp [Scene.IsBeam, (h.beam k hk).1]

theorem PlanInScene.not_volume (h : PlanInScene w P N node c planUID) (k : Nat) (hk : k < N) :
    w.IsScalarVolume (P + 1 + k) = false := by
  simp [Scene.IsScalarVolume, (h.beam k hk).1]

theorem PlanInScene.parentPlan (h : PlanInScene w P N node c planUID) (k : Nat) (hk : k < N) :
    w.GetParentPlanItem (P + 1 + k) = P := by
  simp [Scene.GetParentPlanItem, (h.beam k hk).2, h.plan]

theorem PlanInScene.beamNumber (h : PlanInScene w P N node c planUID) (k : Nat) (hk : k < N) :
    w.GetBeamNumber (P + 1 + k) = (node k).BeamNumber := by
  simp [Scene.GetBeamNumber, (h.beam k hk).1]

theorem PlanInScene.isocenter (h : PlanInScene w P N node c planUID) (k : Nat) (hk : k < N) :
    w.GetPlanIsocenterPosition (P + 1 + k) = some c := by
  simp [Scene.GetPlanIsocenterPosition, h.parentPlan k hk, Scene.GetIsocenterPosition, h.plan]

/-- The image references the plan item. -/
theorem PlanInScene.referenced (h : PlanInScene w P N node c planUID)
    (hi : ImageOfPlan env w I planUID) :
    P ∈ w.GetItemsReferencedFromItemByDICOM env I := by
  simp [Scene.GetItemsReferencedFromItemByDICOM, hi.reference, hi.list, h.lookup, h.ne_invalid]

/-- An RT image that does not name the instance UID of the plan does not reference the plan
item. -/
theorem PlanInScene.not_referenced (h : PlanInScene w P N node c planUID) (i : Nat)
    (hi : planUID ∉ env.DeserializeUIDList (w.GetItemAttribute i .DICOMReferencedInstanceUIDs)) :
    P ∉ w.GetItemsReferencedFromItemByDICOM env i := by
  intro hmem
  unfold Scene.GetItemsReferencedFromItemByDICOM at hmem
  rw [List.mem_filter, List.mem_map] at hmem
  obtain ⟨⟨uid, huid, hlook⟩, _⟩ := hmem
  have hne : w.GetItemByUID .DICOMInstanceUIDName uid ≠ INVALID_ITEM_ID := by
    rw [hlook]
    exact h.ne_invalid
  obtain ⟨_, hP, _⟩ := Scene.GetItemByUID_spec w _ uid hne
  rw [hlook, h.uid] at hP
  exact hi (hP ▸ huid)

theorem two_le_length_filter {α : Type} (p : α → Bool) (l : List α) (a b : Nat)
    (hab : a < b) (ha : a < l.length) (hb : b < l.length) (ha' : p l[a] = true)
    (hb' : p l[b] = true) : 2 ≤ (l.filter p).length := by
  rw [← List.countP_eq_length_filter]
  have hsplit := List.countP_append p (l.take b) (l.drop b)
  rw [List.take_append_drop] at hsplit
  have h1 : 0 < (l.take b).countP p := by
    rw [List.countP_pos_iff]
    have hlen : a < (l.take b).length := by
      rw [List.length_take]
      omega
    refine ⟨(l.take b)[a], List.getElem_mem hlen, ?_⟩
    rw [List.getElem_take]
    exact ha'
  have h2 : 0 < (l.drop b).countP p := by
    rw [List.countP_pos_iff]
    have hlen : 0 < (l.drop b).length := by
      rw [List.length_drop]
      omega
    refine ⟨(l.drop b)[0], List.getElem_mem hlen, ?_⟩
    rw [List.getElem_drop]
    exact hb'
  omega

theorem Scene.GetItemParent_eq_getElem (s : Scene R) (k : Nat) (h : k < s.Items.length) :
    s.GetItemParent (k + 2) = (s.Items[k]).Parent := by
  unfold Scene.GetItemParent Scene.GetItem
  have h2 : ¬ k + 2 < 2 := by omega
  simp [h2, List.getElem?_eq_getElem h]

/-- Two different items with the same parent: the parent has more than one child. -/
theorem Scene.GetNumberOfItemChildren_ne_one (s : Scene R) (Q i j : Nat) (hij : i < j)
    (hi : 2 ≤ i) (hj : j < s.Items.length + 2) (hpi : s.GetItemParent i = Q)
    (hpj : s.GetItemParent j = Q) : s.GetNumberOfItemChildren Q ≠ 1 := by
  obtain ⟨a, rfl⟩ : ∃ a, i = a + 2 := ⟨i - 2, by omega⟩
  obtain ⟨b, rfl⟩ : ∃ b, j = b + 2 := ⟨j - 2, by omega⟩
  have ha : a < s.Items.length := by omega
  have hb : b < s.Items.length := by omega
  rw [Scene.GetItemParent_eq_getElem s a ha] at hpi
  rw [Scene.GetItemParent_eq_getElem s b hb] at hpj
  have := two_le_length_filter (fun it : ShItem R => decide (it.Parent = Q)) s.Items a b
    (by omega) ha hb (by simpa using hpi) (by simpa using hpj)
  unfold Scene.GetNumberOfItemChildren
  omega

/-- A plan with two beams or more does not count as a plan with one beam. -/
theorem PlanInScene.not_oneBeam (h : PlanInScene w P N node c planUID) (j k : Nat)
    (hj : j < N) (hk : k < N) (hjk : j ≠ k) : w.GetNumberOfItemChildren P ≠ 1 := by
  have hvj := Scene.valid_of_GetItemDataNode w _ _ (h.beam j hj).1
  have hvk := Scene.valid_of_GetItemDataNode w _ _ (h.beam k hk).1
  rcases Nat.lt_or_gt_of_ne hjk with hlt | hlt
  · exact Scene.GetNumberOfItemChildren_ne_one w P (P + 1 + j) (P + 1 + k) (by omega) hvj.1
      hvk.2 (h.beam j hj).2 (h.beam k hk).2
  · exact Scene.GetNumberOfItemChildren_ne_one w P (P + 1 + k) (P + 1 + j) (by omega) hvk.1
      hvj.2 (h.beam k hk).2 (h.beam j hj).2

/-- The search loop of the beam entry ends without image when no item is a matching image. -/
theorem searchRtImageForBeam_none (env : Env R) (w : Scene R) (Q : Nat) (n : Int) (one : Bool)
    (L : List Nat)
    (hno : ∀ i ∈ L, ¬ (w.IsScalarVolume i = true
      ∧ w.GetItemAttribute i .DICOMRTIMPORT_RTIMAGE_IDENTIFIER ≠ ""
      ∧ Q ∈ w.GetItemsReferencedFromItemByDICOM env i
      ∧ (env.ToInt (w.GetItemAttribute i .DICOMRTIMPORT_BEAM_NUMBER) = n ∨ one = true))) :
    searchRtImageForBeam env w Q n one L INVALID_ITEM_ID = .finished INVALID_ITEM_ID := by
  induction L with
  | nil => rfl
  | cons i rest ih =>
    rw [searchRtImageForBeam, if_neg (hno i (List.mem_cons_self _ _))]
    rw [if_neg (by simp)]
    exact ih (fun j hj => hno j (List.mem_cons_of_mem _ hj))

/-- The search loop of the beam entry ends at the only matching image. -/
theorem searchRtImageForBeam_found (env : Env R) (w : Scene R) (Q : Nat) (n : Int) (one : Bool)
    (L : List Nat) (I : Nat) (hI : I ∈ L)
    (hyes : w.IsScalarVolume I = true
      ∧ w.GetItemAttribute I .DICOMRTIMPORT_RTIMAGE_IDENTIFIER ≠ ""
      ∧ Q ∈ w.GetItemsReferencedFromItemByDICOM env I
      ∧ (env.ToInt (w.GetItemAttribute I .DICOMRTIMPORT_BEAM_NUMBER) = n ∨ one = true))
    (hno : ∀ i ∈ L, i ≠ I → ¬ (w.IsScalarVolume i = true
      ∧ w.GetItemAttribute i .DICOMRTIMPORT_RTIMAGE_IDENTIFIER ≠ ""
      ∧ Q ∈ w.GetItemsReferencedFromItemByDICOM env i
      ∧ (env.ToInt (w.GetItemAttribute i .DICOMRTIMPORT_BEAM_NUMBER) = n ∨ one = true))) :
    searchRtImageForBeam env w Q n one L INVALID_ITEM_ID = .finished I := by
  induction L with
  | nil => simp at hI
  | cons i rest ih =>
    by_cases hi : i = I
    · subst hi
      rw [searchRtImageForBeam, if_pos hyes]
    · rw [searchRtImageForBeam, if_neg (hno i (List.mem_cons_self _ _) hi)]
      rw [if_neg (by simp)]
      rcases List.mem_cons.1 hI with e | hmem
      · exact absurd e.symm hi
      · exact ih hmem (fun j hj => hno j (List.mem_cons_of_mem _ hj))

theorem Scene.mem_GetItemChildren (s : Scene R) (i : Nat) (h2 : 2 ≤ i)
    (hlt : i < s.Items.length + 2) : i ∈ s.GetItemChildren := by
  unfold Scene.GetItemChildren
  rw [List.mem_map]
  exact ⟨i - 2, List.mem_range.2 (by omega), by omega⟩

end PlanInSceneLemmas

section GeometryFrames

variable {R : Type} [CommRing R]

/-- What the common tail of `SetupRtImageGeometry` does to a scene: nothing, a message, or a
new matrix and displayed model for the volume of the image item. -/
theorem setupGeometryOfPair_cases (env : Env R) (s : Scene R) (I B : Nat) :
    (setupGeometryOfPair env s I B).Items = s.Items
      ∨ ∃ v v' : vtkMRMLScalarVolumeNode R, s.GetItemDataNode I = some (.ScalarVolumeNode v)
          ∧ (setupGeometryOfPair env s I B).Items
            = (s.SetItemDataNode I (.ScalarVolumeNode v')).Items := by
  unfold setupGeometryOfPair
  split
  · split
    · exact Or.inl rfl
    · split
      · rename_i v hv
        exact Or.inr ⟨v, _, hv, rfl⟩
      · exact Or.inl rfl
  · exact Or.inl rfl

/-- What `SetupRtImageGeometry` does to the items of a scene: nothing, or a new matrix and
displayed model for the volume of one item. -/
theorem SetupRtImageGeometry_cases (env : Env R) (s : Scene R) (n : Nat) :
    (SetupRtImageGeometry env s n).Items = s.Items
      ∨ ∃ (I : Nat) (v v' : vtkMRMLScalarVolumeNode R),
          s.GetItemDataNode I = some (.ScalarVolumeNode v)
          ∧ (SetupRtImageGeometry env s n).Items
            = (s.SetItemDataNode I (.ScalarVolumeNode v')).Items := by
  have hpair : ∀ I B : Nat, (setupGeometryOfPair env s I B).Items = s.Items
      ∨ ∃ (J : Nat) (v v' : vtkMRMLScalarVolumeNode R),
          s.GetItemDataNode J = some (.ScalarVolumeNode v)
          ∧ (setupGeometryOfPair env s I B).Items
            = (s.SetItemDataNode J (.ScalarVolumeNode v')).Items := by
    intro I B
    rcases setupGeometryOfPair_cases env s I B with h | ⟨v, v', h1, h2⟩
    · exact Or.inl h
    · exact Or.inr ⟨I, v, v', h1, h2⟩
  unfold SetupRtImageGeometry
  split_ifs
  all_goals try exact Or.inl rfl
  all_goals try exact hpair _ _
  split
  · exact Or.inl rfl
  · split_ifs
    · exact Or.inl rfl
    · exact hpair _ _

end GeometryFrames

section ItemsCongruence

variable {R : Type}

theorem Scene.GetItem_congr (s t : Scene R) (h : s.Items = t.Items) (i : Nat) :
    s.GetItem i = t.GetItem i := by
  unfold Scene.GetItem
  rw [h]

theorem Scene.GetItemDataNode_congr (s t : Scene R) (h : s.Items = t.Items) (i : Nat) :
    s.GetItemDataNode i = t.GetItemDataNode i := by
  unfold Scene.GetItemDataNode
  rw [Scene.GetItem_congr s t h]

theorem Scene.GetItemAttribute_congr (s t : Scene R) (h : s.Items = t.Items) (i : Nat)
    (a : AttributeName) : s.GetItemAttribute i a = t.GetItemAttribute i a := by
  unfold Scene.GetItemAttribute
  rw [Scene.GetItem_congr s t h]

theorem Scene.GetItemUID_congr (s t : Scene R) (h : s.Items = t.Items) (i : Nat)
    (name : UIDName) : s.GetItemUID i name = t.GetItemUID i name := by
  unfold Scene.GetItemUID
  rw [Scene.GetItem_congr s t h]

theorem Scene.GetItemParent_congr (s t : Scene R) (h : s.Items = t.Items) (i : Nat) :
    s.GetItemParent i = t.GetItemParent i := by
  unfold Scene.GetItemParent
  rw [Scene.GetItem_congr s t h]

end ItemsCongruence

section GeometryFrames2

variable {R : Type} [CommRing R]

theorem GetItemAttribute_SetupRtImageGeometry (env : Env R) (s : Scene R) (n i : Nat)
    (a : AttributeName) :
    (SetupRtImageGeometry env s n).GetItemAttribute i a = s.GetItemAttribute i a := by
  rcases SetupRtImageGeometry_cases env s n with h | ⟨I, v, v', _, h⟩
  · exact Scene.GetItemAttribute_congr _ _ h i a
  · rw [Scene.GetItemAttribute_congr _ _ h i a, Scene.GetItemAttribute_SetItemDataNode]

theorem GetItemUID_SetupRtImageGeometry (env : Env R) (s : Scene R) (n i : Nat)
    (name : UIDName) :
    (SetupRtImageGeometry env s n).GetItemUID i name = s.GetItemUID i name := by
  rcases SetupRtImageGeometry_cases env s n with h | ⟨I, v, v', _, h⟩
  · exact Scene.GetItemUID_congr _ _ h i name
  · rw [Scene.GetItemUID_congr _ _ h i name, Scene.GetItemUID_SetItemDataNode]

theorem GetItemParent_SetupRtImageGeometry (env : Env R) (s : Scene R) (n i : Nat) :
    (SetupRtImageGeometry env s n).GetItemParent i = s.GetItemParent i := by
  rcases SetupRtImageGeometry_cases env s n with h | ⟨I, v, v', _, h⟩
  · exact Scene.GetItemParent_congr _ _ h i
  · rw [Scene.GetItemParent_congr _ _ h i, Scene.GetItemParent_SetItemDataNode]

theorem length_SetupRtImageGeometry (env : Env R) (s : Scene R) (n : Nat) :
    (SetupRtImageGeometry env s n).Items.length = s.Items.length := by
  rcases SetupRtImageGeometry_cases env s n with h | ⟨I, v, v', _, h⟩
  · rw [h]
  · rw [h, Scene.length_SetItemDataNode]

/-- Through `SetupRtImageGeometry` the data node of an item stays, or it is a volume before
and after. -/
theorem GetItemDataNode_SetupRtImageGeometry_cases (env : Env R) (s : Scene R) (n i : Nat) :
    (SetupRtImageGeometry env s n).GetItemDataNode i = s.GetItemDataNode i
      ∨ ∃ v v' : vtkMRMLScalarVolumeNode R, s.GetItemDataNode i = some (.ScalarVolumeNode v)
          ∧ (SetupRtImageGeometry env s n).GetItemDataNode i = some (.ScalarVolumeNode v') := by
  rcases SetupRtImageGeometry_cases env s n with h | ⟨I, v, v', hv, h⟩
  · exact Or.inl (Scene.GetItemDataNode_congr _ _ h i)
  · rw [Scene.GetItemDataNode_congr _ _ h i, Scene.GetItemDataNode_SetItemDataNode]
    by_cases hi : i = I
    · subst hi
      have hsome := (Scene.GetItem_isSome s i).2 (Scene.valid_of_GetItemDataNode s i _ hv)
      exact Or.inr ⟨v, v', hv, by simp [hsome]⟩
    · exact Or.inl (by simp [hi])

theorem IsScalarVolume_SetupRtImageGeometry (env : Env R) (s : Scene R) (n i : Nat) :
    (SetupRtImageGeometry env s n).IsScalarVolume i = s.IsScalarVolume i := by
  unfold Scene.IsScalarVolume
  rcases GetItemDataNode_SetupRtImageGeometry_cases env s n i with h | ⟨v, v', h1, h2⟩
  · rw [h]
  · rw [h1, h2]

theorem IsBeam_SetupRtImageGeometry (env : Env R) (s : Scene R) (n i : Nat) :
    (SetupRtImageGeometry env s n).IsBeam i = s.IsBeam i := by
  unfold Scene.IsBeam
  rcases GetItemDataNode_SetupRtImageGeometry_cases env s n i with h | ⟨v, v', h1, h2⟩
  · rw [h]
  · rw [h1, h2]

end GeometryFrames2

section Preservation

variable {R : Type} [CommRing R] {env : Env R} {w : Scene R} {I P N : Nat}
  {node : Nat → vtkMRMLRTBeamNode R} {c : R × R × R} {planUID : String}

/-- A loaded plan stays a loaded plan through `SetupRtImageGeometry`. -/
theorem PlanInScene.plan_through_setup (h : PlanInScene w P N node c planUID) (n : Nat) :
    PlanInScene (SetupRtImageGeometry env w n) P N node c planUID where
  plan := GetItemDataNode_SetupRtImageGeometry env w n P _ h.plan (fun v => by simp)
  uid_ne := h.uid_ne
  uid := by rw [GetItemUID_SetupRtImageGeometry]; exact h.uid
  first := fun i hi => by rw [GetItemUID_SetupRtImageGeometry]; exact h.first i hi
  beam := fun k hk =>
    ⟨GetItemDataNode_SetupRtImageGeometry env w n _ _ (h.beam k hk).1 (fun v => by simp),
      by rw [GetItemParent_SetupRtImageGeometry]; exact (h.beam k hk).2⟩
  beams_only := fun i hb hp => by
    rw [IsBeam_SetupRtImageGeometry] at hb
    rw [GetItemParent_SetupRtImageGeometry] at hp
    exact h.beams_only i hb hp
  numbers := h.numbers

theorem ImageOfPlan.image_through_setup (h : ImageOfPlan env w I planUID) (n : Nat) :
    ImageOfPlan env (SetupRtImageGeometry env w n) I planUID where
  volume := by rw [IsScalarVolume_SetupRtImageGeometry]; exact h.volume
  marker := by rw [GetItemAttribute_SetupRtImageGeometry]; exact h.marker
  reference := by rw [GetItemAttribute_SetupRtImageGeometry]; exact h.reference
  list := h.list

theorem NoOtherImage.others_through_setup {m : Int}
    (h : NoOtherImage env w I planUID m N) (n : Nat) :
    NoOtherImage env (SetupRtImageGeometry env w n) I planUID m N := by
  intro i hi hv hm href
  rw [IsScalarVolume_SetupRtImageGeometry] at hv
  rw [GetItemAttribute_SetupRtImageGeometry] at hm href ⊢
  exact h i hi hv hm href

theorem PlanInScene.congr (h : PlanInScene w P N node c planUID) (w' : Scene R)
    (hw : w'.Items = w.Items) : PlanInScene w' P N node c planUID where
  plan := by rw [Scene.GetItemDataNode_congr _ _ hw]; exact h.plan
  uid_ne := h.uid_ne
  uid := by rw [Scene.GetItemUID_congr _ _ hw]; exact h.uid
  first := fun i hi => by rw [Scene.GetItemUID_congr _ _ hw]; exact h.first i hi
  beam := fun k hk => by
    rw [Scene.GetItemDataNode_congr _ _ hw, Scene.GetItemParent_congr _ _ hw]
    exact h.beam k hk
  beams_only := fun i hb hp => by
    unfold Scene.IsBeam at hb
    rw [Scene.GetItemDataNode_congr _ _ hw] at hb
    rw [Scene.GetItemParent_congr _ _ hw] at hp
    exact h.beams_only i hb hp
  numbers := h.numbers

end Preservation

section Entries

variable {R : Type} [CommRing R] {env : Env R} {w : Scene R} {I P N : Nat}
  {node : Nat → vtkMRMLRTBeamNode R} {c : R × R × R} {planUID : String}

/-- An RT image that references the plan item names the instance UID of the plan. -/
theorem PlanInScene.referenced_uid (h : PlanInScene w P N node c planUID) (i : Nat)
    (hi : P ∈ w.GetItemsReferencedFromItemByDICOM env i) :
    planUID ∈ env.DeserializeUIDList (w.GetItemAttribute i .DICOMReferencedInstanceUIDs) := by
  by_contra hc
  exact h.not_referenced i hc hi

/-- The beam entry for the beam that the image names: the geometry of the image is set up. -/
theorem PlanInScene.setup_of_matching_beam (h : PlanInScene w P N node c planUID)
    (hi : ImageOfPlan env w I planUID) (k : Nat) (hk : k < N)
    (ho : NoOtherImage env w I planUID (node k).BeamNumber N)
    (hnum : env.ToInt (w.GetItemAttribute I .DICOMRTIMPORT_BEAM_NUMBER) = (node k).BeamNumber) :
    SetupRtImageGeometry env w (P + 1 + k) = setupGeometryOfPair env w I (P + 1 + k) := by
  have hvalid := Scene.valid_of_IsScalarVolume w I hi.volume
  apply SetupRtImageGeometry_of_beam env w I (P + 1 + k) (h.not_volume k hk) (h.isBeam k hk)
  · rw [h.parentPlan k hk]; exact h.ne_invalid
  · rw [h.parentPlan k hk, h.uid]; exact h.uid_ne
  · rw [h.parentPlan k hk, h.beamNumber k hk]
    apply searchRtImageForBeam_found env w P _ _ _ I
      (Scene.mem_GetItemChildren w I hvalid.1 hvalid.2)
      ⟨hi.volume, hi.marker, h.referenced hi, Or.inl hnum⟩
    rintro i _ hne ⟨hv, hm, href, hmatch⟩
    obtain ⟨hN, hother⟩ := ho i hne hv hm (h.referenced_uid i href)
    rcases hmatch with e | e
    · exact hother e
    · exact h.not_oneBeam 0 1 (by omega) (by omega) (by omega) (by simpa using e)
  · intro e
    have := hvalid.1
    rw [e] at this
    simp [INVALID_ITEM_ID] at this

/-- The search loop of the beam entry ends at the image it was entered with, or at an item of
the list that passes the test. -/
theorem searchRtImageForBeam_finished (env : Env R) (w : Scene R) (Q : Nat) (n : Int)
    (one : Bool) (r J : Nat) :
    ∀ L : List Nat, searchRtImageForBeam env w Q n one L r = .finished J →
      J = r ∨ (w.IsScalarVolume J = true
        ∧ w.GetItemAttribute J .DICOMRTIMPORT_RTIMAGE_IDENTIFIER ≠ ""
        ∧ Q ∈ w.GetItemsReferencedFromItemByDICOM env J
        ∧ (env.ToInt (w.GetItemAttribute J .DICOMRTIMPORT_BEAM_NUMBER) = n ∨ one = true)) := by
  intro L
  induction L with
  | nil =>
    intro h
    rw [searchRtImageForBeam] at h
    exact Or.inl (RtImageSearch.finished.inj h).symm
  | cons i rest ih =>
    intro h
    rw [searchRtImageForBeam] at h
    split_ifs at h with h1 h2
    · have e := RtImageSearch.finished.inj h
      subst e
      exact Or.inr h1
    · exact ih h

theorem Scene.GetIJKToRASMatrix_congr (s t : Scene R) (h : s.Items = t.Items) (i : Nat) :
    s.GetIJKToRASMatrix i = t.GetIJKToRASMatrix i := by
  unfold Scene.GetIJKToRASMatrix
  rw [Scene.GetItemDataNode_congr s t h]

/-- The common tail of `SetupRtImageGeometry` leaves the matrices of the other volumes as they
are. -/
theorem setupGeometryOfPair_GetIJKToRASMatrix_of_ne (env : Env R) (s : Scene R) (J B I : Nat)
    (h : I ≠ J) :
    (setupGeometryOfPair env s J B).GetIJKToRASMatrix I = s.GetIJKToRASMatrix I := by
  rcases setupGeometryOfPair_cases env s J B with e | ⟨v, v', _, e⟩
  · exact Scene.GetIJKToRASMatrix_congr _ _ e I
  · rw [Scene.GetIJKToRASMatrix_congr _ _ e I]
    unfold Scene.GetIJKToRASMatrix
    rw [Scene.GetItemDataNode_SetItemDataNode]
    simp [h]

/-- The beam entry of `SetupRtImageGeometry`: the items stay, or the search ended at an image
and the geometry of that image is set up. -/
theorem SetupRtImageGeometry_of_beam_cases (env : Env R) (s : Scene R) (B : Nat)
    (hv : s.IsScalarVolume B = false) (hb : s.IsBeam B = true)
    (h1 : s.GetParentPlanItem B ≠ INVALID_ITEM_ID)
    (h2 : s.GetItemUID (s.GetParentPlanItem B) .DICOMInstanceUIDName ≠ "") :
    (SetupRtImageGeometry env s B).Items = s.Items
      ∨ ∃ J : Nat, J ≠ INVALID_ITEM_ID
          ∧ searchRtImageForBeam env s (s.GetParentPlanItem B) (s.GetBeamNumber B)
              (decide (s.GetNumberOfItemChildren (s.GetParentPlanItem B) = 1))
              s.GetItemChildren INVALID_ITEM_ID = .finished J
          ∧ SetupRtImageGeometry env s B = setupGeometryOfPair env s J B := by
  cases hsearch : searchRtImageForBeam env s (s.GetParentPlanItem B) (s.GetBeamNumber B)
      (decide (s.GetNumberOfItemChildren (s.GetParentPlanItem B) = 1))
      s.GetItemChildren INVALID_ITEM_ID with
  | returned =>
    left
    simp only [SetupRtImageGeometry, hv, hb, if_true, h1, h2, hsearch, if_false]
    simp [Scene.log]
  | finished J =>
    by_cases hJ : J = INVALID_ITEM_ID
    · left
      rw [hJ] at hsearch
      rw [SetupRtImageGeometry_of_beam_without_image env s B hv hb h1 h2 hsearch]
      rfl
    · exact Or.inr ⟨J, hJ, rfl, SetupRtImageGeometry_of_beam env s J B hv hb h1 h2 hsearch hJ⟩

/-- The beam entry for a beam other than the one the image names: the image found, if any, is
another one, and the matrix of the image stays as it is. -/
theorem PlanInScene.setup_of_non_matching_beam (h : PlanInScene w P N node c planUID)
    (k kb : Nat) (hk : k < N) (hkb : kb < N) (hne : k ≠ kb)
    (hnum : env.ToInt (w.GetItemAttribute I .DICOMRTIMPORT_BEAM_NUMBER) = (node kb).BeamNumber) :
    (SetupRtImageGeometry env w (P + 1 + k)).GetIJKToRASMatrix I = w.GetIJKToRASMatrix I := by
  rcases SetupRtImageGeometry_of_beam_cases env w (P + 1 + k) (h.not_volume k hk)
      (h.isBeam k hk) (by rw [h.parentPlan k hk]; exact h.ne_invalid)
      (by rw [h.parentPlan k hk, h.uid]; exact h.uid_ne) with e | ⟨J, hJ, hsearch, e⟩
  · exact Scene.GetIJKToRASMatrix_congr _ _ e I
  · rw [e]
    apply setupGeometryOfPair_GetIJKToRASMatrix_of_ne
    rintro rfl
    rw [h.parentPlan k hk, h.beamNumber k hk] at hsearch
    rcases searchRtImageForBeam_finished env w P _ _ _ _ _ hsearch with e | ⟨_, _, _, e⟩
    · exact hJ e
    · rcases e with e | e
      · rw [hnum] at e
        exact hne (h.numbers kb k hkb hk e).symm
      · exact h.not_oneBeam k kb hk hkb hne (by simpa using e)

theorem Scene.findBeam_eq_findIdx (Q : Nat) (n : Int) (l : List (ShItem R)) :
    Scene.findBeam Q n l
      = l.findIdx? (fun it =>
          match it.DataNode with
          | some (.RTBeamNode beam) => decide (it.Parent = Q ∧ beam.BeamNumber = n)
          | _ => false) := by
  induction l with
  | nil => rfl
  | cons it rest ih =>
    rw [Scene.findBeam.eq_def]
    simp only [List.findIdx?_cons, Nat.zero_add, List.findIdx?_succ]
    rw [← ih]
    cases hd : it.DataNode with
    | none => simp
    | some nd =>
      cases nd <;> simp

theorem Scene.GetItemDataNode_eq_getElem (s : Scene R) (k : Nat) (h : k < s.Items.length) :
    s.GetItemDataNode (k + 2) = (s.Items[k]).DataNode := by
  unfold Scene.GetItemDataNode Scene.GetItem
  have h2 : ¬ k + 2 < 2 := by omega
  simp [h2, List.getElem?_eq_getElem h]

/-- The lookup of a beam by number gives the first beam of the plan with the number. -/
theorem Scene.GetBeamByNumber_of_first (s : Scene R) (Q : Nat) (n : Int) (B : Nat)
    (beam : vtkMRMLRTBeamNode R) (hB : s.GetItemDataNode B = some (.RTBeamNode beam))
    (hparent : s.GetItemParent B = Q) (hn : beam.BeamNumber = n)
    (hfirst : ∀ i : Nat, i < B → ∀ b, s.GetItemDataNode i = some (.RTBeamNode b) →
      s.GetItemParent i = Q → b.BeamNumber ≠ n) :
    s.GetBeamByNumber Q n = B := by
  obtain ⟨h2, hlen⟩ := Scene.valid_of_GetItemDataNode s B _ hB
  obtain ⟨k, rfl⟩ : ∃ k, B = k + 2 := ⟨B - 2, by omega⟩
  have hk : k < s.Items.length := by omega
  unfold Scene.GetBeamByNumber
  rw [Scene.findBeam_eq_findIdx]
  have hfind : s.Items.findIdx? (fun it =>
      match it.DataNode with
      | some (.RTBeamNode beam) => decide (it.Parent = Q ∧ beam.BeamNumber = n)
      | _ => false) = some k := by
    rw [List.findIdx?_eq_some_iff_getElem]
    refine ⟨hk, ?_, ?_⟩
    · rw [Scene.GetItemDataNode_eq_getElem s k hk] at hB
      rw [Scene.GetItemParent_eq_getElem s k hk] at hparent
      simp [hB, hparent, hn]
    · intro j hj
      have hjlen : j < s.Items.length := by omega
      have := hfirst (j + 2) (by omega)
      rw [Scene.GetItemDataNode_eq_getElem s j hjlen,
        Scene.GetItemParent_eq_getElem s j hjlen] at this
      cases hd : (s.Items[j]).DataNode with
      | none => simp
      | some nd =>
        cases nd with
        | RTBeamNode b =>
          have := this b hd
          simp only [decide_eq_true_eq, not_and]
          exact this
        | _ => simp
  rw [hfind]

/-- The image entry: the beam that the image names is found and the geometry is set up. -/
theorem PlanInScene.setup_of_image (h : PlanInScene w P N node c planUID)
    (hi : ImageOfPlan env w I planUID) (k : Nat) (hk : k < N)
    (hattr : w.GetItemAttribute I .DICOMRTIMPORT_BEAM_NUMBER ≠ "")
    (hnum : env.ToInt (w.GetItemAttribute I .DICOMRTIMPORT_BEAM_NUMBER) = (node k).BeamNumber) :
    SetupRtImageGeometry env w I = setupGeometryOfPair env w I (P + 1 + k) := by
  apply SetupRtImageGeometry_of_image env w I (P + 1 + k) hi.volume
  · rw [hi.reference]; exact h.uid_ne
  · rw [hi.reference, h.lookup]; exact h.ne_invalid
  · exact hattr
  · rw [hi.reference, h.lookup, hnum]
    apply Scene.GetBeamByNumber_of_first w P _ (P + 1 + k) (node k) (h.beam k hk).1
      (h.beam k hk).2 rfl
    intro i hlt b hb hp hnb
    obtain ⟨j, hj, rfl⟩ := h.beams_only i (by simp [Scene.IsBeam, hb]) hp
    have hbj : b = node j := by
      have := (h.beam j hj).1
      rw [hb] at this
      simpa using this
    rw [hbj] at hnb
    have := h.numbers j k hj hk hnb
    omega
  · simp [INVALID_ITEM_ID]

end Entries

section BeamLoop

variable {R : Type} [CommRing R] {env : Env R} {I P N : Nat}
  {node : Nat → vtkMRMLRTBeamNode R} {c : R × R × R} {planUID : String}

theorem rtImageSidOf_SetupRtImageGeometry (env : Env R) (w : Scene R) (n I : Nat) :
    rtImageSidOf env (SetupRtImageGeometry env w n) I = rtImageSidOf env w I := by
  unfold rtImageSidOf
  rw [GetItemAttribute_SetupRtImageGeometry]

theorem rtImagePositionOf_SetupRtImageGeometry (env : Env R) (w : Scene R) (n I : Nat) :
    rtImagePositionOf env (SetupRtImageGeometry env w n) I = rtImagePositionOf env w I := by
  unfold rtImagePositionOf
  rw [GetItemAttribute_SetupRtImageGeometry]

/-- The beams of a loaded plan, as `GetBeams` lists them. -/
theorem PlanInScene.getBeams {w : Scene R} (h : PlanInScene w P N node c planUID) :
    (w.GetBeams P).Nodup ∧ (∀ B ∈ w.GetBeams P, ∃ k, k < N ∧ B = P + 1 + k)
      ∧ ∀ k, k < N → P + 1 + k ∈ w.GetBeams P := by
  unfold Scene.GetBeams
  refine ⟨?_, ?_, ?_⟩
  · apply List.Nodup.filter
    unfold Scene.GetItemChildren
    exact (List.nodup_range _).map (fun a b hab => by simpa using hab)
  · intro B hB
    rw [List.mem_filter] at hB
    have := hB.2
    simp only [decide_eq_true_eq] at this
    exact h.beams_only B this.1 this.2
  · intro k hk
    rw [List.mem_filter]
    have hv := Scene.valid_of_GetItemDataNode w _ _ (h.beam k hk).1
    refine ⟨Scene.mem_GetItemChildren w _ hv.1 hv.2, ?_⟩
    simp [h.isBeam k hk, (h.beam k hk).2]

/-- The loop of `LoadRtPlan` over the beams of a plan when one RT image of the scene names a
beam of the plan and no other RT image of the scene is an image of that beam: the placement
is applied to the matrix of the image once, in the round of that beam. -/
theorem setupGeometryOfBeams_with_image (kb : Nat) (hkb : kb < N) :
    ∀ (bs : List Nat), bs.Nodup → (∀ B ∈ bs, ∃ k, k < N ∧ B = P + 1 + k) →
      ∀ (w : Scene R) (M : Matrix4x4 R), PlanInScene w P N node c planUID →
        ImageOfPlan env w I planUID → NoOtherImage env w I planUID (node kb).BeamNumber N →
        env.ToInt (w.GetItemAttribute I .DICOMRTIMPORT_BEAM_NUMBER) = (node kb).BeamNumber →
        w.GetIJKToRASMatrix I = some M →
        (setupGeometryOfBeams env bs w).GetIJKToRASMatrix I
          = some (if P + 1 + kb ∈ bs then
              placementChain env.trig c (node kb).CouchAngle (node kb).GantryAngle (node kb).SAD
                (rtImageSidOf env w I) (rtImagePositionOf env w I).1
                (rtImagePositionOf env w I).2 M
            else M) := by
  intro bs
  induction bs with
  | nil =>
    intro _ _ w M _ _ _ _ hM
    simpa [setupGeometryOfBeams] using hM
  | cons B rest ih =>
    intro hnodup hmem w M h hi ho hnum hM
    rw [List.nodup_cons] at hnodup
    obtain ⟨k, hk, rfl⟩ := hmem _ (List.mem_cons_self _ _)
    have hrest : ∀ B ∈ rest, ∃ k, k < N ∧ B = P + 1 + k :=
      fun B hB => hmem B (List.mem_cons_of_mem _ hB)
    have hnum' : env.ToInt ((SetupRtImageGeometry env w (P + 1 + k)).GetItemAttribute I
        .DICOMRTIMPORT_BEAM_NUMBER) = (node kb).BeamNumber := by
      rw [GetItemAttribute_SetupRtImageGeometry]; exact hnum
    have hstep := ih hnodup.2 hrest (SetupRtImageGeometry env w (P + 1 + k))
    rw [rtImageSidOf_SetupRtImageGeometry, rtImagePositionOf_SetupRtImageGeometry] at hstep
    rw [setupGeometryOfBeams]
    by_cases hkk : k = kb
    · subst hkk
      obtain ⟨v, hv, hvM⟩ := Scene.exists_volume_of_matrix w I M hM
      have hpair := h.setup_of_matching_beam hi k hk ho hnum
      have hmatrix := setupGeometryOfPair_GetIJKToRASMatrix env w I (P + 1 + k) v (node k) c hv
        (h.beam k hk).1 (h.isocenter k hk)
      rw [← hpair, hvM] at hmatrix
      rw [hstep _ (h.plan_through_setup _) (hi.image_through_setup _) (ho.others_through_setup _) hnum' hmatrix]
      simp [hnodup.1]
    · have hmatrix : (SetupRtImageGeometry env w (P + 1 + k)).GetIJKToRASMatrix I = some M :=
        (h.setup_of_non_matching_beam k kb hk hkb hkk hnum).trans hM
      rw [hstep _ (h.plan_through_setup _) (hi.image_through_setup _) (ho.others_through_setup _) hnum' hmatrix]
      have hne : P + 1 + kb ≠ P + 1 + k := by omega
      simp [hne]

/-- The loop of `LoadRtPlan` over the beams of a plan keeps the loaded plan, the UIDs of the
items and the number of items. -/
theorem setupGeometryOfBeams_keeps_plan (env : Env R) :
    ∀ (bs : List Nat) (w : Scene R), PlanInScene w P N node c planUID →
      PlanInScene (setupGeometryOfBeams env bs w) P N node c planUID
        ∧ (∀ (i : Nat) (name : UIDName),
            (setupGeometryOfBeams env bs w).GetItemUID i name = w.GetItemUID i name)
        ∧ (setupGeometryOfBeams env bs w).Items.length = w.Items.length := by
  intro bs
  induction bs with
  | nil => intro w h; exact ⟨h, fun _ _ => rfl, rfl⟩
  | cons B rest ih =>
    intro w h
    obtain ⟨h1, h2, h3⟩ := ih (SetupRtImageGeometry env w B) (h.plan_through_setup B)
    refine ⟨h1, ?_, ?_⟩
    · intro i name
      rw [setupGeometryOfBeams, h2, GetItemUID_SetupRtImageGeometry]
    · rw [setupGeometryOfBeams, h3, length_SetupRtImageGeometry]

end BeamLoop

section PlanBlock

variable {R : Type} [CommRing R]

theorem GetItem_addBeamNode (env : Env R) (s : Scene R) (P : Nat)
    (beamNode : vtkMRMLRTBeamNode R) (i : Nat) :
    (addBeamNode env s P beamNode).GetItem i
      = if i = s.Items.length + 2 then
          some ⟨P, beamNode.Name, fun _ => "", fun _ => "",
            some (.RTBeamNode (numberedBeamNode env s P beamNode))⟩
        else s.GetItem i := by
  rw [addBeamNode_def]
  unfold Scene.SetItemParent Scene.SetItemDataNode Scene.AddNode
  rw [Scene.GetItem_modifyItem, Scene.GetItem_modifyItem, Scene.GetItem_CreateItem]
  by_cases h : i = s.Items.length + 2 <;> simp [h]

/-- The number of beams of a plan, counted over the positions of the items. -/
theorem Scene.length_GetBeams (s : Scene R) (P : Nat) :
    (s.GetBeams P).length
      = (List.range s.Items.length).countP
          (fun k => decide (s.IsBeam (k + 2) = true ∧ s.GetItemParent (k + 2) = P)) := by
  unfold Scene.GetBeams Scene.GetItemChildren
  rw [List.filter_map, List.length_map, List.countP_eq_length_filter]
  rfl

/-- The number of beams of a plan after one item was appended to the scene. -/
theorem Scene.length_GetBeams_succ (s t : Scene R) (P : Nat)
    (hlen : t.Items.length = s.Items.length + 1)
    (hold : ∀ i : Nat, i < s.Items.length + 2 → t.GetItem i = s.GetItem i) :
    (t.GetBeams P).length
      = (s.GetBeams P).length
        + (if t.IsBeam (s.Items.length + 2) = true ∧ t.GetItemParent (s.Items.length + 2) = P
            then 1 else 0) := by
  rw [Scene.length_GetBeams, Scene.length_GetBeams, hlen, List.range_succ, List.countP_append]
  congr 1
  · apply List.countP_congr
    intro k hk
    have hk2 : @LT.lt Nat _ (k + 2) (s.Items.length + 2) :=
      Nat.add_lt_add_right (List.mem_range.1 hk) 2
    simp only [Scene.IsBeam, Scene.GetItemDataNode, Scene.GetItemParent, hold (k + 2) hk2]
  · by_cases hc : t.IsBeam (s.Items.length + 2) = true
        ∧ t.GetItemParent (s.Items.length + 2) = P
    · simp [List.countP_cons, hc]
    · simp [List.countP_cons, hc]

theorem Scene.GetBeams_congr (s t : Scene R) (h : s.Items = t.Items) (P : Nat) :
    s.GetBeams P = t.GetBeams P := by
  unfold Scene.GetBeams Scene.GetItemChildren Scene.IsBeam Scene.GetItemDataNode
    Scene.GetItemParent Scene.GetItem
  rw [h]

/-- A plan item that is the parent of no item has no beams. -/
theorem Scene.GetBeams_eq_nil (s : Scene R) (P : Nat) (h : ∀ i : Nat, s.GetItemParent i ≠ P) :
    s.GetBeams P = [] := by
  apply List.eq_nil_iff_forall_not_mem.2
  intro i hi
  unfold Scene.GetBeams at hi
  rw [List.mem_filter] at hi
  have := hi.2
  simp only [decide_eq_true_eq] at this
  exact h i this.2

/-- Adding a node to the scene does not change the beams of a plan. -/
theorem Scene.length_GetBeams_AddNode (s : Scene R) (name : String) (node : vtkMRMLNode R)
    (P : Nat) (hP : P ≠ SceneItemID) :
    ((s.AddNode name node).1.GetBeams P).length = (s.GetBeams P).length := by
  rw [Scene.length_GetBeams_succ s _ P (by simp)
    (fun i hi => by
      have : i ≠ s.Items.length + 2 := by omega
      simp [Scene.AddNode, Scene.GetItem_CreateItem, this])]
  have hparent : (s.AddNode name node).1.GetItemParent (s.Items.length + 2) ≠ P := by
    simp [Scene.AddNode, Scene.GetItemParent_CreateItem]
    exact fun e => hP e.symm
  simp [hparent]

/-- The beam number that `AddBeam` gives: the number for the count of the beams that the plan
has. -/
theorem numberedBeamNode_eq (env : Env R) (s : Scene R) (P : Nat)
    (beamNode : vtkMRMLRTBeamNode R) (hP : P ≠ SceneItemID) :
    numberedBeamNode env s P beamNode
      = { beamNode with BeamNumber := env.AddBeamNumber (s.GetBeams P).length } := by
  unfold numberedBeamNode
  rw [Scene.length_GetBeams_AddNode s _ _ P hP]

/-- The plan has one beam more after `addBeamNode`. -/
theorem length_GetBeams_addBeamNode (env : Env R) (s : Scene R) (P : Nat)
    (beamNode : vtkMRMLRTBeamNode R) :
    ((addBeamNode env s P beamNode).GetBeams P).length = (s.GetBeams P).length + 1 := by
  rw [Scene.length_GetBeams_succ s _ P (length_addBeamNode env s P beamNode)
    (fun i hi => by
      have : i ≠ s.Items.length + 2 := by omega
      rw [GetItem_addBeamNode]
      simp [this])]
  have hbeam : (addBeamNode env s P beamNode).IsBeam (s.Items.length + 2) = true := by
    simp [Scene.IsBeam, GetItemDataNode_addBeamNode]
  have hparent : (addBeamNode env s P beamNode).GetItemParent (s.Items.length + 2) = P := by
    simp [Scene.GetItemParent, GetItem_addBeamNode]
  simp [hbeam, hparent]

theorem planBeamNode_eq (env : Env R) (rtReader : vtkSlicerDicomRtReader R) (b0 : BeamData R)
    (k : Nat) (hk : k < rtReader.Beams.length) :
    planBeamNode env rtReader b0 k
      = { beamNodeOf rtReader.Beams[k] with BeamNumber := env.AddBeamNumber k } := by
  simp [planBeamNode, List.getD_eq_getElem?_getD, List.getElem?_eq_getElem hk]

/-- The item of the beam that `addBeamNode` adds in round `k` to a plan with `k` beams. -/
theorem GetItem_addBeamNode_round (env : Env R) (rtReader : vtkSlicerDicomRtReader R)
    (b0 : BeamData R) (s : Scene R) (P k : Nat) (hk : k < rtReader.Beams.length)
    (hP : P ≠ SceneItemID) (hcount : (s.GetBeams P).length = k) (i : Nat) :
    (addBeamNode env s P (beamNodeOf rtReader.Beams[k])).GetItem i
      = if i = s.Items.length + 2 then
          some ⟨P, (planBeamNode env rtReader b0 k).Name, fun _ => "", fun _ => "",
            some (.RTBeamNode (planBeamNode env rtReader b0 k))⟩
        else s.GetItem i := by
  rw [GetItem_addBeamNode, numberedBeamNode_eq env s P _ hP, hcount,
    planBeamNode_eq env rtReader b0 k hk]

theorem GetItem_warnDifferentIsocenter (env : Env R) (s : Scene R) (c d : R × R × R) (i : Nat) :
    (warnDifferentIsocenter env s c d).GetItem i = s.GetItem i := by
  unfold warnDifferentIsocenter
  split_ifs
  · rfl
  · rfl

/-- The items after the rounds of the beam loop that follow the first. -/
theorem loadBeams_succ_items (env : Env R) (rtReader : vtkSlicerDicomRtReader R) (P : Nat)
    (b0 : BeamData R) (iso : R × R × R)
    (hnodup : (rtReader.Beams.map (·.BeamNumber)).Nodup) :
    ∀ (rounds k : Nat) (s : Scene R), k ≠ 0 → k + rounds ≤ rtReader.Beams.length →
      s.GetItemDataNode P = some (.RTPlanNode (some iso)) → P < s.Items.length + 2 →
      (s.GetBeams P).length = k →
      (loadBeams env rtReader P rounds k s).1.Items.length = s.Items.length + rounds
        ∧ (∀ i : Nat, i < s.Items.length + 2 →
            (loadBeams env rtReader P rounds k s).1.GetItem i = s.GetItem i)
        ∧ ∀ j : Nat, j < rounds →
            (loadBeams env rtReader P rounds k s).1.GetItem (s.Items.length + 2 + j)
              = some ⟨P, (planBeamNode env rtReader b0 (k + j)).Name, fun _ => "", fun _ => "",
                  some (.RTBeamNode (planBeamNode env rtReader b0 (k + j)))⟩ := by
  intro rounds
  induction rounds with
  | zero =>
    intro k s _ _ _ _ _
    refine ⟨rfl, fun i _ => rfl, fun j hj => absurd hj (by omega)⟩
  | succ rounds ih =>
    intro k s hk hle hP hlen hcount
    have hklt : k < rtReader.Beams.length := by omega
    have hfind := FindBeamByNumber_getElem rtReader hnodup k hklt
    have hiso : s.GetIsocenterPosition P = some iso := by
      simp [Scene.GetIsocenterPosition, hP]
    have hP1 : P ≠ SceneItemID := by
      have := (Scene.valid_of_GetItemDataNode s P _ hP).1
      intro e
      rw [e] at this
      simp [SceneItemID] at this
    have hload : loadBeam env rtReader P s k
        = (addBeamNode env
            (warnDifferentIsocenter env s iso rtReader.Beams[k].IsocenterPositionRas)
            P (beamNodeOf rtReader.Beams[k]), true) := by
      unfold loadBeam
      simp only [hfind, hk, if_false, hiso]
    have hstep : loadBeams env rtReader P (rounds + 1) k s
        = loadBeams env rtReader P rounds (k + 1) (loadBeam env rtReader P s k).1 := by
      rw [loadBeams]
      simp [hload]
    rw [hstep, hload]
    have hne : P ≠ s.Items.length + 2 := by omega
    have hwarn : (warnDifferentIsocenter env s iso
        rtReader.Beams[k].IsocenterPositionRas).Items = s.Items := by
      unfold warnDifferentIsocenter
      split_ifs <;> rfl
    have hcount0 : ((warnDifferentIsocenter env s iso
        rtReader.Beams[k].IsocenterPositionRas).GetBeams P).length = k := by
      rw [Scene.GetBeams_congr _ _ hwarn, hcount]
    have hlen1 : (addBeamNode env (warnDifferentIsocenter env s iso
        rtReader.Beams[k].IsocenterPositionRas) P (beamNodeOf rtReader.Beams[k])).Items.length
          = s.Items.length + 1 := by
      rw [length_addBeamNode, length_warnDifferentIsocenter]
    have hnode : (addBeamNode env (warnDifferentIsocenter env s iso
        rtReader.Beams[k].IsocenterPositionRas) P
          (beamNodeOf rtReader.Beams[k])).GetItemDataNode P
          = some (.RTPlanNode (some iso)) := by
      rw [GetItemDataNode_addBeamNode, length_warnDifferentIsocenter,
        GetItemDataNode_warnDifferentIsocenter]
      simp [hne, hP]
    have hcount1 : ((addBeamNode env (warnDifferentIsocenter env s iso
        rtReader.Beams[k].IsocenterPositionRas) P
          (beamNodeOf rtReader.Beams[k])).GetBeams P).length = k + 1 := by
      rw [length_GetBeams_addBeamNode, hcount0]
    obtain ⟨h1, h2, h3⟩ := ih (k + 1) _ (by omega) (by omega) hnode (by rw [hlen1]; omega)
      hcount1
    rw [hlen1] at h1 h2 h3
    refine ⟨by rw [h1]; omega, ?_, ?_⟩
    · intro i hi
      rw [h2 i (by omega), GetItem_addBeamNode, length_warnDifferentIsocenter,
        GetItem_warnDifferentIsocenter]
      have : i ≠ s.Items.length + 2 := by omega
      simp [this]
    · intro j hj
      cases j with
      | zero =>
        rw [Nat.add_zero, h2 _ (by omega),
          GetItem_addBeamNode_round env rtReader b0 _ P k hklt hP1 hcount0,
          length_warnDifferentIsocenter]
        simp
      | succ j =>
        have := h3 j (by omega)
        rw [show s.Items.length + 1 + 2 + j = s.Items.length + 2 + (j + 1) by omega,
          show k + 1 + j = k + (j + 1) by omega] at this
        exact this

end PlanBlock

section PlanBlock2

variable {R : Type} [CommRing R]

theorem GetItem_createPlanItem_of_ne (s : Scene R) (rtReader : vtkSlicerDicomRtReader R)
    (loadable : vtkSlicerDICOMLoadable R) (i : Nat) (h : i ≠ s.Items.length + 2) :
    (createPlanItem s rtReader loadable).GetItem i = s.GetItem i := by
  simp only [createPlanItem, Scene.SetItemAttribute, Scene.SetItemName, Scene.SetItemUID,
    Scene.GetItem_modifyItem, Scene.AddNode, Scene.CreateItem_id, Scene.GetItem_CreateItem, h,
    if_false]

theorem GetItemParent_createPlanItem (s : Scene R) (rtReader : vtkSlicerDicomRtReader R)
    (loadable : vtkSlicerDICOMLoadable R) (i : Nat) :
    (createPlanItem s rtReader loadable).GetItemParent i
      = if i = s.Items.length + 2 then SceneItemID else s.GetItemParent i := by
  simp [createPlanItem, Scene.AddNode, Scene.GetItemParent_CreateItem]

/-- The items of the scene after the plan node and the beam nodes of a plan have been
created. -/
theorem loadBeams_items (env : Env R) (rtReader : vtkSlicerDicomRtReader R)
    (loadable : vtkSlicerDICOMLoadable R) (t : Scene R) (b0 : BeamData R)
    (rest : List (BeamData R)) (hbeams : rtReader.Beams = b0 :: rest)
    (hnodup : (rtReader.Beams.map (·.BeamNumber)).Nodup)
    (hparent : ∀ i : Nat, @LT.lt Nat _ (t.GetItemParent i) (t.Items.length + 2)) :
    (loadBeams env rtReader (t.Items.length + 2) rtReader.Beams.length 0
        (createPlanItem t rtReader loadable)).1.Items.length
      = t.Items.length + 1 + rtReader.Beams.length
    ∧ (∀ i : Nat, i < t.Items.length + 2 →
        (loadBeams env rtReader (t.Items.length + 2) rtReader.Beams.length 0
          (createPlanItem t rtReader loadable)).1.GetItem i = t.GetItem i)
    ∧ (∃ attributes,
        (loadBeams env rtReader (t.Items.length + 2) rtReader.Beams.length 0
          (createPlanItem t rtReader loadable)).1.GetItem (t.Items.length + 2)
        = some ⟨SceneItemID, loadable.Name, attributes,
            Function.update (fun _ => "") .DICOMUIDName rtReader.SeriesInstanceUid,
            some (.RTPlanNode (some b0.IsocenterPositionRas))⟩)
    ∧ ∀ k : Nat, k < rtReader.Beams.length →
        (loadBeams env rtReader (t.Items.length + 2) rtReader.Beams.length 0
          (createPlanItem t rtReader loadable)).1.GetItem (t.Items.length + 2 + 1 + k)
        = some ⟨t.Items.length + 2, (planBeamNode env rtReader b0 k).Name, fun _ => "", fun _ => "",
            some (.RTBeamNode (planBeamNode env rtReader b0 k))⟩ := by
  have hP0 : (createPlanItem t rtReader loadable).GetItemDataNode (t.Items.length + 2)
      = some (.RTPlanNode none) := by
    rw [GetItemDataNode_createPlanItem]
    simp
  have hlen0 := length_createPlanItem t rtReader loadable
  have hitemP : ∃ attributes, (createPlanItem t rtReader loadable).GetItem (t.Items.length + 2)
      = some ⟨SceneItemID, loadable.Name, attributes,
          Function.update (fun _ => "") .DICOMUIDName rtReader.SeriesInstanceUid,
          some (.RTPlanNode none)⟩ := by
    refine ⟨Function.update (fun _ => "") .DICOMReferencedInstanceUIDs
      (rtReader.RTPlanReferencedStructureSetSOPInstanceUID ++
        (if rtReader.RTPlanReferencedDoseSOPInstanceUIDs ≠ "" then
          (if rtReader.RTPlanReferencedStructureSetSOPInstanceUID ≠ "" then " " else "") ++
            rtReader.RTPlanReferencedDoseSOPInstanceUIDs
         else "")), ?_⟩
    simp only [createPlanItem, Scene.SetItemAttribute, Scene.SetItemName, Scene.SetItemUID,
      Scene.GetItem_modifyItem, Scene.AddNode, Scene.CreateItem_id, Scene.GetItem_CreateItem,
      if_true, Option.map_some']
  obtain ⟨attributes, hitemP⟩ := hitemP
  have hsome : ((createPlanItem t rtReader loadable).GetItem (t.Items.length + 2)).isSome
      = true := by rw [hitemP]; rfl
  have hP1 : t.Items.length + 2 ≠ SceneItemID := by simp [SceneItemID]
  have hcountP : ((createPlanItem t rtReader loadable).GetBeams (t.Items.length + 2)) = [] := by
    apply Scene.GetBeams_eq_nil
    intro i
    rw [GetItemParent_createPlanItem]
    split_ifs
    · exact fun e => hP1 e.symm
    · exact Nat.ne_of_lt (hparent i)
  have hcount0 : (((createPlanItem t rtReader loadable).SetItemDataNode (t.Items.length + 2)
      (.RTPlanNode (some b0.IsocenterPositionRas))).GetBeams (t.Items.length + 2)).length
        = 0 := by
    rw [Scene.GetBeams_eq_nil]
    · rfl
    · intro i
      rw [Scene.GetItemParent_SetItemDataNode, GetItemParent_createPlanItem]
      split_ifs
      · exact fun e => hP1 e.symm
      · exact Nat.ne_of_lt (hparent i)
  have hlength : rtReader.Beams.length = rest.length + 1 := by simp [hbeams]
  have h0lt : 0 < rtReader.Beams.length := by omega
  have hb0 : rtReader.Beams[0] = b0 := by simp [hbeams]
  have hfirst : loadBeam env rtReader (t.Items.length + 2) (createPlanItem t rtReader loadable) 0
      = (addBeamNode env ((createPlanItem t rtReader loadable).SetItemDataNode
          (t.Items.length + 2) (.RTPlanNode (some b0.IsocenterPositionRas)))
          (t.Items.length + 2) (beamNodeOf rtReader.Beams[0]), true) := by
    unfold loadBeam
    simp [FindBeamByNumber_head rtReader b0 rest hbeams, Scene.SetIsocenterPosition, hP0, hb0]
  have hstep : loadBeams env rtReader (t.Items.length + 2) rtReader.Beams.length 0
      (createPlanItem t rtReader loadable)
      = loadBeams env rtReader (t.Items.length + 2) rest.length 1
          (addBeamNode env ((createPlanItem t rtReader loadable).SetItemDataNode
            (t.Items.length + 2) (.RTPlanNode (some b0.IsocenterPositionRas)))
            (t.Items.length + 2) (beamNodeOf rtReader.Beams[0])) := by
    rw [hlength, loadBeams]
    simp [hfirst]
  have hlen1 : (addBeamNode env ((createPlanItem t rtReader loadable).SetItemDataNode
      (t.Items.length + 2) (.RTPlanNode (some b0.IsocenterPositionRas))) (t.Items.length + 2)
      (beamNodeOf rtReader.Beams[0])).Items.length = t.Items.length + 2 := by
    rw [length_addBeamNode, Scene.length_SetItemDataNode, hlen0]
  have hnode1 : (addBeamNode env ((createPlanItem t rtReader loadable).SetItemDataNode
      (t.Items.length + 2) (.RTPlanNode (some b0.IsocenterPositionRas))) (t.Items.length + 2)
      (beamNodeOf rtReader.Beams[0])).GetItemDataNode (t.Items.length + 2)
        = some (.RTPlanNode (some b0.IsocenterPositionRas)) := by
    rw [GetItemDataNode_addBeamNode, Scene.GetItemDataNode_SetItemDataNode,
      Scene.length_SetItemDataNode, hlen0]
    simp [hsome]
  have hcount1 : ((addBeamNode env ((createPlanItem t rtReader loadable).SetItemDataNode
      (t.Items.length + 2) (.RTPlanNode (some b0.IsocenterPositionRas))) (t.Items.length + 2)
      (beamNodeOf rtReader.Beams[0])).GetBeams (t.Items.length + 2)).length = 1 := by
    rw [length_GetBeams_addBeamNode, hcount0]
  obtain ⟨h1, h2, h3⟩ := loadBeams_succ_items env rtReader (t.Items.length + 2) b0
    b0.IsocenterPositionRas hnodup rest.length 1 _ (by omega) (by omega) hnode1
    (by rw [hlen1]; omega) hcount1
  rw [hstep]
  rw [hlen1] at h1 h2 h3
  have hitem : ∀ i : Nat, i < t.Items.length + 2 + 2 →
      (loadBeams env rtReader (t.Items.length + 2) rest.length 1
        (addBeamNode env ((createPlanItem t rtReader loadable).SetItemDataNode
          (t.Items.length + 2) (.RTPlanNode (some b0.IsocenterPositionRas)))
          (t.Items.length + 2) (beamNodeOf rtReader.Beams[0]))).1.GetItem i
      = if i = t.Items.length + 2 + 1 then
          some ⟨t.Items.length + 2, (planBeamNode env rtReader b0 0).Name, fun _ => "", fun _ => "",
            some (.RTBeamNode (planBeamNode env rtReader b0 0))⟩
        else if i = t.Items.length + 2 then
          ((createPlanItem t rtReader loadable).GetItem i).map
            (fun it => { it with DataNode := some (.RTPlanNode (some b0.IsocenterPositionRas)) })
        else (createPlanItem t rtReader loadable).GetItem i := by
    intro i hi
    rw [h2 i hi, GetItem_addBeamNode_round env rtReader b0 _ _ 0 h0lt hP1 hcount0,
      Scene.length_SetItemDataNode, hlen0]
    by_cases hc : i = t.Items.length + 1 + 2
    · have : i = t.Items.length + 2 + 1 := by omega
      simp [this]
    · have : i ≠ t.Items.length + 2 + 1 := by omega
      simp only [hc, this, if_false, Scene.SetItemDataNode, Scene.GetItem_modifyItem]
  refine ⟨by rw [h1]; omega, ?_, ?_, ?_⟩
  · intro i hi
    rw [hitem i (by omega)]
    have h1' : i ≠ t.Items.length + 2 + 1 := by omega
    have h2' : i ≠ t.Items.length + 2 := by omega
    simp only [h1', h2', if_false]
    exact GetItem_createPlanItem_of_ne t rtReader loadable i h2'
  · refine ⟨attributes, ?_⟩
    rw [hitem _ (by omega)]
    simp [hitemP]
  · intro k hk
    cases k with
    | zero =>
      rw [Nat.add_zero, hitem _ (by omega)]
      simp
    | succ k =>
      have := h3 k (by omega)
      rw [show t.Items.length + 2 + 2 + k = t.Items.length + 2 + 1 + (k + 1) by omega,
        show 1 + k = k + 1 by omega] at this
      exact this

end PlanBlock2

section PlanBlock3

variable {R : Type} [CommRing R]

theorem planBeamNode_injective (env : Env R) (rtReader : vtkSlicerDicomRtReader R)
    (b0 : BeamData R)
    (hinj : ∀ j k : Nat, j < rtReader.Beams.length → k < rtReader.Beams.length →
      env.AddBeamNumber j = env.AddBeamNumber k → j = k) (j k : Nat)
    (hj : j < rtReader.Beams.length) (hk : k < rtReader.Beams.length)
    (h : (planBeamNode env rtReader b0 j).BeamNumber
      = (planBeamNode env rtReader b0 k).BeamNumber) :
    j = k :=
  hinj j k hj hk h

variable (env : Env R) (s : Scene R) (rtReader : vtkSlicerDicomRtReader R)
  (loadable : vtkSlicerDICOMLoadable R) (b0 : BeamData R) (rest : List (BeamData R))

/-- The items of `planItemsCreated`. -/
theorem planItemsCreated_items (hbeams : rtReader.Beams = b0 :: rest)
    (hnodup : (rtReader.Beams.map (·.BeamNumber)).Nodup)
    (hparent : ∀ i : Nat, @LT.lt Nat _ (s.GetItemParent i) (s.Items.length + 2)) :
    (planItemsCreated env s rtReader loadable).Items.length
      = s.Items.length + 1 + rtReader.Beams.length
    ∧ (∀ i : Nat, i < s.Items.length + 2 →
        (planItemsCreated env s rtReader loadable).GetItem i = s.GetItem i)
    ∧ (∃ attributes,
        (planItemsCreated env s rtReader loadable).GetItem (s.Items.length + 2)
        = some ⟨SceneItemID, loadable.Name, attributes,
            Function.update (fun _ => "") .DICOMUIDName rtReader.SeriesInstanceUid,
            some (.RTPlanNode (some b0.IsocenterPositionRas))⟩)
    ∧ ∀ k : Nat, k < rtReader.Beams.length →
        (planItemsCreated env s rtReader loadable).GetItem (s.Items.length + 2 + 1 + k)
        = some ⟨s.Items.length + 2, (planBeamNode env rtReader b0 k).Name, fun _ => "", fun _ => "",
            some (.RTBeamNode (planBeamNode env rtReader b0 k))⟩ :=
  loadBeams_items env rtReader loadable s.StartState b0 rest hbeams hnodup hparent

/-- The plan item is the item found by the series UID of the plan. -/
theorem planItemsCreated_lookup (hbeams : rtReader.Beams = b0 :: rest)
    (hnodup : (rtReader.Beams.map (·.BeamNumber)).Nodup)
    (hparent : ∀ i : Nat, @LT.lt Nat _ (s.GetItemParent i) (s.Items.length + 2))
    (hseries : rtReader.SeriesInstanceUid ≠ "")
    (h1 : ∀ i : Nat, s.GetItemUID i .DICOMUIDName ≠ rtReader.SeriesInstanceUid) :
    (planItemsCreated env s rtReader loadable).GetItemByUID .DICOMUIDName
      rtReader.SeriesInstanceUid = s.Items.length + 2 := by
  obtain ⟨_, hold, ⟨attributes, hP⟩, _⟩ :=
    planItemsCreated_items env s rtReader loadable b0 rest hbeams hnodup hparent
  apply Scene.GetItemByUID_of_first _ _ _ _ hseries
  · simp [Scene.GetItemUID, hP]
  · intro i hi
    have := h1 i
    simpa [Scene.GetItemUID, hold i hi] using this

end PlanBlock3

section PlanBlock4

variable {R : Type} [CommRing R]

theorem Scene.GetItemDataNode_of_length_le (s : Scene R) (i : Nat)
    (h : s.Items.length + 2 ≤ i) : s.GetItemDataNode i = none := by
  unfold Scene.GetItemDataNode
  rw [Scene.GetItem_of_length_le s i h]

theorem Scene.IsScalarVolume_of_length_le (s : Scene R) (i : Nat)
    (h : s.Items.length + 2 ≤ i) : s.IsScalarVolume i = false := by
  unfold Scene.IsScalarVolume
  rw [Scene.GetItemDataNode_of_length_le s i h]

variable (env : Env R) (s : Scene R) (rtReader : vtkSlicerDicomRtReader R)
  (loadable : vtkSlicerDICOMLoadable R) (b0 : BeamData R) (rest : List (BeamData R))

theorem GetItemDataNode_planBeforeGeometry (i : Nat) :
    (planBeforeGeometry env s rtReader loadable).GetItemDataNode i
      = (planItemsCreated env s rtReader loadable).GetItemDataNode i := by
  unfold planBeforeGeometry
  rw [Scene.GetItemDataNode_SetItemParent, GetItemDataNode_InsertSeriesInSubjectHierarchy]

theorem GetItemAttribute_planBeforeGeometry (i : Nat) (a : AttributeName)
    (ha : a.IsRtImageAttribute = true) :
    (planBeforeGeometry env s rtReader loadable).GetItemAttribute i a
      = (planItemsCreated env s rtReader loadable).GetItemAttribute i a := by
  unfold planBeforeGeometry
  rw [Scene.GetItemAttribute_SetItemParent,
    GetItemAttribute_InsertSeriesInSubjectHierarchy env _ _ i a ha]

theorem length_le_planBeforeGeometry :
    (planItemsCreated env s rtReader loadable).Items.length
      ≤ (planBeforeGeometry env s rtReader loadable).Items.length := by
  unfold planBeforeGeometry
  rw [Scene.length_SetItemParent]
  exact length_le_InsertSeriesInSubjectHierarchy env _ rtReader

/-- The scene of `LoadRtPlan` before the geometry loop holds the loaded plan; the volumes and
the RT image attributes of the items that were in the scene are as before. -/
theorem planBeforeGeometry_spec (hbeams : rtReader.Beams = b0 :: rest)
    (hnodup : (rtReader.Beams.map (·.BeamNumber)).Nodup)
    (hinj : ∀ j k : Nat, j < rtReader.Beams.length → k < rtReader.Beams.length →
      env.AddBeamNumber j = env.AddBeamNumber k → j = k)
    (hpatient : rtReader.PatientId ≠ "") (hstudy : rtReader.StudyInstanceUid ≠ "")
    (hseries : rtReader.SeriesInstanceUid ≠ "") (hsop : rtReader.SOPInstanceUID ≠ "")
    (h1 : ∀ i : Nat, s.GetItemUID i .DICOMUIDName ≠ rtReader.SeriesInstanceUid)
    (h2 : ∀ i : Nat, s.GetItemUID i .DICOMInstanceUIDName ≠ rtReader.SOPInstanceUID)
    (h3 : ∀ i : Nat, @LT.lt Nat _ (s.GetItemParent i) (s.Items.length + 2)) :
    PlanInScene (planBeforeGeometry env s rtReader loadable) (s.Items.length + 2)
        rtReader.Beams.length (planBeamNode env rtReader b0) b0.IsocenterPositionRas
        rtReader.SOPInstanceUID
    ∧ (∀ i : Nat, (planBeforeGeometry env s rtReader loadable).IsScalarVolume i
        = s.IsScalarVolume i)
    ∧ (∀ i : Nat, i < s.Items.length + 2 →
        (planBeforeGeometry env s rtReader loadable).GetItemDataNode i = s.GetItemDataNode i)
    ∧ (∀ (i : Nat) (a : AttributeName), i < s.Items.length + 2 → a.IsRtImageAttribute = true →
        (planBeforeGeometry env s rtReader loadable).GetItemAttribute i a
          = s.GetItemAttribute i a)
    ∧ (planBeforeGeometry env s rtReader loadable).GetItemUID (s.Items.length + 2) .DICOMUIDName
        = rtReader.SeriesInstanceUid
    ∧ (∀ k : Nat, k < rtReader.Beams.length →
        (planBeforeGeometry env s rtReader loadable).GetItemUID (s.Items.length + 2 + 1 + k)
          .DICOMUIDName = "")
    ∧ s.Items.length + 1 + rtReader.Beams.length
        ≤ (planBeforeGeometry env s rtReader loadable).Items.length := by
  obtain ⟨hlen, hold, ⟨attributes, hP⟩, hbeam⟩ :=
    planItemsCreated_items env s rtReader loadable b0 rest hbeams hnodup h3
  have hX := planItemsCreated_lookup env s rtReader loadable b0 rest hbeams hnodup h3 hseries h1
  have hXne : (planItemsCreated env s rtReader loadable).GetItemByUID .DICOMUIDName
      rtReader.SeriesInstanceUid ≠ INVALID_ITEM_ID := by
    rw [hX]; simp [INVALID_ITEM_ID]
  have hnode := GetItemDataNode_planBeforeGeometry env s rtReader loadable
  have hlenle := length_le_planBeforeGeometry env s rtReader loadable
  -- instance UIDs
  have huidP : (planBeforeGeometry env s rtReader loadable).GetItemUID (s.Items.length + 2)
      .DICOMInstanceUIDName = rtReader.SOPInstanceUID := by
    unfold planBeforeGeometry
    rw [Scene.GetItemUID_SetItemParent]
    have := GetItemUID_instance_InsertSeriesInSubjectHierarchy_self env
      (planItemsCreated env s rtReader loadable) rtReader hpatient hstudy hseries hXne
    rw [hX] at this
    exact this
  have huid : ∀ i : Nat, i < s.Items.length + 2 →
      (planBeforeGeometry env s rtReader loadable).GetItemUID i .DICOMInstanceUIDName
        = s.GetItemUID i .DICOMInstanceUIDName := by
    intro i hi
    unfold planBeforeGeometry
    rw [Scene.GetItemUID_SetItemParent,
      GetItemUID_instance_InsertSeriesInSubjectHierarchy_of_ne env _ rtReader i
        (by rw [hX]; omega)]
    simp [Scene.GetItemUID, hold i hi]
  -- DICOM UIDs
  have hdicom : ∀ i : Nat, i < (planItemsCreated env s rtReader loadable).Items.length + 2 →
      (planBeforeGeometry env s rtReader loadable).GetItemUID i .DICOMUIDName
        = (planItemsCreated env s rtReader loadable).GetItemUID i .DICOMUIDName := by
    intro i hi
    unfold planBeforeGeometry
    rw [Scene.GetItemUID_SetItemParent,
      GetItemUID_InsertSeriesInSubjectHierarchy env _ rtReader i hpatient hstudy hseries hXne,
      Scene.GetItemUID_ensureStudyItem_of_valid _ _ _ _
        (Nat.lt_of_lt_of_le hi (Nat.add_le_add_right (Scene.length_le_ensurePatientItem _ _) 2)),
      Scene.GetItemUID_ensurePatientItem_of_valid _ _ _ hi]
  -- parents
  have hparent : ∀ i : Nat, i < (planItemsCreated env s rtReader loadable).Items.length + 2 →
      i ≠ s.Items.length + 2 →
      (planBeforeGeometry env s rtReader loadable).GetItemParent i
        = (planItemsCreated env s rtReader loadable).GetItemParent i := by
    intro i hi hne
    unfold planBeforeGeometry
    rw [Scene.GetItemParent_SetItemParent_of_ne _ _ _ _ hne,
      GetItemParent_InsertSeriesInSubjectHierarchy env _ rtReader i hi (by rw [hX]; exact hne)]
  refine ⟨?_, ?_, ?_, ?_, ?_, ?_, ?_⟩
  · refine ⟨?_, hsop, huidP, ?_, ?_, ?_, ?_⟩
    · rw [hnode]
      simp [Scene.GetItemDataNode, hP]
    · intro i hi
      rw [huid i hi]
      exact h2 i
    · intro k hk
      constructor
      · rw [hnode]
        simp [Scene.GetItemDataNode, hbeam k hk]
      · rw [hparent _ (by rw [hlen]; omega) (by omega)]
        simp [Scene.GetItemParent, hbeam k hk]
    · intro i hb hp
      unfold Scene.IsBeam at hb
      rw [hnode] at hb
      by_cases hi : i < s.Items.length + 2
      · exfalso
        rw [hparent i (by rw [hlen]; omega) (by omega)] at hp
        have hp' : s.GetItemParent i = s.Items.length + 2 := by
          simpa [Scene.GetItemParent, hold i hi] using hp
        have := h3 i
        rw [hp'] at this
        exact Nat.lt_irrefl _ this
      · by_cases hiP : i = s.Items.length + 2
        · subst hiP
          simp [Scene.GetItemDataNode, hP] at hb
        · by_cases hlt : i < s.Items.length + 2 + 1 + rtReader.Beams.length
          · exact ⟨i - (s.Items.length + 2 + 1), by omega, by omega⟩
          · rw [Scene.GetItemDataNode_of_length_le _ i (by rw [hlen]; omega)] at hb
            simp at hb
    · intro j k hj hk h
      exact planBeamNode_injective env rtReader b0 hinj j k hj hk h
  · intro i
    unfold Scene.IsScalarVolume
    rw [hnode]
    by_cases hi : i < s.Items.length + 2
    · simp [Scene.GetItemDataNode, hold i hi]
    · rw [Scene.GetItemDataNode_of_length_le s i (by omega)]
      by_cases hiP : i = s.Items.length + 2
      · subst hiP
        simp [Scene.GetItemDataNode, hP]
      · by_cases hlt : i < s.Items.length + 2 + 1 + rtReader.Beams.length
        · obtain ⟨k, hk, rfl⟩ : ∃ k, k < rtReader.Beams.length ∧ i = s.Items.length + 2 + 1 + k :=
            ⟨i - (s.Items.length + 2 + 1), by omega, by omega⟩
          simp [Scene.GetItemDataNode, hbeam k hk]
        · rw [Scene.GetItemDataNode_of_length_le _ i (by rw [hlen]; omega)]
  · intro i hi
    rw [hnode]
    simp [Scene.GetItemDataNode, hold i hi]
  · intro i a hi ha
    rw [GetItemAttribute_planBeforeGeometry env s rtReader loadable i a ha]
    simp [Scene.GetItemAttribute, hold i hi]
  · rw [hdicom _ (by rw [hlen]; omega)]
    simp [Scene.GetItemUID, hP]
  · intro k hk
    rw [hdicom _ (by rw [hlen]; omega)]
    simp [Scene.GetItemUID, hbeam k hk]
  · rw [← hlen]
    exact hlenle

/-- Function `LoadRtPlan` in terms of the scene before the geometry loop. -/
theorem LoadRtPlan_eq (hbeams : rtReader.Beams = b0 :: rest)
    (hnodup : (rtReader.Beams.map (·.BeamNumber)).Nodup)
    (hpatient : rtReader.PatientId ≠ "") (hstudy : rtReader.StudyInstanceUid ≠ "")
    (hseries : rtReader.SeriesInstanceUid ≠ "")
    (h1 : ∀ i : Nat, s.GetItemUID i .DICOMUIDName ≠ rtReader.SeriesInstanceUid)
    (h3 : ∀ i : Nat, @LT.lt Nat _ (s.GetItemParent i) (s.Items.length + 2)) :
    LoadRtPlan env s rtReader loadable
      = ((setupGeometryOfBeams env
          ((planBeforeGeometry env s rtReader loadable).GetBeams (s.Items.length + 2))
          (planBeforeGeometry env s rtReader loadable)).EndState, true) := by
  have hX := planItemsCreated_lookup env s rtReader loadable b0 rest hbeams hnodup h3 hseries h1
  have hXne : (planItemsCreated env s rtReader loadable).GetItemByUID .DICOMUIDName
      rtReader.SeriesInstanceUid ≠ INVALID_ITEM_ID := by
    rw [hX]; simp [INVALID_ITEM_ID]
  have hfound := InsertSeriesInSubjectHierarchy_study_found env
    (planItemsCreated env s rtReader loadable) rtReader hpatient hstudy hseries hXne
  have hP0 : (createPlanItem s.StartState rtReader loadable).GetItemDataNode (s.Items.length + 2)
      = some (.RTPlanNode none) := by
    rw [GetItemDataNode_createPlanItem]
    simp
  have hlen0 : s.Items.length + 2
      < (createPlanItem s.StartState rtReader loadable).Items.length + 2 := by
    rw [length_createPlanItem]
    simp
  obtain ⟨hflag, _, _, _⟩ := loadBeams_spec env rtReader (s.Items.length + 2)
    (createPlanItem s.StartState rtReader loadable) b0 rest hbeams none hP0 hlen0
  have hid : (s.StartState.AddNode loadable.Name (.RTPlanNode none)).2 = s.Items.length + 2 := rfl
  unfold LoadRtPlan
  rw [hid]
  have hne : s.Items.length + 2 ≠ INVALID_ITEM_ID := by simp [INVALID_ITEM_ID]
  simp only [hne, if_false, hflag]
  simp only [Bool.true_eq_false, if_false]
  unfold planItemsCreated at hfound
  unfold placePlanUnderStudy planBeforeGeometry planItemsCreated
  rw [if_neg hfound]

end PlanBlock4

section ImageBlock

variable {R : Type} [CommRing R]

theorem GetItem_createRtImageItem (env : Env R) (s : Scene R)
    (rtReader : vtkSlicerDicomRtReader R) (loadable : vtkSlicerDICOMLoadable R)
    (M : Matrix4x4 R) (D : List R) (i : Nat) :
    ∃ attributes : AttributeName → String,
      attributes .DICOMRTIMPORT_RTIMAGE_IDENTIFIER = "1"
      ∧ attributes .DICOMReferencedInstanceUIDs = rtReader.RTImageReferencedRTPlanSOPInstanceUID
      ∧ attributes .DICOMRTIMPORT_BEAM_NUMBER = env.FormatInt rtReader.ReferencedBeamNumber
      ∧ attributes .DICOMRTIMPORT_RTIMAGE_SID = env.FormatDouble rtReader.RTImageSID
      ∧ attributes .DICOMRTIMPORT_RTIMAGE_POSITION
          = env.FormatDouble rtReader.RTImagePosition.1 ++ " " ++
              env.FormatDouble rtReader.RTImagePosition.2
      ∧ (createRtImageItem env s rtReader loadable M D).GetItem i
        = if i = s.Items.length + 2 then
            some ⟨SceneItemID, loadable.Name, attributes,
              Function.update (fun _ => "") .DICOMUIDName rtReader.SeriesInstanceUid,
              some (.ScalarVolumeNode ⟨M, D, none, false⟩)⟩
          else s.GetItem i := by
  refine ⟨Function.update (Function.update (Function.update (Function.update (Function.update
    (Function.update (Function.update (Function.update (Function.update (fun _ => "")
      .DICOMRTIMPORT_RTIMAGE_IDENTIFIER "1")
      .DICOMReferencedInstanceUIDs rtReader.RTImageReferencedRTPlanSOPInstanceUID)
      .DICOMRTIMPORT_SOURCE_AXIS_DISTANCE (env.FormatDouble rtReader.RadiationMachineSAD))
      .DICOMRTIMPORT_GANTRY_ANGLE (env.FormatDouble rtReader.GantryAngle))
      .DICOMRTIMPORT_COUCH_ANGLE (env.FormatDouble rtReader.PatientSupportAngle))
      .DICOMRTIMPORT_COLLIMATOR_ANGLE (env.FormatDouble rtReader.BeamLimitingDeviceAngle))
      .DICOMRTIMPORT_BEAM_NUMBER (env.FormatInt rtReader.ReferencedBeamNumber))
      .DICOMRTIMPORT_RTIMAGE_SID (env.FormatDouble rtReader.RTImageSID))
      .DICOMRTIMPORT_RTIMAGE_POSITION
      (env.FormatDouble rtReader.RTImagePosition.1 ++ " " ++
        env.FormatDouble rtReader.RTImagePosition.2), ?_, ?_, ?_, ?_, ?_, ?_⟩
  rotate_right 1
  · simp only [createRtImageItem, Scene.SetItemAttribute, Scene.SetItemUID,
      Scene.CreateItemForNode, Scene.SetItemParent,
      Scene.GetItem_modifyItem, Scene.AddNode, Scene.CreateItem_id, Scene.GetItem_CreateItem]
    by_cases h : i = s.Items.length + 2
    · simp only [h, if_true, Option.map_some']
    · simp only [h, if_false]
  all_goals simp [Function.update]

theorem length_createRtImageItem (env : Env R) (s : Scene R)
    (rtReader : vtkSlicerDicomRtReader R) (loadable : vtkSlicerDICOMLoadable R)
    (M : Matrix4x4 R) (D : List R) :
    (createRtImageItem env s rtReader loadable M D).Items.length = s.Items.length + 1 := by
  simp [createRtImageItem, Scene.CreateItemForNode]

end ImageBlock

section InsertSeriesCases

variable {R : Type} [CommRing R]

theorem GetItemParent_InsertSeriesInSubjectHierarchy_eq (env : Env R) (s : Scene R)
    (rtReader : vtkSlicerDicomRtReader R) (i : Nat) :
    (InsertSeriesInSubjectHierarchy env s rtReader).GetItemParent i
      = (s.InsertDicomSeriesInHierarchy rtReader.PatientId rtReader.StudyInstanceUid
          rtReader.SeriesInstanceUid).1.GetItemParent i := by
  simp [InsertSeriesInSubjectHierarchy]

theorem GetItemUID_dicom_InsertSeriesInSubjectHierarchy_eq (env : Env R) (s : Scene R)
    (rtReader : vtkSlicerDicomRtReader R) (i : Nat) :
    (InsertSeriesInSubjectHierarchy env s rtReader).GetItemUID i .DICOMUIDName
      = (s.InsertDicomSeriesInHierarchy rtReader.PatientId rtReader.StudyInstanceUid
          rtReader.SeriesInstanceUid).1.GetItemUID i .DICOMUIDName := by
  simp [InsertSeriesInSubjectHierarchy]

/-- The parent of an item after `InsertSeriesInSubjectHierarchy`: the parent it had, the scene
item, the patient item or the study item. -/
theorem GetItemParent_InsertSeriesInSubjectHierarchy_cases (env : Env R) (s : Scene R)
    (rtReader : vtkSlicerDicomRtReader R) (i : Nat) :
    (InsertSeriesInSubjectHierarchy env s rtReader).GetItemParent i = s.GetItemParent i
      ∨ (InsertSeriesInSubjectHierarchy env s rtReader).GetItemParent i = SceneItemID
      ∨ (InsertSeriesInSubjectHierarchy env s rtReader).GetItemParent i
          = (s.ensurePatientItem rtReader.PatientId).GetItemByUID .DICOMUIDName
              rtReader.PatientId
      ∨ (InsertSeriesInSubjectHierarchy env s rtReader).GetItemParent i
          = ((s.ensurePatientItem rtReader.PatientId).ensureStudyItem rtReader.PatientId
              rtReader.StudyInstanceUid).GetItemByUID .DICOMUIDName rtReader.StudyInstanceUid := by
  rw [GetItemParent_InsertSeriesInSubjectHierarchy_eq]
  unfold Scene.InsertDicomSeriesInHierarchy
  split_ifs
  · exact Or.inl rfl
  · exact Or.inl rfl
  · rw [Scene.GetItemParent_SetItemParent]
    split_ifs
    · exact Or.inr (Or.inr (Or.inr rfl))
    · unfold Scene.ensureStudyItem
      split_ifs
      · rw [Scene.GetItemParent_CreateItemWithUID]
        split_ifs
        · exact Or.inr (Or.inr (Or.inl rfl))
        · unfold Scene.ensurePatientItem
          split_ifs
          · rw [Scene.GetItemParent_CreateItemWithUID]
            split_ifs
            · exact Or.inr (Or.inl rfl)
            · exact Or.inl rfl
          · exact Or.inl rfl
      · unfold Scene.ensurePatientItem
        split_ifs
        · rw [Scene.GetItemParent_CreateItemWithUID]
          split_ifs
          · exact Or.inr (Or.inl rfl)
          · exact Or.inl rfl
        · exact Or.inl rfl

/-- The UID of an item after `InsertSeriesInSubjectHierarchy`: the UID it had, the patient id
or the study UID. -/
theorem GetItemUID_dicom_InsertSeriesInSubjectHierarchy_cases (env : Env R) (s : Scene R)
    (rtReader : vtkSlicerDicomRtReader R) (i : Nat) :
    (InsertSeriesInSubjectHierarchy env s rtReader).GetItemUID i .DICOMUIDName
        = s.GetItemUID i .DICOMUIDName
      ∨ (InsertSeriesInSubjectHierarchy env s rtReader).GetItemUID i .DICOMUIDName
          = rtReader.PatientId
      ∨ (InsertSeriesInSubjectHierarchy env s rtReader).GetItemUID i .DICOMUIDName
          = rtReader.StudyInstanceUid := by
  rw [GetItemUID_dicom_InsertSeriesInSubjectHierarchy_eq]
  unfold Scene.InsertDicomSeriesInHierarchy
  split_ifs
  · exact Or.inl rfl
  · exact Or.inl rfl
  · rw [Scene.GetItemUID_SetItemParent]
    unfold Scene.ensureStudyItem
    split_ifs
    · rw [Scene.GetItemUID_CreateItemWithUID]
      split_ifs
      · exact Or.inr (Or.inr rfl)
      · unfold Scene.ensurePatientItem
        split_ifs
        · rw [Scene.GetItemUID_CreateItemWithUID]
          split_ifs
          · exact Or.inr (Or.inl rfl)
          · exact Or.inl rfl
        · exact Or.inl rfl
    · unfold Scene.ensurePatientItem
      split_ifs
      · rw [Scene.GetItemUID_CreateItemWithUID]
        split_ifs
        · exact Or.inr (Or.inl rfl)
        · exact Or.inl rfl
      · exact Or.inl rfl

/-- The UID of an item that was in the scene stays through `InsertSeriesInSubjectHierarchy`. -/
theorem GetItemUID_dicom_InsertSeriesInSubjectHierarchy_of_valid (env : Env R) (s : Scene R)
    (rtReader : vtkSlicerDicomRtReader R) (i : Nat) (hi : i < s.Items.length + 2) :
    (InsertSeriesInSubjectHierarchy env s rtReader).GetItemUID i .DICOMUIDName
      = s.GetItemUID i .DICOMUIDName := by
  rw [GetItemUID_dicom_InsertSeriesInSubjectHierarchy_eq]
  unfold Scene.InsertDicomSeriesInHierarchy
  split_ifs
  · rfl
  · rfl
  · rw [Scene.GetItemUID_SetItemParent, Scene.GetItemUID_ensureStudyItem_of_valid _ _ _ _
        (Nat.lt_of_lt_of_le hi (Nat.add_le_add_right (Scene.length_le_ensurePatientItem _ _) 2)),
      Scene.GetItemUID_ensurePatientItem_of_valid _ _ _ hi]

/-- An item found by a UID after the patient item has been ensured carried the UID before,
when it was in the scene. -/
theorem Scene.lookup_ensurePatientItem_ne (s : Scene R) (patientId v : String) (Q : Nat)
    (hQ : Q < s.Items.length + 2) (hne : s.GetItemUID Q .DICOMUIDName ≠ v) (h2 : 2 ≤ Q) :
    (s.ensurePatientItem patientId).GetItemByUID .DICOMUIDName v ≠ Q := by
  intro h
  have hvalid : (s.ensurePatientItem patientId).GetItemByUID .DICOMUIDName v
      ≠ INVALID_ITEM_ID := by
    rw [h]
    intro e
    rw [e] at h2
    simp [INVALID_ITEM_ID] at h2
  obtain ⟨_, hP, _⟩ := Scene.GetItemByUID_spec _ _ _ hvalid
  rw [h, Scene.GetItemUID_ensurePatientItem_of_valid _ _ _ hQ] at hP
  exact hne hP

theorem Scene.lookup_ensureStudyItem_ne (s : Scene R) (patientId studyUid v : String) (Q : Nat)
    (hQ : Q < s.Items.length + 2) (hne : s.GetItemUID Q .DICOMUIDName ≠ v) (h2 : 2 ≤ Q) :
    ((s.ensurePatientItem patientId).ensureStudyItem patientId studyUid).GetItemByUID
      .DICOMUIDName v ≠ Q := by
  intro h
  have hvalid : ((s.ensurePatientItem patientId).ensureStudyItem patientId studyUid).GetItemByUID
      .DICOMUIDName v ≠ INVALID_ITEM_ID := by
    rw [h]
    intro e
    rw [e] at h2
    simp [INVALID_ITEM_ID] at h2
  obtain ⟨_, hP, _⟩ := Scene.GetItemByUID_spec _ _ _ hvalid
  rw [h, Scene.GetItemUID_ensureStudyItem_of_valid _ _ _ _
    (Nat.lt_of_lt_of_le hQ (Nat.add_le_add_right (Scene.length_le_ensurePatientItem _ _) 2)),
    Scene.GetItemUID_ensurePatientItem_of_valid _ _ _ hQ] at hP
  exact hne hP

/-- No item becomes a child of item `Q` through `InsertSeriesInSubjectHierarchy` when `Q` is
neither the patient nor the study of the series. -/
theorem GetItemParent_InsertSeriesInSubjectHierarchy_of_eq (env : Env R) (s : Scene R)
    (rtReader : vtkSlicerDicomRtReader R) (i Q : Nat) (h2 : 2 ≤ Q) (hQ : Q < s.Items.length + 2)
    (hpatient : s.GetItemUID Q .DICOMUIDName ≠ rtReader.PatientId)
    (hstudy : s.GetItemUID Q .DICOMUIDName ≠ rtReader.StudyInstanceUid)
    (h : (InsertSeriesInSubjectHierarchy env s rtReader).GetItemParent i = Q) :
    s.GetItemParent i = Q := by
  rcases GetItemParent_InsertSeriesInSubjectHierarchy_cases env s rtReader i with e | e | e | e
  · rw [← e]; exact h
  · rw [e] at h
    rw [← h] at h2
    simp [SceneItemID] at h2
  · rw [e] at h
    exact absurd h (Scene.lookup_ensurePatientItem_ne s _ _ Q hQ hpatient h2)
  · rw [e] at h
    exact absurd h (Scene.lookup_ensureStudyItem_ne s _ _ _ Q hQ hstudy h2)

/-- Parents stay ids of the scene through `InsertSeriesInSubjectHierarchy`. -/
theorem GetItemParent_InsertSeriesInSubjectHierarchy_lt (env : Env R) (s : Scene R)
    (rtReader : vtkSlicerDicomRtReader R)
    (h : ∀ i : Nat, @LT.lt Nat _ (s.GetItemParent i) (s.Items.length + 2)) (i : Nat) :
    @LT.lt Nat _ ((InsertSeriesInSubjectHierarchy env s rtReader).GetItemParent i)
      ((InsertSeriesInSubjectHierarchy env s rtReader).Items.length + 2) := by
  have hlen := length_le_InsertSeriesInSubjectHierarchy env s rtReader
  have hlenP := Scene.length_le_ensurePatientItem s rtReader.PatientId
  have hlenS := Scene.length_le_ensureStudyItem (s.ensurePatientItem rtReader.PatientId)
    rtReader.PatientId rtReader.StudyInstanceUid
  have hins : ((s.ensurePatientItem rtReader.PatientId).ensureStudyItem rtReader.PatientId
      rtReader.StudyInstanceUid).Items.length
        ≤ (InsertSeriesInSubjectHierarchy env s rtReader).Items.length
      ∨ (InsertSeriesInSubjectHierarchy env s rtReader).GetItemParent i = s.GetItemParent i := by
    by_cases hc : rtReader.PatientId = "" ∨ rtReader.StudyInstanceUid = ""
        ∨ rtReader.SeriesInstanceUid = ""
    · right
      rw [GetItemParent_InsertSeriesInSubjectHierarchy_eq]
      unfold Scene.InsertDicomSeriesInHierarchy
      rw [if_pos hc]
      rfl
    · by_cases hx : s.GetItemByUID .DICOMUIDName rtReader.SeriesInstanceUid = INVALID_ITEM_ID
      · right
        rw [GetItemParent_InsertSeriesInSubjectHierarchy_eq]
        unfold Scene.InsertDicomSeriesInHierarchy
        rw [if_neg hc, if_pos hx]
        rfl
      · left
        simp [InsertSeriesInSubjectHierarchy, Scene.InsertDicomSeriesInHierarchy, hc, hx]
  rcases GetItemParent_InsertSeriesInSubjectHierarchy_cases env s rtReader i with e | e | e | e
  · rw [e]
    have := h i
    omega
  · rw [e]
    simp [SceneItemID]
  · rcases hins with hle | hsame
    · rw [e]
      have := Scene.GetItemByUID_lt (s.ensurePatientItem rtReader.PatientId) .DICOMUIDName
        rtReader.PatientId
      omega
    · rw [hsame]
      have := h i
      omega
  · rcases hins with hle | hsame
    · rw [e]
      have := Scene.GetItemByUID_lt ((s.ensurePatientItem rtReader.PatientId).ensureStudyItem
        rtReader.PatientId rtReader.StudyInstanceUid) .DICOMUIDName rtReader.StudyInstanceUid
      omega
    · rw [hsame]
      have := h i
      omega

end InsertSeriesCases

section ImageBlock2

variable {R : Type} [CommRing R] (env : Env R) (s : Scene R)
  (rtReader : vtkSlicerDicomRtReader R) (loadable : vtkSlicerDICOMLoadable R)
  (M : Matrix4x4 R) (D : List R)

theorem LoadRtImage_eq (hread : loadable.ReadData = some (M, D)) :
    LoadRtImage env s rtReader loadable
      = (SetupRtImageGeometry env (rtImageBeforeGeometry env s rtReader loadable M D)
          (s.Items.length + 2), true) := by
  unfold LoadRtImage rtImageBeforeGeometry
  rw [hread]

theorem length_le_rtImageBeforeGeometry :
    s.Items.length + 1 ≤ (rtImageBeforeGeometry env s rtReader loadable M D).Items.length := by
  unfold rtImageBeforeGeometry
  have := length_le_InsertSeriesInSubjectHierarchy env
    (createRtImageItem env s rtReader loadable M D) rtReader
  rw [length_createRtImageItem] at this
  exact this

theorem GetItemDataNode_rtImageBeforeGeometry (i : Nat) :
    (rtImageBeforeGeometry env s rtReader loadable M D).GetItemDataNode i
      = if i = s.Items.length + 2 then some (.ScalarVolumeNode ⟨M, D, none, false⟩)
        else s.GetItemDataNode i := by
  unfold rtImageBeforeGeometry
  rw [GetItemDataNode_InsertSeriesInSubjectHierarchy]
  obtain ⟨attributes, _, _, _, _, _, h⟩ := GetItem_createRtImageItem env s rtReader loadable M D i
  unfold Scene.GetItemDataNode
  rw [h]
  by_cases hi : i = s.Items.length + 2 <;> simp [hi]

theorem GetItemAttribute_rtImageBeforeGeometry_of_ne (i : Nat) (a : AttributeName)
    (ha : a.IsRtImageAttribute = true) (hi : i ≠ s.Items.length + 2) :
    (rtImageBeforeGeometry env s rtReader loadable M D).GetItemAttribute i a
      = s.GetItemAttribute i a := by
  unfold rtImageBeforeGeometry
  rw [GetItemAttribute_InsertSeriesInSubjectHierarchy env _ _ i a ha]
  obtain ⟨attributes, _, _, _, _, _, h⟩ := GetItem_createRtImageItem env s rtReader loadable M D i
  unfold Scene.GetItemAttribute
  rw [h]
  simp [hi]

/-- The attributes of the item of the RT image that the geometry reads. -/
theorem GetItemAttribute_rtImageBeforeGeometry_self :
    (rtImageBeforeGeometry env s rtReader loadable M D).GetItemAttribute (s.Items.length + 2)
        .DICOMRTIMPORT_RTIMAGE_IDENTIFIER = "1"
    ∧ (rtImageBeforeGeometry env s rtReader loadable M D).GetItemAttribute (s.Items.length + 2)
        .DICOMReferencedInstanceUIDs = rtReader.RTImageReferencedRTPlanSOPInstanceUID
    ∧ (rtImageBeforeGeometry env s rtReader loadable M D).GetItemAttribute (s.Items.length + 2)
        .DICOMRTIMPORT_BEAM_NUMBER = env.FormatInt rtReader.ReferencedBeamNumber
    ∧ (rtImageBeforeGeometry env s rtReader loadable M D).GetItemAttribute (s.Items.length + 2)
        .DICOMRTIMPORT_RTIMAGE_SID = env.FormatDouble rtReader.RTImageSID
    ∧ (rtImageBeforeGeometry env s rtReader loadable M D).GetItemAttribute (s.Items.length + 2)
        .DICOMRTIMPORT_RTIMAGE_POSITION
        = env.FormatDouble rtReader.RTImagePosition.1 ++ " " ++
            env.FormatDouble rtReader.RTImagePosition.2 := by
  obtain ⟨attributes, h1, h2, h3, h4, h5, h⟩ :=
    GetItem_createRtImageItem env s rtReader loadable M D (s.Items.length + 2)
  unfold rtImageBeforeGeometry
  rw [GetItemAttribute_InsertSeriesInSubjectHierarchy env _ _ _
      .DICOMRTIMPORT_RTIMAGE_IDENTIFIER rfl,
    GetItemAttribute_InsertSeriesInSubjectHierarchy env _ _ _ .DICOMReferencedInstanceUIDs rfl,
    GetItemAttribute_InsertSeriesInSubjectHierarchy env _ _ _ .DICOMRTIMPORT_BEAM_NUMBER rfl,
    GetItemAttribute_InsertSeriesInSubjectHierarchy env _ _ _ .DICOMRTIMPORT_RTIMAGE_SID rfl,
    GetItemAttribute_InsertSeriesInSubjectHierarchy env _ _ _
      .DICOMRTIMPORT_RTIMAGE_POSITION rfl]
  unfold Scene.GetItemAttribute
  rw [h]
  simp [h1, h2, h3, h4, h5]

theorem GetItemUID_createRtImageItem (i : Nat) (name : UIDName) :
    (createRtImageItem env s rtReader loadable M D).GetItemUID i name
      = if i = s.Items.length + 2 ∧ name = .DICOMUIDName then rtReader.SeriesInstanceUid
        else s.GetItemUID i name := by
  obtain ⟨attributes, _, _, _, _, _, h⟩ := GetItem_createRtImageItem env s rtReader loadable M D i
  unfold Scene.GetItemUID
  rw [h]
  by_cases hi : i = s.Items.length + 2
  · subst hi
    rw [Scene.GetItem_of_length_le s _ (Nat.le_refl _)]
    by_cases hn : name = .DICOMUIDName
    · subst hn
      simp
    · simp [hn, Function.update_noteq hn]
  · simp [hi]

theorem GetItemParent_createRtImageItem (i : Nat) :
    (createRtImageItem env s rtReader loadable M D).GetItemParent i
      = if i = s.Items.length + 2 then SceneItemID else s.GetItemParent i := by
  obtain ⟨attributes, _, _, _, _, _, h⟩ := GetItem_createRtImageItem env s rtReader loadable M D i
  unfold Scene.GetItemParent
  rw [h]
  by_cases hi : i = s.Items.length + 2 <;> simp [hi]

/-- The instance UID of an item before the geometry of a new RT image is set up: the UID it
had, or the SOP instance UID of the image. -/
theorem GetItemUID_instance_rtImageBeforeGeometry (i : Nat) :
    (rtImageBeforeGeometry env s rtReader loadable M D).GetItemUID i .DICOMInstanceUIDName
        = s.GetItemUID i .DICOMInstanceUIDName
      ∨ (rtImageBeforeGeometry env s rtReader loadable M D).GetItemUID i .DICOMInstanceUIDName
        = rtReader.SOPInstanceUID := by
  unfold rtImageBeforeGeometry
  rcases GetItemUID_instance_InsertSeriesInSubjectHierarchy env
    (createRtImageItem env s rtReader loadable M D) rtReader i with h | h
  · left
    rw [h, GetItemUID_createRtImageItem]
    simp
  · exact Or.inr h

/-- The series item of a new RT image is not an item that carries another UID. -/
theorem createRtImageItem_lookup_ne (i : Nat) (h2 : 2 ≤ i) (hi : i < s.Items.length + 2)
    (hne : rtReader.SeriesInstanceUid ≠ "" →
      s.GetItemUID i .DICOMUIDName ≠ rtReader.SeriesInstanceUid) :
    i ≠ (createRtImageItem env s rtReader loadable M D).GetItemByUID .DICOMUIDName
      rtReader.SeriesInstanceUid := by
  intro h
  have hvalid : (createRtImageItem env s rtReader loadable M D).GetItemByUID .DICOMUIDName
      rtReader.SeriesInstanceUid ≠ INVALID_ITEM_ID := by
    rw [← h]
    intro e
    rw [e] at h2
    simp [INVALID_ITEM_ID] at h2
  obtain ⟨hv, hP, _⟩ := Scene.GetItemByUID_spec _ _ _ hvalid
  rw [← h, GetItemUID_createRtImageItem] at hP
  have : i ≠ s.Items.length + 2 := by omega
  simp [this] at hP
  exact hne hv hP

theorem GetItemUID_instance_rtImageBeforeGeometry_of_ne (i : Nat) (h2 : 2 ≤ i)
    (hi : i < s.Items.length + 2)
    (hne : rtReader.SeriesInstanceUid ≠ "" →
      s.GetItemUID i .DICOMUIDName ≠ rtReader.SeriesInstanceUid) :
    (rtImageBeforeGeometry env s rtReader loadable M D).GetItemUID i .DICOMInstanceUIDName
      = s.GetItemUID i .DICOMInstanceUIDName := by
  unfold rtImageBeforeGeometry
  rw [GetItemUID_instance_InsertSeriesInSubjectHierarchy_of_ne env _ rtReader i
    (createRtImageItem_lookup_ne env s rtReader loadable M D i h2 hi hne),
    GetItemUID_createRtImageItem]
  simp

theorem GetItemUID_dicom_rtImageBeforeGeometry_of_valid (i : Nat) (hi : i < s.Items.length + 2) :
    (rtImageBeforeGeometry env s rtReader loadable M D).GetItemUID i .DICOMUIDName
      = s.GetItemUID i .DICOMUIDName := by
  unfold rtImageBeforeGeometry
  rw [GetItemUID_dicom_InsertSeriesInSubjectHierarchy_of_valid env _ rtReader i
    (by rw [length_createRtImageItem]; omega), GetItemUID_createRtImageItem]
  have : i ≠ s.Items.length + 2 := by omega
  simp [this]

/-- No item carries a UID after the series of a new RT image is inserted when no item carried
it and it is none of the UIDs of the image. -/
theorem GetItemUID_dicom_rtImageBeforeGeometry_ne (v : String)
    (h : ∀ i : Nat, s.GetItemUID i .DICOMUIDName ≠ v)
    (h1 : v ≠ rtReader.SeriesInstanceUid) (h2 : v ≠ rtReader.PatientId)
    (h3 : v ≠ rtReader.StudyInstanceUid) (i : Nat) :
    (rtImageBeforeGeometry env s rtReader loadable M D).GetItemUID i .DICOMUIDName ≠ v := by
  unfold rtImageBeforeGeometry
  rcases GetItemUID_dicom_InsertSeriesInSubjectHierarchy_cases env
    (createRtImageItem env s rtReader loadable M D) rtReader i with e | e | e
  · rw [e, GetItemUID_createRtImageItem]
    split_ifs
    · exact fun e' => h1 e'.symm
    · exact h i
  · rw [e]; exact fun e' => h2 e'.symm
  · rw [e]; exact fun e' => h3 e'.symm

theorem GetItemParent_rtImageBeforeGeometry_of_ne (i : Nat) (h2 : 2 ≤ i)
    (hi : i < s.Items.length + 2)
    (hne : rtReader.SeriesInstanceUid ≠ "" →
      s.GetItemUID i .DICOMUIDName ≠ rtReader.SeriesInstanceUid) :
    (rtImageBeforeGeometry env s rtReader loadable M D).GetItemParent i = s.GetItemParent i := by
  unfold rtImageBeforeGeometry
  rw [GetItemParent_InsertSeriesInSubjectHierarchy env _ rtReader i
    (by rw [length_createRtImageItem]; omega)
    (createRtImageItem_lookup_ne env s rtReader loadable M D i h2 hi hne),
    GetItemParent_createRtImageItem]
  have : i ≠ s.Items.length + 2 := by omega
  simp [this]

theorem GetItemParent_rtImageBeforeGeometry_of_eq (i Q : Nat) (h2 : 2 ≤ Q)
    (hQ : Q < s.Items.length + 2)
    (hpatient : s.GetItemUID Q .DICOMUIDName ≠ rtReader.PatientId)
    (hstudy : s.GetItemUID Q .DICOMUIDName ≠ rtReader.StudyInstanceUid)
    (h : (rtImageBeforeGeometry env s rtReader loadable M D).GetItemParent i = Q) :
    s.GetItemParent i = Q := by
  unfold rtImageBeforeGeometry at h
  have hQ' : Q ≠ s.Items.length + 2 := by omega
  have := GetItemParent_InsertSeriesInSubjectHierarchy_of_eq env _ rtReader i Q h2
    (by rw [length_createRtImageItem]; omega)
    (by rw [GetItemUID_createRtImageItem]; simpa [hQ'] using hpatient)
    (by rw [GetItemUID_createRtImageItem]; simpa [hQ'] using hstudy) h
  rw [GetItemParent_createRtImageItem] at this
  split_ifs at this with hi
  · rw [← this] at h2
    simp [SceneItemID] at h2
  · exact this

theorem GetItemParent_rtImageBeforeGeometry_lt
    (h : ∀ i : Nat, @LT.lt Nat _ (s.GetItemParent i) (s.Items.length + 2)) (i : Nat) :
    @LT.lt Nat _ ((rtImageBeforeGeometry env s rtReader loadable M D).GetItemParent i)
      ((rtImageBeforeGeometry env s rtReader loadable M D).Items.length + 2) := by
  unfold rtImageBeforeGeometry
  apply GetItemParent_InsertSeriesInSubjectHierarchy_lt
  intro j
  rw [GetItemParent_createRtImageItem, length_createRtImageItem]
  split_ifs
  · simp [SceneItemID]
  · have := h j
    omega

end ImageBlock2

section LoadOrders

variable {R : Type} [CommRing R] (env : Env R) (s : Scene R)
  (planReader : vtkSlicerDicomRtReader R) (planLoadable : vtkSlicerDICOMLoadable R)
  (imageReader : vtkSlicerDicomRtReader R) (imageLoadable : vtkSlicerDICOMLoadable R)
  (M : Matrix4x4 R) (D : List R) (b0 : BeamData R) (rest : List (BeamData R)) (b : BeamData R)

theorem planBeamNode_of_getElem (kb : Nat) (hb : planReader.Beams[kb]? = some b) :
    kb < planReader.Beams.length
      ∧ planBeamNode env planReader b0 kb
        = { beamNodeOf b with BeamNumber := env.AddBeamNumber kb } := by
  obtain ⟨hkb, e⟩ := List.getElem?_eq_some_iff.1 hb
  refine ⟨hkb, ?_⟩
  rw [planBeamNode_eq env planReader b0 kb hkb, e]

/-- First the image, then the plan: the geometry loop of `LoadRtPlan` places the image. -/
theorem image_then_plan (hread : imageLoadable.ReadData = some (M, D))
    (hbeams : planReader.Beams = b0 :: rest)
    (hnodup : (planReader.Beams.map (·.BeamNumber)).Nodup)
    (kb : Nat) (hb : planReader.Beams[kb]? = some b)
    (hinj : ∀ j k : Nat, j < planReader.Beams.length → k < planReader.Beams.length →
      env.AddBeamNumber j = env.AddBeamNumber k → j = k)
    (hnum : env.ToInt (env.FormatInt imageReader.ReferencedBeamNumber) = env.AddBeamNumber kb)
    (href : imageReader.RTImageReferencedRTPlanSOPInstanceUID = planReader.SOPInstanceUID)
    (hlist : env.DeserializeUIDList planReader.SOPInstanceUID = [planReader.SOPInstanceUID])
    (hpatient : planReader.PatientId ≠ "") (hstudy : planReader.StudyInstanceUid ≠ "")
    (hseries : planReader.SeriesInstanceUid ≠ "") (hsop : planReader.SOPInstanceUID ≠ "")
    (hd1 : planReader.SeriesInstanceUid ≠ imageReader.SeriesInstanceUid)
    (hd2 : planReader.SeriesInstanceUid ≠ imageReader.PatientId)
    (hd3 : planReader.SeriesInstanceUid ≠ imageReader.StudyInstanceUid)
    (hd4 : planReader.SOPInstanceUID ≠ imageReader.SOPInstanceUID)
    (hs1 : ∀ i : Nat, s.GetItemUID i .DICOMUIDName ≠ planReader.SeriesInstanceUid)
    (hs2 : ∀ i : Nat, s.GetItemUID i .DICOMInstanceUIDName ≠ planReader.SOPInstanceUID)
    (hs3 : ∀ i : Nat, s.IsScalarVolume i = true →
      s.GetItemAttribute i .DICOMRTIMPORT_RTIMAGE_IDENTIFIER ≠ "" →
      planReader.SOPInstanceUID
        ∈ env.DeserializeUIDList (s.GetItemAttribute i .DICOMReferencedInstanceUIDs) →
      2 ≤ planReader.Beams.length
        ∧ env.ToInt (s.GetItemAttribute i .DICOMRTIMPORT_BEAM_NUMBER)
          ≠ env.ToInt (env.FormatInt imageReader.ReferencedBeamNumber))
    (hs4 : ∀ i : Nat, @LT.lt Nat _ (s.GetItemParent i) (s.Items.length + 2)) :
    (LoadRtPlan env (LoadRtImage env s imageReader imageLoadable).1 planReader
        planLoadable).1.GetIJKToRASMatrix (s.Items.length + 2)
      = some (placementChain env.trig b0.IsocenterPositionRas b.PatientSupportAngle
          b.GantryAngle b.SourceAxisDistance (rtImageSidWritten env imageReader)
          (rtImagePositionWritten env imageReader).1 (rtImagePositionWritten env imageReader).2
          M) := by
  obtain ⟨hkb, hnode⟩ := planBeamNode_of_getElem env planReader b0 b kb hb
  -- the scene after the image is loaded
  have hattr := GetItemAttribute_rtImageBeforeGeometry_self env s imageReader imageLoadable M D
  have hdata := GetItemDataNode_rtImageBeforeGeometry env s imageReader imageLoadable M D
  have hinst : ∀ i : Nat,
      (rtImageBeforeGeometry env s imageReader imageLoadable M D).GetItemUID i
        .DICOMInstanceUIDName ≠ planReader.SOPInstanceUID := by
    intro i
    rcases GetItemUID_instance_rtImageBeforeGeometry env s imageReader imageLoadable M D i
      with e | e
    · rw [e]; exact hs2 i
    · rw [e]; exact fun e' => hd4 e'.symm
  have hvol : (rtImageBeforeGeometry env s imageReader imageLoadable M D).IsScalarVolume
      (s.Items.length + 2) = true := by
    simp [Scene.IsScalarVolume, hdata]
  have himage : (LoadRtImage env s imageReader imageLoadable).1
      = (rtImageBeforeGeometry env s imageReader imageLoadable M D).log .Debug
          "SetupRtImageGeometry: Cannot set up geometry of RT image without the referenced RT plan" := by
    rw [LoadRtImage_eq env s imageReader imageLoadable M D hread]
    apply SetupRtImageGeometry_of_image_without_plan _ _ _ hvol
    · rw [hattr.2.1, href]; exact hsop
    · rw [hattr.2.1, href]
      exact Scene.GetItemByUID_of_none _ _ _ hinst
  have hitems : (LoadRtImage env s imageReader imageLoadable).1.Items
      = (rtImageBeforeGeometry env s imageReader imageLoadable M D).Items := by
    rw [himage]; rfl
  have hlen := length_le_rtImageBeforeGeometry env s imageReader imageLoadable M D
  rw [← hitems] at hlen
  -- the plan is loaded into that scene
  have h1 : ∀ i : Nat, (LoadRtImage env s imageReader imageLoadable).1.GetItemUID i .DICOMUIDName
      ≠ planReader.SeriesInstanceUid := by
    intro i
    rw [Scene.GetItemUID_congr _ _ hitems]
    exact GetItemUID_dicom_rtImageBeforeGeometry_ne env s imageReader imageLoadable M D _ hs1
      hd1 hd2 hd3 i
  have h2 : ∀ i : Nat, (LoadRtImage env s imageReader imageLoadable).1.GetItemUID i
      .DICOMInstanceUIDName ≠ planReader.SOPInstanceUID := by
    intro i
    rw [Scene.GetItemUID_congr _ _ hitems]
    exact hinst i
  have h3 : ∀ i : Nat, @LT.lt Nat _
      ((LoadRtImage env s imageReader imageLoadable).1.GetItemParent i)
      ((LoadRtImage env s imageReader imageLoadable).1.Items.length + 2) := by
    intro i
    rw [Scene.GetItemParent_congr _ _ hitems, hitems]
    exact GetItemParent_rtImageBeforeGeometry_lt env s imageReader imageLoadable M D hs4 i
  obtain ⟨hplan, hvolumes, hnodes, hattrs, _, _, _⟩ := planBeforeGeometry_spec env
    (LoadRtImage env s imageReader imageLoadable).1 planReader planLoadable b0 rest hbeams hnodup
    hinj hpatient hstudy hseries hsop h1 h2 h3
  have hI : s.Items.length + 2 < (LoadRtImage env s imageReader imageLoadable).1.Items.length + 2 := by
    omega
  have hattrI : ∀ a : AttributeName, a.IsRtImageAttribute = true →
      (planBeforeGeometry env (LoadRtImage env s imageReader imageLoadable).1 planReader
        planLoadable).GetItemAttribute (s.Items.length + 2) a
      = (rtImageBeforeGeometry env s imageReader imageLoadable M D).GetItemAttribute
          (s.Items.length + 2) a := by
    intro a ha
    rw [hattrs _ a hI ha, Scene.GetItemAttribute_congr _ _ hitems]
  have himageOfPlan : ImageOfPlan env
      (planBeforeGeometry env (LoadRtImage env s imageReader imageLoadable).1 planReader
        planLoadable) (s.Items.length + 2) planReader.SOPInstanceUID := by
    refine ⟨?_, ?_, ?_, hlist⟩
    · rw [hvolumes]
      unfold Scene.IsScalarVolume
      rw [Scene.GetItemDataNode_congr _ _ hitems]
      exact hvol
    · rw [hattrI .DICOMRTIMPORT_RTIMAGE_IDENTIFIER rfl, hattr.1]
      simp
    · rw [hattrI .DICOMReferencedInstanceUIDs rfl, hattr.2.1, href]
  have hnoOther : NoOtherImage env
      (planBeforeGeometry env (LoadRtImage env s imageReader imageLoadable).1 planReader
        planLoadable) (s.Items.length + 2) planReader.SOPInstanceUID
      (planBeamNode env planReader b0 kb).BeamNumber planReader.Beams.length := by
    intro i hne hv hm href
    rw [hvolumes] at hv
    have hv' : s.IsScalarVolume i = true := by
      unfold Scene.IsScalarVolume at hv ⊢
      rw [Scene.GetItemDataNode_congr _ _ hitems, hdata] at hv
      simpa [hne] using hv
    have hvalid := Scene.valid_of_IsScalarVolume s i hv'
    have hilt : i < (LoadRtImage env s imageReader imageLoadable).1.Items.length + 2 := by omega
    rw [hattrs i .DICOMRTIMPORT_RTIMAGE_IDENTIFIER hilt rfl,
      Scene.GetItemAttribute_congr _ _ hitems,
      GetItemAttribute_rtImageBeforeGeometry_of_ne env s imageReader imageLoadable M D i
        .DICOMRTIMPORT_RTIMAGE_IDENTIFIER rfl hne] at hm
    rw [hattrs i .DICOMReferencedInstanceUIDs hilt rfl, Scene.GetItemAttribute_congr _ _ hitems,
      GetItemAttribute_rtImageBeforeGeometry_of_ne env s imageReader imageLoadable M D i
        .DICOMReferencedInstanceUIDs rfl hne] at href
    rw [hattrs i .DICOMRTIMPORT_BEAM_NUMBER hilt rfl, Scene.GetItemAttribute_congr _ _ hitems,
      GetItemAttribute_rtImageBeforeGeometry_of_ne env s imageReader imageLoadable M D i
        .DICOMRTIMPORT_BEAM_NUMBER rfl hne]
    have hnode' : (planBeamNode env planReader b0 kb).BeamNumber
        = env.ToInt (env.FormatInt imageReader.ReferencedBeamNumber) := by
      rw [hnum]
      rfl
    rw [hnode']
    exact hs3 i hv' hm href
  have hnumber : env.ToInt
      ((planBeforeGeometry env (LoadRtImage env s imageReader imageLoadable).1 planReader
        planLoadable).GetItemAttribute (s.Items.length + 2) .DICOMRTIMPORT_BEAM_NUMBER)
      = (planBeamNode env planReader b0 kb).BeamNumber := by
    rw [hattrI .DICOMRTIMPORT_BEAM_NUMBER rfl, hattr.2.2.1, hnum]
    rfl
  have hmatrix : (planBeforeGeometry env (LoadRtImage env s imageReader imageLoadable).1
      planReader planLoadable).GetIJKToRASMatrix (s.Items.length + 2) = some M := by
    unfold Scene.GetIJKToRASMatrix
    rw [hnodes _ hI, Scene.GetItemDataNode_congr _ _ hitems, hdata]
    simp
  obtain ⟨hbn, hbm, hball⟩ := hplan.getBeams
  have hloop := setupGeometryOfBeams_with_image kb hkb _ hbn hbm _ M hplan himageOfPlan hnoOther
    hnumber hmatrix
  rw [if_pos (hball kb hkb)] at hloop
  rw [LoadRtPlan_eq env _ planReader planLoadable b0 rest hbeams hnodup hpatient hstudy hseries
    h1 h3]
  have hend : ∀ t : Scene R, t.EndState.GetIJKToRASMatrix (s.Items.length + 2)
      = t.GetIJKToRASMatrix (s.Items.length + 2) := fun _ => rfl
  rw [hend, hloop, hnode]
  unfold rtImageSidOf rtImagePositionOf rtImageSidWritten rtImagePositionWritten
  rw [hattrI .DICOMRTIMPORT_RTIMAGE_SID rfl, hattrI .DICOMRTIMPORT_RTIMAGE_POSITION rfl,
    hattr.2.2.2.1, hattr.2.2.2.2]
  rfl

end LoadOrders

section LoadOrders2

variable {R : Type} [CommRing R] (env : Env R) (s : Scene R)
  (planReader : vtkSlicerDicomRtReader R) (planLoadable : vtkSlicerDICOMLoadable R)
  (imageReader : vtkSlicerDicomRtReader R) (imageLoadable : vtkSlicerDICOMLoadable R)
  (M : Matrix4x4 R) (D : List R) (b0 : BeamData R) (rest : List (BeamData R)) (b : BeamData R)

/-- First the plan, then the image: the image entry of `SetupRtImageGeometry` places the
image. -/
theorem plan_then_image (hread : imageLoadable.ReadData = some (M, D))
    (hbeams : planReader.Beams = b0 :: rest)
    (hnodup : (planReader.Beams.map (·.BeamNumber)).Nodup)
    (kb : Nat) (hb : planReader.Beams[kb]? = some b)
    (hinj : ∀ j k : Nat, j < planReader.Beams.length → k < planReader.Beams.length →
      env.AddBeamNumber j = env.AddBeamNumber k → j = k)
    (hnum : env.ToInt (env.FormatInt imageReader.ReferencedBeamNumber) = env.AddBeamNumber kb)
    (hfmt : env.FormatInt imageReader.ReferencedBeamNumber ≠ "")
    (href : imageReader.RTImageReferencedRTPlanSOPInstanceUID = planReader.SOPInstanceUID)
    (hlist : env.DeserializeUIDList planReader.SOPInstanceUID = [planReader.SOPInstanceUID])
    (hpatient : planReader.PatientId ≠ "") (hstudy : planReader.StudyInstanceUid ≠ "")
    (hseries : planReader.SeriesInstanceUid ≠ "") (hsop : planReader.SOPInstanceUID ≠ "")
    (hd1 : planReader.SeriesInstanceUid ≠ imageReader.SeriesInstanceUid)
    (hd2 : planReader.SeriesInstanceUid ≠ imageReader.PatientId)
    (hd3 : planReader.SeriesInstanceUid ≠ imageReader.StudyInstanceUid)
    (hd4 : planReader.SOPInstanceUID ≠ imageReader.SOPInstanceUID)
    (hs1 : ∀ i : Nat, s.GetItemUID i .DICOMUIDName ≠ planReader.SeriesInstanceUid)
    (hs2 : ∀ i : Nat, s.GetItemUID i .DICOMInstanceUIDName ≠ planReader.SOPInstanceUID)
    (hs4 : ∀ i : Nat, @LT.lt Nat _ (s.GetItemParent i) (s.Items.length + 2)) :
    (LoadRtImage env (LoadRtPlan env s planReader planLoadable).1 imageReader
        imageLoadable).1.GetIJKToRASMatrix
        ((LoadRtPlan env s planReader planLoadable).1.Items.length + 2)
      = some (placementChain env.trig b0.IsocenterPositionRas b.PatientSupportAngle
          b.GantryAngle b.SourceAxisDistance (rtImageSidWritten env imageReader)
          (rtImagePositionWritten env imageReader).1 (rtImagePositionWritten env imageReader).2
          M) := by
  obtain ⟨hkb, hnode⟩ := planBeamNode_of_getElem env planReader b0 b kb hb
  -- the scene after the plan is loaded
  obtain ⟨hplan0, hvolumes, hnodes, hattrs, hseriesP, hbeamUid, hlen0⟩ :=
    planBeforeGeometry_spec env s planReader planLoadable b0 rest hbeams hnodup hinj hpatient
      hstudy hseries hsop hs1 hs2 hs4
  have hloaded : (LoadRtPlan env s planReader planLoadable).1
      = (setupGeometryOfBeams env
          ((planBeforeGeometry env s planReader planLoadable).GetBeams (s.Items.length + 2))
          (planBeforeGeometry env s planReader planLoadable)).EndState := by
    rw [LoadRtPlan_eq env s planReader planLoadable b0 rest hbeams hnodup hpatient hstudy
      hseries hs1 hs4]
  obtain ⟨hplan1, huids, _⟩ := setupGeometryOfBeams_keeps_plan env
    ((planBeforeGeometry env s planReader planLoadable).GetBeams (s.Items.length + 2))
    (planBeforeGeometry env s planReader planLoadable) hplan0
  have hplan : PlanInScene (LoadRtPlan env s planReader planLoadable).1 (s.Items.length + 2)
      planReader.Beams.length (planBeamNode env planReader b0) b0.IsocenterPositionRas
      planReader.SOPInstanceUID := by
    rw [hloaded]
    exact hplan1.congr _ rfl
  have huid : ∀ (i : Nat) (name : UIDName),
      (LoadRtPlan env s planReader planLoadable).1.GetItemUID i name
        = (planBeforeGeometry env s planReader planLoadable).GetItemUID i name := by
    intro i name
    rw [hloaded]
    exact huids i name
  have hP := hplan.valid
  -- the image is loaded into that scene
  have hdata := GetItemDataNode_rtImageBeforeGeometry env
    (LoadRtPlan env s planReader planLoadable).1 imageReader imageLoadable M D
  have hattr := GetItemAttribute_rtImageBeforeGeometry_self env
    (LoadRtPlan env s planReader planLoadable).1 imageReader imageLoadable M D
  have hseriesP' : (LoadRtPlan env s planReader planLoadable).1.GetItemUID (s.Items.length + 2)
      .DICOMUIDName = planReader.SeriesInstanceUid := by
    rw [huid]; exact hseriesP
  have hplanU : PlanInScene
      (rtImageBeforeGeometry env (LoadRtPlan env s planReader planLoadable).1 imageReader
        imageLoadable M D) (s.Items.length + 2) planReader.Beams.length
      (planBeamNode env planReader b0) b0.IsocenterPositionRas planReader.SOPInstanceUID := by
    refine ⟨?_, hsop, ?_, ?_, ?_, ?_, hplan.numbers⟩
    · rw [hdata, if_neg (by omega)]
      exact hplan.plan
    · rw [GetItemUID_instance_rtImageBeforeGeometry_of_ne env _ imageReader imageLoadable M D _
        hP.1 hP.2 (fun _ => by rw [hseriesP']; exact hd1)]
      exact hplan.uid
    · intro i hi
      rcases GetItemUID_instance_rtImageBeforeGeometry env
        (LoadRtPlan env s planReader planLoadable).1 imageReader imageLoadable M D i with e | e
      · rw [e]; exact hplan.first i hi
      · rw [e]; exact fun e' => hd4 e'.symm
    · intro k hk
      have hvalid := Scene.valid_of_GetItemDataNode _ _ _ (hplan.beam k hk).1
      constructor
      · rw [hdata, if_neg (by omega)]
        exact (hplan.beam k hk).1
      · rw [GetItemParent_rtImageBeforeGeometry_of_ne env _ imageReader imageLoadable M D _
          hvalid.1 hvalid.2 (fun hne => by
            rw [huid, hbeamUid k hk]
            exact fun e => hne e.symm)]
        exact (hplan.beam k hk).2
    · intro i hbeam hparent
      have hbeam' : (LoadRtPlan env s planReader planLoadable).1.IsBeam i = true := by
        unfold Scene.IsBeam at hbeam ⊢
        rw [hdata] at hbeam
        split_ifs at hbeam with hi
        exact hbeam
      exact hplan.beams_only i hbeam'
        (GetItemParent_rtImageBeforeGeometry_of_eq env _ imageReader imageLoadable M D i _ hP.1
          hP.2 (by rw [hseriesP']; exact hd2) (by rw [hseriesP']; exact hd3) hparent)
  have himageOfPlan : ImageOfPlan env
      (rtImageBeforeGeometry env (LoadRtPlan env s planReader planLoadable).1 imageReader
        imageLoadable M D) ((LoadRtPlan env s planReader planLoadable).1.Items.length + 2)
      planReader.SOPInstanceUID := by
    refine ⟨?_, ?_, ?_, hlist⟩
    · simp [Scene.IsScalarVolume, hdata]
    · rw [hattr.1]; simp
    · rw [hattr.2.1, href]
  have hsetup := hplanU.setup_of_image himageOfPlan kb hkb (by rw [hattr.2.2.1]; exact hfmt)
    (by rw [hattr.2.2.1, hnum]; rfl)
  rw [LoadRtImage_eq env _ imageReader imageLoadable M D hread]
  show (SetupRtImageGeometry env _ _).GetIJKToRASMatrix _ = _
  rw [hsetup, setupGeometryOfPair_GetIJKToRASMatrix env _ _ _ ⟨M, D, none, false⟩
    (planBeamNode env planReader b0 kb) b0.IsocenterPositionRas (by rw [hdata]; simp)
    (hplanU.beam kb hkb).1 (hplanU.isocenter kb hkb), hnode]
  unfold rtImageSidOf rtImagePositionOf rtImageSidWritten rtImagePositionWritten
  rw [hattr.2.2.2.1, hattr.2.2.2.2]
  rfl

end LoadOrders2

/-- C2, refuted as stated.  The scene already holds another RT image of the same beam of the
plan (item 2).  Image, then plan: the beam entry of `SetupRtImageGeometry` stops at the first
RT image that references the beam, which is the other image, so the new image (item 5) keeps
its original matrix.  Plan, then image: the image entry places the new image (item 8).  The
two final matrices differ. -/
theorem load_order_changes_matrix :
    (LoadRtPlan sampleEnv
        (LoadRtImage sampleEnv sceneWithEarlierImage sampleImageReader sampleImageLoadable).1
        samplePlanReader samplePlanLoadable).1.GetIJKToRASMatrix 5 = some 1
    ∧ (LoadRtPlan sampleEnv sceneWithEarlierImage samplePlanReader samplePlanLoadable).1.Items.length
        + 2 = 8
    ∧ (LoadRtImage sampleEnv
        (LoadRtPlan sampleEnv sceneWithEarlierImage samplePlanReader samplePlanLoadable).1
        sampleImageReader sampleImageLoadable).1.GetIJKToRASMatrix 8
        = some !![0, 0, 1, 500; 1, 0, 0, 200; 0, 1, 0, -200; 0, 0, 0, 1]
    ∧ (LoadRtPlan sampleEnv
        (LoadRtImage sampleEnv sceneWithEarlierImage sampleImageReader sampleImageLoadable).1
        samplePlanReader samplePlanLoadable).1.GetIJKToRASMatrix 5
      ≠ (LoadRtImage sampleEnv
        (LoadRtPlan sampleEnv sceneWithEarlierImage samplePlanReader samplePlanLoadable).1
        sampleImageReader sampleImageLoadable).1.GetIJKToRASMatrix 8 := by
  have h1 : (LoadRtPlan sampleEnv
      (LoadRtImage sampleEnv sceneWithEarlierImage sampleImageReader sampleImageLoadable).1
      samplePlanReader samplePlanLoadable).1.GetIJKToRASMatrix 5 = some 1 := by
    have : (LoadRtPlan sampleEnv
        (LoadRtImage sampleEnv sceneWithEarlierImage sampleImageReader sampleImageLoadable).1
        samplePlanReader samplePlanLoadable).1.GetItemDataNode 5
          = some (.ScalarVolumeNode ⟨1, [], none, false⟩) := by
      rfl
    simp [Scene.GetIJKToRASMatrix, this]
  have h2 : (LoadRtImage sampleEnv
      (LoadRtPlan sampleEnv sceneWithEarlierImage samplePlanReader samplePlanLoadable).1
      sampleImageReader sampleImageLoadable).1.GetIJKToRASMatrix 8
        = some !![0, 0, 1, 500; 1, 0, 0, 200; 0, 1, 0, -200; 0, 0, 0, 1] := by
    have : (LoadRtImage sampleEnv
        (LoadRtPlan sampleEnv sceneWithEarlierImage samplePlanReader samplePlanLoadable).1
        sampleImageReader sampleImageLoadable).1.GetItemDataNode 8
          = some (.ScalarVolumeNode
              ⟨isocenterToRtImageRas quarterTurnTrig (0, 0, 0) 1000 90 0 1500 (-200, -200) 1, [],
                some 1, false⟩) := by
      rfl
    simp only [Scene.GetIJKToRASMatrix, this, isocenterToRtImageRas_eq_chain,
      placementChain_sample]
  refine ⟨h1, rfl, h2, ?_⟩
  rw [h1, h2]
  intro h
  have := congrFun (congrFun (Option.some.inj h) 0) 0
  simp at this

theorem Scene.GetItemParent_of_lt_two {R : Type} (s : Scene R) (i : Nat) (h : i < 2) :
    s.GetItemParent i = INVALID_ITEM_ID := by
  unfold Scene.GetItemParent Scene.GetItem
  simp [h]

/-- C2, amended.  Take a plan with pairwise distinct beam numbers whose patient id, study UID,
series UID and SOP instance UID are present, and an RT image whose file can be read, that
references the SOP instance UID of the plan and names the number that the plan node gives to
beam `kb` of the plan, the beam `b` of the file (`AddBeam` numbers the beams of a plan as they
are added, with pairwise distinct numbers); the series UID of the plan differs from the series
UID, the patient id and the study UID of the image, and their SOP instance UIDs differ.  Start
from a scene in which no item carries the series UID or the SOP instance UID of the plan,
every parent is an item of the scene, and no RT image is an image of the same beam: an RT
image of the scene that references the SOP instance UID of the plan names another beam number
than the new image, and the plan then has two beams or more.  Then loading the image and then
the plan, and loading the plan and then the image, leave the image with the same matrix: the
placement chain (isocenter of beam 0 of the plan; couch angle, gantry angle and source axis
distance of `b`; SID and position of the image) applied once to the matrix read from the
file. -/
theorem load_order_independent {R : Type} [CommRing R] (env : Env R) (s : Scene R)
    (planReader : vtkSlicerDicomRtReader R) (planLoadable : vtkSlicerDICOMLoadable R)
    (imageReader : vtkSlicerDicomRtReader R) (imageLoadable : vtkSlicerDICOMLoadable R)
    (M : Matrix4x4 R) (D : List R) (b0 : BeamData R) (rest : List (BeamData R)) (b : BeamData R)
    (hread : imageLoadable.ReadData = some (M, D))
    (hbeams : planReader.Beams = b0 :: rest)
    (hnodup : (planReader.Beams.map (·.BeamNumber)).Nodup)
    (kb : Nat) (hb : planReader.Beams[kb]? = some b)
    (hinj : ∀ j k : Nat, j < planReader.Beams.length → k < planReader.Beams.length →
      env.AddBeamNumber j = env.AddBeamNumber k → j = k)
    (hnum : env.ToInt (env.FormatInt imageReader.ReferencedBeamNumber) = env.AddBeamNumber kb)
    (hfmt : env.FormatInt imageReader.ReferencedBeamNumber ≠ "")
    (href : imageReader.RTImageReferencedRTPlanSOPInstanceUID = planReader.SOPInstanceUID)
    (hlist : env.DeserializeUIDList planReader.SOPInstanceUID = [planReader.SOPInstanceUID])
    (hpatient : planReader.PatientId ≠ "") (hstudy : planReader.StudyInstanceUid ≠ "")
    (hseries : planReader.SeriesInstanceUid ≠ "") (hsop : planReader.SOPInstanceUID ≠ "")
    (hd1 : planReader.SeriesInstanceUid ≠ imageReader.SeriesInstanceUid)
    (hd2 : planReader.SeriesInstanceUid ≠ imageReader.PatientId)
    (hd3 : planReader.SeriesInstanceUid ≠ imageReader.StudyInstanceUid)
    (hd4 : planReader.SOPInstanceUID ≠ imageReader.SOPInstanceUID)
    (hs1 : ∀ i : Nat, s.GetItemUID i .DICOMUIDName ≠ planReader.SeriesInstanceUid)
    (hs2 : ∀ i : Nat, s.GetItemUID i .DICOMInstanceUIDName ≠ planReader.SOPInstanceUID)
    (hs3 : ∀ i : Nat, s.IsScalarVolume i = true →
      s.GetItemAttribute i .DICOMRTIMPORT_RTIMAGE_IDENTIFIER ≠ "" →
      planReader.SOPInstanceUID
        ∈ env.DeserializeUIDList (s.GetItemAttribute i .DICOMReferencedInstanceUIDs) →
      2 ≤ planReader.Beams.length
        ∧ env.ToInt (s.GetItemAttribute i .DICOMRTIMPORT_BEAM_NUMBER)
          ≠ env.ToInt (env.FormatInt imageReader.ReferencedBeamNumber))
    (hs4 : ∀ i : Nat, @LT.lt Nat _ (s.GetItemParent i) (s.Items.length + 2)) :
    (LoadRtPlan env (LoadRtImage env s imageReader imageLoadable).1 planReader
        planLoadable).1.GetIJKToRASMatrix (s.Items.length + 2)
      = some (placementChain env.trig b0.IsocenterPositionRas b.PatientSupportAngle
          b.GantryAngle b.SourceAxisDistance (rtImageSidWritten env imageReader)
          (rtImagePositionWritten env imageReader).1 (rtImagePositionWritten env imageReader).2
          M)
    ∧ (LoadRtImage env (LoadRtPlan env s planReader planLoadable).1 imageReader
        imageLoadable).1.GetIJKToRASMatrix
        ((LoadRtPlan env s planReader planLoadable).1.Items.length + 2)
      = some (placementChain env.trig b0.IsocenterPositionRas b.PatientSupportAngle
          b.GantryAngle b.SourceAxisDistance (rtImageSidWritten env imageReader)
          (rtImagePositionWritten env imageReader).1 (rtImagePositionWritten env imageReader).2
          M) :=
  ⟨image_then_plan env s planReader planLoadable imageReader imageLoadable M D b0 rest b hread
      hbeams hnodup kb hb hinj hnum href hlist hpatient hstudy hseries hsop hd1 hd2 hd3 hd4 hs1
      hs2 hs3 hs4,
    plan_then_image env s planReader planLoadable imageReader imageLoadable M D b0 rest b hread
      hbeams hnodup kb hb hinj hnum hfmt href hlist hpatient hstudy hseries hsop hd1 hd2 hd3 hd4
      hs1 hs2 hs4⟩

/-- Witness of the amended C2: the sample image, an image of beam 1 of the sample plan, and
the sample plan, loaded into a scene that holds an RT image of beam 2 of the same plan; in
both orders the image gets the placement of the scenario. -/
theorem load_order_independent_witness :
    (LoadRtPlan sampleEnv
        (LoadRtImage sampleEnv sceneWithImageOfOtherBeam sampleImageReader
          sampleImageLoadable).1
        samplePlanReader samplePlanLoadable).1.GetIJKToRASMatrix 3
      = some (placementChain quarterTurnTrig (0, 0, 0) 0 90 1000 1500 (-200) (-200) 1)
    ∧ (LoadRtImage sampleEnv
        (LoadRtPlan sampleEnv sceneWithImageOfOtherBeam samplePlanReader samplePlanLoadable).1
        sampleImageReader sampleImageLoadable).1.GetIJKToRASMatrix
        ((LoadRtPlan sampleEnv sceneWithImageOfOtherBeam samplePlanReader
          samplePlanLoadable).1.Items.length + 2)
      = some (placementChain quarterTurnTrig (0, 0, 0) 0 90 1000 1500 (-200) (-200) 1) :=
  load_order_independent sampleEnv sceneWithImageOfOtherBeam samplePlanReader samplePlanLoadable
    sampleImageReader sampleImageLoadable 1 []
    ⟨1, "beam 1", ((0, 0), (0, 0)), 90, 0, 0, 1000, (0, 0, 0)⟩
    [⟨2, "beam 2", ((0, 0), (0, 0)), 0, 0, 0, 1000, (5, 0, 0)⟩]
    ⟨1, "beam 1", ((0, 0), (0, 0)), 90, 0, 0, 1000, (0, 0, 0)⟩
    rfl rfl (by decide) 0 rfl
    (fun j k _ _ h => by
      have h2 : (j : ℤ) + 1 = (k : ℤ) + 1 := h
      omega)
    (by decide) (by decide) rfl (by decide)
    (by decide) (by decide) (by decide) (by decide) (by decide) (by decide) (by decide)
    (by decide)
    (fun i => by
      rcases Nat.lt_or_ge i 2 with h | h
      · rw [Scene.GetItemUID_of_lt_two _ i h]; decide
      · rcases Nat.eq_or_lt_of_le h with e | h3
        · subst e; decide
        · rw [Scene.GetItemUID_of_length_le sceneWithImageOfOtherBeam i h3]; decide)
    (fun i => by
      rcases Nat.lt_or_ge i 2 with h | h
      · rw [Scene.GetItemUID_of_lt_two _ i h]; decide
      · rcases Nat.eq_or_lt_of_le h with e | h3
        · subst e; decide
        · rw [Scene.GetItemUID_of_length_le sceneWithImageOfOtherBeam i h3]; decide)
    (fun i hv _ _ => by
      have hvalid := Scene.valid_of_IsScalarVolume _ i hv
      have e : i = 2 := by
        have : sceneWithImageOfOtherBeam.Items.length = 1 := rfl
        omega
      subst e
      exact ⟨by decide, by decide⟩)
    (fun i => by
      rcases Nat.lt_or_ge i 2 with h | h
      · rw [Scene.GetItemParent_of_lt_two _ i h]; decide
      · rcases Nat.eq_or_lt_of_le h with e | h3
        · subst e; decide
        · rw [Scene.GetItemParent_of_length_le sceneWithImageOfOtherBeam i h3]; decide)

section FallbackTheorems

/-- C11. For a dataset that reads as an RT structure set, `ExamineRtStructureSetDataset`
started with an empty list: when the per-ROI chain yields no UID, the referenced UID list is
the list of the SOP Instance UIDs of the image references of the first referenced series of
the first referenced study of the first referenced frame of reference, in order, whatever
frames, studies and series follow the first ones; when the per-ROI chain yields a UID, the
list is what the per-ROI chain yields and the structure-set-level chain adds nothing. -/
theorem examineRtStructureSetDataset_fallback (dataset : DcmDataset) (name : String)
    (rtStructureSetObject : DRTStructureSetIOD)
    (hobject : dataset.rtStructureSetObject = some rtStructureSetObject) :
    (rtStructureSetObject.ROIContourSequence.forAllItems examineRoi [] = [] →
        (ExamineRtStructureSetDataset (some dataset) name []).2
          = firstSeriesImageUIDs rtStructureSetObject
        ∧ ∀ (frame : ReferencedFrameOfReferenceItem) (study : RTReferencedStudyItem)
            (series : RTReferencedSeriesItem)
            (frames : List ReferencedFrameOfReferenceItem) (studies : List RTReferencedStudyItem)
            (seriesList : List RTReferencedSeriesItem),
            rtStructureSetObject.ReferencedFrameOfReferenceSequence.SequenceOfItems
                = frame :: frames →
            frame.EmptyDefaultItem = false →
            frame.RTReferencedStudySequence.SequenceOfItems = study :: studies →
            study.EmptyDefaultItem = false →
            study.RTReferencedSeriesSequence.SequenceOfItems = series :: seriesList →
            series.EmptyDefaultItem = false →
            (ExamineRtStructureSetDataset (some dataset) name []).2
              = imageReferenceUIDs series.ContourImageSequence)
    ∧ (rtStructureSetObject.ROIContourSequence.forAllItems examineRoi [] ≠ [] →
        (ExamineRtStructureSetDataset (some dataset) name []).2
          = rtStructureSetObject.ROIContourSequence.forAllItems examineRoi []) := by
  refine ⟨?_, ?_⟩
  · intro hnone
    have h : (ExamineRtStructureSetDataset (some dataset) name []).2
        = firstSeriesImageUIDs rtStructureSetObject := by
      simp [ExamineRtStructureSetDataset, hobject, hnone, examineReferencedFrameOfReference_eq]
    refine ⟨h, ?_⟩
    intro frame study series frames studies seriesList hf hfv hs hsv hr hrv
    rw [h]
    simp [firstSeriesImageUIDs, hf, hfv, hs, hsv, hr, hrv]
  · intro hsome
    have hne : (rtStructureSetObject.ROIContourSequence.forAllItems examineRoi []).isEmpty
        = false := by
      cases hl : rtStructureSetObject.ROIContourSequence.forAllItems examineRoi [] with
      | nil => exact absurd hl hsome
      | cons a l => rfl
    simp [ExamineRtStructureSetDataset, hobject, hne]

/-- Witness of C11: the first series lists `1.2.3` and `1.2.4`; the second series, the second
study and the second frame of reference are not consulted. -/
theorem examineRtStructureSetDataset_fallback_witness :
    (ExamineRtStructureSetDataset (some laterReferencesDataset) "" []).2 = ["1.2.3", "1.2.4"] :=
  ((examineRtStructureSetDataset_fallback laterReferencesDataset "" _ rfl).1 (by decide)).1

/-- C12. Each of the four examiners returns the name and the referenced UID list it was given
when the dataset is null. -/
theorem examiners_null_dataset (dicomDatabase : ctkDICOMDatabase) (name : String)
    (referencedSOPInstanceUIDs : List String) :
    ExamineRtDoseDataset dicomDatabase none name referencedSOPInstanceUIDs
        = (name, referencedSOPInstanceUIDs)
    ∧ ExamineRtPlanDataset none name referencedSOPInstanceUIDs = (name, referencedSOPInstanceUIDs)
    ∧ ExamineRtStructureSetDataset none name referencedSOPInstanceUIDs
        = (name, referencedSOPInstanceUIDs)
    ∧ ExamineRtImageDataset none name referencedSOPInstanceUIDs
        = (name, referencedSOPInstanceUIDs) :=
  ⟨rfl, rfl, rfl, rfl⟩

end FallbackTheorems

section ExamineForLoadTheorems

/-- The loop that adds the referenced UIDs one by one copies the list. -/
theorem foldl_append_singleton (uids acc : List String) :
    uids.foldl (fun acc uid => acc ++ [uid]) acc = acc ++ uids := by
  induction uids generalizing acc with
  | nil => simp
  | cons uid rest ih => simp [ih]

/-- One round of the loop over the files adds the record of the file, when there is one. -/
theorem examineFile_eq (env : DcmtkEnv) (dicomDatabase : ctkDICOMDatabase)
    (loadables : List ExaminedLoadable) (fileName : String) :
    examineFile env dicomDatabase loadables fileName
      = loadables ++ (recognizedLoadable env dicomDatabase fileName).toList := by
  have e : ∀ x : String, "" ++ x = x := String.empty_append
  unfold examineFile recognizedLoadable
  cases hload : env.loadFile fileName with
  | none => simp
  | some dataset =>
    simp only []
    by_cases hsop : dataset.SOPClassUID = ""
    · simp [hsop]
    · by_cases h1 : env.UID_RTDoseStorage = dataset.SOPClassUID
      · simp [hsop, h1, addLoadable, examinedBySopClass, foldl_append_singleton, e]
      · have h1s : ¬ dataset.SOPClassUID = env.UID_RTDoseStorage := fun h => h1 h.symm
        by_cases h2 : env.UID_RTPlanStorage = dataset.SOPClassUID
        · simp [hsop, h1s, h2, addLoadable, examinedBySopClass, foldl_append_singleton, e]
        · have h2s : ¬ dataset.SOPClassUID = env.UID_RTPlanStorage := fun h => h2 h.symm
          by_cases h3 : env.UID_RTStructureSetStorage = dataset.SOPClassUID
          · simp [hsop, h1s, h2s, h3, addLoadable, examinedBySopClass, foldl_append_singleton, e]
          · have h3s : ¬ dataset.SOPClassUID = env.UID_RTStructureSetStorage :=
              fun h => h3 h.symm
            by_cases h4 : env.UID_RTImageStorage = dataset.SOPClassUID
            · simp [hsop, h1s, h2s, h3s, h4, addLoadable, examinedBySopClass,
                foldl_append_singleton, e]
            · have h4s : ¬ dataset.SOPClassUID = env.UID_RTImageStorage := fun h => h4 h.symm
              simp [hsop, h1s, h2s, h3s, h4s]

/-- The loop over the files adds the records of the files, in order. -/
theorem foldl_examineFile (env : DcmtkEnv) (dicomDatabase : ctkDICOMDatabase)
    (fileList : List String) (loadables : List ExaminedLoadable) :
    fileList.foldl (examineFile env dicomDatabase) loadables
      = loadables ++ fileList.filterMap (recognizedLoadable env dicomDatabase) := by
  induction fileList generalizing loadables with
  | nil => simp
  | cons fileName rest ih =>
    rw [List.foldl_cons, ih, examineFile_eq, List.filterMap_cons]
    cases recognizedLoadable env dicomDatabase fileName <;> simp

/-- C13. `ExamineForLoad` replaces the contents of the output collection by the records of the
input files that parse and whose SOP class is RT Dose, RT Plan, RT Structure Set or RT Image,
one record per such file and in input order; every record holds one file path, an input path,
confidence 1 and the selected flag, and the referenced instance UIDs are those found by the
examiner of the file, in the order found. -/
theorem examineForLoad_loadables (env : DcmtkEnv) (dicomDatabase : ctkDICOMDatabase)
    (fileList : List String) (loadables : List ExaminedLoadable) :
    ExamineForLoad env dicomDatabase (some fileList) (some loadables)
        = some (fileList.filterMap (recognizedLoadable env dicomDatabase))
    ∧ (∀ loadable ∈ fileList.filterMap (recognizedLoadable env dicomDatabase),
        ∃ fileName ∈ fileList, ∃ dataset, env.loadFile fileName = some dataset
          ∧ loadable.Files = [fileName] ∧ loadable.Confidence = 1 ∧ loadable.Selected = true
          ∧ loadable.ReferencedInstanceUIDs
              = (examinedBySopClass env dicomDatabase dataset
                  (if dataset.SeriesNumber ≠ "" then dataset.SeriesNumber ++ ": " else "")).2) := by
  refine ⟨?_, ?_⟩
  · simp [ExamineForLoad, foldl_examineFile]
  · intro loadable hmem
    obtain ⟨fileName, hfile, hrec⟩ := List.mem_filterMap.1 hmem
    refine ⟨fileName, hfile, ?_⟩
    unfold recognizedLoadable at hrec
    cases hload : env.loadFile fileName with
    | none => simp [hload] at hrec
    | some dataset =>
      simp only [hload] at hrec
      by_cases hclass : dataset.SOPClassUID ≠ ""
          ∧ dataset.SOPClassUID ∈ [env.UID_RTDoseStorage, env.UID_RTPlanStorage,
              env.UID_RTStructureSetStorage, env.UID_RTImageStorage]
      · rw [if_pos hclass] at hrec
        injection hrec with hrec
        subst hrec
        exact ⟨dataset, rfl, rfl, rfl, rfl, rfl⟩
      · rw [if_neg hclass] at hrec
        cases hrec

/-- C13 on four files: the plan and the dose give a record each, in input order; the file that
does not parse and the CT image give none, and what the collection held before is gone. -/
theorem examineForLoad_sample :
    ExamineForLoad sampleDcmtkEnv emptyDatabase
        (some ["plan.dcm", "broken.dcm", "ct.dcm", "dose.dcm"])
        (some [⟨"old", ["old.dcm"], 0, false, []⟩])
      = some [⟨"RTPLAN: Prostate (Boost)", ["plan.dcm"], 1, true, []⟩,
              ⟨"RTDOSE: Dose [7]", ["dose.dcm"], 1, true, ["1.2.3"]⟩] := by
  decide

end ExamineForLoadTheorems

section DoseUnitTheorems

variable {R : Type} [CommRing R]

theorem LoadRtDose_eq (env : Env R) (s : Scene R) (rtReader : vtkSlicerDicomRtReader R)
    (loadable : vtkSlicerDICOMLoadable R) (ijkToRas : Matrix4x4 R) (imageData : List R)
    (hread : loadable.ReadData = some (ijkToRas, imageData))
    (hcolor : env.DefaultColorTablesAvailable = true) :
    LoadRtDose env s rtReader loadable
      = (setDoseUnitAttributes env
          (InsertSeriesInSubjectHierarchy env
            (doseBeforeInsertion env s rtReader loadable ijkToRas imageData) rtReader)
          rtReader
          ((InsertSeriesInSubjectHierarchy env
            (doseBeforeInsertion env s rtReader loadable ijkToRas imageData)
              rtReader).GetItemParent (s.Items.length + 2)), true) := by
  unfold LoadRtDose doseBeforeInsertion
  simp only [hread, hcolor, Scene.AddNode_id, Scene.CreateItemForNode]
  simp

theorem length_doseBeforeInsertion (env : Env R) (s : Scene R)
    (rtReader : vtkSlicerDicomRtReader R) (loadable : vtkSlicerDICOMLoadable R)
    (ijkToRas : Matrix4x4 R) (imageData : List R) :
    (doseBeforeInsertion env s rtReader loadable ijkToRas imageData).Items.length
      = s.Items.length + 1 := by
  simp [doseBeforeInsertion, Scene.CreateItemForNode]

/-- The dose unit attributes of the items are not touched before the series is inserted. -/
theorem GetItemAttribute_doseBeforeInsertion (env : Env R) (s : Scene R)
    (rtReader : vtkSlicerDicomRtReader R) (loadable : vtkSlicerDICOMLoadable R)
    (ijkToRas : Matrix4x4 R) (imageData : List R) (i : Nat) (a : AttributeName)
    (ha : a ≠ .DICOMReferencedInstanceUIDs) :
    (doseBeforeInsertion env s rtReader loadable ijkToRas imageData).GetItemAttribute i a
      = s.GetItemAttribute i a := by
  simp [doseBeforeInsertion, Scene.CreateItemForNode, Ne.symm ha]

/-- The DICOM UIDs before the series is inserted: the new item carries the series UID. -/
theorem GetItemUID_doseBeforeInsertion (env : Env R) (s : Scene R)
    (rtReader : vtkSlicerDicomRtReader R) (loadable : vtkSlicerDICOMLoadable R)
    (ijkToRas : Matrix4x4 R) (imageData : List R) (i : Nat) :
    (doseBeforeInsertion env s rtReader loadable ijkToRas imageData).GetItemUID i .DICOMUIDName
      = if i = s.Items.length + 2 then rtReader.SeriesInstanceUid
        else s.GetItemUID i .DICOMUIDName := by
  by_cases hse : rtReader.SeriesInstanceUid = ""
  · simp only [doseBeforeInsertion, Scene.CreateItemForNode, Scene.AddNode_id, hse]
    simp only [ne_eq, not_true_eq_false, if_false, Scene.GetItemUID_ite,
      Scene.GetItemUID_SetItemAttribute, Scene.GetItemUID_log, Scene.GetItemUID_SetItemParent,
      Scene.GetItemUID_SetItemDataNode, Scene.GetItemUID_AddNode, ite_self]
    split_ifs with h
    · rw [h, Scene.GetItemUID_of_length_le s _ (Nat.le_refl _)]
    · rfl
  · simp only [doseBeforeInsertion, Scene.CreateItemForNode, Scene.AddNode_id]
    simp only [ne_eq, hse, not_false_eq_true, if_true, Scene.GetItemUID_ite,
      Scene.GetItemUID_SetItemAttribute, Scene.GetItemUID_log, ite_self]
    rw [Scene.GetItemUID_SetItemUID]
    by_cases h : i = s.Items.length + 2
    · simp [h]
    · simp [h]

end DoseUnitTheorems

section DoseUnitFrames

variable {R : Type}

/-- The dose unit attributes stay through `InsertSeriesInSubjectHierarchy`. -/
theorem GetItemAttribute_dose_InsertSeriesInSubjectHierarchy (env : Env R) (s : Scene R)
    (rtReader : vtkSlicerDicomRtReader R) (i : Nat) (a : AttributeName)
    (ha : a = .DICOMRTIMPORT_DOSE_UNIT_NAME ∨ a = .DICOMRTIMPORT_DOSE_UNIT_VALUE) :
    (InsertSeriesInSubjectHierarchy env s rtReader).GetItemAttribute i a
      = s.GetItemAttribute i a := by
  rcases ha with rfl | rfl <;>
    simp [InsertSeriesInSubjectHierarchy, fillPatientItem, fillStudyItem]

/-- An attribute written to another item leaves the attributes of an item as they are. -/
theorem Scene.GetItemAttribute_SetItemAttribute_of_item_ne (s : Scene R) (i j : Nat)
    (a b : AttributeName) (v : String) (h : i ≠ j) :
    (s.SetItemAttribute j a v).GetItemAttribute i b = s.GetItemAttribute i b := by
  rw [Scene.GetItemAttribute_SetItemAttribute]
  simp [h]

/-- A dose unit name that is recorded and differs from the one of the reader stays. -/
theorem GetItemAttribute_name_setDoseUnitAttributes (env : Env R) (s : Scene R)
    (rtReader : vtkSlicerDicomRtReader R) (studyItemID i : Nat)
    (h1 : s.GetItemAttribute i .DICOMRTIMPORT_DOSE_UNIT_NAME ≠ "")
    (h2 : s.GetItemAttribute i .DICOMRTIMPORT_DOSE_UNIT_NAME ≠ rtReader.DoseUnits) :
    (setDoseUnitAttributes env s rtReader studyItemID).GetItemAttribute i
        .DICOMRTIMPORT_DOSE_UNIT_NAME
      = s.GetItemAttribute i .DICOMRTIMPORT_DOSE_UNIT_NAME := by
  unfold setDoseUnitAttributes
  by_cases hS : studyItemID = i
  · subst hS
    simp [h1, h2]
  · have key := fun (t : Scene R) (a : AttributeName) (v : String) =>
      Scene.GetItemAttribute_SetItemAttribute_of_item_ne t i studyItemID a
        .DICOMRTIMPORT_DOSE_UNIT_NAME v (Ne.symm hS)
    simp [key]

/-- A dose unit value that is recorded stays. -/
theorem GetItemAttribute_value_setDoseUnitAttributes (env : Env R) (s : Scene R)
    (rtReader : vtkSlicerDicomRtReader R) (studyItemID i : Nat)
    (h1 : s.GetItemAttribute i .DICOMRTIMPORT_DOSE_UNIT_VALUE ≠ "") :
    (setDoseUnitAttributes env s rtReader studyItemID).GetItemAttribute i
        .DICOMRTIMPORT_DOSE_UNIT_VALUE
      = s.GetItemAttribute i .DICOMRTIMPORT_DOSE_UNIT_VALUE := by
  unfold setDoseUnitAttributes
  by_cases hS : studyItemID = i
  · subst hS
    simp [h1]
  · have key := fun (t : Scene R) (a : AttributeName) (v : String) =>
      Scene.GetItemAttribute_SetItemAttribute_of_item_ne t i studyItemID a
        .DICOMRTIMPORT_DOSE_UNIT_VALUE v (Ne.symm hS)
    simp [key]

/-- The diagnostic for a differing dose unit name is logged for the study item. -/
theorem Messages_setDoseUnitAttributes (env : Env R) (s : Scene R)
    (rtReader : vtkSlicerDicomRtReader R) (studyItemID : Nat)
    (hS : studyItemID ≠ INVALID_ITEM_ID) (hunits : rtReader.DoseUnits ≠ "")
    (h1 : s.GetItemAttribute studyItemID .DICOMRTIMPORT_DOSE_UNIT_NAME ≠ "")
    (h2 : s.GetItemAttribute studyItemID .DICOMRTIMPORT_DOSE_UNIT_NAME ≠ rtReader.DoseUnits) :
    differentDoseUnitMessage ∈ (setDoseUnitAttributes env s rtReader studyItemID).Messages := by
  unfold setDoseUnitAttributes
  simp only [hS, hunits, h1, h2, ne_eq, not_false_eq_true, and_self, if_true, if_false]
  split_ifs <;> simp [Scene.log, differentDoseUnitMessage]

/-- A lookup by UID that succeeds gives the same item in a scene that has the same UIDs at
the ids of the items. -/
theorem Scene.GetItemByUID_of_extension (s t : Scene R) (name : UIDName) (v : String)
    (h : ∀ i : Nat, i < s.Items.length + 2 → t.GetItemUID i name = s.GetItemUID i name)
    (hfound : s.GetItemByUID name v ≠ INVALID_ITEM_ID) :
    t.GetItemByUID name v = s.GetItemByUID name v := by
  obtain ⟨hv, hP, hfirst⟩ := Scene.GetItemByUID_spec s name v hfound
  have hlt := Scene.GetItemByUID_lt s name v
  refine Scene.GetItemByUID_of_first t name v _ hv ?_ ?_
  · rw [h _ hlt]
    exact hP
  · intro i hi
    have hi2 : i < s.Items.length + 2 := Nat.lt_trans hi hlt
    rw [h i hi2]
    exact hfirst i hi

end DoseUnitFrames

section DoseUnitTheorems2

variable {R : Type} [CommRing R]

/-- The dose series of a study that is in the hierarchy is put under the item of the study,
when no item carries the series UID yet. -/
theorem GetItemParent_dose_series (env : Env R) (s : Scene R)
    (rtReader : vtkSlicerDicomRtReader R) (loadable : vtkSlicerDICOMLoadable R)
    (ijkToRas : Matrix4x4 R) (imageData : List R)
    (hpatient : rtReader.PatientId ≠ "") (hseries : rtReader.SeriesInstanceUid ≠ "")
    (hnew : s.GetItemByUID .DICOMUIDName rtReader.SeriesInstanceUid = INVALID_ITEM_ID)
    (hstudy : s.GetItemByUID .DICOMUIDName rtReader.StudyInstanceUid ≠ INVALID_ITEM_ID) :
    (InsertSeriesInSubjectHierarchy env
        (doseBeforeInsertion env s rtReader loadable ijkToRas imageData)
        rtReader).GetItemParent (s.Items.length + 2)
      = s.GetItemByUID .DICOMUIDName rtReader.StudyInstanceUid := by
  obtain ⟨hst, -, -⟩ := Scene.GetItemByUID_spec s _ _ hstudy
  have hnone : ∀ i : Nat, s.GetItemUID i .DICOMUIDName ≠ rtReader.SeriesInstanceUid :=
    fun i hi => Scene.GetItemByUID_ne_invalid s _ _ i hseries hi hnew
  have hlen := length_doseBeforeInsertion env s rtReader loadable ijkToRas imageData
  have hold : ∀ i : Nat, i < s.Items.length + 2 →
      (doseBeforeInsertion env s rtReader loadable ijkToRas imageData).GetItemUID i .DICOMUIDName
        = s.GetItemUID i .DICOMUIDName := by
    intro i hi
    rw [GetItemUID_doseBeforeInsertion, if_neg (Nat.ne_of_lt hi)]
  have hd : (doseBeforeInsertion env s rtReader loadable ijkToRas imageData).GetItemByUID
      .DICOMUIDName rtReader.SeriesInstanceUid = s.Items.length + 2 := by
    refine Scene.GetItemByUID_of_first _ _ _ _ hseries ?_ ?_
    · rw [GetItemUID_doseBeforeInsertion, if_pos rfl]
    · intro i hi
      rw [hold i hi]
      exact hnone i
  have hc : ¬ (rtReader.PatientId = "" ∨ rtReader.StudyInstanceUid = ""
      ∨ rtReader.SeriesInstanceUid = "") := by
    rintro (h | h | h)
    · exact hpatient h
    · exact hst h
    · exact hseries h
  have hvalid : (doseBeforeInsertion env s rtReader loadable ijkToRas imageData).GetItemByUID
      .DICOMUIDName rtReader.SeriesInstanceUid ≠ INVALID_ITEM_ID := by
    rw [hd]
    simp [INVALID_ITEM_ID]
  have hlenP := Scene.length_le_ensurePatientItem
    (doseBeforeInsertion env s rtReader loadable ijkToRas imageData) rtReader.PatientId
  have hlenS := Scene.length_le_ensureStudyItem
    ((doseBeforeInsertion env s rtReader loadable ijkToRas imageData).ensurePatientItem
      rtReader.PatientId) rtReader.PatientId rtReader.StudyInstanceUid
  rw [GetItemParent_InsertSeriesInSubjectHierarchy_eq]
  unfold Scene.InsertDicomSeriesInHierarchy
  rw [if_neg hc, if_neg hvalid, hd, Scene.GetItemParent_SetItemParent]
  have hcond : s.Items.length + 2 = s.Items.length + 2 ∧ 2 ≤ s.Items.length + 2
      ∧ s.Items.length + 2
        < (((doseBeforeInsertion env s rtReader loadable ijkToRas imageData).ensurePatientItem
            rtReader.PatientId).ensureStudyItem rtReader.PatientId
              rtReader.StudyInstanceUid).Items.length + 2 := by
    refine ⟨rfl, by omega, by omega⟩
  rw [if_pos hcond]
  refine Scene.GetItemByUID_of_extension s _ _ _ ?_ hstudy
  intro i hi
  rw [Scene.GetItemUID_ensureStudyItem_of_valid _ _ _ _ (by omega),
    Scene.GetItemUID_ensurePatientItem_of_valid _ _ _ (by omega), hold i hi]

/-- C14. A dose series is loaded (the file reads and the color tables exist) into a scene in
which an item records a non-empty dose unit name that differs from the one of the series.
`LoadRtDose` returns success and the item keeps its dose unit name; a dose unit value that
the item records is kept as well.  When the item is the study item of the series (the item
found by the study UID, for a series with a patient id and a series UID that no item
carries yet) and the series has a dose unit name, the diagnostic for the differing dose unit
name is logged. -/
theorem loadRtDose_first_dose_unit_wins (env : Env R) (s : Scene R)
    (rtReader : vtkSlicerDicomRtReader R) (loadable : vtkSlicerDICOMLoadable R)
    (ijkToRas : Matrix4x4 R) (imageData : List R) (studyItemID : Nat)
    (hread : loadable.ReadData = some (ijkToRas, imageData))
    (hcolor : env.DefaultColorTablesAvailable = true)
    (hname : s.GetItemAttribute studyItemID .DICOMRTIMPORT_DOSE_UNIT_NAME ≠ "")
    (hdiff : s.GetItemAttribute studyItemID .DICOMRTIMPORT_DOSE_UNIT_NAME ≠ rtReader.DoseUnits) :
    (LoadRtDose env s rtReader loadable).2 = true
    ∧ (LoadRtDose env s rtReader loadable).1.GetItemAttribute studyItemID
          .DICOMRTIMPORT_DOSE_UNIT_NAME
        = s.GetItemAttribute studyItemID .DICOMRTIMPORT_DOSE_UNIT_NAME
    ∧ (s.GetItemAttribute studyItemID .DICOMRTIMPORT_DOSE_UNIT_VALUE ≠ "" →
        (LoadRtDose env s rtReader loadable).1.GetItemAttribute studyItemID
            .DICOMRTIMPORT_DOSE_UNIT_VALUE
          = s.GetItemAttribute studyItemID .DICOMRTIMPORT_DOSE_UNIT_VALUE)
    ∧ (s.GetItemByUID .DICOMUIDName rtReader.StudyInstanceUid = studyItemID →
        rtReader.PatientId ≠ "" → rtReader.SeriesInstanceUid ≠ "" →
        s.GetItemByUID .DICOMUIDName rtReader.SeriesInstanceUid = INVALID_ITEM_ID →
        rtReader.DoseUnits ≠ "" →
        differentDoseUnitMessage ∈ (LoadRtDose env s rtReader loadable).1.Messages) := by
  have hN : ∀ a : AttributeName,
      a = .DICOMRTIMPORT_DOSE_UNIT_NAME ∨ a = .DICOMRTIMPORT_DOSE_UNIT_VALUE →
      (InsertSeriesInSubjectHierarchy env
          (doseBeforeInsertion env s rtReader loadable ijkToRas imageData)
          rtReader).GetItemAttribute studyItemID a
        = s.GetItemAttribute studyItemID a := by
    intro a ha
    rw [GetItemAttribute_dose_InsertSeriesInSubjectHierarchy _ _ _ _ _ ha,
      GetItemAttribute_doseBeforeInsertion]
    rcases ha with rfl | rfl <;> simp
  rw [LoadRtDose_eq env s rtReader loadable ijkToRas imageData hread hcolor]
  refine ⟨rfl, ?_, ?_, ?_⟩
  · show (setDoseUnitAttributes env _ rtReader _).GetItemAttribute studyItemID _ = _
    rw [GetItemAttribute_name_setDoseUnitAttributes, hN _ (Or.inl rfl)]
    · rw [hN _ (Or.inl rfl)]
      exact hname
    · rw [hN _ (Or.inl rfl)]
      exact hdiff
  · intro hvalue
    show (setDoseUnitAttributes env _ rtReader _).GetItemAttribute studyItemID _ = _
    rw [GetItemAttribute_value_setDoseUnitAttributes, hN _ (Or.inr rfl)]
    rw [hN _ (Or.inr rfl)]
    exact hvalue
  · intro hstudy hpatient hseries hnew hunits
    have hvalid : s.GetItemByUID .DICOMUIDName rtReader.StudyInstanceUid ≠ INVALID_ITEM_ID := by
      rw [hstudy]
      intro h0
      rw [h0] at hname
      exact hname (by simp [Scene.GetItemAttribute, Scene.GetItem, INVALID_ITEM_ID])
    show differentDoseUnitMessage ∈ (setDoseUnitAttributes env _ rtReader _).Messages
    rw [GetItemParent_dose_series env s rtReader loadable ijkToRas imageData hpatient hseries
      hnew hvalid, hstudy]
    refine Messages_setDoseUnitAttributes env _ rtReader studyItemID ?_ hunits ?_ ?_
    · rw [← hstudy]
      exact hvalid
    · rw [hN _ (Or.inl rfl)]
      exact hname
    · rw [hN _ (Or.inl rfl)]
      exact hdiff

end DoseUnitTheorems2

/-- Witness of C14: after the dose series with unit `GY` and value `1000`, the dose series
`1.2.6` of the same study with unit `RELATIVE` and value `1500` is loaded; the study item 4
keeps `GY` and `1000`, and the diagnostic is logged. -/
theorem loadRtDose_first_dose_unit_wins_witness :
    sceneWithDose.GetItemAttribute 4 .DICOMRTIMPORT_DOSE_UNIT_NAME = "GY"
    ∧ sceneWithDose.GetItemAttribute 4 .DICOMRTIMPORT_DOSE_UNIT_VALUE = "1000"
    ∧ (LoadRtDose sampleEnv sceneWithDose laterDoseReader sampleDoseLoadable).2 = true
    ∧ (LoadRtDose sampleEnv sceneWithDose laterDoseReader sampleDoseLoadable).1.GetItemAttribute 4
        .DICOMRTIMPORT_DOSE_UNIT_NAME = "GY"
    ∧ (LoadRtDose sampleEnv sceneWithDose laterDoseReader sampleDoseLoadable).1.GetItemAttribute 4
        .DICOMRTIMPORT_DOSE_UNIT_VALUE = "1000"
    ∧ differentDoseUnitMessage
        ∈ (LoadRtDose sampleEnv sceneWithDose laterDoseReader sampleDoseLoadable).1.Messages := by
  have h := loadRtDose_first_dose_unit_wins sampleEnv sceneWithDose laterDoseReader
    sampleDoseLoadable 1 [1, 2, 3] 4 rfl rfl (by decide) (by decide)
  have hname : sceneWithDose.GetItemAttribute 4 .DICOMRTIMPORT_DOSE_UNIT_NAME = "GY" := by decide
  have hvalue : sceneWithDose.GetItemAttribute 4 .DICOMRTIMPORT_DOSE_UNIT_VALUE = "1000" := by
    decide
  refine ⟨hname, hvalue, h.1, ?_, ?_, ?_⟩
  · rw [h.2.1, hname]
  · rw [h.2.2.1 (by decide), hvalue]
  · exact h.2.2.2 (by decide) (by decide) (by decide) (by decide) (by decide)

section NameLemmas

variable {R : Type}

theorem Scene.GetItemName_modifyItem_keep (s : Scene R) (i j : Nat) (f : ShItem R → ShItem R)
    (hf : ∀ it, (f it).Name = it.Name) : (s.modifyItem j f).GetItemName i = s.GetItemName i := by
  unfold Scene.GetItemName
  rw [Scene.GetItem_modifyItem]
  by_cases h : i = j
  · simp only [h, if_true]
    cases s.GetItem j <;> simp [hf]
  · simp only [h, if_false]

@[simp] theorem Scene.GetItemName_ite (c : Prop) [Decidable c] (x y : Scene R) (i : Nat) :
    (if c then x else y).GetItemName i = if c then x.GetItemName i else y.GetItemName i := by
  split_ifs <;> rfl

@[simp] theorem Scene.GetItemName_SetItemUID (s : Scene R) (i j : Nat) (n : UIDName)
    (v : String) : (s.SetItemUID j n v).GetItemName i = s.GetItemName i :=
  Scene.GetItemName_modifyItem_keep s i j _ (fun _ => rfl)

@[simp] theorem Scene.GetItemName_SetItemAttribute (s : Scene R) (i j : Nat) (a : AttributeName)
    (v : String) : (s.SetItemAttribute j a v).GetItemName i = s.GetItemName i :=
  Scene.GetItemName_modifyItem_keep s i j _ (fun _ => rfl)

@[simp] theorem Scene.GetItemName_SetItemParent (s : Scene R) (i j p : Nat) :
    (s.SetItemParent j p).GetItemName i = s.GetItemName i :=
  Scene.GetItemName_modifyItem_keep s i j _ (fun _ => rfl)

@[simp] theorem Scene.GetItemName_SetItemDataNode (s : Scene R) (i j : Nat)
    (n : vtkMRMLNode R) : (s.SetItemDataNode j n).GetItemName i = s.GetItemName i :=
  Scene.GetItemName_modifyItem_keep s i j _ (fun _ => rfl)

@[simp] theorem Scene.GetItemName_log (s : Scene R) (sev : Severity) (text : String) (i : Nat) :
    (s.log sev text).GetItemName i = s.GetItemName i := rfl

theorem Scene.GetItemName_SetItemName_of_ne (s : Scene R) (i j : Nat) (v : String)
    (h : i ≠ j) : (s.SetItemName j v).GetItemName i = s.GetItemName i := by
  unfold Scene.GetItemName Scene.SetItemName
  rw [Scene.GetItem_modifyItem, if_neg h]

theorem Scene.GetItemName_CreateItem_of_valid (s : Scene R) (parent : Nat) (nm : String)
    (node : Option (vtkMRMLNode R)) (i : Nat) (hi : i < s.Items.length + 2) :
    (s.CreateItem parent nm node).1.GetItemName i = s.GetItemName i := by
  unfold Scene.GetItemName
  rw [Scene.GetItem_CreateItem, if_neg (Nat.ne_of_lt hi)]

theorem Scene.GetItemName_CreateItemWithUID_of_valid (s : Scene R) (parent : Nat)
    (nm uid : String) (i : Nat) (hi : i < s.Items.length + 2) :
    (s.CreateItemWithUID parent nm uid).GetItemName i = s.GetItemName i := by
  simp [Scene.CreateItemWithUID, Scene.GetItemName_CreateItem_of_valid _ _ _ _ _ hi]

theorem Scene.GetItemName_ensurePatientItem_of_valid (s : Scene R) (patientId : String)
    (i : Nat) (hi : i < s.Items.length + 2) :
    (s.ensurePatientItem patientId).GetItemName i = s.GetItemName i := by
  unfold Scene.ensurePatientItem
  split_ifs
  · exact Scene.GetItemName_CreateItemWithUID_of_valid _ _ _ _ _ hi
  · rfl

theorem Scene.GetItemName_ensureStudyItem_of_valid (s : Scene R) (patientId studyUid : String)
    (i : Nat) (hi : i < s.Items.length + 2) :
    (s.ensureStudyItem patientId studyUid).GetItemName i = s.GetItemName i := by
  unfold Scene.ensureStudyItem
  split_ifs
  · exact Scene.GetItemName_CreateItemWithUID_of_valid _ _ _ _ _ hi
  · rfl

theorem Scene.GetItemName_InsertDicomSeriesInHierarchy (s : Scene R) (p st se : String)
    (i : Nat) (hi : i < s.Items.length + 2) :
    (s.InsertDicomSeriesInHierarchy p st se).1.GetItemName i = s.GetItemName i := by
  unfold Scene.InsertDicomSeriesInHierarchy
  split_ifs
  · rfl
  · rfl
  · rw [Scene.GetItemName_SetItemParent,
      Scene.GetItemName_ensureStudyItem_of_valid _ _ _ _
        (Nat.lt_of_lt_of_le hi (Nat.add_le_add_right (Scene.length_le_ensurePatientItem s p) 2)),
      Scene.GetItemName_ensurePatientItem_of_valid _ _ _ hi]

/-- The name of an item other than the patient item found stays through `fillPatientItem`. -/
theorem GetItemName_fillPatientItem (env : Env R) (s : Scene R)
    (rtReader : vtkSlicerDicomRtReader R) (i : Nat)
    (h : s.GetItemByUID .DICOMUIDName rtReader.PatientId ≠ i) :
    (fillPatientItem env s rtReader).GetItemName i = s.GetItemName i := by
  unfold fillPatientItem
  simp only [Scene.GetItemName_ite, Scene.GetItemName_log, ite_self,
    Scene.GetItemName_SetItemName_of_ne _ _ _ _ (Ne.symm h), Scene.GetItemName_SetItemAttribute]

/-- The name of an item other than the study item found stays through `fillStudyItem`. -/
theorem GetItemName_fillStudyItem (env : Env R) (s : Scene R)
    (rtReader : vtkSlicerDicomRtReader R) (i : Nat)
    (h : s.GetItemByUID .DICOMUIDName rtReader.StudyInstanceUid ≠ i) :
    (fillStudyItem env s rtReader).GetItemName i = s.GetItemName i := by
  unfold fillStudyItem
  simp only [Scene.GetItemName_ite, Scene.GetItemName_log, ite_self,
    Scene.GetItemName_SetItemName_of_ne _ _ _ _ (Ne.symm h), Scene.GetItemName_SetItemAttribute]

/-- The attributes of an item other than the patient item found stay through
`fillPatientItem`. -/
theorem GetItemAttribute_fillPatientItem_of_ne (env : Env R) (s : Scene R)
    (rtReader : vtkSlicerDicomRtReader R) (i : Nat) (a : AttributeName)
    (h : s.GetItemByUID .DICOMUIDName rtReader.PatientId ≠ i) :
    (fillPatientItem env s rtReader).GetItemAttribute i a = s.GetItemAttribute i a := by
  have key : ∀ (t : Scene R) (b : AttributeName) (v : String),
      (t.SetItemAttribute (s.GetItemByUID .DICOMUIDName rtReader.PatientId) b v).GetItemAttribute
        i a = t.GetItemAttribute i a := by
    intro t b v
    rw [Scene.GetItemAttribute_SetItemAttribute]
    simp [Ne.symm h]
  unfold fillPatientItem
  simp only [Scene.GetItemAttribute_ite, Scene.GetItemAttribute_log, ite_self,
    Scene.GetItemAttribute_SetItemName, key]

/-- The attributes of an item other than the study item found stay through
`fillStudyItem`. -/
theorem GetItemAttribute_fillStudyItem_of_ne (env : Env R) (s : Scene R)
    (rtReader : vtkSlicerDicomRtReader R) (i : Nat) (a : AttributeName)
    (h : s.GetItemByUID .DICOMUIDName rtReader.StudyInstanceUid ≠ i) :
    (fillStudyItem env s rtReader).GetItemAttribute i a = s.GetItemAttribute i a := by
  have key : ∀ (t : Scene R) (b : AttributeName) (v : String),
      (t.SetItemAttribute (s.GetItemByUID .DICOMUIDName rtReader.StudyInstanceUid) b
        v).GetItemAttribute i a = t.GetItemAttribute i a := by
    intro t b v
    rw [Scene.GetItemAttribute_SetItemAttribute]
    simp [Ne.symm h]
  unfold fillStudyItem
  simp only [Scene.GetItemAttribute_ite, Scene.GetItemAttribute_log, ite_self,
    Scene.GetItemAttribute_SetItemName, key]

/-- The hierarchy resolver keeps the DICOM UIDs of the items that were there. -/
theorem Scene.GetItemUID_InsertDicomSeriesInHierarchy_of_valid (s : Scene R) (p st se : String)
    (i : Nat) (hi : i < s.Items.length + 2) :
    (s.InsertDicomSeriesInHierarchy p st se).1.GetItemUID i .DICOMUIDName
      = s.GetItemUID i .DICOMUIDName := by
  unfold Scene.InsertDicomSeriesInHierarchy
  split_ifs
  · rfl
  · rfl
  · rw [Scene.GetItemUID_SetItemParent,
      Scene.GetItemUID_ensureStudyItem_of_valid _ _ _ _
        (Nat.lt_of_lt_of_le hi (Nat.add_le_add_right (Scene.length_le_ensurePatientItem s p) 2)),
      Scene.GetItemUID_ensurePatientItem_of_valid _ _ _ hi]

/-- An item of the scene is not what the lookup by a UID gives after the hierarchy resolver
has run, when no item carried the UID before. -/
theorem Scene.lookup_InsertDicomSeriesInHierarchy_ne (s : Scene R) (p st se v : String)
    (i : Nat) (hi : i < s.Items.length + 2) (h2 : 2 ≤ i)
    (habsent : s.GetItemByUID .DICOMUIDName v = INVALID_ITEM_ID) :
    (s.InsertDicomSeriesInHierarchy p st se).1.GetItemByUID .DICOMUIDName v ≠ i := by
  intro h
  have hvalid : (s.InsertDicomSeriesInHierarchy p st se).1.GetItemByUID .DICOMUIDName v
      ≠ INVALID_ITEM_ID := by
    rw [h]
    intro h0
    rw [h0] at h2
    simp [INVALID_ITEM_ID] at h2
  obtain ⟨hv, hP, -⟩ := Scene.GetItemByUID_spec _ _ _ hvalid
  rw [h, Scene.GetItemUID_InsertDicomSeriesInHierarchy_of_valid s p st se i hi] at hP
  exact Scene.GetItemByUID_ne_invalid s _ _ i hv hP habsent

end NameLemmas

section InsertSeriesKeeps

variable {R : Type}

/-- The item found by the patient id keeps its name and its patient attributes through
`InsertSeriesInSubjectHierarchy`. -/
theorem InsertSeriesInSubjectHierarchy_patient_kept (env : Env R) (s : Scene R)
    (rtReader : vtkSlicerDicomRtReader R)
    (hfound : s.GetItemByUID .DICOMUIDName rtReader.PatientId ≠ INVALID_ITEM_ID) :
    (InsertSeriesInSubjectHierarchy env s rtReader).GetItemName
        (s.GetItemByUID .DICOMUIDName rtReader.PatientId)
      = s.GetItemName (s.GetItemByUID .DICOMUIDName rtReader.PatientId)
    ∧ ∀ a : AttributeName, a.IsPatientAttribute = true →
        (InsertSeriesInSubjectHierarchy env s rtReader).GetItemAttribute
            (s.GetItemByUID .DICOMUIDName rtReader.PatientId) a
          = s.GetItemAttribute (s.GetItemByUID .DICOMUIDName rtReader.PatientId) a := by
  have h2 := Scene.two_le_GetItemByUID s _ _ hfound
  have hlt := Scene.GetItemByUID_lt s .DICOMUIDName rtReader.PatientId
  have hne : s.GetItemByUID .DICOMUIDName rtReader.StudyInstanceUid = INVALID_ITEM_ID →
      (s.InsertDicomSeriesInHierarchy rtReader.PatientId rtReader.StudyInstanceUid
        rtReader.SeriesInstanceUid).1.GetItemByUID .DICOMUIDName rtReader.StudyInstanceUid
        ≠ s.GetItemByUID .DICOMUIDName rtReader.PatientId :=
    fun habsent => Scene.lookup_InsertDicomSeriesInHierarchy_ne s _ _ _ _ _ hlt h2 habsent
  refine ⟨?_, ?_⟩
  · simp only [InsertSeriesInSubjectHierarchy, hfound, if_false, Scene.GetItemName_ite,
      Scene.GetItemName_SetItemUID, Scene.GetItemName_SetItemAttribute, Scene.GetItemName_log,
      ite_self]
    split_ifs with hstudy
    · rw [GetItemName_fillStudyItem _ _ _ _ (hne hstudy),
        Scene.GetItemName_InsertDicomSeriesInHierarchy _ _ _ _ _ hlt]
    · exact Scene.GetItemName_InsertDicomSeriesInHierarchy _ _ _ _ _ hlt
  · intro a ha
    have hmod : AttributeName.DICOMSeriesModality ≠ a := by
      intro h
      subst h
      exact absurd ha (by decide)
    have hnum : AttributeName.DICOMSeriesNumber ≠ a := by
      intro h
      subst h
      exact absurd ha (by decide)
    simp only [InsertSeriesInSubjectHierarchy, hfound, if_false, Scene.GetItemAttribute_ite,
      Scene.GetItemAttribute_SetItemUID, Scene.GetItemAttribute_log, ite_self,
      Scene.GetItemAttribute_SetItemAttribute_of_ne _ _ _ _ _ _ hmod,
      Scene.GetItemAttribute_SetItemAttribute_of_ne _ _ _ _ _ _ hnum]
    split_ifs with hstudy
    · rw [GetItemAttribute_fillStudyItem_of_ne _ _ _ _ _ (hne hstudy),
        Scene.GetItemAttribute_InsertDicomSeriesInHierarchy]
    · exact Scene.GetItemAttribute_InsertDicomSeriesInHierarchy _ _ _ _ _ _

/-- The item found by the study UID keeps its name and its study attributes through
`InsertSeriesInSubjectHierarchy`. -/
theorem InsertSeriesInSubjectHierarchy_study_kept (env : Env R) (s : Scene R)
    (rtReader : vtkSlicerDicomRtReader R)
    (hfound : s.GetItemByUID .DICOMUIDName rtReader.StudyInstanceUid ≠ INVALID_ITEM_ID) :
    (InsertSeriesInSubjectHierarchy env s rtReader).GetItemName
        (s.GetItemByUID .DICOMUIDName rtReader.StudyInstanceUid)
      = s.GetItemName (s.GetItemByUID .DICOMUIDName rtReader.StudyInstanceUid)
    ∧ ∀ a : AttributeName, a.IsStudyAttribute = true →
        (InsertSeriesInSubjectHierarchy env s rtReader).GetItemAttribute
            (s.GetItemByUID .DICOMUIDName rtReader.StudyInstanceUid) a
          = s.GetItemAttribute (s.GetItemByUID .DICOMUIDName rtReader.StudyInstanceUid) a := by
  have h2 := Scene.two_le_GetItemByUID s _ _ hfound
  have hlt := Scene.GetItemByUID_lt s .DICOMUIDName rtReader.StudyInstanceUid
  have hne : s.GetItemByUID .DICOMUIDName rtReader.PatientId = INVALID_ITEM_ID →
      (s.InsertDicomSeriesInHierarchy rtReader.PatientId rtReader.StudyInstanceUid
        rtReader.SeriesInstanceUid).1.GetItemByUID .DICOMUIDName rtReader.PatientId
        ≠ s.GetItemByUID .DICOMUIDName rtReader.StudyInstanceUid :=
    fun habsent => Scene.lookup_InsertDicomSeriesInHierarchy_ne s _ _ _ _ _ hlt h2 habsent
  refine ⟨?_, ?_⟩
  · simp only [InsertSeriesInSubjectHierarchy, hfound, if_false, Scene.GetItemName_ite,
      Scene.GetItemName_SetItemUID, Scene.GetItemName_SetItemAttribute, Scene.GetItemName_log,
      ite_self]
    split_ifs with hpatient
    · rw [GetItemName_fillPatientItem _ _ _ _ (hne hpatient),
        Scene.GetItemName_InsertDicomSeriesInHierarchy _ _ _ _ _ hlt]
    · exact Scene.GetItemName_InsertDicomSeriesInHierarchy _ _ _ _ _ hlt
  · intro a ha
    have hmod : AttributeName.DICOMSeriesModality ≠ a := by
      intro h
      subst h
      exact absurd ha (by decide)
    have hnum : AttributeName.DICOMSeriesNumber ≠ a := by
      intro h
      subst h
      exact absurd ha (by decide)
    simp only [InsertSeriesInSubjectHierarchy, hfound, if_false, Scene.GetItemAttribute_ite,
      Scene.GetItemAttribute_SetItemUID, Scene.GetItemAttribute_log, ite_self,
      Scene.GetItemAttribute_SetItemAttribute_of_ne _ _ _ _ _ _ hmod,
      Scene.GetItemAttribute_SetItemAttribute_of_ne _ _ _ _ _ _ hnum]
    split_ifs with hpatient
    · rw [GetItemAttribute_fillPatientItem_of_ne _ _ _ _ _ (hne hpatient),
        Scene.GetItemAttribute_InsertDicomSeriesInHierarchy]
    · exact Scene.GetItemAttribute_InsertDicomSeriesInHierarchy _ _ _ _ _ _

/-- C15. When an item with the patient id of the reader exists, `InsertSeriesInSubjectHierarchy`
leaves the name and the patient attributes (name, id, sex, birth date, comments) of that
item as they are; when an item with the study UID of the reader exists, it leaves the name
and the study attributes (instance UID, id, description, date, time) of that item as they
are; whatever the reader carries. -/
theorem insertSeriesInSubjectHierarchy_keeps_existing (env : Env R) (s : Scene R)
    (rtReader : vtkSlicerDicomRtReader R) :
    (s.GetItemByUID .DICOMUIDName rtReader.PatientId ≠ INVALID_ITEM_ID →
      (InsertSeriesInSubjectHierarchy env s rtReader).GetItemName
          (s.GetItemByUID .DICOMUIDName rtReader.PatientId)
        = s.GetItemName (s.GetItemByUID .DICOMUIDName rtReader.PatientId)
      ∧ ∀ a : AttributeName, a.IsPatientAttribute = true →
          (InsertSeriesInSubjectHierarchy env s rtReader).GetItemAttribute
              (s.GetItemByUID .DICOMUIDName rtReader.PatientId) a
            = s.GetItemAttribute (s.GetItemByUID .DICOMUIDName rtReader.PatientId) a)
    ∧ (s.GetItemByUID .DICOMUIDName rtReader.StudyInstanceUid ≠ INVALID_ITEM_ID →
      (InsertSeriesInSubjectHierarchy env s rtReader).GetItemName
          (s.GetItemByUID .DICOMUIDName rtReader.StudyInstanceUid)
        = s.GetItemName (s.GetItemByUID .DICOMUIDName rtReader.StudyInstanceUid)
      ∧ ∀ a : AttributeName, a.IsStudyAttribute = true →
          (InsertSeriesInSubjectHierarchy env s rtReader).GetItemAttribute
              (s.GetItemByUID .DICOMUIDName rtReader.StudyInstanceUid) a
            = s.GetItemAttribute (s.GetItemByUID .DICOMUIDName rtReader.StudyInstanceUid) a) :=
  ⟨InsertSeriesInSubjectHierarchy_patient_kept env s rtReader,
    InsertSeriesInSubjectHierarchy_study_kept env s rtReader⟩

end InsertSeriesKeeps

/-- Witness of C15: in the scene with the dose series of patient `P1` and study `1.2` (patient
item 3, study item 4), the series insertion for a reader with other patient and study values
leaves the names and, for instance, the patient name and the study description as they
were. -/
theorem insertSeriesInSubjectHierarchy_keeps_existing_witness :
    sceneWithDose.GetItemByUID .DICOMUIDName renamedPatientReader.PatientId = 3
    ∧ sceneWithDose.GetItemByUID .DICOMUIDName renamedPatientReader.StudyInstanceUid = 4
    ∧ (InsertSeriesInSubjectHierarchy sampleEnv sceneWithDose renamedPatientReader).GetItemName 3
        = "No name"
    ∧ (InsertSeriesInSubjectHierarchy sampleEnv sceneWithDose renamedPatientReader).GetItemAttribute
        3 .DICOMPatientName = ""
    ∧ (InsertSeriesInSubjectHierarchy sampleEnv sceneWithDose renamedPatientReader).GetItemName 4
        = "No study description"
    ∧ (InsertSeriesInSubjectHierarchy sampleEnv sceneWithDose renamedPatientReader).GetItemAttribute
        4 .DICOMStudyDescription = "" := by
  have h := insertSeriesInSubjectHierarchy_keeps_existing sampleEnv sceneWithDose
    renamedPatientReader
  have hP : sceneWithDose.GetItemByUID .DICOMUIDName renamedPatientReader.PatientId = 3 := by
    decide
  have hS : sceneWithDose.GetItemByUID .DICOMUIDName renamedPatientReader.StudyInstanceUid = 4 := by
    decide
  have h1 := h.1 (by decide)
  have h2 := h.2 (by decide)
  rw [hP] at h1
  rw [hS] at h2
  refine ⟨hP, hS, ?_, ?_, ?_, ?_⟩
  · rw [h1.1]
    decide
  · rw [h1.2 .DICOMPatientName rfl]
    decide
  · rw [h2.1]
    decide
  · rw [h2.2 .DICOMStudyDescription rfl]
    decide

section PrefixLemmas

variable {R : Type}

/-- A change of an item behind a prefix of the items keeps the prefix. -/
theorem Scene.prefix_modifyItem (l : List (ShItem R)) (s : Scene R) (j : Nat)
    (f : ShItem R → ShItem R) (h : l <+: s.Items) (hj : l.length + 2 ≤ j) :
    l <+: (s.modifyItem j f).Items := by
  unfold Scene.modifyItem
  have h2 : ¬ j < 2 := by omega
  rw [if_neg h2]
  rw [List.isPrefix_iff] at h ⊢
  intro i hi
  show (s.Items.modify f (j - 2))[i]? = some l[i]
  rw [List.getElem?_modify]
  have hne : j - 2 ≠ i := by omega
  simp only [hne, if_false]
  rw [h i hi]
  rfl

theorem Scene.prefix_CreateItem (l : List (ShItem R)) (s : Scene R) (parent : Nat)
    (name : String) (node : Option (vtkMRMLNode R)) (h : l <+: s.Items) :
    l <+: (s.CreateItem parent name node).1.Items :=
  List.IsPrefix.trans h (List.prefix_append _ _)

theorem Scene.prefix_AddNode (l : List (ShItem R)) (s : Scene R) (name : String)
    (node : vtkMRMLNode R) (h : l <+: s.Items) : l <+: (s.AddNode name node).1.Items :=
  Scene.prefix_CreateItem l s _ name _ h

theorem Scene.prefix_SetIsocenterPosition (l : List (ShItem R)) (s : Scene R) (P : Nat)
    (c : R × R × R) (h : l <+: s.Items) (hP : l.length + 2 ≤ P) :
    l <+: (s.SetIsocenterPosition P c).1.Items := by
  unfold Scene.SetIsocenterPosition
  split
  · exact Scene.prefix_modifyItem l s P _ h hP
  · exact h

end PrefixLemmas

section PlanFailure

variable {R : Type} [CommRing R]

theorem prefix_createPlanItem (l : List (ShItem R)) (s : Scene R)
    (rtReader : vtkSlicerDicomRtReader R) (loadable : vtkSlicerDICOMLoadable R)
    (h : l <+: s.Items) : l <+: (createPlanItem s rtReader loadable).Items := by
  have hlen : l.length + 2 ≤ s.Items.length + 2 := Nat.add_le_add_right h.length_le 2
  unfold createPlanItem
  simp only [Scene.AddNode_id]
  exact Scene.prefix_modifyItem l _ _ _
    (Scene.prefix_modifyItem l _ _ _
      (Scene.prefix_modifyItem l _ _ _ (Scene.prefix_AddNode l s _ _ h) hlen) hlen) hlen

theorem prefix_addBeamNode (l : List (ShItem R)) (env : Env R) (s : Scene R) (P : Nat)
    (beamNode : vtkMRMLRTBeamNode R) (h : l <+: s.Items) :
    l <+: (addBeamNode env s P beamNode).Items := by
  have hlen : l.length + 2 ≤ s.Items.length + 2 := Nat.add_le_add_right h.length_le 2
  rw [addBeamNode_def]
  exact Scene.prefix_modifyItem l _ _ _
    (Scene.prefix_modifyItem l _ _ _ (Scene.prefix_AddNode l s _ _ h) hlen) hlen

theorem prefix_warnDifferentIsocenter (l : List (ShItem R)) (env : Env R) (s : Scene R)
    (c d : R × R × R) (h : l <+: s.Items) : l <+: (warnDifferentIsocenter env s c d).Items := by
  unfold warnDifferentIsocenter
  split_ifs
  · exact h
  · exact h

/-- One round of the beam loop keeps the items that are before the plan item. -/
theorem prefix_loadBeam (l : List (ShItem R)) (env : Env R)
    (rtReader : vtkSlicerDicomRtReader R) (P : Nat) (s : Scene R) (beamIndex : Nat)
    (h : l <+: s.Items) (hP : l.length + 2 ≤ P) :
    l <+: (loadBeam env rtReader P s beamIndex).1.Items := by
  unfold loadBeam
  split
  · exact h
  · split_ifs
    · exact Scene.prefix_SetIsocenterPosition l s P _ h hP
    · exact prefix_addBeamNode l env _ P _ (Scene.prefix_SetIsocenterPosition l s P _ h hP)
    · split
      · exact h
      · exact prefix_addBeamNode l env _ P _ (prefix_warnDifferentIsocenter l env s _ _ h)

/-- The beam loop keeps the items that are before the plan item. -/
theorem prefix_loadBeams (l : List (ShItem R)) (env : Env R)
    (rtReader : vtkSlicerDicomRtReader R) (P : Nat) (hP : l.length + 2 ≤ P) :
    ∀ (rounds beamIndex : Nat) (s : Scene R), l <+: s.Items →
      l <+: (loadBeams env rtReader P rounds beamIndex s).1.Items := by
  intro rounds
  induction rounds with
  | zero => intro beamIndex s h; exact h
  | succ rounds ih =>
    intro beamIndex s h
    unfold loadBeams
    split_ifs
    · exact prefix_loadBeam l env rtReader P s beamIndex h hP
    · exact ih _ _ (prefix_loadBeam l env rtReader P s beamIndex h hP)

theorem Scene.length_le_SetIsocenterPosition (s : Scene R) (P : Nat) (c : R × R × R) :
    s.Items.length ≤ (s.SetIsocenterPosition P c).1.Items.length := by
  unfold Scene.SetIsocenterPosition
  split <;> simp

/-- One round of the beam loop removes no item. -/
theorem length_le_loadBeam (env : Env R) (rtReader : vtkSlicerDicomRtReader R) (P : Nat)
    (s : Scene R) (beamIndex : Nat) :
    s.Items.length ≤ (loadBeam env rtReader P s beamIndex).1.Items.length := by
  have h := Scene.length_le_SetIsocenterPosition s P
  unfold loadBeam
  split
  · exact Nat.le_refl _
  · split_ifs
    · simpa using h _
    · rw [length_addBeamNode]
      exact Nat.le_succ_of_le (h _)
    · split
      · simp
      · rw [length_addBeamNode]
        simp

/-- The beam loop removes no item. -/
theorem length_le_loadBeams (env : Env R) (rtReader : vtkSlicerDicomRtReader R) (P : Nat) :
    ∀ (rounds beamIndex : Nat) (s : Scene R),
      s.Items.length ≤ (loadBeams env rtReader P rounds beamIndex s).1.Items.length := by
  intro rounds
  induction rounds with
  | zero => intro beamIndex s; exact Nat.le_refl _
  | succ rounds ih =>
    intro beamIndex s
    unfold loadBeams
    split_ifs
    · exact length_le_loadBeam env rtReader P s beamIndex
    · exact Nat.le_trans (length_le_loadBeam env rtReader P s beamIndex) (ih _ _)

theorem Items_fillPatientItem_of_absent (env : Env R) (s : Scene R)
    (rtReader : vtkSlicerDicomRtReader R)
    (h : s.GetItemByUID .DICOMUIDName rtReader.PatientId = INVALID_ITEM_ID) :
    (fillPatientItem env s rtReader).Items = s.Items := by
  simp [fillPatientItem, h, Scene.log]

theorem Items_fillStudyItem_of_absent (env : Env R) (s : Scene R)
    (rtReader : vtkSlicerDicomRtReader R)
    (h : s.GetItemByUID .DICOMUIDName rtReader.StudyInstanceUid = INVALID_ITEM_ID) :
    (fillStudyItem env s rtReader).Items = s.Items := by
  simp [fillStudyItem, h, Scene.log]

/-- A series insertion after which the study is not found has changed no item. -/
theorem Items_InsertSeriesInSubjectHierarchy_of_no_study (env : Env R) (s : Scene R)
    (rtReader : vtkSlicerDicomRtReader R)
    (h : (InsertSeriesInSubjectHierarchy env s rtReader).GetItemByUID .DICOMUIDName
      rtReader.StudyInstanceUid = INVALID_ITEM_ID) :
    (InsertSeriesInSubjectHierarchy env s rtReader).Items = s.Items := by
  have hfailed : rtReader.PatientId = "" ∨ rtReader.StudyInstanceUid = ""
      ∨ rtReader.SeriesInstanceUid = ""
      ∨ s.GetItemByUID .DICOMUIDName rtReader.SeriesInstanceUid = INVALID_ITEM_ID := by
    by_contra hc
    simp only [not_or] at hc
    exact InsertSeriesInSubjectHierarchy_study_found env s rtReader hc.1 hc.2.1 hc.2.2.1
      hc.2.2.2 h
  have hins : ∃ text : String,
      s.InsertDicomSeriesInHierarchy rtReader.PatientId rtReader.StudyInstanceUid
        rtReader.SeriesInstanceUid = (s.log .Error text, INVALID_ITEM_ID) := by
    unfold Scene.InsertDicomSeriesInHierarchy
    by_cases hc : rtReader.PatientId = "" ∨ rtReader.StudyInstanceUid = ""
        ∨ rtReader.SeriesInstanceUid = ""
    · rw [if_pos hc]
      exact ⟨_, rfl⟩
    · rw [if_neg hc]
      have hx : s.GetItemByUID .DICOMUIDName rtReader.SeriesInstanceUid = INVALID_ITEM_ID := by
        rcases hfailed with h1 | h1 | h1 | h1
        · exact absurd (Or.inl h1) hc
        · exact absurd (Or.inr (Or.inl h1)) hc
        · exact absurd (Or.inr (Or.inr h1)) hc
        · exact h1
      rw [if_pos hx]
      exact ⟨_, rfl⟩
  obtain ⟨text, htext⟩ := hins
  unfold InsertSeriesInSubjectHierarchy
  simp only [htext, ne_eq, not_true_eq_false, if_false]
  show (if s.GetItemByUID .DICOMUIDName rtReader.StudyInstanceUid = INVALID_ITEM_ID then _
    else _ : Scene R).Items = s.Items
  by_cases hp : s.GetItemByUID .DICOMUIDName rtReader.PatientId = INVALID_ITEM_ID
  · by_cases hs : s.GetItemByUID .DICOMUIDName rtReader.StudyInstanceUid = INVALID_ITEM_ID
    · simp only [hp, hs, if_true]
      rw [Items_fillStudyItem_of_absent, Items_fillPatientItem_of_absent]
      · rfl
      · exact hp
      · have e : (fillPatientItem env (s.log .Error text) rtReader).GetItemByUID .DICOMUIDName
            rtReader.StudyInstanceUid
            = s.GetItemByUID .DICOMUIDName rtReader.StudyInstanceUid :=
          Scene.GetItemByUID_congr _ s _ _ (fun i => by simp)
        rw [e]
        exact hs
    · simp only [hp, hs, if_true, if_false]
      rw [Items_fillPatientItem_of_absent]
      · rfl
      · exact hp
  · by_cases hs : s.GetItemByUID .DICOMUIDName rtReader.StudyInstanceUid = INVALID_ITEM_ID
    · simp only [hp, hs, if_true, if_false]
      rw [Items_fillStudyItem_of_absent]
      · rfl
      · exact hs
    · simp only [hp, hs, if_false]
      rfl

/-- A call of `LoadRtPlan` that returns failure leaves the items that were in the hierarchy
as they were, and the plan node it has added stays. -/
theorem LoadRtPlan_failure (env : Env R) (s : Scene R) (rtReader : vtkSlicerDicomRtReader R)
    (loadable : vtkSlicerDICOMLoadable R)
    (hfail : (LoadRtPlan env s rtReader loadable).2 = false) :
    s.Items <+: (LoadRtPlan env s rtReader loadable).1.Items
    ∧ s.Items.length < (LoadRtPlan env s rtReader loadable).1.Items.length := by
  have hcreate : s.Items <+: (createPlanItem s.StartState rtReader loadable).Items :=
    prefix_createPlanItem s.Items s.StartState rtReader loadable (List.prefix_refl _)
  have hbeams := prefix_loadBeams s.Items env rtReader (s.Items.length + 2) (Nat.le_refl _)
    rtReader.Beams.length 0 (createPlanItem s.StartState rtReader loadable) hcreate
  have hlen := length_le_loadBeams env rtReader (s.Items.length + 2) rtReader.Beams.length 0
    (createPlanItem s.StartState rtReader loadable)
  rw [length_createPlanItem] at hlen
  have hlen1 : s.Items.length
      < (loadBeams env rtReader (s.Items.length + 2) rtReader.Beams.length 0
          (createPlanItem s.StartState rtReader loadable)).1.Items.length :=
    Nat.lt_of_lt_of_le (Nat.lt_succ_self _) hlen
  unfold LoadRtPlan at hfail ⊢
  simp only [Scene.AddNode_id, Scene.length_StartState] at hfail ⊢
  split_ifs at hfail ⊢ with h1 h2
  · exact ⟨Scene.prefix_AddNode _ _ _ _ (List.prefix_refl _), by simp [Scene.log]⟩
  · exact ⟨hbeams, hlen1⟩
  · unfold placePlanUnderStudy at hfail ⊢
    split_ifs at hfail ⊢ with h3
    · have hitems := Items_InsertSeriesInSubjectHierarchy_of_no_study env _ rtReader h3
      refine ⟨?_, ?_⟩
      · show s.Items <+: (InsertSeriesInSubjectHierarchy env _ rtReader).Items
        rw [hitems]
        exact hbeams
      · show s.Items.length < (InsertSeriesInSubjectHierarchy env _ rtReader).Items.length
        rw [hitems]
        exact hlen1

/-- A call of `LoadRtDose` that returns failure leaves the items that were in the hierarchy
as they were. -/
theorem LoadRtDose_failure (env : Env R) (s : Scene R) (rtReader : vtkSlicerDicomRtReader R)
    (loadable : vtkSlicerDICOMLoadable R)
    (hfail : (LoadRtDose env s rtReader loadable).2 = false) :
    s.Items <+: (LoadRtDose env s rtReader loadable).1.Items := by
  unfold LoadRtDose at hfail ⊢
  cases hread : loadable.ReadData with
  | none => exact List.prefix_refl _
  | some data =>
    obtain ⟨ijkToRas, imageData⟩ := data
    simp only [hread] at hfail ⊢
    split_ifs at hfail ⊢ with hcolor
    all_goals
      exact Scene.prefix_modifyItem s.Items _ _ _
        (Scene.prefix_AddNode _ _ _ _ (List.prefix_refl _)) (Nat.le_refl _)

/-- C16, amended.  The loaders do not roll back.  When `LoadRtDose` fails because the dose
file cannot be read, nothing has been created: the items of the hierarchy are as before the
call.  On every input on which `LoadRtDose` or `LoadRtPlan` returns failure, the items that
were in the hierarchy before the call are unchanged and come first; the plan node added by a
failing `LoadRtPlan` stays in the scene. -/
theorem loaders_failure_keeps_existing_items (env : Env R) (s : Scene R)
    (rtReader : vtkSlicerDicomRtReader R) (loadable : vtkSlicerDICOMLoadable R) :
    (loadable.ReadData = none →
      (LoadRtDose env s rtReader loadable).2 = false
      ∧ (LoadRtDose env s rtReader loadable).1.Items = s.Items)
    ∧ ((LoadRtDose env s rtReader loadable).2 = false →
      s.Items <+: (LoadRtDose env s rtReader loadable).1.Items)
    ∧ ((LoadRtPlan env s rtReader loadable).2 = false →
      s.Items <+: (LoadRtPlan env s rtReader loadable).1.Items
      ∧ s.Items.length < (LoadRtPlan env s rtReader loadable).1.Items.length) := by
  refine ⟨?_, LoadRtDose_failure env s rtReader loadable, LoadRtPlan_failure env s rtReader loadable⟩
  intro hread
  simp [LoadRtDose, hread, Scene.log]

end PlanFailure

/-- C16, counterexample.  A plan whose patient id is empty is loaded into the empty scene:
`LoadRtPlan` returns failure, and the scene holds three items, the plan item with the series
UID of the plan and the items of the two beams.  A dose whose color tables cannot be created
is loaded into the empty scene: `LoadRtDose` returns failure, and the dose volume is in the
scene. -/
theorem loaders_failure_leaves_entities :
    (Scene.empty : Scene ℤ).Items.length = 0
    ∧ (LoadRtPlan sampleEnv Scene.empty noPatientPlanReader samplePlanLoadable).2 = false
    ∧ (LoadRtPlan sampleEnv Scene.empty noPatientPlanReader samplePlanLoadable).1.Items.length = 3
    ∧ (LoadRtPlan sampleEnv Scene.empty noPatientPlanReader samplePlanLoadable).1.GetItemUID 2
        .DICOMUIDName = "1.2.3"
    ∧ (LoadRtPlan sampleEnv Scene.empty noPatientPlanReader samplePlanLoadable).1.IsBeam 3 = true
    ∧ (LoadRtPlan sampleEnv Scene.empty noPatientPlanReader samplePlanLoadable).1.IsBeam 4 = true
    ∧ (LoadRtDose noColorTableEnv Scene.empty sampleDoseReader sampleDoseLoadable).2 = false
    ∧ (LoadRtDose noColorTableEnv Scene.empty sampleDoseReader sampleDoseLoadable).1.Items.length
        = 1
    ∧ (LoadRtDose noColorTableEnv Scene.empty sampleDoseReader
        sampleDoseLoadable).1.IsScalarVolume 2 = true := by
  decide

/-- Witness of the amended C16: the dose file that cannot be read leaves the three items of
the scene with a dose; the plan without patient id, loaded into the scene with one RT image,
fails and leaves the item of the image first, followed by what it created. -/
theorem loaders_failure_keeps_existing_items_witness :
    (LoadRtDose sampleEnv sceneWithDose laterDoseReader unreadableDoseLoadable).2 = false
    ∧ (LoadRtDose sampleEnv sceneWithDose laterDoseReader unreadableDoseLoadable).1.Items
        = sceneWithDose.Items
    ∧ sceneWithUnrelatedImage.Items
        <+: (LoadRtPlan sampleEnv sceneWithUnrelatedImage noPatientPlanReader
              samplePlanLoadable).1.Items
    ∧ sceneWithUnrelatedImage.Items.length
        < (LoadRtPlan sampleEnv sceneWithUnrelatedImage noPatientPlanReader
            samplePlanLoadable).1.Items.length :=
  ⟨((loaders_failure_keeps_existing_items sampleEnv sceneWithDose laterDoseReader
      unreadableDoseLoadable).1 rfl).1,
   ((loaders_failure_keeps_existing_items sampleEnv sceneWithDose laterDoseReader
      unreadableDoseLoadable).1 rfl).2,
   ((loaders_failure_keeps_existing_items sampleEnv sceneWithUnrelatedImage noPatientPlanReader
      samplePlanLoadable).2.2 (by decide)).1,
   ((loaders_failure_keeps_existing_items sampleEnv sceneWithUnrelatedImage noPatientPlanReader
      samplePlanLoadable).2.2 (by decide)).2⟩

section DeferredGeometry

variable {R : Type} [CommRing R]

/-- A scene that differs by a logged message has the same matrices. -/
theorem Scene.GetIJKToRASMatrix_log (s : Scene R) (sev : Severity) (text : String) (i : Nat) :
    (s.log sev text).GetIJKToRASMatrix i = s.GetIJKToRASMatrix i := rfl

/-- C17. `SetupRtImageGeometry` called with an RT image volume whose referenced plan is not
found in the hierarchy creates no item and no model node and leaves the `IJKToRAS` matrix of
the image as it is.  Called with a beam for which no RT image of the scene matches (a volume
with the RT image marker that references the plan of the beam and names the number of the
beam, or any beam number when the plan has one child), it creates no item and no model node
and leaves every `IJKToRAS` matrix as it is. -/
theorem setupRtImageGeometry_deferred (env : Env R) (s : Scene R) (node : Nat) :
    (s.IsScalarVolume node = true →
      s.GetItemByUID .DICOMInstanceUIDName
          (s.GetItemAttribute node .DICOMReferencedInstanceUIDs) = INVALID_ITEM_ID →
      (SetupRtImageGeometry env s node).Items = s.Items
      ∧ (SetupRtImageGeometry env s node).ModelNodes = s.ModelNodes
      ∧ (SetupRtImageGeometry env s node).GetIJKToRASMatrix node = s.GetIJKToRASMatrix node)
    ∧ (s.IsScalarVolume node = false → s.IsBeam node = true →
      (∀ i ∈ s.GetItemChildren,
        ¬ (s.IsScalarVolume i = true
          ∧ s.GetItemAttribute i .DICOMRTIMPORT_RTIMAGE_IDENTIFIER ≠ ""
          ∧ s.GetParentPlanItem node ∈ s.GetItemsReferencedFromItemByDICOM env i
          ∧ (env.ToInt (s.GetItemAttribute i .DICOMRTIMPORT_BEAM_NUMBER) = s.GetBeamNumber node
              ∨ s.GetNumberOfItemChildren (s.GetParentPlanItem node) = 1))) →
      (SetupRtImageGeometry env s node).Items = s.Items
      ∧ (SetupRtImageGeometry env s node).ModelNodes = s.ModelNodes
      ∧ ∀ i : Nat,
          (SetupRtImageGeometry env s node).GetIJKToRASMatrix i = s.GetIJKToRASMatrix i) := by
  refine ⟨?_, ?_⟩
  · intro hv hplan
    have h : ∃ (sev : Severity) (text : String),
        SetupRtImageGeometry env s node = s.log sev text := by
      unfold SetupRtImageGeometry
      rw [if_pos hv]
      split_ifs
      · exact ⟨_, _, rfl⟩
      · exact ⟨_, _, rfl⟩
    obtain ⟨sev, text, h⟩ := h
    rw [h]
    exact ⟨rfl, rfl, rfl⟩
  · intro hv hb hno
    have hsearch := searchRtImageForBeam_none env s (s.GetParentPlanItem node)
      (s.GetBeamNumber node) (decide (s.GetNumberOfItemChildren (s.GetParentPlanItem node) = 1))
      s.GetItemChildren (by
        intro i hi hmatch
        refine hno i hi ⟨hmatch.1, hmatch.2.1, hmatch.2.2.1, ?_⟩
        rcases hmatch.2.2.2 with h | h
        · exact Or.inl h
        · exact Or.inr (of_decide_eq_true h))
    have h : ∃ (sev : Severity) (text : String),
        SetupRtImageGeometry env s node = s.log sev text := by
      unfold SetupRtImageGeometry
      have hv2 : ¬ (s.IsScalarVolume node = true) := by simp [hv]
      rw [if_neg hv2, if_pos hb, hsearch]
      split_ifs
      · exact ⟨_, _, rfl⟩
      · exact ⟨_, _, rfl⟩
      · exact ⟨_, _, rfl⟩
    obtain ⟨sev, text, h⟩ := h
    rw [h]
    exact ⟨rfl, rfl, fun _ => rfl⟩

end DeferredGeometry

/-- Witness of C17: the RT image of item 2 references the plan instance `1.2.8.1`, which is not
in the scene; the beam of item 3 belongs to a plan that no RT image references. -/
theorem setupRtImageGeometry_deferred_witness :
    ((SetupRtImageGeometry sampleEnv sceneWithUnrelatedImage 2).Items
        = sceneWithUnrelatedImage.Items
      ∧ (SetupRtImageGeometry sampleEnv sceneWithUnrelatedImage 2).ModelNodes
        = sceneWithUnrelatedImage.ModelNodes
      ∧ (SetupRtImageGeometry sampleEnv sceneWithUnrelatedImage 2).GetIJKToRASMatrix 2
        = sceneWithUnrelatedImage.GetIJKToRASMatrix 2)
    ∧ ((SetupRtImageGeometry sampleEnv sceneWithPlan 3).Items = sceneWithPlan.Items
      ∧ (SetupRtImageGeometry sampleEnv sceneWithPlan 3).ModelNodes = sceneWithPlan.ModelNodes
      ∧ ∀ i : Nat, (SetupRtImageGeometry sampleEnv sceneWithPlan 3).GetIJKToRASMatrix i
          = sceneWithPlan.GetIJKToRASMatrix i) :=
  ⟨(setupRtImageGeometry_deferred sampleEnv sceneWithUnrelatedImage 2).1 (by decide) (by decide),
   (setupRtImageGeometry_deferred sampleEnv sceneWithPlan 3).2 (by decide) (by decide)
    (by decide)⟩

/-- C20, counterexample.  A structure set with a single-point ROI and a three-point ROI is
loaded into the empty scene, in which no UID is repeated.  The folder item of the fiducials
(item 2) and the item of the segmentation (item 4) both carry the series instance UID `1.2.8`,
so the UIDs of the DICOM UID namespace are no longer unique. -/
theorem loadRtStructureSet_repeats_series_uid :
    (Scene.empty : Scene ℤ).UniqueDicomUIDs
    ∧ (LoadRtStructureSet sampleEnv Scene.empty mixedStructureSetReader
        sampleStructureSetLoadable).2 = true
    ∧ (LoadRtStructureSet sampleEnv Scene.empty mixedStructureSetReader
        sampleStructureSetLoadable).1.GetItemUID 2 .DICOMUIDName = "1.2.8"
    ∧ (LoadRtStructureSet sampleEnv Scene.empty mixedStructureSetReader
        sampleStructureSetLoadable).1.GetItemUID 4 .DICOMUIDName = "1.2.8"
    ∧ ¬ (LoadRtStructureSet sampleEnv Scene.empty mixedStructureSetReader
        sampleStructureSetLoadable).1.UniqueDicomUIDs := by
  with_unfolding_all decide

section ExportTheorems

variable {R : Type} [LinearOrderedCommRing R]

/-- The slice loop records at most one entry per round. -/
theorem cutSlices_length_le (xenv : ExportEnv R) (M : Matrix4x4 R) (normal : R × R × R)
    (bounds : Fin 6 → R) (imageExtent : Fin 6 → Int) (imageSliceUIDs : List String)
    (surface : vtkPolyData R) :
    ∀ (rounds : Nat) (slice : Int) (contours : SliceContours R),
      (cutSlices xenv M normal bounds imageExtent imageSliceUIDs surface rounds slice
        contours).sliceNumbers.length ≤ contours.sliceNumbers.length + rounds := by
  intro rounds
  induction rounds with
  | zero => intro slice contours; exact Nat.le_refl _
  | succ rounds ih =>
    intro slice contours
    unfold cutSlices
    split_ifs
    all_goals
      refine Nat.le_trans (ih _ _) ?_
      first
        | omega
        | (simp only [List.length_append, List.length_singleton]
           omega)

/-- The closed surface path records fewer contour entries for a segment than the reference
volume has slices: at most `zmax - zmin` for the slice indices `zmin` to `zmax`. -/
theorem exportClosedSurfaceSegment_entries (xenv : ExportEnv R) (segmentationShItemID : Nat)
    (imageOrientedImageData : vtkOrientedImageData R) (imageSliceUIDs : List String)
    (rtWriter : vtkSlicerDicomRtWriter R) (segment : vtkSegment R)
    (closedSurfacePolyData : vtkPolyData R)
    (hsurface : xenv.GetClosedSurfaceRepresentation segment = some closedSurfacePolyData) :
    ∃ (sliceNumbers : List Int) (sliceUIDs : List String) (sliceContours : List (vtkPolyData R)),
      exportClosedSurfaceSegment xenv segmentationShItemID imageOrientedImageData imageSliceUIDs
          rtWriter segment
        = .ok { rtWriter with
                Structures :=
                  rtWriter.Structures ++
                    [.Contours segment.Name segment.Color sliceNumbers sliceUIDs sliceContours] }
      ∧ sliceNumbers.length
          ≤ (imageOrientedImageData.Extent 5 - imageOrientedImageData.Extent 4).toNat := by
  have h := cutSlices_length_le xenv imageOrientedImageData.ImageToWorldMatrix
    (imageOrientedImageData.ImageToWorldMatrix 0 2, imageOrientedImageData.ImageToWorldMatrix 1 2,
      imageOrientedImageData.ImageToWorldMatrix 2 2)
    (xenv.GetBounds (xenv.TransformPolyData segmentationShItemID closedSurfacePolyData))
    imageOrientedImageData.Extent imageSliceUIDs
    (xenv.TransformPolyData segmentationShItemID closedSurfacePolyData)
    (imageOrientedImageData.Extent 5 - imageOrientedImageData.Extent 4).toNat
    (imageOrientedImageData.Extent 4) ⟨[], [], []⟩
  obtain ⟨contours, hcontours⟩ : ∃ contours : SliceContours R,
      cutSlices xenv imageOrientedImageData.ImageToWorldMatrix
        (imageOrientedImageData.ImageToWorldMatrix 0 2,
          imageOrientedImageData.ImageToWorldMatrix 1 2,
          imageOrientedImageData.ImageToWorldMatrix 2 2)
        (xenv.GetBounds (xenv.TransformPolyData segmentationShItemID closedSurfacePolyData))
        imageOrientedImageData.Extent imageSliceUIDs
        (xenv.TransformPolyData segmentationShItemID closedSurfacePolyData)
        (imageOrientedImageData.Extent 5 - imageOrientedImageData.Extent 4).toNat
        (imageOrientedImageData.Extent 4) ⟨[], [], []⟩ = contours := ⟨_, rfl⟩
  rw [hcontours] at h
  refine ⟨contours.sliceNumbers, contours.sliceUIDs, contours.sliceContours, ?_,
    by simpa using h⟩
  unfold exportClosedSurfaceSegment
  rw [hsurface]
  simp only [hcontours]

end ExportTheorems

/-- C18, evaluation at the failing input.  The reference volume has the slice indices 0 to 2,
its slice origins have the heights 0, 1 and 2, and the bounding box of the segment reaches
from -10 to 10: every cutting plane lies within it.  The export succeeds and records two
contour entries for the segment, for the slices 0 and 1; the last slice, 2, is not cut. -/
theorem exportDicomRTStudy_skips_last_slice :
    (∀ slice ∈ [(0 : ℤ), 1, 2], (-10 : ℤ) ≤ 0 + slice * 1 ∧ 0 + slice * 1 ≤ 10)
    ∧ ExportDicomRTStudy sampleEnv sampleExportEnv exportScene sampleExportables
      = ("", some ⟨some ⟨(2, 2, 3)⟩, none,
          [.Contours "organ" (0, 1, 0) [0, 1] ["", ""] [[(0, 0, 0)], [(0, 0, 1)]]], "out"⟩) := by
  decide

section ExportErrors

variable {R : Type}

/-- A text that starts with a non-empty text is not empty. -/
theorem append_ne_empty (a b : String) (h : a ≠ "") : a ++ b ≠ "" := by
  intro e
  apply h
  rw [String.ext_iff] at e ⊢
  rw [String.data_append] at e
  exact (List.append_eq_nil.1 e).1

/-- An image that is not empty is there. -/
theorem isSome_of_isEmptyPlmImage (image : Option Plm_image)
    (h : isEmptyPlmImage image = false) : image.isSome = true := by
  cases image with
  | none => simp [isEmptyPlmImage] at h
  | some image => rfl

theorem exportLabelmapSegment_error (xenv : ExportEnv R) (segmentationShItemID : Nat)
    (imageOrientedImageData : vtkOrientedImageData R) (rtWriter : vtkSlicerDicomRtWriter R)
    (segment : vtkSegment R) (error : String)
    (h : exportLabelmapSegment xenv segmentationShItemID imageOrientedImageData rtWriter segment
      = .error error) : error ≠ "" := by
  unfold exportLabelmapSegment at h
  split at h
  · injection h with h
    rw [← h]
    exact append_ne_empty _ _ (by decide)
  · split at h
    · injection h with h
      rw [← h]
      decide
    · split at h
      · injection h with h
        rw [← h, String.append_assoc]
        exact append_ne_empty _ _ (by decide)
      · split at h
        · injection h with h
          rw [← h, String.append_assoc]
          exact append_ne_empty _ _ (by decide)
        · cases h

theorem exportLabelmapSegment_ok (xenv : ExportEnv R) (segmentationShItemID : Nat)
    (imageOrientedImageData : vtkOrientedImageData R) (rtWriter rtWriter2 : vtkSlicerDicomRtWriter R)
    (segment : vtkSegment R)
    (h : exportLabelmapSegment xenv segmentationShItemID imageOrientedImageData rtWriter segment
      = .ok rtWriter2) :
    rtWriter2.Image = rtWriter.Image ∧ rtWriter2.Dose = rtWriter.Dose
      ∧ rtWriter2.FileName = rtWriter.FileName
      ∧ rtWriter2.Structures.length = rtWriter.Structures.length + 1 := by
  unfold exportLabelmapSegment at h
  split at h
  · cases h
  · split at h
    · cases h
    · split at h
      · cases h
      · split at h
        · cases h
        · injection h with h
          subst h
          exact ⟨rfl, rfl, rfl, by simp⟩

theorem exportSegments_error
    (body : vtkSlicerDicomRtWriter R → vtkSegment R → Except String (vtkSlicerDicomRtWriter R))
    (hbody : ∀ rtWriter segment error, body rtWriter segment = .error error → error ≠ "") :
    ∀ (segments : List (vtkSegment R)) (rtWriter : vtkSlicerDicomRtWriter R) (error : String),
      exportSegments body segments rtWriter = .error error → error ≠ "" := by
  intro segments
  induction segments with
  | nil => intro rtWriter error h; cases h
  | cons segment rest ih =>
    intro rtWriter error h
    unfold exportSegments at h
    cases hb : body rtWriter segment with
    | error e =>
      rw [hb] at h
      injection h with h
      rw [← h]
      exact hbody _ _ _ hb
    | ok rtWriter2 =>
      rw [hb] at h
      exact ih _ _ h

theorem exportSegments_ok
    (body : vtkSlicerDicomRtWriter R → vtkSegment R → Except String (vtkSlicerDicomRtWriter R))
    (hbody : ∀ rtWriter segment rtWriter2, body rtWriter segment = .ok rtWriter2 →
      rtWriter2.Image = rtWriter.Image ∧ rtWriter2.Dose = rtWriter.Dose
        ∧ rtWriter2.FileName = rtWriter.FileName
        ∧ rtWriter2.Structures.length = rtWriter.Structures.length + 1) :
    ∀ (segments : List (vtkSegment R)) (rtWriter rtWriter2 : vtkSlicerDicomRtWriter R),
      exportSegments body segments rtWriter = .ok rtWriter2 →
      rtWriter2.Image = rtWriter.Image ∧ rtWriter2.Dose = rtWriter.Dose
        ∧ rtWriter2.FileName = rtWriter.FileName
        ∧ rtWriter2.Structures.length = rtWriter.Structures.length + segments.length := by
  intro segments
  induction segments with
  | nil =>
    intro rtWriter rtWriter2 h
    unfold exportSegments at h
    injection h with h
    subst h
    exact ⟨rfl, rfl, rfl, rfl⟩
  | cons segment rest ih =>
    intro rtWriter rtWriter2 h
    unfold exportSegments at h
    cases hb : body rtWriter segment with
    | error e =>
      rw [hb] at h
      cases h
    | ok rtWriter1 =>
      rw [hb] at h
      obtain ⟨h1, h2, h3, h4⟩ := hbody _ _ _ hb
      obtain ⟨k1, k2, k3, k4⟩ := ih _ _ h
      refine ⟨k1.trans h1, k2.trans h2, k3.trans h3, ?_⟩
      rw [k4, h4, List.length_cons]
      omega

end ExportErrors

section ExportErrors2

variable {R : Type} [LinearOrderedCommRing R]

theorem exportDose_error (xenv : ExportEnv R) (doseNode : vtkMRMLScalarVolumeNode R)
    (doseName : String) (rtWriter : vtkSlicerDicomRtWriter R) (error : String)
    (h : exportDose xenv doseNode doseName rtWriter = .error error) : error ≠ "" := by
  unfold exportDose at h
  split at h
  · injection h with h
    rw [← h, String.append_assoc]
    exact append_ne_empty _ _ (by decide)
  · split_ifs at h
    injection h with h
    rw [← h]
    decide

theorem exportDose_ok (xenv : ExportEnv R) (doseNode : vtkMRMLScalarVolumeNode R)
    (doseName : String) (rtWriter rtWriter2 : vtkSlicerDicomRtWriter R)
    (h : exportDose xenv doseNode doseName rtWriter = .ok rtWriter2) :
    rtWriter2.Image = rtWriter.Image ∧ rtWriter2.Structures = rtWriter.Structures
      ∧ rtWriter2.FileName = rtWriter.FileName ∧ isEmptyPlmImage rtWriter2.Dose = false
      ∧ ∃ doseOrientedImageData,
          xenv.ConvertVolumeNodeToVtkOrientedImageData doseNode = some doseOrientedImageData := by
  unfold exportDose at h
  split at h
  · cases h
  · rename_i doseOrientedImageData hconv
    split_ifs at h with hempty
    injection h with h
    subst h
    exact ⟨rfl, rfl, rfl, by simpa using hempty, _, hconv⟩

theorem exportClosedSurfaceSegment_error (xenv : ExportEnv R) (segmentationShItemID : Nat)
    (imageOrientedImageData : vtkOrientedImageData R) (imageSliceUIDs : List String)
    (rtWriter : vtkSlicerDicomRtWriter R) (segment : vtkSegment R) (error : String)
    (h : exportClosedSurfaceSegment xenv segmentationShItemID imageOrientedImageData
      imageSliceUIDs rtWriter segment = .error error) : error ≠ "" := by
  unfold exportClosedSurfaceSegment at h
  split at h
  · injection h with h
    rw [← h]
    exact append_ne_empty _ _ (by decide)
  · cases h

theorem exportClosedSurfaceSegment_ok (xenv : ExportEnv R) (segmentationShItemID : Nat)
    (imageOrientedImageData : vtkOrientedImageData R) (imageSliceUIDs : List String)
    (rtWriter rtWriter2 : vtkSlicerDicomRtWriter R) (segment : vtkSegment R)
    (h : exportClosedSurfaceSegment xenv segmentationShItemID imageOrientedImageData
      imageSliceUIDs rtWriter segment = .ok rtWriter2) :
    rtWriter2.Image = rtWriter.Image ∧ rtWriter2.Dose = rtWriter.Dose
      ∧ rtWriter2.FileName = rtWriter.FileName
      ∧ rtWriter2.Structures.length = rtWriter.Structures.length + 1 := by
  unfold exportClosedSurfaceSegment at h
  split at h
  · cases h
  · injection h with h
    subst h
    exact ⟨rfl, rfl, rfl, by simp⟩

theorem exportSegmentation_error (xenv : ExportEnv R) (segmentationShItemID : Nat)
    (segments : List (vtkSegment R)) (segmentationName : String)
    (imageOrientedImageData : vtkOrientedImageData R) (imageSliceUIDs : List String)
    (rtWriter : vtkSlicerDicomRtWriter R) (error : String)
    (h : exportSegmentation xenv segmentationShItemID segments segmentationName
      imageOrientedImageData imageSliceUIDs rtWriter = .error error) : error ≠ "" := by
  unfold exportSegmentation at h
  split_ifs at h
  · injection h with h
    rw [← h]
    exact append_ne_empty _ _ (by decide)
  · exact exportSegments_error _ (exportLabelmapSegment_error xenv _ _) _ _ _ h
  · injection h with h
    rw [← h]
    exact append_ne_empty _ _ (by decide)
  · exact exportSegments_error _ (exportClosedSurfaceSegment_error xenv _ _ _) _ _ _ h
  · injection h with h
    rw [← h]
    decide

theorem exportSegmentation_ok (xenv : ExportEnv R) (segmentationShItemID : Nat)
    (segments : List (vtkSegment R)) (segmentationName : String)
    (imageOrientedImageData : vtkOrientedImageData R) (imageSliceUIDs : List String)
    (rtWriter rtWriter2 : vtkSlicerDicomRtWriter R)
    (h : exportSegmentation xenv segmentationShItemID segments segmentationName
      imageOrientedImageData imageSliceUIDs rtWriter = .ok rtWriter2) :
    rtWriter2.Image = rtWriter.Image ∧ rtWriter2.Dose = rtWriter.Dose
      ∧ rtWriter2.FileName = rtWriter.FileName
      ∧ rtWriter2.Structures.length = rtWriter.Structures.length + segments.length
      ∧ ((xenv.IsMasterRepresentationImageData segmentationShItemID = true
            ∧ xenv.CreateBinaryLabelmapRepresentation segmentationShItemID = true)
          ∨ (xenv.IsMasterRepresentationPolyData segmentationShItemID = true
            ∧ xenv.CreateClosedSurfaceRepresentation segmentationShItemID = true)) := by
  unfold exportSegmentation at h
  split_ifs at h with h1 h2 h3 h4
  · obtain ⟨k1, k2, k3, k4⟩ :=
      exportSegments_ok _ (fun w seg w2 hw => exportLabelmapSegment_ok xenv _ _ w w2 seg hw) _ _ _ h
    exact ⟨k1, k2, k3, k4, Or.inl ⟨h1, by simpa using h2⟩⟩
  · obtain ⟨k1, k2, k3, k4⟩ :=
      exportSegments_ok _ (fun w seg w2 hw => exportClosedSurfaceSegment_ok xenv _ _ _ w w2 seg hw) _ _ _ h
    exact ⟨k1, k2, k3, k4, Or.inr ⟨h3, by simpa using h4⟩⟩

end ExportErrors2

section ExportRoleLemmas

variable {R : Type}

/-- An exportable without the anatomical image role leaves the image role as it is. -/
theorem assignRole_imageNode (env : Env R) (s : Scene R) (roles : ExportRoles R)
    (exportable : vtkSlicerDICOMExportable)
    (h : IsAnatomicalImageExportable s exportable = false) :
    (assignRole env s roles exportable).imageNode = roles.imageNode := by
  unfold IsAnatomicalImageExportable at h
  unfold assignRole
  split_ifs at h ⊢ with hid
  · rfl
  · cases hnode : s.GetItemDataNode exportable.SubjectHierarchyItemID with
    | none => rfl
    | some node =>
      cases node with
      | ScalarVolumeNode volume =>
        rw [hnode] at h
        have hdose : volume.DoseVolumeIdentifier = true := by simpa using h
        simp [hdose]
      | RTPlanNode c => rfl
      | RTBeamNode beam => rfl
      | MarkupsFiducialNode a b c => rfl
      | SegmentationNode segments display => rfl
      | OtherNode => rfl

/-- The loop over the exportables finds no anatomical image when no exportable has the
role. -/
theorem foldl_assignRole_imageNode (env : Env R) (s : Scene R) :
    ∀ (exportables : List vtkSlicerDICOMExportable) (roles : ExportRoles R),
      (∀ exportable ∈ exportables, IsAnatomicalImageExportable s exportable = false) →
      (exportables.foldl (assignRole env s) roles).imageNode = roles.imageNode := by
  intro exportables
  induction exportables with
  | nil => intro roles _; rfl
  | cons exportable rest ih =>
    intro roles h
    rw [List.foldl_cons, ih _ (fun e he => h e (List.mem_cons_of_mem _ he)),
      assignRole_imageNode env s roles exportable (h exportable (List.mem_cons_self _ _))]

end ExportRoleLemmas

section ExportResult

variable {R : Type} [LinearOrderedCommRing R]

theorem exportDoseRole_error (xenv : ExportEnv R) (s : Scene R) (roles : ExportRoles R)
    (rtWriter : vtkSlicerDicomRtWriter R) (error : String)
    (h : exportDoseRole xenv s roles rtWriter = .error error) : error ≠ "" := by
  unfold exportDoseRole at h
  split at h
  · exact exportDose_error xenv _ _ _ _ h
  · cases h

theorem exportDoseRole_ok (xenv : ExportEnv R) (s : Scene R) (roles : ExportRoles R)
    (rtWriter rtWriter2 : vtkSlicerDicomRtWriter R)
    (h : exportDoseRole xenv s roles rtWriter = .ok rtWriter2) :
    rtWriter2.Image = rtWriter.Image ∧ rtWriter2.Structures = rtWriter.Structures
      ∧ rtWriter2.FileName = rtWriter.FileName
      ∧ ∀ doseShItemID doseNode, roles.doseNode = some (doseShItemID, doseNode) →
          isEmptyPlmImage rtWriter2.Dose = false
          ∧ ∃ doseOrientedImageData,
              xenv.ConvertVolumeNodeToVtkOrientedImageData doseNode
                = some doseOrientedImageData := by
  unfold exportDoseRole at h
  split at h
  · rename_i doseShItemID doseNode hd
    obtain ⟨k1, k2, k3, k4, k5⟩ := exportDose_ok xenv _ _ _ _ h
    refine ⟨k1, k2, k3, fun a b hab => ?_⟩
    rw [hd] at hab
    injection hab with hab
    injection hab with ha hb
    subst hb
    exact ⟨k4, k5⟩
  · rename_i hd
    injection h with h
    subst h
    refine ⟨rfl, rfl, rfl, fun a b hab => ?_⟩
    rw [hd] at hab
    cases hab

theorem exportSegmentationRole_error (xenv : ExportEnv R) (s : Scene R) (roles : ExportRoles R)
    (imageOrientedImageData : vtkOrientedImageData R) (rtWriter : vtkSlicerDicomRtWriter R)
    (error : String)
    (h : exportSegmentationRole xenv s roles imageOrientedImageData rtWriter = .error error) :
    error ≠ "" := by
  unfold exportSegmentationRole at h
  split at h
  · exact exportSegmentation_error xenv _ _ _ _ _ _ _ h
  · cases h

theorem exportSegmentationRole_ok (xenv : ExportEnv R) (s : Scene R) (roles : ExportRoles R)
    (imageOrientedImageData : vtkOrientedImageData R)
    (rtWriter rtWriter2 : vtkSlicerDicomRtWriter R)
    (h : exportSegmentationRole xenv s roles imageOrientedImageData rtWriter = .ok rtWriter2) :
    rtWriter2.Image = rtWriter.Image ∧ rtWriter2.Dose = rtWriter.Dose
      ∧ rtWriter2.FileName = rtWriter.FileName
      ∧ ∀ segmentationShItemID segments,
          roles.segmentationNode = some (segmentationShItemID, segments) →
          rtWriter2.Structures.length = rtWriter.Structures.length + segments.length
          ∧ ((xenv.IsMasterRepresentationImageData segmentationShItemID = true
                ∧ xenv.CreateBinaryLabelmapRepresentation segmentationShItemID = true)
              ∨ (xenv.IsMasterRepresentationPolyData segmentationShItemID = true
                ∧ xenv.CreateClosedSurfaceRepresentation segmentationShItemID = true)) := by
  unfold exportSegmentationRole at h
  split at h
  · rename_i segmentationShItemID segments hs
    obtain ⟨k1, k2, k3, k4, k5⟩ := exportSegmentation_ok xenv _ _ _ _ _ _ _ h
    refine ⟨k1, k2, k3, fun a b hab => ?_⟩
    rw [hs] at hab
    injection hab with hab
    injection hab with ha hb
    subst ha
    subst hb
    exact ⟨k4, k5⟩
  · rename_i hs
    injection h with h
    subst h
    refine ⟨rfl, rfl, rfl, fun a b hab => ?_⟩
    rw [hs] at hab
    cases hab

/-- The conversions of the export: the writer is called exactly when no error is returned,
and then the anatomical image was converted to a non-empty image, the dose volume, when
there is one, as well, and the segmentation, when there is one, has a supported master
representation and gave one structure per segment. -/
theorem exportRoles_spec (xenv : ExportEnv R) (s : Scene R) (roles : ExportRoles R)
    (imageShItemID : Nat) (imageNode : vtkMRMLScalarVolumeNode R) (outputPath : String) :
    ((exportRoles xenv s roles imageShItemID imageNode outputPath).1 ≠ "" →
      (exportRoles xenv s roles imageShItemID imageNode outputPath).2 = none)
    ∧ ((exportRoles xenv s roles imageShItemID imageNode outputPath).1 = "" →
      ∃ (rtWriter : vtkSlicerDicomRtWriter R) (converted : vtkOrientedImageData R),
        (exportRoles xenv s roles imageShItemID imageNode outputPath).2 = some rtWriter
        ∧ rtWriter.FileName = outputPath
        ∧ xenv.ConvertVolumeNodeToVtkOrientedImageData imageNode = some converted
        ∧ rtWriter.Image
            = xenv.ConvertVtkOrientedImageDataToPlmImage (resampleIfSheared xenv converted)
        ∧ isEmptyPlmImage rtWriter.Image = false
        ∧ (∀ doseShItemID doseNode, roles.doseNode = some (doseShItemID, doseNode) →
            isEmptyPlmImage rtWriter.Dose = false
            ∧ ∃ doseOrientedImageData,
                xenv.ConvertVolumeNodeToVtkOrientedImageData doseNode
                  = some doseOrientedImageData)
        ∧ (∀ segmentationShItemID segments,
            roles.segmentationNode = some (segmentationShItemID, segments) →
            rtWriter.Structures.length = segments.length
            ∧ ((xenv.IsMasterRepresentationImageData segmentationShItemID = true
                  ∧ xenv.CreateBinaryLabelmapRepresentation segmentationShItemID = true)
                ∨ (xenv.IsMasterRepresentationPolyData segmentationShItemID = true
                  ∧ xenv.CreateClosedSurfaceRepresentation segmentationShItemID = true)))) := by
  have e1 : "Failed to convert anatomical image " ++ s.GetItemName imageShItemID
      ++ " to oriented image data" ≠ "" := by
    rw [String.append_assoc]
    exact append_ne_empty _ _ (by decide)
  have e2 : "Failed to convert anatomical (CT/MR) image to Plastimatch format" ≠ "" := by decide
  unfold exportRoles
  cases hconv : xenv.ConvertVolumeNodeToVtkOrientedImageData imageNode with
  | none => exact ⟨fun _ => rfl, fun h => absurd h e1⟩
  | some converted =>
    simp only []
    by_cases hempty : isEmptyPlmImage
        (xenv.ConvertVtkOrientedImageDataToPlmImage (resampleIfSheared xenv converted)) = true
    · rw [if_pos hempty]
      exact ⟨fun _ => rfl, fun h => absurd h e2⟩
    · rw [if_neg hempty]
      have hempty2 : isEmptyPlmImage
          (xenv.ConvertVtkOrientedImageDataToPlmImage (resampleIfSheared xenv converted))
            = false := by simpa using hempty
      cases hd : exportDoseRole xenv s roles
          ⟨xenv.ConvertVtkOrientedImageDataToPlmImage (resampleIfSheared xenv converted), none, [],
            ""⟩ with
      | error error =>
        exact ⟨fun _ => rfl, fun h => absurd h (exportDoseRole_error xenv s roles _ _ hd)⟩
      | ok rtWriter1 =>
        obtain ⟨d1, d2, d3, d4⟩ := exportDoseRole_ok xenv s roles _ _ hd
        simp only []
        cases hs : exportSegmentationRole xenv s roles (resampleIfSheared xenv converted)
            rtWriter1 with
        | error error =>
          exact ⟨fun _ => rfl,
            fun h => absurd h (exportSegmentationRole_error xenv s roles _ _ _ hs)⟩
        | ok rtWriter2 =>
          obtain ⟨k1, k2, k3, k4⟩ := exportSegmentationRole_ok xenv s roles _ _ _ hs
          refine ⟨fun h => absurd rfl h,
            fun _ => ⟨_, converted, rfl, rfl, rfl, ?_, ?_, ?_, ?_⟩⟩
          · exact k1.trans d1
          · show isEmptyPlmImage rtWriter2.Image = false
            rw [k1, d1]
            exact hempty2
          · intro a b hab
            show isEmptyPlmImage rtWriter2.Dose = false ∧ _
            rw [k2]
            exact d4 a b hab
          · intro a b hab
            obtain ⟨m1, m2⟩ := k4 a b hab
            refine ⟨?_, m2⟩
            show rtWriter2.Structures.length = _
            rw [m1, d2]
            simp

end ExportResult

section ExportClaim

variable {R : Type} [LinearOrderedCommRing R]

/-- C19. `ExportDicomRTStudy` returns a non-empty error string without calling the writer when
the exportable list is empty, and when no exportable has the anatomical image role (its
item holds a scalar volume that is not a dose volume), whatever dose volumes and
segmentations the list holds.  The writer is called only when the error string is empty.
When the error string is empty, an exportable had the anatomical image role, the writer has
been called with the output directory of the first exportable, and every conversion
succeeded: the anatomical image was converted to a non-empty image, a dose volume that was
found as well, and a segmentation that was found has a supported master representation whose
representation could be created and gave one structure per segment. -/
theorem exportDicomRTStudy_error_string (env : Env R) (xenv : ExportEnv R) (s : Scene R)
    (exportables : List vtkSlicerDICOMExportable) :
    (exportables = [] →
      (ExportDicomRTStudy env xenv s exportables).1 ≠ ""
      ∧ (ExportDicomRTStudy env xenv s exportables).2 = none)
    ∧ ((∀ exportable ∈ exportables, IsAnatomicalImageExportable s exportable = false) →
      (ExportDicomRTStudy env xenv s exportables).1 ≠ ""
      ∧ (ExportDicomRTStudy env xenv s exportables).2 = none)
    ∧ ((ExportDicomRTStudy env xenv s exportables).1 ≠ "" →
      (ExportDicomRTStudy env xenv s exportables).2 = none)
    ∧ ((ExportDicomRTStudy env xenv s exportables).1 = "" →
      (∃ exportable ∈ exportables, IsAnatomicalImageExportable s exportable = true)
      ∧ ∃ (rtWriter : vtkSlicerDicomRtWriter R) (imageShItemID : Nat)
          (imageNode : vtkMRMLScalarVolumeNode R) (converted : vtkOrientedImageData R),
          (ExportDicomRTStudy env xenv s exportables).2 = some rtWriter
          ∧ (exportables.foldl (assignRole env s) ⟨none, none, none, []⟩).imageNode
              = some (imageShItemID, imageNode)
          ∧ some rtWriter.FileName = exportables.head?.map (·.Directory)
          ∧ xenv.ConvertVolumeNodeToVtkOrientedImageData imageNode = some converted
          ∧ rtWriter.Image
              = xenv.ConvertVtkOrientedImageDataToPlmImage (resampleIfSheared xenv converted)
          ∧ isEmptyPlmImage rtWriter.Image = false
          ∧ (∀ doseShItemID doseNode,
              (exportables.foldl (assignRole env s) ⟨none, none, none, []⟩).doseNode
                = some (doseShItemID, doseNode) →
              isEmptyPlmImage rtWriter.Dose = false
              ∧ ∃ doseOrientedImageData,
                  xenv.ConvertVolumeNodeToVtkOrientedImageData doseNode
                    = some doseOrientedImageData)
          ∧ (∀ segmentationShItemID segments,
              (exportables.foldl (assignRole env s) ⟨none, none, none, []⟩).segmentationNode
                = some (segmentationShItemID, segments) →
              rtWriter.Structures.length = segments.length
              ∧ ((xenv.IsMasterRepresentationImageData segmentationShItemID = true
                    ∧ xenv.CreateBinaryLabelmapRepresentation segmentationShItemID = true)
                  ∨ (xenv.IsMasterRepresentationPolyData segmentationShItemID = true
                    ∧ xenv.CreateClosedSurfaceRepresentation segmentationShItemID = true)))) := by
  have e0 : "Exportable list contains no exportables" ≠ "" := by decide
  have e1 : "Must export the primary anatomical (CT/MR) image" ≠ "" := by decide
  cases exportables with
  | nil =>
    refine ⟨fun _ => ⟨e0, rfl⟩, fun _ => ⟨e0, rfl⟩, fun _ => rfl, fun h => absurd h e0⟩
  | cons firstExportable rest =>
    cases himage : ((firstExportable :: rest).foldl (assignRole env s)
        ⟨none, none, none, []⟩).imageNode with
    | none =>
      have hresult : ExportDicomRTStudy env xenv s (firstExportable :: rest)
          = ("Must export the primary anatomical (CT/MR) image", none) := by
        simp only [ExportDicomRTStudy, himage]
      rw [hresult]
      exact ⟨fun h => List.noConfusion h, fun _ => ⟨e1, rfl⟩, fun _ => rfl, fun h => absurd h e1⟩
    | some image =>
      obtain ⟨imageShItemID, imageNode⟩ := image
      have hresult : ExportDicomRTStudy env xenv s (firstExportable :: rest)
          = exportRoles xenv s
              ((firstExportable :: rest).foldl (assignRole env s) ⟨none, none, none, []⟩)
              imageShItemID imageNode firstExportable.Directory := by
        simp only [ExportDicomRTStudy, himage]
      have hsome : ∃ exportable ∈ firstExportable :: rest,
          IsAnatomicalImageExportable s exportable = true := by
        by_contra hno
        have hall : ∀ exportable ∈ firstExportable :: rest,
            IsAnatomicalImageExportable s exportable = false := by
          intro exportable he
          cases hx : IsAnatomicalImageExportable s exportable with
          | false => rfl
          | true => exact absurd ⟨exportable, he, hx⟩ hno
        have hnone := foldl_assignRole_imageNode env s (firstExportable :: rest)
          ⟨none, none, none, []⟩ hall
        rw [himage] at hnone
        cases hnone
      rw [hresult]
      obtain ⟨h1, h2⟩ := exportRoles_spec xenv s
        ((firstExportable :: rest).foldl (assignRole env s) ⟨none, none, none, []⟩)
        imageShItemID imageNode firstExportable.Directory
      refine ⟨fun h => List.noConfusion h, fun hall => ?_, h1, fun h => ⟨hsome, ?_⟩⟩
      · obtain ⟨exportable, he, hx⟩ := hsome
        rw [hall exportable he] at hx
        cases hx
      · obtain ⟨rtWriter, converted, k1, k2, k3, k4, k5, k6, k7⟩ := h2 h
        refine ⟨rtWriter, imageShItemID, imageNode, converted, k1, rfl, ?_, k3, k4, k5, k6, k7⟩
        rw [k2]
        rfl

end ExportClaim

/-- Witness of C19: the empty list; a dose volume and a segmentation without an anatomical
image; and an anatomical image with a segmentation, for which the empty string is returned
and the writer is called with the image and one structure. -/
theorem exportDicomRTStudy_error_string_witness :
    ((ExportDicomRTStudy sampleEnv sampleExportEnv exportScene []).1 ≠ ""
      ∧ (ExportDicomRTStudy sampleEnv sampleExportEnv exportScene []).2 = none)
    ∧ ((ExportDicomRTStudy sampleEnv sampleExportEnv sceneWithDoseAndStructures
          exportablesWithoutImage).1 ≠ ""
      ∧ (ExportDicomRTStudy sampleEnv sampleExportEnv sceneWithDoseAndStructures
          exportablesWithoutImage).2 = none)
    ∧ (ExportDicomRTStudy sampleEnv sampleExportEnv exportScene sampleExportables).1 = ""
    ∧ ∃ exportable ∈ sampleExportables,
        IsAnatomicalImageExportable exportScene exportable = true :=
  ⟨(exportDicomRTStudy_error_string sampleEnv sampleExportEnv exportScene []).1 rfl,
   (exportDicomRTStudy_error_string sampleEnv sampleExportEnv sceneWithDoseAndStructures
      exportablesWithoutImage).2.1 (by with_unfolding_all decide),
   by decide,
   ((exportDicomRTStudy_error_string sampleEnv sampleExportEnv exportScene
      sampleExportables).2.2.2 (by decide)).1⟩

section SequenceCursor

variable {α : Type}

theorem DRTSequence.gotoNextItemTimes_items (seq : DRTSequence α) (k : Nat) :
    (seq.gotoNextItemTimes k).SequenceOfItems = seq.SequenceOfItems
      ∧ (seq.gotoNextItemTimes k).EmptyDefaultSequence = seq.EmptyDefaultSequence := by
  induction k with
  | zero => exact ⟨rfl, rfl⟩
  | succ k ih =>
    simp only [DRTSequence.gotoNextItemTimes, DRTSequence.gotoNextItem]
    split_ifs <;> exact ih

theorem DRTSequence.gotoNextItemTimes_cursor (seq : DRTSequence α) (k : Nat)
    (h : seq.CurrentItem + k ≤ seq.SequenceOfItems.length) :
    (seq.gotoNextItemTimes k).CurrentItem = seq.CurrentItem + k := by
  induction k with
  | zero => rfl
  | succ k ih =>
    have hk := ih (by omega)
    have hi := (seq.gotoNextItemTimes_items k).1
    simp only [DRTSequence.gotoNextItemTimes, DRTSequence.gotoNextItem]
    rw [if_pos (by rw [hk, hi]; omega)]
    simp only [hk]
    omega

theorem DRTSequence.gotoNextItemTimes_end (seq : DRTSequence α) (k : Nat)
    (h : seq.SequenceOfItems.length ≤ seq.CurrentItem + k)
    (hc : seq.CurrentItem ≤ seq.SequenceOfItems.length) :
    (seq.gotoNextItemTimes k).CurrentItem = seq.SequenceOfItems.length := by
  induction k with
  | zero => simp only [DRTSequence.gotoNextItemTimes]; omega
  | succ k ih =>
    have hi := (seq.gotoNextItemTimes_items k).1
    simp only [DRTSequence.gotoNextItemTimes, DRTSequence.gotoNextItem]
    by_cases hk : seq.SequenceOfItems.length ≤ seq.CurrentItem + k
    · have := ih hk
      rw [if_neg (by rw [this, hi]; simp)]
      exact this
    · have hcur := seq.gotoNextItemTimes_cursor k (by omega)
      rw [if_pos (by rw [hcur, hi]; omega)]
      simp only [hcur]
      omega

end SequenceCursor

section SequenceIndex

variable {α : Type}

theorem decrement_unsigned_long (j : Nat) (h1 : 1 ≤ j) (h2 : j ≤ UNSIGNED_LONG_RANGE) :
    (j % UNSIGNED_LONG_RANGE + UNSIGNED_LONG_RANGE - 1) % UNSIGNED_LONG_RANGE = j - 1 := by
  have hM : 0 < UNSIGNED_LONG_RANGE := by unfold UNSIGNED_LONG_RANGE; norm_num
  rcases Nat.lt_or_ge j UNSIGNED_LONG_RANGE with h | h
  · rw [Nat.mod_eq_of_lt h]
    have e : j + UNSIGNED_LONG_RANGE - 1 = (j - 1) + UNSIGNED_LONG_RANGE := by omega
    rw [e, Nat.add_mod_right, Nat.mod_eq_of_lt (by omega)]
  · have e : j = UNSIGNED_LONG_RANGE := by omega
    rw [e, Nat.mod_self, Nat.zero_add, Nat.mod_eq_of_lt (by omega)]

/-- The loop of `gotoItem` entered with `idx = j` (zero standing for the wrapped value of the
range) stops on the item at position `j - 1`, with `idx = 0`, or at the end of the list. -/
theorem DRTSequence.gotoItemLoop_spec (l : List α) :
    ∀ (j pos : Nat), 1 ≤ j → j ≤ UNSIGNED_LONG_RANGE →
      DRTSequence.gotoItemLoop l (j % UNSIGNED_LONG_RANGE) pos
        = if j ≤ l.length + 1 then (0, pos + (j - 1)) else (j - 1 - l.length, pos + l.length) := by
  induction l with
  | nil =>
    intro j pos h1 h2
    simp only [DRTSequence.gotoItemLoop, decrement_unsigned_long j h1 h2, List.length_nil]
    split_ifs with h
    · have : j - 1 = 0 := by omega
      rw [this, Nat.add_zero]
    · rfl
  | cons a rest ih =>
    intro j pos h1 h2
    simp only [DRTSequence.gotoItemLoop, decrement_unsigned_long j h1 h2, List.length_cons]
    by_cases hj : j - 1 > 0
    · rw [if_pos hj]
      have hlt : j - 1 < UNSIGNED_LONG_RANGE := by omega
      have := ih (j - 1) (pos + 1) (by omega) (by omega)
      rw [Nat.mod_eq_of_lt hlt] at this
      rw [this]
      by_cases hle : j - 1 ≤ rest.length + 1
      · rw [if_pos hle, if_pos (by omega)]
        congr 1
        omega
      · rw [if_neg hle, if_neg (by omega)]
        congr 1 <;> omega
    · rw [if_neg hj, if_pos (by omega)]
      have : j - 1 = 0 := by omega
      rw [this, Nat.add_zero]

/-- Status and iterator of `gotoItem(num, iterator)`. -/
theorem DRTSequence.gotoItemIterator_spec (seq : DRTSequence α) (num iterator : Nat)
    (hnum : num < UNSIGNED_LONG_RANGE) :
    seq.gotoItemIterator num iterator
      = if seq.SequenceOfItems.isEmpty then (.EC_IllegalCall, iterator)
        else if num < seq.SequenceOfItems.length then (.EC_Normal, num)
        else (.EC_IllegalParameter, seq.SequenceOfItems.length) := by
  unfold DRTSequence.gotoItemIterator
  by_cases hne : seq.SequenceOfItems.isEmpty = true
  · simp [hne]
  · rw [if_pos hne, if_neg hne]
    have hloop := DRTSequence.gotoItemLoop_spec seq.SequenceOfItems (num + 1) 0 (by omega)
      (by omega)
    by_cases hlt : num < seq.SequenceOfItems.length
    · rw [if_pos (by omega)] at hloop
      rw [hloop, if_pos hlt]
      simp only [Nat.add_sub_cancel, Nat.zero_add]
      rw [if_pos ⟨trivial, by omega⟩]
    · rw [if_neg hlt]
      by_cases hle : num + 1 ≤ seq.SequenceOfItems.length + 1
      · rw [if_pos hle] at hloop
        have e : num = seq.SequenceOfItems.length := by omega
        rw [hloop]
        simp only [Nat.add_sub_cancel, Nat.zero_add]
        rw [if_neg (by intro h; exact h.2 e), e]
      · rw [if_neg hle] at hloop
        rw [hloop]
        simp only [Nat.zero_add]
        rw [if_neg (by intro h; have := h.1; omega)]

end SequenceIndex

/-- C25. Positional iteration of `DRTReferencedBolusSequenceInRTBeamsModule`.  On an empty
sequence `gotoFirstItem` is not good.  On a sequence of `n ≥ 1` items `gotoFirstItem` returns
`EC_Normal`; after `k < n` further calls of `gotoNextItem`, `getCurrentItem` is the item at
position `k`; the call of `gotoNextItem` made after `k` earlier ones is good exactly when
`k < n`, so exactly the first `n` calls succeed; after the `n`-th the cursor is at the end of
the list, `getCurrentItem` is the empty default item, which is not valid, and every further
call of `gotoNextItem` fails and leaves the sequence as it is. -/
theorem gotoFirstItem_gotoNextItem_positions (seq : DRTReferencedBolusSequenceInRTBeamsModule) :
    (seq.SequenceOfItems = [] → (seq.gotoFirstItem).1.good = false)
    ∧ (seq.SequenceOfItems ≠ [] →
      (seq.gotoFirstItem).1 = .EC_Normal
      ∧ (∀ k : Nat, k < seq.SequenceOfItems.length →
          some ((seq.gotoFirstItem).2.gotoNextItemTimes k).getCurrentItem
            = seq.SequenceOfItems[k]?)
      ∧ (∀ k : Nat,
          (((seq.gotoFirstItem).2.gotoNextItemTimes k).gotoNextItem).1.good = true
            ↔ k < seq.SequenceOfItems.length)
      ∧ ((seq.gotoFirstItem).2.gotoNextItemTimes seq.SequenceOfItems.length).CurrentItem
          = seq.SequenceOfItems.length
      ∧ ((seq.gotoFirstItem).2.gotoNextItemTimes seq.SequenceOfItems.length).getCurrentItem
          = DRTItem.EmptyItem
      ∧ DRTItem.isValid
          ((seq.gotoFirstItem).2.gotoNextItemTimes seq.SequenceOfItems.length).getCurrentItem
          = false
      ∧ ∀ k : Nat, seq.SequenceOfItems.length ≤ k →
          (((seq.gotoFirstItem).2.gotoNextItemTimes k).gotoNextItem).2
            = (seq.gotoFirstItem).2.gotoNextItemTimes seq.SequenceOfItems.length) := by
  refine ⟨fun he => by simp [DRTSequence.gotoFirstItem, he, OFCondition.good], fun hne => ?_⟩
  have hempty : ¬ (seq.SequenceOfItems.isEmpty = true) := by
    simpa [List.isEmpty_iff] using hne
  have hfirst : seq.gotoFirstItem = (.EC_Normal, { seq with CurrentItem := 0 }) := by
    simp [DRTSequence.gotoFirstItem, hempty]
  rw [hfirst]
  simp only []
  set first : DRTReferencedBolusSequenceInRTBeamsModule := { seq with CurrentItem := 0 }
    with hfirstdef
  have hitems : ∀ k, (first.gotoNextItemTimes k).SequenceOfItems = seq.SequenceOfItems :=
    fun k => (first.gotoNextItemTimes_items k).1
  have hcur : ∀ k, k ≤ seq.SequenceOfItems.length →
      (first.gotoNextItemTimes k).CurrentItem = k := by
    intro k hk
    have := first.gotoNextItemTimes_cursor k (by simpa [hfirstdef] using hk)
    simpa [hfirstdef] using this
  have hend : ∀ k, seq.SequenceOfItems.length ≤ k →
      (first.gotoNextItemTimes k).CurrentItem = seq.SequenceOfItems.length := by
    intro k hk
    have := first.gotoNextItemTimes_end k (by simpa [hfirstdef] using hk)
      (by simp [hfirstdef])
    simpa [hfirstdef] using this
  have hstay : ∀ k, seq.SequenceOfItems.length ≤ k →
      first.gotoNextItemTimes k = first.gotoNextItemTimes seq.SequenceOfItems.length := by
    intro k hk
    induction k with
    | zero =>
      have : seq.SequenceOfItems.length = 0 := by omega
      rw [this]
    | succ k ih =>
      by_cases hk2 : seq.SequenceOfItems.length ≤ k
      · have hc := hend k hk2
        simp only [DRTSequence.gotoNextItemTimes, DRTSequence.gotoNextItem]
        rw [if_neg (by rw [hc, hitems]; simp)]
        exact ih hk2
      · have : seq.SequenceOfItems.length = k + 1 := by omega
        rw [this]
  have hlast : (first.gotoNextItemTimes seq.SequenceOfItems.length).getCurrentItem
      = DRTItem.EmptyItem := by
    simp [DRTSequence.getCurrentItem, hend _ (Nat.le_refl _), hitems]
  refine ⟨trivial, ?_, ?_, hend _ (Nat.le_refl _), hlast, ?_, ?_⟩
  · intro k hk
    have hc := hcur k (Nat.le_of_lt hk)
    simp only [DRTSequence.getCurrentItem, hc, hitems]
    rw [if_pos (by omega)]
    rw [List.getElem?_eq_getElem hk]
    rfl
  · intro k
    simp only [DRTSequence.gotoNextItem, hitems]
    by_cases hk : k < seq.SequenceOfItems.length
    · rw [if_pos (by rw [hcur k (Nat.le_of_lt hk)]; omega)]
      simp [OFCondition.good, hk]
    · rw [if_neg (by rw [hend k (by omega)]; simp)]
      simp [OFCondition.good, hk]
  · rw [hlast]
    rfl
  · intro k hk
    simp only [DRTSequence.gotoNextItem, hitems]
    rw [if_neg (by rw [hend k hk]; simp)]
    exact hstay k hk

section SequenceIndexClaim

/-- C30. Indexed access to `DRTReferencedBolusSequenceInRTBeamsModule`, for every sequence of
`n` items that is empty when it is an empty default sequence, and every index `num` of the type
`unsigned long`.  `gotoItem(num)` returns `EC_Normal` exactly when `num < n`, `EC_IllegalCall`
when `n = 0` and `EC_IllegalParameter` when `n > 0` and `num ≥ n`.  `getItem(num)` and
`operator[]` give the item at position `num` when `num < n` and the empty default item, which
is not valid, otherwise.  `removeItem(num)` with `num < n` returns `EC_Normal` and leaves the
items before and after position `num` in their order, `n - 1` items; with `num ≥ n` it is not
good and leaves the sequence unchanged. -/
theorem gotoItem_getItem_removeItem_index (seq : DRTReferencedBolusSequenceInRTBeamsModule)
    (num : Nat) (hnum : num < UNSIGNED_LONG_RANGE)
    (hdefault : seq.EmptyDefaultSequence = true → seq.SequenceOfItems = []) :
    ((seq.gotoItem num).1 = .EC_Normal ↔ num < seq.SequenceOfItems.length)
    ∧ (seq.SequenceOfItems.length = 0 → (seq.gotoItem num).1 = .EC_IllegalCall)
    ∧ (0 < seq.SequenceOfItems.length → seq.SequenceOfItems.length ≤ num →
        (seq.gotoItem num).1 = .EC_IllegalParameter)
    ∧ (num < seq.SequenceOfItems.length →
        some (seq.getItem num) = seq.SequenceOfItems[num]?
        ∧ some (seq.subscript num) = seq.SequenceOfItems[num]?)
    ∧ (seq.SequenceOfItems.length ≤ num →
        seq.getItem num = DRTItem.EmptyItem ∧ seq.subscript num = DRTItem.EmptyItem
        ∧ DRTItem.isValid (seq.getItem num) = false)
    ∧ (num < seq.SequenceOfItems.length →
        (seq.removeItem num).1 = .EC_Normal
        ∧ (seq.removeItem num).2.SequenceOfItems
            = seq.SequenceOfItems.take num ++ seq.SequenceOfItems.drop (num + 1)
        ∧ (seq.removeItem num).2.SequenceOfItems.length = seq.SequenceOfItems.length - 1)
    ∧ (seq.SequenceOfItems.length ≤ num →
        (seq.removeItem num).1.good = false ∧ (seq.removeItem num).2 = seq) := by
  have hspec := fun iterator => seq.gotoItemIterator_spec num iterator hnum
  have hiff : seq.SequenceOfItems.isEmpty = true ↔ seq.SequenceOfItems.length = 0 := by
    rw [List.isEmpty_iff, List.length_eq_zero]
  refine ⟨?_, ?_, ?_, ?_, ?_, ?_, ?_⟩
  · simp only [DRTSequence.gotoItem, hspec]
    by_cases he : seq.SequenceOfItems.isEmpty = true
    · have := hiff.1 he
      simp [he, this]
    · by_cases hlt : num < seq.SequenceOfItems.length <;> simp [he, hlt]
  · intro h0
    simp [DRTSequence.gotoItem, hspec, hiff.2 h0]
  · intro hpos hle
    have he : ¬ seq.SequenceOfItems.isEmpty = true := fun h => by have := hiff.1 h; omega
    simp [DRTSequence.gotoItem, hspec, he, Nat.not_lt.2 hle]
  · intro hlt
    have he : ¬ seq.SequenceOfItems.isEmpty = true := fun h => by have := hiff.1 h; omega
    have : seq.getItem num = seq.SequenceOfItems[num] := by
      simp [DRTSequence.getItem, hspec, he, hlt, OFCondition.good]
    simp only [DRTSequence.subscript, this, List.getElem?_eq_getElem hlt, and_self]
  · intro hle
    have : seq.getItem num = DRTItem.EmptyItem := by
      by_cases he : seq.SequenceOfItems.isEmpty = true
      · simp [DRTSequence.getItem, hspec, he, OFCondition.good]
      · simp [DRTSequence.getItem, hspec, he, Nat.not_lt.2 hle, OFCondition.good]
    refine ⟨this, this, ?_⟩
    rw [this]
    rfl
  · intro hlt
    have he : ¬ seq.SequenceOfItems.isEmpty = true := fun h => by have := hiff.1 h; omega
    have hflag : seq.EmptyDefaultSequence = false := by
      cases hf : seq.EmptyDefaultSequence with
      | false => rfl
      | true =>
        have := hdefault hf
        rw [this] at hlt
        simp at hlt
    have hrem : (seq.removeItem num).2.SequenceOfItems = seq.SequenceOfItems.eraseIdx num := by
      simp [DRTSequence.removeItem, hspec, he, hlt, hflag, OFCondition.good]
    refine ⟨by simp [DRTSequence.removeItem, hspec, he, hlt, hflag, OFCondition.good], ?_, ?_⟩
    · rw [hrem, List.eraseIdx_eq_take_drop_succ]
    · rw [hrem, List.length_eraseIdx, if_pos hlt]
  · intro hle
    unfold DRTSequence.removeItem
    by_cases hflag : seq.EmptyDefaultSequence = true
    · simp [hflag, OFCondition.good]
    · by_cases he : seq.SequenceOfItems.isEmpty = true
      · simp [hflag, hspec, he, OFCondition.good]
      · simp [hflag, hspec, he, Nat.not_lt.2 hle, OFCondition.good]

/-- Witness of C30 on the sequence of the two bolus items `B1` and `B2` at the index 1. -/
theorem gotoItem_getItem_removeItem_index_witness :
    (1 < UNSIGNED_LONG_RANGE)
    ∧ (sampleBolusSequence.EmptyDefaultSequence = true → sampleBolusSequence.SequenceOfItems = [])
    ∧ (sampleBolusSequence.gotoItem 1).1 = .EC_Normal
    ∧ some (sampleBolusSequence.getItem 1) = sampleBolusSequence.SequenceOfItems[1]?
    ∧ (sampleBolusSequence.removeItem 1).2.SequenceOfItems
        = sampleBolusSequence.SequenceOfItems.take 1 ++ sampleBolusSequence.SequenceOfItems.drop 2 :=
  ⟨by decide, by decide,
    (gotoItem_getItem_removeItem_index sampleBolusSequence 1 (by decide) (by decide)).1.2
      (by decide),
    ((gotoItem_getItem_removeItem_index sampleBolusSequence 1 (by decide) (by decide)).2.2.2.1
      (by decide)).1,
    ((gotoItem_getItem_removeItem_index sampleBolusSequence 1 (by decide) (by decide)).2.2.2.2.2.1
      (by decide)).2.1⟩

end SequenceIndexClaim

section RigidLemmas

variable {R : Type} [CommRing R]

theorem linearPart_mul (A B : Matrix4x4 R) (hB : B 3 0 = 0 ∧ B 3 1 = 0 ∧ B 3 2 = 0 ∧ B 3 3 = 1) :
    linearPart (A * B) = linearPart A * linearPart B := by
  obtain ⟨h0, h1, h2, _⟩ := hB
  ext i j
  fin_cases i <;> fin_cases j <;>
    simp [linearPart, Matrix.mul_apply, Fin.sum_univ_four, Fin.sum_univ_three, h0, h1, h2]

theorem lastRow_mul (A B : Matrix4x4 R) (hA : A 3 0 = 0 ∧ A 3 1 = 0 ∧ A 3 2 = 0 ∧ A 3 3 = 1)
    (hB : B 3 0 = 0 ∧ B 3 1 = 0 ∧ B 3 2 = 0 ∧ B 3 3 = 1) :
    (A * B) 3 0 = 0 ∧ (A * B) 3 1 = 0 ∧ (A * B) 3 2 = 0 ∧ (A * B) 3 3 = 1 := by
  obtain ⟨a0, a1, a2, a3⟩ := hA
  obtain ⟨b0, b1, b2, b3⟩ := hB
  simp [Matrix.mul_apply, Fin.sum_univ_four, a0, a1, a2, a3, b0, b1, b2, b3]

/-- The product of two rigid motions is a rigid motion. -/
theorem IsRigid.mul {A B : Matrix4x4 R} (hA : IsRigid A) (hB : IsRigid B) : IsRigid (A * B) := by
  obtain ⟨rA, oA, oA2, dA⟩ := hA
  obtain ⟨rB, oB, oB2, dB⟩ := hB
  refine ⟨lastRow_mul A B rA rB, ?_, ?_, ?_⟩
  · rw [linearPart_mul A B rB, Matrix.transpose_mul, Matrix.mul_assoc,
      ← Matrix.mul_assoc (linearPart A).transpose, oA, Matrix.one_mul, oB]
  · rw [linearPart_mul A B rB, Matrix.transpose_mul, Matrix.mul_assoc,
      ← Matrix.mul_assoc (linearPart B), oB2, Matrix.one_mul, oA2]
  · rw [linearPart_mul A B rB, Matrix.det_mul, dA, dB, mul_one]

theorem linearPart_T (x y z : R) : linearPart (T x y z) = 1 := by
  ext i j
  fin_cases i <;> fin_cases j <;> rfl

theorem linearPart_Rx (trig : Trig R) (a : R) :
    linearPart (Rx trig a)
      = !![1, 0, 0; 0, trig.cosDeg a, -trig.sinDeg a; 0, trig.sinDeg a, trig.cosDeg a] := by
  ext i j
  fin_cases i <;> fin_cases j <;> rfl

theorem linearPart_Ry (trig : Trig R) (a : R) :
    linearPart (Ry trig a)
      = !![trig.cosDeg a, 0, trig.sinDeg a; 0, 1, 0; -trig.sinDeg a, 0, trig.cosDeg a] := by
  ext i j
  fin_cases i <;> fin_cases j <;> rfl

theorem linearPart_Rz (trig : Trig R) (a : R) :
    linearPart (Rz trig a)
      = !![trig.cosDeg a, -trig.sinDeg a, 0; trig.sinDeg a, trig.cosDeg a, 0; 0, 0, 1] := by
  ext i j
  fin_cases i <;> fin_cases j <;> rfl

theorem IsRigid_T (x y z : R) : IsRigid (T x y z) := by
  refine ⟨⟨rfl, rfl, rfl, rfl⟩, ?_, ?_, ?_⟩
  · rw [linearPart_T, Matrix.transpose_one, Matrix.one_mul]
  · rw [linearPart_T, Matrix.transpose_one, Matrix.one_mul]
  · rw [linearPart_T, Matrix.det_one]

theorem det_fin_three_literal (a b c d e f g h i : R) :
    (!![a, b, c; d, e, f; g, h, i] : Matrix (Fin 3) (Fin 3) R).det
      = a * e * i - a * f * h - b * d * i + b * f * g + c * d * h - c * e * g := by
  rw [Matrix.det_fin_three]
  rfl

theorem rot_entries (c s : R) (h : c ^ 2 + s ^ 2 = 1) :
    c * c + s * s = 1 ∧ s * s + c * c = 1 ∧ -(c * s) + s * c = 0 ∧ -(s * c) + c * s = 0
    ∧ c * s + -(s * c) = 0 ∧ s * c + -(c * s) = 0 :=
  ⟨by linear_combination h, by linear_combination h, by ring, by ring, by ring, by ring⟩

theorem rot_block_x (c s : R) (h : c ^ 2 + s ^ 2 = 1) :
    (!![1, 0, 0; 0, c, s; 0, -s, c] : Matrix (Fin 3) (Fin 3) R) * !![1, 0, 0; 0, c, -s; 0, s, c]
      = 1
    ∧ (!![1, 0, 0; 0, c, -s; 0, s, c] : Matrix (Fin 3) (Fin 3) R) * !![1, 0, 0; 0, c, s; 0, -s, c]
      = 1
    ∧ (!![1, 0, 0; 0, c, -s; 0, s, c] : Matrix (Fin 3) (Fin 3) R).det = 1 := by
  obtain ⟨h1, h2, h3, h4, h5, h6⟩ := rot_entries c s h
  refine ⟨?_, ?_, ?_⟩
  · rw [Matrix.mul_fin_three, Matrix.one_fin_three]
    simp only [mul_zero, zero_mul, add_zero, zero_add, mul_one, one_mul, mul_neg, neg_mul,
      neg_neg, neg_zero, h1, h2, h3, h4, h5, h6]
  · rw [Matrix.mul_fin_three, Matrix.one_fin_three]
    simp only [mul_zero, zero_mul, add_zero, zero_add, mul_one, one_mul, mul_neg, neg_mul,
      neg_neg, neg_zero, h1, h2, h3, h4, h5, h6]
  · rw [det_fin_three_literal]
    simp only [mul_zero, zero_mul, add_zero, zero_add, mul_one, one_mul, mul_neg, neg_mul,
      neg_neg, neg_zero, sub_zero, zero_sub]
    linear_combination h

theorem rot_block_y (c s : R) (h : c ^ 2 + s ^ 2 = 1) :
    (!![c, 0, -s; 0, 1, 0; s, 0, c] : Matrix (Fin 3) (Fin 3) R) * !![c, 0, s; 0, 1, 0; -s, 0, c]
      = 1
    ∧ (!![c, 0, s; 0, 1, 0; -s, 0, c] : Matrix (Fin 3) (Fin 3) R) * !![c, 0, -s; 0, 1, 0; s, 0, c]
      = 1
    ∧ (!![c, 0, s; 0, 1, 0; -s, 0, c] : Matrix (Fin 3) (Fin 3) R).det = 1 := by
  obtain ⟨h1, h2, h3, h4, h5, h6⟩ := rot_entries c s h
  refine ⟨?_, ?_, ?_⟩
  · rw [Matrix.mul_fin_three, Matrix.one_fin_three]
    simp only [mul_zero, zero_mul, add_zero, zero_add, mul_one, one_mul, mul_neg, neg_mul,
      neg_neg, neg_zero, h1, h2, h3, h4, h5, h6]
  · rw [Matrix.mul_fin_three, Matrix.one_fin_three]
    simp only [mul_zero, zero_mul, add_zero, zero_add, mul_one, one_mul, mul_neg, neg_mul,
      neg_neg, neg_zero, h1, h2, h3, h4, h5, h6]
  · rw [det_fin_three_literal]
    simp only [mul_zero, zero_mul, add_zero, zero_add, mul_one, one_mul, mul_neg, neg_mul,
      neg_neg, neg_zero, sub_zero, zero_sub]
    linear_combination h

theorem rot_block_z (c s : R) (h : c ^ 2 + s ^ 2 = 1) :
    (!![c, s, 0; -s, c, 0; 0, 0, 1] : Matrix (Fin 3) (Fin 3) R) * !![c, -s, 0; s, c, 0; 0, 0, 1]
      = 1
    ∧ (!![c, -s, 0; s, c, 0; 0, 0, 1] : Matrix (Fin 3) (Fin 3) R) * !![c, s, 0; -s, c, 0; 0, 0, 1]
      = 1
    ∧ (!![c, -s, 0; s, c, 0; 0, 0, 1] : Matrix (Fin 3) (Fin 3) R).det = 1 := by
  obtain ⟨h1, h2, h3, h4, h5, h6⟩ := rot_entries c s h
  refine ⟨?_, ?_, ?_⟩
  · rw [Matrix.mul_fin_three, Matrix.one_fin_three]
    simp only [mul_zero, zero_mul, add_zero, zero_add, mul_one, one_mul, mul_neg, neg_mul,
      neg_neg, neg_zero, h1, h2, h3, h4, h5, h6]
  · rw [Matrix.mul_fin_three, Matrix.one_fin_three]
    simp only [mul_zero, zero_mul, add_zero, zero_add, mul_one, one_mul, mul_neg, neg_mul,
      neg_neg, neg_zero, h1, h2, h3, h4, h5, h6]
  · rw [det_fin_three_literal]
    simp only [mul_zero, zero_mul, add_zero, zero_add, mul_one, one_mul, mul_neg, neg_mul,
      neg_neg, neg_zero, sub_zero, zero_sub]
    linear_combination h

theorem transpose_fin_three {α : Type} (a b c d e f g h i : α) :
    (!![a, b, c; d, e, f; g, h, i] : Matrix (Fin 3) (Fin 3) α).transpose
      = !![a, d, g; b, e, h; c, f, i] := by
  ext i j
  fin_cases i <;> fin_cases j <;> rfl

theorem transpose_linearPart_Rx (trig : Trig R) (a : R) :
    (linearPart (Rx trig a)).transpose
      = !![1, 0, 0; 0, trig.cosDeg a, trig.sinDeg a; 0, -trig.sinDeg a, trig.cosDeg a] := by
  rw [linearPart_Rx, transpose_fin_three]

theorem transpose_linearPart_Ry (trig : Trig R) (a : R) :
    (linearPart (Ry trig a)).transpose
      = !![trig.cosDeg a, 0, -trig.sinDeg a; 0, 1, 0; trig.sinDeg a, 0, trig.cosDeg a] := by
  rw [linearPart_Ry, transpose_fin_three]

theorem transpose_linearPart_Rz (trig : Trig R) (a : R) :
    (linearPart (Rz trig a)).transpose
      = !![trig.cosDeg a, trig.sinDeg a, 0; -trig.sinDeg a, trig.cosDeg a, 0; 0, 0, 1] := by
  rw [linearPart_Rz, transpose_fin_three]

theorem IsRigid_Rx (trig : Trig R) (a : R)
    (h : trig.cosDeg a ^ 2 + trig.sinDeg a ^ 2 = 1) : IsRigid (Rx trig a) := by
  refine ⟨⟨rfl, rfl, rfl, rfl⟩, ?_, ?_, ?_⟩
  · rw [transpose_linearPart_Rx, linearPart_Rx]
    exact (rot_block_x _ _ h).1
  · rw [transpose_linearPart_Rx, linearPart_Rx]
    exact (rot_block_x _ _ h).2.1
  · rw [linearPart_Rx]
    exact (rot_block_x _ _ h).2.2

theorem IsRigid_Ry (trig : Trig R) (a : R)
    (h : trig.cosDeg a ^ 2 + trig.sinDeg a ^ 2 = 1) : IsRigid (Ry trig a) := by
  refine ⟨⟨rfl, rfl, rfl, rfl⟩, ?_, ?_, ?_⟩
  · rw [transpose_linearPart_Ry, linearPart_Ry]
    exact (rot_block_y _ _ h).1
  · rw [transpose_linearPart_Ry, linearPart_Ry]
    exact (rot_block_y _ _ h).2.1
  · rw [linearPart_Ry]
    exact (rot_block_y _ _ h).2.2

theorem IsRigid_Rz (trig : Trig R) (a : R)
    (h : trig.cosDeg a ^ 2 + trig.sinDeg a ^ 2 = 1) : IsRigid (Rz trig a) := by
  refine ⟨⟨rfl, rfl, rfl, rfl⟩, ?_, ?_, ?_⟩
  · rw [transpose_linearPart_Rz, linearPart_Rz]
    exact (rot_block_z _ _ h).1
  · rw [transpose_linearPart_Rz, linearPart_Rz]
    exact (rot_block_z _ _ h).2.1
  · rw [linearPart_Rz]
    exact (rot_block_z _ _ h).2.2

/-- A rigid motion keeps the square of the distance between two points. -/
theorem IsRigid.squaredDistance_eq {A : Matrix4x4 R} (hA : IsRigid A) (x y : R × R × R) :
    squaredDistance (transformPoint A x) (transformPoint A y) = squaredDistance x y := by
  obtain ⟨_, o, _, _⟩ := hA
  have e : ∀ i j : Fin 3, ((linearPart A).transpose * linearPart A) i j
      = (1 : Matrix (Fin 3) (Fin 3) R) i j := fun i j => by rw [o]
  have h00 := e 0 0
  have h01 := e 0 1
  have h02 := e 0 2
  have h11 := e 1 1
  have h12 := e 1 2
  have h22 := e 2 2
  simp only [Matrix.mul_apply, Fin.sum_univ_three, Matrix.transpose_apply] at h00 h01 h02 h11 h12 h22
  have l : ∀ i j : Fin 3, linearPart A i j = A (Fin.castSucc i) (Fin.castSucc j) := by
    intro i j
    fin_cases i <;> fin_cases j <;> rfl
  simp only [l] at h00 h01 h02 h11 h12 h22
  have h00' : A 0 0 * A 0 0 + A 1 0 * A 1 0 + A 2 0 * A 2 0 = 1 := h00
  have h01' : A 0 0 * A 0 1 + A 1 0 * A 1 1 + A 2 0 * A 2 1 = 0 := h01
  have h02' : A 0 0 * A 0 2 + A 1 0 * A 1 2 + A 2 0 * A 2 2 = 0 := h02
  have h11' : A 0 1 * A 0 1 + A 1 1 * A 1 1 + A 2 1 * A 2 1 = 1 := h11
  have h12' : A 0 1 * A 0 2 + A 1 1 * A 1 2 + A 2 1 * A 2 2 = 0 := h12
  have h22' : A 0 2 * A 0 2 + A 1 2 * A 1 2 + A 2 2 * A 2 2 = 1 := h22
  simp only [squaredDistance, transformPoint]
  linear_combination (x.1 - y.1) ^ 2 * h00' + 2 * (x.1 - y.1) * (x.2.1 - y.2.1) * h01'
    + 2 * (x.1 - y.1) * (x.2.2 - y.2.2) * h02' + (x.2.1 - y.2.1) ^ 2 * h11'
    + 2 * (x.2.1 - y.2.1) * (x.2.2 - y.2.2) * h12' + (x.2.2 - y.2.2) ^ 2 * h22'

/-- The product of steps 1 to 7 of the placement chain is a rigid motion. -/
theorem IsRigid_placementChain (trig : Trig R) (c : R × R × R) (a g SAD SID px py : R)
    (hcouch : trig.cosDeg (-a) ^ 2 + trig.sinDeg (-a) ^ 2 = 1)
    (hgantry : trig.cosDeg g ^ 2 + trig.sinDeg g ^ 2 = 1)
    (hquarter : trig.cosDeg 90 ^ 2 + trig.sinDeg 90 ^ 2 = 1) :
    IsRigid (placementChain trig c a g SAD SID px py 1) := by
  unfold placementChain
  rw [Matrix.mul_one]
  exact ((((((IsRigid_T _ _ _).mul (IsRigid_Ry trig _ hcouch)).mul
    (IsRigid_Rz trig _ hgantry)).mul (IsRigid_T _ _ _)).mul (IsRigid_T _ _ _)).mul
    (IsRigid_T _ _ _)).mul (IsRigid_Rx trig _ hquarter)

end RigidLemmas

section ExactArithmetic

variable {R : Type} [CommRing R]

theorem Arithmetic.identityMatrix_exact : (Arithmetic.exact R).identityMatrix = 1 := by
  rw [one_fin_four]
  simp only [Arithmetic.identityMatrix, Arithmetic.zero, Arithmetic.one, Arithmetic.exact,
    Nat.cast_zero, Nat.cast_one]

theorem Arithmetic.Multiply4x4_exact (a b : Matrix4x4 R) :
    (Arithmetic.exact R).Multiply4x4 a b = a * b := by
  ext i j
  simp [Arithmetic.Multiply4x4, Arithmetic.exact, Matrix.mul_apply, Fin.sum_univ_four]

theorem Arithmetic.translationMatrix_exact (x y z : R) :
    (Arithmetic.exact R).translationMatrix x y z = SlicerRT.translationMatrix x y z := by
  simp [Arithmetic.translationMatrix, SlicerRT.translationMatrix, Arithmetic.zero,
    Arithmetic.one, Arithmetic.exact]

theorem Arithmetic.rotationMatrix_exact (trig : Trig R) (angle x y z : R) :
    (Arithmetic.exact R).rotationMatrix trig angle x y z
      = SlicerRT.rotationMatrix trig angle x y z := by
  simp [Arithmetic.rotationMatrix, SlicerRT.rotationMatrix, Arithmetic.zero,
    Arithmetic.one, Arithmetic.exact]

/-- In exact arithmetic the chain of `Arithmetic.isocenterToRtImageRas` is the matrix of
`isocenterToRtImageRas`. -/
theorem Arithmetic.isocenterToRtImageRas_exact (trig : Trig R) (c : R × R × R)
    (SAD g a SID : R) (p : R × R) (M : Matrix4x4 R) :
    (Arithmetic.exact R).isocenterToRtImageRas trig c SAD g a SID p M
      = SlicerRT.isocenterToRtImageRas trig c SAD g a SID p M := by
  simp only [Arithmetic.isocenterToRtImageRas, Arithmetic.Multiply4x4_exact,
    Arithmetic.identityMatrix_exact, Arithmetic.translationMatrix_exact,
    Arithmetic.rotationMatrix_exact, one_mul]
  simp [SlicerRT.isocenterToRtImageRas, vtkTransform.New, vtkTransform.Identity,
    vtkTransform.PreMultiply, vtkTransform.Concatenate, vtkTransform.Translate,
    vtkTransform.RotateWXYZ, vtkTransform.RotateX, vtkTransform.GetMatrix, Arithmetic.zero,
    Arithmetic.one, Arithmetic.exact]

end ExactArithmetic

/-- The rounding on a familiar value: the `double` nearest to one tenth. -/
theorem roundToBinary64_tenth :
    roundToBinary64 (1 / 10) = 3602879701896397 / 36028797018963968 := by
  decide!

theorem roundToBinary64_zero : roundToBinary64 0 = 0 := by
  simp [roundToBinary64]

theorem roundToBinary64_one : roundToBinary64 1 = 1 := by
  decide!

/-- In the arithmetic of `double`, the product of two matrices with the last row
`(0, 0, 0, 1)` has the last row `(0, 0, 0, 1)`. -/
theorem Multiply4x4_binary64_last_row (a b : Matrix4x4 ℚ)
    (ha : a 3 0 = 0 ∧ a 3 1 = 0 ∧ a 3 2 = 0 ∧ a 3 3 = 1)
    (hb : b 3 0 = 0 ∧ b 3 1 = 0 ∧ b 3 2 = 0 ∧ b 3 3 = 1) :
    binary64.Multiply4x4 a b 3 0 = 0 ∧ binary64.Multiply4x4 a b 3 1 = 0
    ∧ binary64.Multiply4x4 a b 3 2 = 0 ∧ binary64.Multiply4x4 a b 3 3 = 1 := by
  obtain ⟨a0, a1, a2, a3⟩ := ha
  obtain ⟨b0, b1, b2, b3⟩ := hb
  simp [Arithmetic.Multiply4x4, binary64, a0, a1, a2, a3, b0, b1, b2, b3, roundToBinary64_zero,
    roundToBinary64_one]

theorem binary64_zero : binary64.zero = 0 := by
  simp [Arithmetic.zero, binary64, roundToBinary64_zero]

theorem binary64_one : binary64.one = 1 := by
  simp [Arithmetic.one, binary64, roundToBinary64_one]

theorem translationMatrix_binary64_last_row (x y z : ℚ) :
    binary64.translationMatrix x y z 3 0 = 0 ∧ binary64.translationMatrix x y z 3 1 = 0
    ∧ binary64.translationMatrix x y z 3 2 = 0 ∧ binary64.translationMatrix x y z 3 3 = 1 :=
  ⟨binary64_zero, binary64_zero, binary64_zero, binary64_one⟩

theorem rotationMatrix_binary64_last_row (trig : Trig ℚ) (angle x y z : ℚ) :
    binary64.rotationMatrix trig angle x y z 3 0 = 0
    ∧ binary64.rotationMatrix trig angle x y z 3 1 = 0
    ∧ binary64.rotationMatrix trig angle x y z 3 2 = 0
    ∧ binary64.rotationMatrix trig angle x y z 3 3 = 1 :=
  ⟨binary64_zero, binary64_zero, binary64_zero, binary64_one⟩

theorem identityMatrix_binary64_last_row :
    binary64.identityMatrix 3 0 = 0 ∧ binary64.identityMatrix 3 1 = 0
    ∧ binary64.identityMatrix 3 2 = 0 ∧ binary64.identityMatrix 3 3 = 1 :=
  ⟨binary64_zero, binary64_zero, binary64_zero, binary64_one⟩

/-- In the arithmetic of `double`, the matrix of the chain has the last row `(0, 0, 0, 1)`
whenever the image matrix has. -/
theorem isocenterToRtImageRas_binary64_last_row (trig : Trig ℚ) (c : ℚ × ℚ × ℚ)
    (SAD g a SID : ℚ) (p : ℚ × ℚ) (M : Matrix4x4 ℚ)
    (hM : M 3 0 = 0 ∧ M 3 1 = 0 ∧ M 3 2 = 0 ∧ M 3 3 = 1) :
    binary64.isocenterToRtImageRas trig c SAD g a SID p M 3 0 = 0
    ∧ binary64.isocenterToRtImageRas trig c SAD g a SID p M 3 1 = 0
    ∧ binary64.isocenterToRtImageRas trig c SAD g a SID p M 3 2 = 0
    ∧ binary64.isocenterToRtImageRas trig c SAD g a SID p M 3 3 = 1 := by
  unfold Arithmetic.isocenterToRtImageRas
  have hI := identityMatrix_binary64_last_row
  have hT := translationMatrix_binary64_last_row
  have hR := rotationMatrix_binary64_last_row trig
  have hm := Multiply4x4_binary64_last_row
  exact hm _ _ (hm _ _ (hm _ _ (hm _ _ (hm _ _ (hm _ _ (hm _ _ (hm _ _ hI (hm _ _ hI (hT _ _ _)))
    (hm _ _ hI (hR _ _ _ _))) (hm _ _ hI (hR _ _ _ _))) (hm _ _ hI (hT _ _ _)))
    (hm _ _ hI (hT _ _ _))) (hm _ _ hI (hT _ _ _))) (hm _ _ hI (hR _ _ _ _))) hM

section RigidClaim

variable {R : Type} [CommRing R]

/-- C22, amended.  In exact arithmetic the placement applied by `SetupRtImageGeometry` is
rigid.  For every isocenter, couch and gantry angle, source-axis distance, image SID and image
position, the matrix that lines 1412-1469 give for the identity image matrix when every
operation is carried out exactly (the product of steps 1 to 7) has the last row `(0, 0, 0, 1)`
and a linear part that is orthogonal with determinant one, and it keeps the square of the
distance between any two points.  The cosine and sine are taken with `cos² + sin² = 1` at the
three angles of the rotations.  The last row is `(0, 0, 0, 1)` also for the matrix computed in
the arithmetic of `double`, whatever the values of the cosine and the sine, as long as no
operation overflows. -/
theorem setupRtImageGeometry_placement_rigid (trig : Trig R) (c : R × R × R)
    (SAD g a SID : R) (p : R × R)
    (hcouch : trig.cosDeg (-a) ^ 2 + trig.sinDeg (-a) ^ 2 = 1)
    (hgantry : trig.cosDeg g ^ 2 + trig.sinDeg g ^ 2 = 1)
    (hquarter : trig.cosDeg 90 ^ 2 + trig.sinDeg 90 ^ 2 = 1) :
    ((Arithmetic.exact R).isocenterToRtImageRas trig c SAD g a SID p 1 3 0 = 0
      ∧ (Arithmetic.exact R).isocenterToRtImageRas trig c SAD g a SID p 1 3 1 = 0
      ∧ (Arithmetic.exact R).isocenterToRtImageRas trig c SAD g a SID p 1 3 2 = 0
      ∧ (Arithmetic.exact R).isocenterToRtImageRas trig c SAD g a SID p 1 3 3 = 1)
    ∧ (linearPart ((Arithmetic.exact R).isocenterToRtImageRas trig c SAD g a SID p 1)).transpose
        * linearPart ((Arithmetic.exact R).isocenterToRtImageRas trig c SAD g a SID p 1) = 1
    ∧ linearPart ((Arithmetic.exact R).isocenterToRtImageRas trig c SAD g a SID p 1)
        * (linearPart
            ((Arithmetic.exact R).isocenterToRtImageRas trig c SAD g a SID p 1)).transpose = 1
    ∧ (linearPart ((Arithmetic.exact R).isocenterToRtImageRas trig c SAD g a SID p 1)).det = 1
    ∧ (∀ x y : R × R × R,
        squaredDistance
            (transformPoint ((Arithmetic.exact R).isocenterToRtImageRas trig c SAD g a SID p 1) x)
            (transformPoint ((Arithmetic.exact R).isocenterToRtImageRas trig c SAD g a SID p 1) y)
          = squaredDistance x y)
    ∧ ∀ (trig64 : Trig ℚ) (c64 : ℚ × ℚ × ℚ) (SAD64 g64 a64 SID64 : ℚ) (p64 : ℚ × ℚ),
        binary64.isocenterToRtImageRas trig64 c64 SAD64 g64 a64 SID64 p64
            binary64.identityMatrix 3 0 = 0
        ∧ binary64.isocenterToRtImageRas trig64 c64 SAD64 g64 a64 SID64 p64
            binary64.identityMatrix 3 1 = 0
        ∧ binary64.isocenterToRtImageRas trig64 c64 SAD64 g64 a64 SID64 p64
            binary64.identityMatrix 3 2 = 0
        ∧ binary64.isocenterToRtImageRas trig64 c64 SAD64 g64 a64 SID64 p64
            binary64.identityMatrix 3 3 = 1 := by
  rw [Arithmetic.isocenterToRtImageRas_exact]
  have h : IsRigid (isocenterToRtImageRas trig c SAD g a SID p 1) := by
    rw [isocenterToRtImageRas_eq_chain]
    exact IsRigid_placementChain trig c a g SAD SID p.1 p.2 hcouch hgantry hquarter
  exact ⟨h.1, h.2.1, h.2.2.1, h.2.2.2, fun x y => h.squaredDistance_eq x y,
    fun trig64 c64 SAD64 g64 a64 SID64 p64 =>
      isocenterToRtImageRas_binary64_last_row trig64 c64 SAD64 g64 a64 SID64 p64 _
        identityMatrix_binary64_last_row⟩

/-- Witness of the amended C22 with the exact trigonometry at the multiples of a quarter turn:
isocenter at the origin, couch angle 0, gantry angle 90, SAD 1000, SID 1500, image position
(-200, -200). -/
theorem setupRtImageGeometry_placement_rigid_witness :
    (quarterTurnTrig.cosDeg (-0) ^ 2 + quarterTurnTrig.sinDeg (-0) ^ 2 = 1)
    ∧ (quarterTurnTrig.cosDeg 90 ^ 2 + quarterTurnTrig.sinDeg 90 ^ 2 = 1)
    ∧ (linearPart ((Arithmetic.exact ℤ).isocenterToRtImageRas quarterTurnTrig (0, 0, 0) 1000 90 0
          1500 (-200, -200) 1)).det = 1
    ∧ ∀ x y : ℤ × ℤ × ℤ,
        squaredDistance
            (transformPoint
              ((Arithmetic.exact ℤ).isocenterToRtImageRas quarterTurnTrig (0, 0, 0) 1000 90 0
                1500 (-200, -200) 1) x)
            (transformPoint
              ((Arithmetic.exact ℤ).isocenterToRtImageRas quarterTurnTrig (0, 0, 0) 1000 90 0
                1500 (-200, -200) 1) y)
          = squaredDistance x y :=
  ⟨by decide, by decide,
    (setupRtImageGeometry_placement_rigid quarterTurnTrig (0, 0, 0) 1000 90 0 1500 (-200, -200)
      (by decide) (by decide) (by decide)).2.2.2.1,
    (setupRtImageGeometry_placement_rigid quarterTurnTrig (0, 0, 0) 1000 90 0 1500 (-200, -200)
      (by decide) (by decide) (by decide)).2.2.2.2.1⟩

/-- C28, amended.  In exact arithmetic the matrix of lines 1412-1469 depends on the
source-axis distance and on the image SID only through their difference: when every operation
is carried out exactly, adding the same `d` to both distances gives the same matrix, the
translation by `(0, SAD, 0)` followed by the one by `(0, -SID, 0)` is the translation by
`(0, SAD - SID, 0)`, and the whole concatenation is the chain with that single translation in
their place. -/
theorem setupRtImageGeometry_sad_sid_difference (trig : Trig R) (c : R × R × R)
    (SAD g a SID d : R) (p : R × R) (M : Matrix4x4 R) :
    (Arithmetic.exact R).isocenterToRtImageRas trig c (SAD + d) g a (SID + d) p M
      = (Arithmetic.exact R).isocenterToRtImageRas trig c SAD g a SID p M
    ∧ (Arithmetic.exact R).Multiply4x4 ((Arithmetic.exact R).translationMatrix 0 SAD 0)
        ((Arithmetic.exact R).translationMatrix 0 (-SID) 0)
      = (Arithmetic.exact R).translationMatrix 0 (SAD - SID) 0
    ∧ (Arithmetic.exact R).isocenterToRtImageRas trig c SAD g a SID p M
      = translationMatrix c.1 c.2.1 c.2.2 * rotationMatrix trig (-a) 0 1 0
          * rotationMatrix trig g 0 0 1 * translationMatrix 0 (SAD - SID) 0
          * translationMatrix (-p.1) 0 p.2 * rotationMatrix trig 90 1 0 0 * M := by
  simp only [Arithmetic.isocenterToRtImageRas_exact, Arithmetic.Multiply4x4_exact,
    Arithmetic.translationMatrix_exact]
  have ht : ∀ u v : R, T 0 u 0 * T 0 (-v) 0 = T (0 : R) (u - v) 0 := by
    intro u v
    simp only [T, mul_fin_four]
    simp only [mul_zero, zero_mul, add_zero, zero_add, mul_one, one_mul]
    rw [sub_eq_add_neg, add_comm u (-v)]
  have hchain : ∀ u v : R, isocenterToRtImageRas trig c u g a v p M
      = T c.1 c.2.1 c.2.2 * Ry trig (-a) * Rz trig g * T 0 (u - v) 0 * T (-p.1) 0 p.2
          * Rx trig 90 * M := by
    intro u v
    rw [isocenterToRtImageRas_eq_chain, placementChain,
      Matrix.mul_assoc (T c.1 c.2.1 c.2.2 * Ry trig (-a) * Rz trig g) (T 0 u 0) (T 0 (-v) 0), ht]
  refine ⟨?_, ?_, ?_⟩
  · rw [hchain, hchain]
    have : SAD + d - (SID + d) = SAD - SID := by ring
    rw [this]
  · simp only [translationMatrix_eq_T]
    exact ht SAD SID
  · rw [hchain]
    simp only [translationMatrix_eq_T, rotationMatrix_x, rotationMatrix_y, rotationMatrix_z]

end RigidClaim

section ChildrenCount

variable {R : Type} [CommRing R]

theorem length_filter_eq_range {α : Type} (p : α → Bool) (l : List α) :
    (l.filter p).length
      = ((List.range l.length).filter (fun k => (l[k]?).any p)).length := by
  induction l with
  | nil => simp
  | cons a rest ih =>
    rw [List.length_cons, List.range_succ_eq_map, List.filter_cons, List.filter_cons,
      List.filter_map]
    have hcomp : ((fun k => ((a :: rest)[k]?).any p) ∘ Nat.succ) = fun k => (rest[k]?).any p := by
      funext k
      simp
    rw [hcomp]
    have h0 : ((a :: rest)[0]?).any p = p a := by simp
    rw [h0]
    cases p a <;> simp [ih, List.length_map]

/-- When every child item of the plan item holds a beam, the number of child items of the plan
item, which the code takes for the number of beams, is the number of beams of the plan. -/
theorem Scene.GetNumberOfItemChildren_eq_beams (s : Scene R) (planShItemID : Nat)
    (h : ∀ i ∈ s.GetItemChildren, s.GetItemParent i = planShItemID → s.IsBeam i = true) :
    s.GetNumberOfItemChildren planShItemID = (s.GetBeams planShItemID).length := by
  unfold Scene.GetNumberOfItemChildren Scene.GetBeams
  rw [length_filter_eq_range]
  have hbeams : s.GetItemChildren.filter
        (fun i => decide (s.IsBeam i = true ∧ s.GetItemParent i = planShItemID))
      = s.GetItemChildren.filter (fun i => decide (s.GetItemParent i = planShItemID)) := by
    apply List.filter_congr
    intro i hi
    by_cases hp : s.GetItemParent i = planShItemID
    · simp [hp, h i hi hp]
    · simp [hp]
  rw [hbeams]
  unfold Scene.GetItemChildren
  rw [List.filter_map, List.length_map]
  congr 1
  apply List.filter_congr
  intro k hk
  have hk2 : k < s.Items.length := List.mem_range.1 hk
  simp only [Function.comp, s.GetItemParent_eq_getElem k hk2, List.getElem?_eq_getElem hk2,
    Option.any_some]

end ChildrenCount

section BeamSearch

variable {R : Type} [CommRing R]

/-- The search loop of the beam entry, entered without image, ends at the first item of the
list that passes the test, or without image. -/
theorem searchRtImageForBeam_eq_find (env : Env R) (s : Scene R) (planShItemID : Nat)
    (beamNumber : Int) (oneBeamInPlan : Bool) (L : List Nat) :
    searchRtImageForBeam env s planShItemID beamNumber oneBeamInPlan L INVALID_ITEM_ID
      = .finished
          ((L.find? (isRtImageOfBeam env s planShItemID beamNumber oneBeamInPlan)).getD
            INVALID_ITEM_ID) := by
  induction L with
  | nil => rfl
  | cons i rest ih =>
    rw [searchRtImageForBeam, List.find?_cons]
    by_cases h : s.IsScalarVolume i = true
        ∧ s.GetItemAttribute i .DICOMRTIMPORT_RTIMAGE_IDENTIFIER ≠ ""
        ∧ planShItemID ∈ s.GetItemsReferencedFromItemByDICOM env i
        ∧ (env.ToInt (s.GetItemAttribute i .DICOMRTIMPORT_BEAM_NUMBER) = beamNumber
            ∨ oneBeamInPlan = true)
    · have hp : isRtImageOfBeam env s planShItemID beamNumber oneBeamInPlan i = true := by
        unfold isRtImageOfBeam
        exact decide_eq_true h
      rw [if_pos h, hp]
      rfl
    · have hp : isRtImageOfBeam env s planShItemID beamNumber oneBeamInPlan i = false := by
        unfold isRtImageOfBeam
        exact decide_eq_false h
      rw [if_neg h, if_neg (by simp), hp]
      exact ih

/-- The ids before the first occurrence of an id in the enumeration of the items. -/
theorem Scene.GetItemChildren_split (s : Scene R) (I : Nat) (as bs : List Nat)
    (h : s.GetItemChildren = as ++ I :: bs) (j : Nat) (h2 : 2 ≤ j) (hj : j < I) : j ∈ as := by
  have hget : ∀ m : Nat, m < s.GetItemChildren.length → s.GetItemChildren[m]? = some (m + 2) := by
    intro m hm
    have hm2 : m < s.Items.length := by simpa [Scene.GetItemChildren] using hm
    simp [Scene.GetItemChildren, hm2]
  have hI : I = as.length + 2 := by
    have hm : as.length < s.GetItemChildren.length := by rw [h]; simp
    have := hget as.length hm
    rw [h, List.getElem?_append_right (Nat.le_refl _)] at this
    simpa using this
  have hm : j - 2 < as.length := by omega
  have hm2 : j - 2 < s.GetItemChildren.length := by rw [h]; simp; omega
  have := hget (j - 2) hm2
  rw [h, List.getElem?_append_left hm] at this
  have e : j - 2 + 2 = j := by omega
  rw [e] at this
  exact List.getElem?_mem this

/-- A beam node is not a scalar volume node. -/
theorem Scene.IsScalarVolume_of_IsBeam (s : Scene R) (i : Nat) (h : s.IsBeam i = true) :
    s.IsScalarVolume i = false := by
  unfold Scene.IsBeam at h
  unfold Scene.IsScalarVolume
  cases hn : s.GetItemDataNode i with
  | none => rfl
  | some node =>
    rw [hn] at h
    cases node <;> first | rfl | simp at h

/-- C21. `SetupRtImageGeometry` called with a beam whose plan item is valid and carries an
instance UID.  The search loop of lines 1319-1364 gives the first item in scene order that
passes the test: it holds a scalar volume, carries the RT image marker, references the plan of
the beam, and either its referenced beam number is the number of the beam or the plan item has
exactly one child item, the count the code takes for the number of beams of the plan (it is the
number of beams when every child item of the plan item holds a beam).  When
there is such an item the geometry is set up for that item and the beam, and no item before it
in scene order passes the test; when there is none the function only logs that the RT image
is not loaded yet.  An item that references the plan with another beam number, for a plan item
with another number of children than one, is never selected, and an item that does not
reference the plan is never selected. -/
theorem setupRtImageGeometry_beam_selects_first_image (env : Env R) (s : Scene R) (node : Nat)
    (hbeam : s.IsBeam node = true)
    (hplan : s.GetParentPlanItem node ≠ INVALID_ITEM_ID)
    (huid : s.GetItemUID (s.GetParentPlanItem node) .DICOMInstanceUIDName ≠ "") :
    searchRtImageForBeam env s (s.GetParentPlanItem node) (s.GetBeamNumber node)
        (decide (s.GetNumberOfItemChildren (s.GetParentPlanItem node) = 1))
        s.GetItemChildren INVALID_ITEM_ID
      = .finished
          ((s.GetItemChildren.find?
              (isRtImageOfBeam env s (s.GetParentPlanItem node) (s.GetBeamNumber node)
                (decide (s.GetNumberOfItemChildren (s.GetParentPlanItem node) = 1)))).getD
            INVALID_ITEM_ID)
    ∧ (∀ I : Nat,
        s.GetItemChildren.find?
            (isRtImageOfBeam env s (s.GetParentPlanItem node) (s.GetBeamNumber node)
              (decide (s.GetNumberOfItemChildren (s.GetParentPlanItem node) = 1)))
          = some I →
        SetupRtImageGeometry env s node = setupGeometryOfPair env s I node
        ∧ (s.IsScalarVolume I = true
          ∧ s.GetItemAttribute I .DICOMRTIMPORT_RTIMAGE_IDENTIFIER ≠ ""
          ∧ s.GetParentPlanItem node ∈ s.GetItemsReferencedFromItemByDICOM env I
          ∧ (env.ToInt (s.GetItemAttribute I .DICOMRTIMPORT_BEAM_NUMBER) = s.GetBeamNumber node
              ∨ s.GetNumberOfItemChildren (s.GetParentPlanItem node) = 1))
        ∧ ∀ j : Nat, 2 ≤ j → j < I →
            isRtImageOfBeam env s (s.GetParentPlanItem node) (s.GetBeamNumber node)
              (decide (s.GetNumberOfItemChildren (s.GetParentPlanItem node) = 1)) j = false)
    ∧ (s.GetItemChildren.find?
            (isRtImageOfBeam env s (s.GetParentPlanItem node) (s.GetBeamNumber node)
              (decide (s.GetNumberOfItemChildren (s.GetParentPlanItem node) = 1)))
          = none →
        SetupRtImageGeometry env s node
          = s.log .Debug
              "SetupRtImageGeometry: Cannot set up geometry because the RT image is not loaded yet")
    ∧ (∀ I : Nat, I ≠ INVALID_ITEM_ID →
        s.GetParentPlanItem node ∈ s.GetItemsReferencedFromItemByDICOM env I →
        env.ToInt (s.GetItemAttribute I .DICOMRTIMPORT_BEAM_NUMBER) ≠ s.GetBeamNumber node →
        s.GetNumberOfItemChildren (s.GetParentPlanItem node) ≠ 1 →
        searchRtImageForBeam env s (s.GetParentPlanItem node) (s.GetBeamNumber node)
            (decide (s.GetNumberOfItemChildren (s.GetParentPlanItem node) = 1))
            s.GetItemChildren INVALID_ITEM_ID ≠ .finished I)
    ∧ (∀ I : Nat, I ≠ INVALID_ITEM_ID →
        s.GetParentPlanItem node ∉ s.GetItemsReferencedFromItemByDICOM env I →
        searchRtImageForBeam env s (s.GetParentPlanItem node) (s.GetBeamNumber node)
            (decide (s.GetNumberOfItemChildren (s.GetParentPlanItem node) = 1))
            s.GetItemChildren INVALID_ITEM_ID ≠ .finished I)
    ∧ ((∀ i ∈ s.GetItemChildren, s.GetItemParent i = s.GetParentPlanItem node →
          s.IsBeam i = true) →
        s.GetNumberOfItemChildren (s.GetParentPlanItem node)
          = (s.GetBeams (s.GetParentPlanItem node)).length) := by
  have hsearch := searchRtImageForBeam_eq_find env s (s.GetParentPlanItem node)
    (s.GetBeamNumber node) (decide (s.GetNumberOfItemChildren (s.GetParentPlanItem node) = 1))
    s.GetItemChildren
  have hvol := s.IsScalarVolume_of_IsBeam node hbeam
  have hsel : ∀ I : Nat, I ≠ INVALID_ITEM_ID →
      searchRtImageForBeam env s (s.GetParentPlanItem node) (s.GetBeamNumber node)
          (decide (s.GetNumberOfItemChildren (s.GetParentPlanItem node) = 1))
          s.GetItemChildren INVALID_ITEM_ID = .finished I →
      isRtImageOfBeam env s (s.GetParentPlanItem node) (s.GetBeamNumber node)
        (decide (s.GetNumberOfItemChildren (s.GetParentPlanItem node) = 1)) I = true := by
    intro I hI h
    rw [hsearch] at h
    injection h with h
    cases hf : s.GetItemChildren.find?
        (isRtImageOfBeam env s (s.GetParentPlanItem node) (s.GetBeamNumber node)
          (decide (s.GetNumberOfItemChildren (s.GetParentPlanItem node) = 1))) with
    | none =>
      rw [hf] at h
      exact absurd h.symm hI
    | some K =>
      rw [hf] at h
      have hK : K = I := h
      rw [← hK]
      exact List.find?_some hf
  refine ⟨hsearch, ?_, ?_, ?_, ?_, s.GetNumberOfItemChildren_eq_beams _⟩
  · intro I hI
    have hmem : I ∈ s.GetItemChildren := List.mem_of_find?_eq_some hI
    have hne : I ≠ INVALID_ITEM_ID := by
      unfold Scene.GetItemChildren at hmem
      rw [List.mem_map] at hmem
      obtain ⟨k, _, rfl⟩ := hmem
      simp [INVALID_ITEM_ID]
    have hfin : searchRtImageForBeam env s (s.GetParentPlanItem node) (s.GetBeamNumber node)
        (decide (s.GetNumberOfItemChildren (s.GetParentPlanItem node) = 1))
        s.GetItemChildren INVALID_ITEM_ID = .finished I := by
      rw [hsearch, hI]
      rfl
    have hp := List.find?_some hI
    refine ⟨SetupRtImageGeometry_of_beam env s I node hvol hbeam hplan huid hfin hne, ?_, ?_⟩
    · unfold isRtImageOfBeam at hp
      have := of_decide_eq_true hp
      refine ⟨this.1, this.2.1, this.2.2.1, ?_⟩
      rcases this.2.2.2 with h | h
      · exact Or.inl h
      · exact Or.inr (of_decide_eq_true h)
    · intro j h2 hj
      obtain ⟨_, as, bs, hsplit, hbefore⟩ := List.find?_eq_some.1 hI
      have := hbefore j (s.GetItemChildren_split I as bs hsplit j h2 hj)
      simpa using this
  · intro hnone
    have hfin : searchRtImageForBeam env s (s.GetParentPlanItem node) (s.GetBeamNumber node)
        (decide (s.GetNumberOfItemChildren (s.GetParentPlanItem node) = 1))
        s.GetItemChildren INVALID_ITEM_ID = .finished INVALID_ITEM_ID := by
      rw [hsearch, hnone]
      rfl
    simp only [SetupRtImageGeometry, hvol, hbeam, if_true, hplan, huid, hfin, if_false]
    simp
  · intro I hI href hnum hchildren hfin
    have hp := hsel I hI hfin
    unfold isRtImageOfBeam at hp
    have := of_decide_eq_true hp
    rcases this.2.2.2 with h | h
    · exact hnum h
    · exact hchildren (of_decide_eq_true h)
  · intro I hI href hfin
    have hp := hsel I hI hfin
    unfold isRtImageOfBeam at hp
    exact href (of_decide_eq_true hp).2.2.1

/-- Witness of C21 on the sample scene: called with the beam (item 3) of the plan (item 2), the
function sets up the geometry of the RT image (item 4). -/
theorem setupRtImageGeometry_beam_selects_first_image_witness :
    sampleScene.IsBeam 3 = true
    ∧ sampleScene.GetParentPlanItem 3 ≠ INVALID_ITEM_ID
    ∧ sampleScene.GetItemUID (sampleScene.GetParentPlanItem 3) .DICOMInstanceUIDName ≠ ""
    ∧ SetupRtImageGeometry sampleEnv sampleScene 3 = setupGeometryOfPair sampleEnv sampleScene 4 3 :=
  ⟨by decide, by decide, by decide,
    ((setupRtImageGeometry_beam_selects_first_image sampleEnv sampleScene 3 (by decide)
      (by decide) (by decide)).2.1 4 (by decide)).1⟩

end BeamSearch

section SliceEntries

variable {R : Type} [LinearOrderedCommRing R]

/-- The three containers of the slice loop grow together. -/
theorem cutSlices_lengths (xenv : ExportEnv R) (M : Matrix4x4 R) (normal : R × R × R)
    (bounds : Fin 6 → R) (imageExtent : Fin 6 → Int) (imageSliceUIDs : List String)
    (surface : vtkPolyData R) :
    ∀ (rounds : Nat) (slice : Int) (contours : SliceContours R),
      contours.sliceUIDs.length = contours.sliceNumbers.length →
      contours.sliceContours.length = contours.sliceNumbers.length →
      (cutSlices xenv M normal bounds imageExtent imageSliceUIDs surface rounds slice
          contours).sliceUIDs.length
        = (cutSlices xenv M normal bounds imageExtent imageSliceUIDs surface rounds slice
          contours).sliceNumbers.length
      ∧ (cutSlices xenv M normal bounds imageExtent imageSliceUIDs surface rounds slice
          contours).sliceContours.length
        = (cutSlices xenv M normal bounds imageExtent imageSliceUIDs surface rounds slice
          contours).sliceNumbers.length := by
  intro rounds
  induction rounds with
  | zero => intro slice contours h1 h2; exact ⟨h1, h2⟩
  | succ rounds ih =>
    intro slice contours h1 h2
    unfold cutSlices
    by_cases hc : M 2 3 + slice * normal.2.2 < bounds 4 ∨ M 2 3 + slice * normal.2.2 > bounds 5
    · rw [if_pos hc]
      exact ih _ _ h1 h2
    · rw [if_neg hc]
      exact ih _ _ (by simp [h1]) (by simp [h2])

/-- Every slice number recorded by the slice loop is the value of `slice` of its round minus
`imageExtent[0]`, the first column index, and its slice UID is looked up at that number. -/
theorem cutSlices_entries (xenv : ExportEnv R) (M : Matrix4x4 R) (normal : R × R × R)
    (bounds : Fin 6 → R) (imageExtent : Fin 6 → Int) (imageSliceUIDs : List String)
    (surface : vtkPolyData R) :
    ∀ (rounds : Nat) (slice : Int) (contours : SliceContours R),
      ∃ slices : List Int,
        (∀ z ∈ slices, slice ≤ z ∧ z < slice + rounds)
        ∧ (cutSlices xenv M normal bounds imageExtent imageSliceUIDs surface rounds slice
            contours).sliceNumbers
          = contours.sliceNumbers ++ slices.map (fun z => z - imageExtent 0)
        ∧ (cutSlices xenv M normal bounds imageExtent imageSliceUIDs surface rounds slice
            contours).sliceUIDs
          = contours.sliceUIDs ++ slices.map (fun z =>
              if 0 ≤ z - imageExtent 0 ∧ (z - imageExtent 0).toNat < imageSliceUIDs.length then
                imageSliceUIDs.getD (z - imageExtent 0).toNat ""
              else "") := by
  intro rounds
  induction rounds with
  | zero => intro slice contours; exact ⟨[], by simp, by simp [cutSlices], by simp [cutSlices]⟩
  | succ rounds ih =>
    intro slice contours
    unfold cutSlices
    by_cases hc : M 2 3 + slice * normal.2.2 < bounds 4 ∨ M 2 3 + slice * normal.2.2 > bounds 5
    · rw [if_pos hc]
      obtain ⟨slices, hz, h1, h2⟩ := ih (slice + 1) contours
      refine ⟨slices, ?_, h1, h2⟩
      intro z hzm
      have := hz z hzm
      push_cast
      omega
    · rw [if_neg hc]
      obtain ⟨slices, hz, h1, h2⟩ := ih (slice + 1)
        { sliceNumbers := contours.sliceNumbers ++ [slice - imageExtent 0]
          sliceUIDs :=
            contours.sliceUIDs ++
              [if 0 ≤ slice - imageExtent 0
                  ∧ (slice - imageExtent 0).toNat < imageSliceUIDs.length then
                imageSliceUIDs.getD (slice - imageExtent 0).toNat ""
              else ""]
          sliceContours :=
            contours.sliceContours ++
              [xenv.Cut surface
                (M 0 3 + slice * normal.1, M 1 3 + slice * normal.2.1,
                 M 2 3 + slice * normal.2.2) normal] }
      refine ⟨slice :: slices, ?_, ?_, ?_⟩
      · intro z hzm
        rcases List.mem_cons.1 hzm with rfl | hzm
        · push_cast
          omega
        · have := hz z hzm
          push_cast
          omega
      · rw [h1]
        simp
      · rw [h2]
        simp

end SliceEntries

/-- C23, evaluation at the failing input.  The anatomical image has the extent of the columns
1 to 2 and of the slices 0 to 3, the identity image-to-world matrix and the slice instance UIDs
`1.2.0` to `1.2.3`; the closed surface of the segment `organ` spans every slice.  For the
slices 0, 1 and 2 the export records the slice numbers -1, 0 and 1, the value of `slice` minus
the first column index, and with them the slice UIDs ``, `1.2.0` and `1.2.1`: slice 0 gets no
UID and the slices 1 and 2 get the UIDs of the slices 0 and 1.  The three lists have the same
length. -/
theorem exportDicomRTStudy_slice_number_offset :
    (croppedExportEnv.ConvertVolumeNodeToVtkOrientedImageData ⟨1, [], none, false⟩).map
        (fun imageData => (imageData.Extent 0, imageData.Extent 4, imageData.Extent 5))
      = some (1, 0, 3)
    ∧ ExportDicomRTStudy sliceUidEnv croppedExportEnv sliceUidScene sampleExportables
      = ("", some ⟨some ⟨(2, 2, 3)⟩, none,
          [.Contours "organ" (0, 1, 0) [-1, 0, 1] ["", "1.2.0", "1.2.1"]
            [[(0, 0, 0)], [(0, 0, 1)], [(0, 0, 2)]]], "out"⟩) := by
  decide

section LoadDicomRTTheorems

variable {R : Type} [CommRing R]

/-- C26. `LoadDicomRT` returns false, having only logged an error, when the loadable is null,
has no file or has confidence zero.  Otherwise, with the reader of the first file, the loaders
whose flag is set run in the order structure set, dose, plan, image, each on the scene the
earlier ones left, and the value returned is the result of the last one that ran, false when
none ran; so the result of an earlier loader is not reported when a later loader runs.  The
last part is an instance: for a file read as a dose and as a plan whose dose volume cannot be
read, `LoadRtDose` fails and `LoadDicomRT` returns true. -/
theorem loadDicomRT_result (env : Env R) (Update : String → vtkSlicerDicomRtReader R)
    (s : Scene R) :
    LoadDicomRT env Update s none
      = (s.log .Error
          "LoadDicomRT: Unable to load DICOM-RT data due to invalid loadable information", false)
    ∧ (∀ loadable : vtkSlicerDICOMLoadable R,
        loadable.Files = [] ∨ loadable.ConfidenceIsZero = true →
        LoadDicomRT env Update s (some loadable)
          = (s.log .Error
              "LoadDicomRT: Unable to load DICOM-RT data due to invalid loadable information",
            false))
    ∧ (∀ (loadable : vtkSlicerDICOMLoadable R) (firstFileName : String) (files : List String),
        loadable.Files = firstFileName :: files → loadable.ConfidenceIsZero = false →
        ∃ s1 s2 s3 : Scene R,
          s1 = (if (Update firstFileName).LoadRTStructureSetSuccessful then
                  (LoadRtStructureSet env s (Update firstFileName) loadable).1 else s)
          ∧ s2 = (if (Update firstFileName).LoadRTDoseSuccessful then
                  (LoadRtDose env s1 (Update firstFileName) loadable).1 else s1)
          ∧ s3 = (if (Update firstFileName).LoadRTPlanSuccessful then
                  (LoadRtPlan env s2 (Update firstFileName) loadable).1 else s2)
          ∧ (LoadDicomRT env Update s (some loadable)).1
              = (if (Update firstFileName).LoadRTImageSuccessful then
                  (LoadRtImage env s3 (Update firstFileName) loadable).1 else s3)
          ∧ (LoadDicomRT env Update s (some loadable)).2
              = (if (Update firstFileName).LoadRTImageSuccessful then
                  (LoadRtImage env s3 (Update firstFileName) loadable).2
                else if (Update firstFileName).LoadRTPlanSuccessful then
                  (LoadRtPlan env s2 (Update firstFileName) loadable).2
                else if (Update firstFileName).LoadRTDoseSuccessful then
                  (LoadRtDose env s1 (Update firstFileName) loadable).2
                else if (Update firstFileName).LoadRTStructureSetSuccessful then
                  (LoadRtStructureSet env s (Update firstFileName) loadable).2
                else false))
    ∧ ((LoadRtDose sampleEnv Scene.empty doseAndPlanReader samplePlanLoadable).2 = false
      ∧ (LoadDicomRT sampleEnv (fun _ => doseAndPlanReader) Scene.empty
          (some samplePlanLoadable)).2 = true) := by
  refine ⟨rfl, ?_, ?_, by decide⟩
  · intro loadable h
    cases hfiles : loadable.Files with
    | nil => simp only [LoadDicomRT, hfiles]
    | cons firstFileName files =>
      rcases h with h | h
      · rw [hfiles] at h
        exact absurd h (List.cons_ne_nil _ _)
      · simp only [LoadDicomRT, hfiles, h, if_true]
  · intro loadable firstFileName files hfiles hconf
    refine ⟨_, _, _, rfl, rfl, rfl, ?_, ?_⟩
    · simp only [LoadDicomRT, hfiles, hconf, runLoaderIf]
      cases (Update firstFileName).LoadRTImageSuccessful <;>
        cases (Update firstFileName).LoadRTPlanSuccessful <;>
        cases (Update firstFileName).LoadRTDoseSuccessful <;>
        cases (Update firstFileName).LoadRTStructureSetSuccessful <;> rfl
    · simp only [LoadDicomRT, hfiles, hconf, runLoaderIf]
      cases (Update firstFileName).LoadRTImageSuccessful <;>
        cases (Update firstFileName).LoadRTPlanSuccessful <;>
        cases (Update firstFileName).LoadRTDoseSuccessful <;>
        cases (Update firstFileName).LoadRTStructureSetSuccessful <;> rfl

end LoadDicomRTTheorems

section DisplayName

/-- Function `ExamineRtDoseDataset` appends to the name it is given. -/
theorem ExamineRtDoseDataset_name (dicomDatabase : ctkDICOMDatabase) (dataset : DcmDataset)
    (name : String) (referencedSOPInstanceUIDs : List String) :
    (ExamineRtDoseDataset dicomDatabase (some dataset) name referencedSOPInstanceUIDs).1
        = name ++ (ExamineRtDoseDataset dicomDatabase (some dataset) ""
            referencedSOPInstanceUIDs).1
    ∧ ∃ rest : String,
        (ExamineRtDoseDataset dicomDatabase (some dataset) "" referencedSOPInstanceUIDs).1
          = "RTDOSE" ++ rest := by
  simp only [ExamineRtDoseDataset]
  refine ⟨?_, ?_⟩
  · split_ifs <;> simp [String.append_assoc]
  · split_ifs
    all_goals simp only [String.empty_append, String.append_assoc]
    all_goals first
      | exact ⟨_, rfl⟩
      | exact ⟨"", (String.append_empty _).symm⟩

/-- Function `ExamineRtPlanDataset` appends to the name it is given. -/
theorem ExamineRtPlanDataset_name (dataset : DcmDataset) (name : String)
    (referencedSOPInstanceUIDs : List String) :
    (ExamineRtPlanDataset (some dataset) name referencedSOPInstanceUIDs).1
        = name ++ (ExamineRtPlanDataset (some dataset) "" referencedSOPInstanceUIDs).1
    ∧ ∃ rest : String,
        (ExamineRtPlanDataset (some dataset) "" referencedSOPInstanceUIDs).1
          = "RTPLAN" ++ rest := by
  simp only [ExamineRtPlanDataset]
  refine ⟨?_, ?_⟩
  · split_ifs <;> simp [String.append_assoc]
  · split_ifs
    all_goals simp only [String.empty_append, String.append_assoc]
    all_goals first
      | exact ⟨_, rfl⟩
      | exact ⟨"", (String.append_empty _).symm⟩

/-- Function `ExamineRtStructureSetDataset` appends to the name it is given. -/
theorem ExamineRtStructureSetDataset_name (dataset : DcmDataset) (name : String)
    (referencedSOPInstanceUIDs : List String) :
    (ExamineRtStructureSetDataset (some dataset) name referencedSOPInstanceUIDs).1
        = name ++ (ExamineRtStructureSetDataset (some dataset) "" referencedSOPInstanceUIDs).1
    ∧ ∃ rest : String,
        (ExamineRtStructureSetDataset (some dataset) "" referencedSOPInstanceUIDs).1
          = "RTSTRUCT" ++ rest := by
  simp only [ExamineRtStructureSetDataset]
  cases dataset.rtStructureSetObject with
  | none =>
    simp only [apply_ite Prod.fst, ite_self]
    refine ⟨?_, ?_⟩
    · split_ifs <;> simp [String.append_assoc]
    · split_ifs
      all_goals simp only [String.empty_append, String.append_assoc]
      all_goals first
        | exact ⟨_, rfl⟩
        | exact ⟨"", (String.append_empty _).symm⟩
  | some rtStructureSetObject =>
    simp only [apply_ite Prod.fst, ite_self]
    refine ⟨?_, ?_⟩
    · split_ifs <;> simp [String.append_assoc]
    · split_ifs
      all_goals simp only [String.empty_append, String.append_assoc]
      all_goals first
        | exact ⟨_, rfl⟩
        | exact ⟨"", (String.append_empty _).symm⟩

/-- Function `ExamineRtImageDataset` appends to the name it is given. -/
theorem ExamineRtImageDataset_name (dataset : DcmDataset) (name : String)
    (referencedSOPInstanceUIDs : List String) :
    (ExamineRtImageDataset (some dataset) name referencedSOPInstanceUIDs).1
        = name ++ (ExamineRtImageDataset (some dataset) "" referencedSOPInstanceUIDs).1
    ∧ ∃ rest : String,
        (ExamineRtImageDataset (some dataset) "" referencedSOPInstanceUIDs).1
          = "RTIMAGE" ++ rest := by
  simp only [ExamineRtImageDataset]
  cases dataset.rtImageObject with
  | none =>
    simp only [apply_ite Prod.fst, ite_self]
    refine ⟨?_, ?_⟩
    · split_ifs <;> simp [String.append_assoc]
    · split_ifs
      all_goals simp only [String.empty_append, String.append_assoc]
      all_goals first
        | exact ⟨_, rfl⟩
        | exact ⟨"", (String.append_empty _).symm⟩
  | some rtImageObject =>
    simp only [apply_ite Prod.fst, ite_self]
    refine ⟨?_, ?_⟩
    · split_ifs <;> simp [String.append_assoc]
    · split_ifs
      all_goals simp only [String.empty_append, String.append_assoc]
      all_goals first
        | exact ⟨_, rfl⟩
        | exact ⟨"", (String.append_empty _).symm⟩

/-- The examiner selected by the SOP class appends to the name it is given. -/
theorem examinedBySopClass_name (env : DcmtkEnv) (dicomDatabase : ctkDICOMDatabase)
    (dataset : DcmDataset) (name : String) :
    (examinedBySopClass env dicomDatabase dataset name).1
      = name ++ (examinedBySopClass env dicomDatabase dataset "").1 := by
  unfold examinedBySopClass
  split_ifs
  · exact (ExamineRtDoseDataset_name dicomDatabase dataset name []).1
  · exact (ExamineRtPlanDataset_name dataset name []).1
  · exact (ExamineRtStructureSetDataset_name dataset name []).1
  · exact (ExamineRtImageDataset_name dataset name []).1

end DisplayName

section DisplayNameClaim

/-- C29. Every loadable that `ExamineForLoad` produces comes from an input file that parses;
its display name is the name of the examiner selected by the SOP class, started from the empty
name, after the series number and `: ` when the series number of the dataset is not empty, and
that name alone when it is empty.  The examiner's name starts with `RTDOSE`, `RTPLAN`,
`RTSTRUCT` or `RTIMAGE` according to the SOP class.  Each of the four examiners appends to the
name it is given: its result is that name followed by what it produces from the empty name.
The last part is the RT plan file with the series number 5. -/
theorem examineForLoad_display_name (env : DcmtkEnv) (dicomDatabase : ctkDICOMDatabase)
    (fileList : List String) (loadables : List ExaminedLoadable) :
    (∀ loadable ∈ (ExamineForLoad env dicomDatabase (some fileList) (some loadables)).getD [],
      ∃ fileName ∈ fileList, ∃ dataset, env.loadFile fileName = some dataset
        ∧ loadable.Files = [fileName]
        ∧ (dataset.SeriesNumber ≠ "" →
            loadable.Name
              = dataset.SeriesNumber ++ ": "
                  ++ (examinedBySopClass env dicomDatabase dataset "").1)
        ∧ (dataset.SeriesNumber = "" →
            loadable.Name = (examinedBySopClass env dicomDatabase dataset "").1)
        ∧ ((dataset.SOPClassUID = env.UID_RTDoseStorage
              ∧ ∃ rest, (examinedBySopClass env dicomDatabase dataset "").1 = "RTDOSE" ++ rest)
          ∨ (dataset.SOPClassUID = env.UID_RTPlanStorage
              ∧ ∃ rest, (examinedBySopClass env dicomDatabase dataset "").1 = "RTPLAN" ++ rest)
          ∨ (dataset.SOPClassUID = env.UID_RTStructureSetStorage
              ∧ ∃ rest, (examinedBySopClass env dicomDatabase dataset "").1 = "RTSTRUCT" ++ rest)
          ∨ (dataset.SOPClassUID = env.UID_RTImageStorage
              ∧ ∃ rest, (examinedBySopClass env dicomDatabase dataset "").1 = "RTIMAGE" ++ rest)))
    ∧ (∀ (dataset : DcmDataset) (name : String) (referencedSOPInstanceUIDs : List String),
        (ExamineRtDoseDataset dicomDatabase (some dataset) name referencedSOPInstanceUIDs).1
            = name ++ (ExamineRtDoseDataset dicomDatabase (some dataset) ""
                referencedSOPInstanceUIDs).1
        ∧ (ExamineRtPlanDataset (some dataset) name referencedSOPInstanceUIDs).1
            = name ++ (ExamineRtPlanDataset (some dataset) "" referencedSOPInstanceUIDs).1
        ∧ (ExamineRtStructureSetDataset (some dataset) name referencedSOPInstanceUIDs).1
            = name ++ (ExamineRtStructureSetDataset (some dataset) ""
                referencedSOPInstanceUIDs).1
        ∧ (ExamineRtImageDataset (some dataset) name referencedSOPInstanceUIDs).1
            = name ++ (ExamineRtImageDataset (some dataset) "" referencedSOPInstanceUIDs).1)
    ∧ ExamineForLoad numberedDcmtkEnv emptyDatabase (some ["plan5.dcm", "plan.dcm"]) (some [])
        = some [⟨"5: RTPLAN: Prostate (Boost)", ["plan5.dcm"], 1, true, []⟩,
                ⟨"RTPLAN: Prostate (Boost)", ["plan.dcm"], 1, true, []⟩] := by
  refine ⟨?_, ?_, by decide⟩
  · intro loadable hmem
    have hexam : ExamineForLoad env dicomDatabase (some fileList) (some loadables)
        = some (fileList.filterMap (recognizedLoadable env dicomDatabase)) := by
      simp [ExamineForLoad, foldl_examineFile]
    rw [hexam, Option.getD_some] at hmem
    obtain ⟨fileName, hfile, hrec⟩ := List.mem_filterMap.1 hmem
    refine ⟨fileName, hfile, ?_⟩
    unfold recognizedLoadable at hrec
    cases hload : env.loadFile fileName with
    | none => simp [hload] at hrec
    | some dataset =>
      simp only [hload] at hrec
      by_cases hclass : dataset.SOPClassUID ≠ ""
          ∧ dataset.SOPClassUID ∈ [env.UID_RTDoseStorage, env.UID_RTPlanStorage,
              env.UID_RTStructureSetStorage, env.UID_RTImageStorage]
      · rw [if_pos hclass] at hrec
        injection hrec with hrec
        subst hrec
        refine ⟨dataset, rfl, rfl, ?_, ?_, ?_⟩
        · intro hnum
          simp only [hnum, ne_eq, not_false_eq_true, if_true]
          rw [examinedBySopClass_name]
        · intro hnum
          simp only [hnum, ne_eq, not_true_eq_false, if_false]
        · by_cases h1 : dataset.SOPClassUID = env.UID_RTDoseStorage
          · refine Or.inl ⟨h1, ?_⟩
            unfold examinedBySopClass
            rw [if_pos h1]
            exact (ExamineRtDoseDataset_name dicomDatabase dataset "" []).2
          · by_cases h2 : dataset.SOPClassUID = env.UID_RTPlanStorage
            · refine Or.inr (Or.inl ⟨h2, ?_⟩)
              unfold examinedBySopClass
              rw [if_neg h1, if_pos h2]
              exact (ExamineRtPlanDataset_name dataset "" []).2
            · by_cases h3 : dataset.SOPClassUID = env.UID_RTStructureSetStorage
              · refine Or.inr (Or.inr (Or.inl ⟨h3, ?_⟩))
                unfold examinedBySopClass
                rw [if_neg h1, if_neg h2, if_pos h3]
                exact (ExamineRtStructureSetDataset_name dataset "" []).2
              · have h4 : dataset.SOPClassUID = env.UID_RTImageStorage := by
                  have := hclass.2
                  simp only [List.mem_cons, h1, h2, h3, false_or, List.mem_singleton,
                    List.not_mem_nil, or_false] at this
                  exact this
                refine Or.inr (Or.inr (Or.inr ⟨h4, ?_⟩))
                unfold examinedBySopClass
                rw [if_neg h1, if_neg h2, if_neg h3]
                exact (ExamineRtImageDataset_name dataset "" []).2
      · rw [if_neg hclass] at hrec
        cases hrec
  · intro dataset name referencedSOPInstanceUIDs
    exact ⟨(ExamineRtDoseDataset_name dicomDatabase dataset name referencedSOPInstanceUIDs).1,
      (ExamineRtPlanDataset_name dataset name referencedSOPInstanceUIDs).1,
      (ExamineRtStructureSetDataset_name dataset name referencedSOPInstanceUIDs).1,
      (ExamineRtImageDataset_name dataset name referencedSOPInstanceUIDs).1⟩

end DisplayNameClaim

section BatchStateLemmas

variable {R : Type}

@[simp] theorem Scene.BatchProcessDepth_modifyItem (s : Scene R) (j : Nat)
    (f : ShItem R → ShItem R) : (s.modifyItem j f).BatchProcessDepth = s.BatchProcessDepth := by
  unfold Scene.modifyItem
  split_ifs <;> rfl

@[simp] theorem Scene.BatchProcessDepth_SetItemAttribute (s : Scene R) (j : Nat)
    (a : AttributeName) (v : String) :
    (s.SetItemAttribute j a v).BatchProcessDepth = s.BatchProcessDepth :=
  Scene.BatchProcessDepth_modifyItem s j _

@[simp] theorem Scene.BatchProcessDepth_SetItemUID (s : Scene R) (j : Nat) (a : UIDName)
    (v : String) : (s.SetItemUID j a v).BatchProcessDepth = s.BatchProcessDepth :=
  Scene.BatchProcessDepth_modifyItem s j _

@[simp] theorem Scene.BatchProcessDepth_SetItemName (s : Scene R) (j : Nat) (v : String) :
    (s.SetItemName j v).BatchProcessDepth = s.BatchProcessDepth :=
  Scene.BatchProcessDepth_modifyItem s j _

@[simp] theorem Scene.BatchProcessDepth_SetItemParent (s : Scene R) (j p : Nat) :
    (s.SetItemParent j p).BatchProcessDepth = s.BatchProcessDepth :=
  Scene.BatchProcessDepth_modifyItem s j _

@[simp] theorem Scene.BatchProcessDepth_SetItemDataNode (s : Scene R) (j : Nat)
    (n : vtkMRMLNode R) : (s.SetItemDataNode j n).BatchProcessDepth = s.BatchProcessDepth :=
  Scene.BatchProcessDepth_modifyItem s j _

@[simp] theorem Scene.BatchProcessDepth_log (s : Scene R) (sev : Severity) (text : String) :
    (s.log sev text).BatchProcessDepth = s.BatchProcessDepth := rfl

@[simp] theorem Scene.BatchProcessDepth_StartState (s : Scene R) :
    s.StartState.BatchProcessDepth = s.BatchProcessDepth + 1 := rfl

@[simp] theorem Scene.BatchProcessDepth_EndState (s : Scene R) :
    s.EndState.BatchProcessDepth = s.BatchProcessDepth - 1 := rfl

@[simp] theorem Scene.BatchProcessDepth_CreateItem (s : Scene R) (parent : Nat) (name : String)
    (node : Option (vtkMRMLNode R)) :
    (s.CreateItem parent name node).1.BatchProcessDepth = s.BatchProcessDepth := rfl

@[simp] theorem Scene.BatchProcessDepth_AddNode (s : Scene R) (name : String)
    (node : vtkMRMLNode R) : (s.AddNode name node).1.BatchProcessDepth = s.BatchProcessDepth :=
  rfl

@[simp] theorem Scene.BatchProcessDepth_ite (c : Prop) [Decidable c] (a b : Scene R) :
    (if c then a else b).BatchProcessDepth
      = if c then a.BatchProcessDepth else b.BatchProcessDepth := by
  split_ifs <;> rfl

@[simp] theorem Scene.BatchProcessDepth_CreateItemWithUID (s : Scene R) (parent : Nat)
    (name uid : String) :
    (s.CreateItemWithUID parent name uid).BatchProcessDepth = s.BatchProcessDepth := by
  simp [Scene.CreateItemWithUID]

@[simp] theorem Scene.BatchProcessDepth_ensurePatientItem (s : Scene R) (patientId : String) :
    (s.ensurePatientItem patientId).BatchProcessDepth = s.BatchProcessDepth := by
  simp [Scene.ensurePatientItem]

@[simp] theorem Scene.BatchProcessDepth_ensureStudyItem (s : Scene R)
    (patientId studyUid : String) :
    (s.ensureStudyItem patientId studyUid).BatchProcessDepth = s.BatchProcessDepth := by
  simp [Scene.ensureStudyItem]

@[simp] theorem Scene.BatchProcessDepth_InsertDicomSeriesInHierarchy (s : Scene R)
    (patientId studyUid seriesUid : String) :
    (s.InsertDicomSeriesInHierarchy patientId studyUid seriesUid).1.BatchProcessDepth
      = s.BatchProcessDepth := by
  unfold Scene.InsertDicomSeriesInHierarchy
  split_ifs <;> simp

@[simp] theorem Scene.BatchProcessDepth_AddSegment (s : Scene R) (j : Nat)
    (segment : vtkSegment R) : (s.AddSegment j segment).BatchProcessDepth = s.BatchProcessDepth := by
  unfold Scene.AddSegment
  split <;> simp

@[simp] theorem Scene.BatchProcessDepth_SetClosedSurfaceDisplay (s : Scene R) (j : Nat) :
    (s.SetClosedSurfaceDisplay j).BatchProcessDepth = s.BatchProcessDepth := by
  unfold Scene.SetClosedSurfaceDisplay
  split <;> simp

@[simp] theorem Scene.BatchProcessDepth_SetIsocenterPosition (s : Scene R) (j : Nat)
    (c : R × R × R) : (s.SetIsocenterPosition j c).1.BatchProcessDepth = s.BatchProcessDepth := by
  unfold Scene.SetIsocenterPosition
  split <;> simp

@[simp] theorem Scene.BatchProcessDepth_AddBeam (env : Env R) (s : Scene R) (p b : Nat) :
    (s.AddBeam env p b).BatchProcessDepth = s.BatchProcessDepth := by
  unfold Scene.AddBeam
  split <;> simp

end BatchStateLemmas

section BatchStateLoaders

variable {R : Type} [CommRing R]

@[simp] theorem BatchProcessDepth_fillPatientItem (env : Env R) (s : Scene R)
    (rtReader : vtkSlicerDicomRtReader R) :
    (fillPatientItem env s rtReader).BatchProcessDepth = s.BatchProcessDepth := by
  simp only [fillPatientItem]
  split_ifs <;> simp

@[simp] theorem BatchProcessDepth_fillStudyItem (env : Env R) (s : Scene R)
    (rtReader : vtkSlicerDicomRtReader R) :
    (fillStudyItem env s rtReader).BatchProcessDepth = s.BatchProcessDepth := by
  simp only [fillStudyItem]
  split_ifs <;> simp

/-- Function `InsertSeriesInSubjectHierarchy` leaves the batch state as it is. -/
@[simp] theorem BatchProcessDepth_InsertSeriesInSubjectHierarchy (env : Env R) (s : Scene R)
    (rtReader : vtkSlicerDicomRtReader R) :
    (InsertSeriesInSubjectHierarchy env s rtReader).BatchProcessDepth = s.BatchProcessDepth := by
  simp only [InsertSeriesInSubjectHierarchy]
  split_ifs <;> simp

@[simp] theorem BatchProcessDepth_setupGeometryOfPair (env : Env R) (s : Scene R) (i b : Nat) :
    (setupGeometryOfPair env s i b).BatchProcessDepth = s.BatchProcessDepth := by
  unfold setupGeometryOfPair
  split <;> try rfl
  split
  · simp
  · split <;> simp

/-- Function `SetupRtImageGeometry` leaves the batch state as it is. -/
@[simp] theorem BatchProcessDepth_SetupRtImageGeometry (env : Env R) (s : Scene R) (node : Nat) :
    (SetupRtImageGeometry env s node).BatchProcessDepth = s.BatchProcessDepth := by
  unfold SetupRtImageGeometry
  split_ifs
  all_goals try simp
  split
  · simp
  · split_ifs <;> simp

@[simp] theorem BatchProcessDepth_setupGeometryOfBeams (env : Env R) (beams : List Nat) :
    ∀ s : Scene R, (setupGeometryOfBeams env beams s).BatchProcessDepth = s.BatchProcessDepth := by
  induction beams with
  | nil => intro s; rfl
  | cons b beams ih =>
    intro s
    simp only [setupGeometryOfBeams]
    rw [ih, BatchProcessDepth_SetupRtImageGeometry]

@[simp] theorem BatchProcessDepth_createPlanItem (s : Scene R)
    (rtReader : vtkSlicerDicomRtReader R) (loadable : vtkSlicerDICOMLoadable R) :
    (createPlanItem s rtReader loadable).BatchProcessDepth = s.BatchProcessDepth := by
  simp [createPlanItem]

@[simp] theorem BatchProcessDepth_addBeamNode (env : Env R) (s : Scene R) (P : Nat)
    (beamNode : vtkMRMLRTBeamNode R) :
    (addBeamNode env s P beamNode).BatchProcessDepth = s.BatchProcessDepth := by
  simp [addBeamNode]

@[simp] theorem BatchProcessDepth_warnDifferentIsocenter (env : Env R) (s : Scene R)
    (c d : R × R × R) : (warnDifferentIsocenter env s c d).BatchProcessDepth = s.BatchProcessDepth := by
  unfold warnDifferentIsocenter
  split_ifs <;> simp

@[simp] theorem BatchProcessDepth_loadBeam (env : Env R) (rtReader : vtkSlicerDicomRtReader R)
    (P : Nat) (s : Scene R) (beamIndex : Nat) :
    (loadBeam env rtReader P s beamIndex).1.BatchProcessDepth = s.BatchProcessDepth := by
  unfold loadBeam
  split
  · rfl
  · split_ifs
    · simp
    · simp
    · split <;> simp

@[simp] theorem BatchProcessDepth_loadBeams (env : Env R) (rtReader : vtkSlicerDicomRtReader R)
    (P : Nat) :
    ∀ (rounds beamIndex : Nat) (s : Scene R),
      (loadBeams env rtReader P rounds beamIndex s).1.BatchProcessDepth = s.BatchProcessDepth := by
  intro rounds
  induction rounds with
  | zero => intro beamIndex s; rfl
  | succ rounds ih =>
    intro beamIndex s
    unfold loadBeams
    split_ifs
    · simp
    · rw [ih, BatchProcessDepth_loadBeam]

/-- The batch state after `LoadRtPlan`: ended when the function returns true, still started
when it returns false. -/
theorem BatchProcessDepth_LoadRtPlan (env : Env R) (s : Scene R)
    (rtReader : vtkSlicerDicomRtReader R) (loadable : vtkSlicerDICOMLoadable R) :
    (LoadRtPlan env s rtReader loadable).1.BatchProcessDepth
      = if (LoadRtPlan env s rtReader loadable).2 = true then s.BatchProcessDepth
        else s.BatchProcessDepth + 1 := by
  unfold LoadRtPlan placePlanUnderStudy
  split_ifs <;> simp_all

@[simp] theorem BatchProcessDepth_warnDifferentReferencedSeries (st : RoiLoopState R)
    (roi : RoiData R) :
    (warnDifferentReferencedSeries st roi).BatchProcessDepth = st.scene.BatchProcessDepth := by
  unfold warnDifferentReferencedSeries
  split_ifs <;> simp

@[simp] theorem BatchProcessDepth_fiducialSeriesItem (rtReader : vtkSlicerDicomRtReader R)
    (loadable : vtkSlicerDICOMLoadable R) (s : Scene R) (j : Nat) :
    (fiducialSeriesItem rtReader loadable s j).1.BatchProcessDepth = s.BatchProcessDepth := by
  unfold fiducialSeriesItem
  split_ifs <;> simp

@[simp] theorem BatchProcessDepth_addRoiPointItem (s : Scene R) (folder : Nat) (roi : RoiData R)
    (position : R × R × R) :
    (addRoiPointItem s folder roi position).BatchProcessDepth = s.BatchProcessDepth := by
  simp [addRoiPointItem]

@[simp] theorem BatchProcessDepth_checkReferencedVolume (s : Scene R) (uid : String) :
    (checkReferencedVolume s uid).BatchProcessDepth = s.BatchProcessDepth := by
  unfold checkReferencedVolume
  split_ifs <;> simp

@[simp] theorem BatchProcessDepth_createSegmentationItem (rtReader : vtkSlicerDicomRtReader R)
    (loadable : vtkSlicerDICOMLoadable R) (s : Scene R) (roi : RoiData R) (uid : String) :
    (createSegmentationItem rtReader loadable s roi uid).1.BatchProcessDepth
      = s.BatchProcessDepth := by
  simp [createSegmentationItem]

@[simp] theorem BatchProcessDepth_segmentationItem (rtReader : vtkSlicerDicomRtReader R)
    (loadable : vtkSlicerDICOMLoadable R) (s : Scene R) (j : Nat) (roi : RoiData R)
    (uid : String) :
    (segmentationItem rtReader loadable s j roi uid).1.BatchProcessDepth
      = s.BatchProcessDepth := by
  unfold segmentationItem
  split_ifs <;> simp

@[simp] theorem BatchProcessDepth_loadRoi (rtReader : vtkSlicerDicomRtReader R)
    (loadable : vtkSlicerDICOMLoadable R) (st : RoiLoopState R) (roi : RoiData R) :
    (loadRoi rtReader loadable st roi).scene.BatchProcessDepth = st.scene.BatchProcessDepth := by
  unfold loadRoi
  split
  · simp
  · split_ifs <;> simp

theorem BatchProcessDepth_foldl_loadRoi (rtReader : vtkSlicerDicomRtReader R)
    (loadable : vtkSlicerDICOMLoadable R) (rois : List (RoiData R)) :
    ∀ st : RoiLoopState R,
      (rois.foldl (loadRoi rtReader loadable) st).scene.BatchProcessDepth
        = st.scene.BatchProcessDepth := by
  induction rois with
  | nil => intro st; rfl
  | cons roi rois ih =>
    intro st
    rw [List.foldl_cons, ih, BatchProcessDepth_loadRoi]

/-- The batch state after `LoadRtStructureSet` is the one before the call. -/
theorem BatchProcessDepth_LoadRtStructureSet (env : Env R) (s : Scene R)
    (rtReader : vtkSlicerDicomRtReader R) (loadable : vtkSlicerDICOMLoadable R) :
    (LoadRtStructureSet env s rtReader loadable).1.BatchProcessDepth = s.BatchProcessDepth := by
  simp only [LoadRtStructureSet, Scene.BatchProcessDepth_EndState,
    BatchProcessDepth_InsertSeriesInSubjectHierarchy]
  split_ifs <;>
    simp [BatchProcessDepth_foldl_loadRoi]

/-- C27, the batch state at the exits of `LoadRtPlan` and `LoadRtStructureSet`.
`LoadRtStructureSet` has one exit after `StartState` and ends the batch state before it.
`LoadRtPlan` ends the batch state only on the exit that returns true: on every exit that
returns false the batch state is still started, one `StartState` without `EndState`.  The last
part is the failing input: the plan of a file with an empty patient id loaded into the empty
scene returns false at line 767 and leaves the batch state started. -/
theorem loadRtPlan_failure_leaves_batch_state (env : Env R) (s : Scene R)
    (rtReader : vtkSlicerDicomRtReader R) (loadable : vtkSlicerDICOMLoadable R) :
    (LoadRtStructureSet env s rtReader loadable).1.BatchProcessDepth = s.BatchProcessDepth
    ∧ ((LoadRtPlan env s rtReader loadable).2 = true →
        (LoadRtPlan env s rtReader loadable).1.BatchProcessDepth = s.BatchProcessDepth)
    ∧ ((LoadRtPlan env s rtReader loadable).2 = false →
        (LoadRtPlan env s rtReader loadable).1.BatchProcessDepth = s.BatchProcessDepth + 1)
    ∧ ((Scene.empty : Scene ℤ).BatchProcessDepth = 0
      ∧ (LoadRtPlan sampleEnv Scene.empty noPatientPlanReader samplePlanLoadable).2 = false
      ∧ (LoadRtPlan sampleEnv Scene.empty noPatientPlanReader
          samplePlanLoadable).1.BatchProcessDepth = 1) := by
  have h := BatchProcessDepth_LoadRtPlan env s rtReader loadable
  refine ⟨BatchProcessDepth_LoadRtStructureSet env s rtReader loadable, ?_, ?_, by decide⟩
  · intro ht
    rw [h, if_pos ht]
  · intro hf
    rw [h, if_neg (by rw [hf]; simp)]

end BatchStateLoaders

section PointCounters

variable {R : Type} [CommRing R]

/-- One round of the loop over the ROIs adds the points of the ROI to the total, whatever the
number of its points. -/
theorem totalNumberOfPoints_loadRoi (rtReader : vtkSlicerDicomRtReader R)
    (loadable : vtkSlicerDICOMLoadable R) (st : RoiLoopState R) (roi : RoiData R) :
    (loadRoi rtReader loadable st roi).totalNumberOfPoints
      = st.totalNumberOfPoints + (roiPointCount roi : Int) := by
  unfold loadRoi roiPointCount
  cases roi.RoiPolyData with
  | none => simp
  | some roiPolyData =>
    simp only
    by_cases h0 : roiPolyData.length = 0
    · rw [if_pos h0]
      simp [h0]
    · rw [if_neg h0]
      by_cases h1 : roiPolyData.length = 1
      · rw [if_pos h1]
      · rw [if_neg h1]

/-- One round of the loop over the ROIs raises the maximum to the number of points of the
ROI. -/
theorem maximumNumberOfPoints_loadRoi (rtReader : vtkSlicerDicomRtReader R)
    (loadable : vtkSlicerDICOMLoadable R) (st : RoiLoopState R) (roi : RoiData R) :
    (loadRoi rtReader loadable st roi).maximumNumberOfPoints
      = if roiPointCount roi = 0 then st.maximumNumberOfPoints
        else max st.maximumNumberOfPoints (roiPointCount roi : Int) := by
  unfold loadRoi roiPointCount
  cases roi.RoiPolyData with
  | none => simp
  | some roiPolyData =>
    simp only
    by_cases h0 : roiPolyData.length = 0
    · simp [h0]
    · rw [if_neg h0, if_neg h0]
      by_cases h1 : roiPolyData.length = 1
      · rw [if_pos h1]
        simp only [max_def]
        split_ifs <;> omega
      · rw [if_neg h1]
        simp only [max_def]
        split_ifs <;> omega

/-- The counters after the loop over the ROIs. -/
theorem counters_foldl_loadRoi (rtReader : vtkSlicerDicomRtReader R)
    (loadable : vtkSlicerDICOMLoadable R) (rois : List (RoiData R)) :
    ∀ st : RoiLoopState R,
      (rois.foldl (loadRoi rtReader loadable) st).totalNumberOfPoints
        = st.totalNumberOfPoints + ((rois.map roiPointCount).sum : Nat)
      ∧ (rois.foldl (loadRoi rtReader loadable) st).maximumNumberOfPoints
        = if (rois.map roiPointCount).foldr max 0 = 0 then st.maximumNumberOfPoints
          else max st.maximumNumberOfPoints (((rois.map roiPointCount).foldr max 0 : Nat) : Int) := by
  induction rois with
  | nil => intro st; simp
  | cons roi rois ih =>
    intro st
    rw [List.foldl_cons]
    obtain ⟨h1, h2⟩ := ih (loadRoi rtReader loadable st roi)
    rw [h1, h2, totalNumberOfPoints_loadRoi, maximumNumberOfPoints_loadRoi]
    refine ⟨?_, ?_⟩
    · simp only [List.map_cons, List.sum_cons]
      push_cast
      ring
    · simp only [List.map_cons, List.foldr_cons]
      generalize (rois.map roiPointCount).foldr max 0 = m
      generalize roiPointCount roi = c
      generalize st.maximumNumberOfPoints = a
      simp only [max_def]
      split_ifs <;> omega

end PointCounters

section WarningCount

variable {R : Type} [CommRing R]

theorem Scene.count_log (s : Scene R) (sev : Severity) (text : String) (w : Message) :
    (s.log sev text).Messages.count w
      = s.Messages.count w + if (⟨sev, text⟩ : Message) = w then 1 else 0 := by
  simp only [Scene.log, List.count_append, List.count_singleton, beq_iff_eq]

/-- An error message is not the warning for large contours. -/
theorem Scene.count_log_error (s : Scene R) (text : String) :
    (s.log .Error text).Messages.count largeContoursWarning
      = s.Messages.count largeContoursWarning := by
  rw [Scene.count_log, if_neg (by simp [largeContoursWarning]), Nat.add_zero]

theorem count_warnDifferentReferencedSeries (st : RoiLoopState R) (roi : RoiData R) :
    (warnDifferentReferencedSeries st roi).Messages.count largeContoursWarning
      = st.scene.Messages.count largeContoursWarning := by
  unfold warnDifferentReferencedSeries
  split_ifs <;> simp [Scene.count_log, largeContoursWarning]

theorem Messages_fiducialSeriesItem (rtReader : vtkSlicerDicomRtReader R)
    (loadable : vtkSlicerDICOMLoadable R) (s : Scene R) (j : Nat) :
    (fiducialSeriesItem rtReader loadable s j).1.Messages = s.Messages := by
  unfold fiducialSeriesItem
  split_ifs <;> simp

theorem Messages_addRoiPointItem (s : Scene R) (folder : Nat) (roi : RoiData R)
    (position : R × R × R) : (addRoiPointItem s folder roi position).Messages = s.Messages := by
  simp [addRoiPointItem]

theorem count_checkReferencedVolume (s : Scene R) (uid : String) :
    (checkReferencedVolume s uid).Messages.count largeContoursWarning
      = s.Messages.count largeContoursWarning := by
  unfold checkReferencedVolume
  split_ifs <;> simp [Scene.count_log, largeContoursWarning]

theorem Scene.Messages_AddSegment (s : Scene R) (j : Nat) (segment : vtkSegment R) :
    (s.AddSegment j segment).Messages = s.Messages := by
  unfold Scene.AddSegment
  split <;> simp

theorem Scene.Messages_SetClosedSurfaceDisplay (s : Scene R) (j : Nat) :
    (s.SetClosedSurfaceDisplay j).Messages = s.Messages := by
  unfold Scene.SetClosedSurfaceDisplay
  split <;> simp

theorem count_segmentationItem (rtReader : vtkSlicerDicomRtReader R)
    (loadable : vtkSlicerDICOMLoadable R) (s : Scene R) (j : Nat) (roi : RoiData R)
    (uid : String) :
    (segmentationItem rtReader loadable s j roi uid).1.Messages.count largeContoursWarning
      = s.Messages.count largeContoursWarning := by
  unfold segmentationItem createSegmentationItem
  split_ifs
  · simp only [Scene.Messages_SetItemAttribute, Scene.Messages_SetItemUID,
      Scene.Messages_SetItemParent, count_checkReferencedVolume, Scene.Messages_AddNode]
  · rfl

theorem count_loadRoi (rtReader : vtkSlicerDicomRtReader R)
    (loadable : vtkSlicerDICOMLoadable R) (st : RoiLoopState R) (roi : RoiData R) :
    (loadRoi rtReader loadable st roi).scene.Messages.count largeContoursWarning
      = st.scene.Messages.count largeContoursWarning := by
  unfold loadRoi
  cases roi.RoiPolyData with
  | none => simp [Scene.count_log, largeContoursWarning]
  | some roiPolyData =>
    simp only
    by_cases h0 : roiPolyData.length = 0
    · rw [if_pos h0]
      simp [Scene.count_log, largeContoursWarning]
    · rw [if_neg h0]
      by_cases h1 : roiPolyData.length = 1
      · rw [if_pos h1]
        simp only [Messages_addRoiPointItem, Messages_fiducialSeriesItem,
          count_warnDifferentReferencedSeries]
      · rw [if_neg h1]
        simp only [Scene.Messages_AddSegment, count_segmentationItem,
          count_warnDifferentReferencedSeries]

theorem count_foldl_loadRoi (rtReader : vtkSlicerDicomRtReader R)
    (loadable : vtkSlicerDICOMLoadable R) (rois : List (RoiData R)) :
    ∀ st : RoiLoopState R,
      (rois.foldl (loadRoi rtReader loadable) st).scene.Messages.count largeContoursWarning
        = st.scene.Messages.count largeContoursWarning := by
  induction rois with
  | nil => intro st; rfl
  | cons roi rois ih =>
    intro st
    rw [List.foldl_cons, ih, count_loadRoi]

theorem count_InsertSeriesInSubjectHierarchy (env : Env R) (s : Scene R)
    (rtReader : vtkSlicerDicomRtReader R) :
    (InsertSeriesInSubjectHierarchy env s rtReader).Messages.count largeContoursWarning
      = s.Messages.count largeContoursWarning := by
  have h0 : (s.InsertDicomSeriesInHierarchy rtReader.PatientId rtReader.StudyInstanceUid
      rtReader.SeriesInstanceUid).1.Messages.count largeContoursWarning
      = s.Messages.count largeContoursWarning := by
    unfold Scene.InsertDicomSeriesInHierarchy
    split_ifs <;> simp [Scene.count_log, largeContoursWarning]
  have h1 : ∀ t : Scene R, (fillPatientItem env t rtReader).Messages.count largeContoursWarning
      = t.Messages.count largeContoursWarning := by
    intro t
    simp only [fillPatientItem]
    split_ifs <;> simp [Scene.count_log, largeContoursWarning]
  have h2 : ∀ t : Scene R, (fillStudyItem env t rtReader).Messages.count largeContoursWarning
      = t.Messages.count largeContoursWarning := by
    intro t
    simp only [fillStudyItem]
    split_ifs <;> simp [Scene.count_log, largeContoursWarning]
  simp only [InsertSeriesInSubjectHierarchy]
  split_ifs <;>
    simp only [Scene.count_log_error, Scene.Messages_SetItemUID, Scene.Messages_SetItemAttribute,
      h0, h1, h2]

end WarningCount

section SegmentCounts

variable {R : Type}

/-- The point counts of the segments are the point counts of the ROIs that are two or more. -/
theorem segmentPointCounts_eq_filter (rois : List (RoiData R)) :
    segmentPointCounts rois = (rois.map roiPointCount).filter (fun c => decide (2 ≤ c)) := by
  unfold segmentPointCounts
  induction rois with
  | nil => rfl
  | cons roi rois ih =>
    rw [List.map_cons, List.filter_cons, List.filterMap_cons]
    cases hp : roi.RoiPolyData with
    | none => simp [RoiData.segment, roiPointCount, hp, ih]
    | some points =>
      rcases points with _ | ⟨p, _ | ⟨q, rest⟩⟩ <;>
        simp [RoiData.segment, roiPointCount, hp, ih]

theorem foldr_max_filter_le (l : List Nat) :
    (l.filter (fun c => decide (2 ≤ c))).foldr max 0 ≤ l.foldr max 0
    ∧ l.foldr max 0 ≤ max 1 ((l.filter (fun c => decide (2 ≤ c))).foldr max 0)
    ∧ ((∃ c ∈ l, 2 ≤ c) → 2 ≤ (l.filter (fun c => decide (2 ≤ c))).foldr max 0) := by
  induction l with
  | nil => simp
  | cons a l ih =>
    obtain ⟨h1, h2, h3⟩ := ih
    rw [List.filter_cons]
    by_cases ha : 2 ≤ a
    · simp only [ha, decide_True, if_true, List.foldr_cons]
      refine ⟨?_, ?_, ?_⟩
      · simp only [max_def] at *
        split_ifs at * <;> omega
      · simp only [max_def] at *
        split_ifs at * <;> omega
      · intro _
        simp only [max_def]
        split_ifs <;> omega
    · simp only [ha, decide_False, List.foldr_cons]
      refine ⟨?_, ?_, ?_⟩
      · simp only [max_def] at *
        split_ifs at * <;> omega
      · simp only [max_def] at *
        split_ifs at * <;> omega
      · rintro ⟨c, hc, hc2⟩
        rcases List.mem_cons.1 hc with rfl | hc
        · exact absurd hc2 ha
        · exact h3 ⟨c, hc, hc2⟩

/-- When the ROIs give a segment, the largest point count of a segment is the largest point
count of an ROI. -/
theorem foldr_max_segmentPointCounts (rois : List (RoiData R))
    (h : segmentPointCounts rois ≠ []) :
    (segmentPointCounts rois).foldr max 0 = (rois.map roiPointCount).foldr max 0
    ∧ 2 ≤ (rois.map roiPointCount).foldr max 0
    ∧ rois.filterMap RoiData.segment ≠ [] := by
  have hne : rois.filterMap RoiData.segment ≠ [] := by
    intro e
    apply h
    simp [segmentPointCounts, e]
  rw [segmentPointCounts_eq_filter] at h ⊢
  obtain ⟨c, hc⟩ := List.exists_mem_of_ne_nil _ h
  rw [List.mem_filter] at hc
  obtain ⟨h1, h2, h3⟩ := foldr_max_filter_le (rois.map roiPointCount)
  have h4 := h3 ⟨c, hc.1, of_decide_eq_true hc.2⟩
  refine ⟨?_, by omega, hne⟩
  simp only [max_def] at h2
  split_ifs at h2 <;> omega

end SegmentCounts


section FlagInvariant

variable {R : Type} [CommRing R]

theorem loadRoi_display_invariant (s : Scene R) (rtReader : vtkSlicerDicomRtReader R)
    (loadable : vtkSlicerDICOMLoadable R) (st : RoiLoopState R)
    (roi : RoiData R) (h : RoiLoopDisplayInvariant s st) :
    RoiLoopDisplayInvariant s (loadRoi rtReader loadable st roi) := by
  obtain ⟨D, hD, hG⟩ := h
  cases hpoly : roi.RoiPolyData with
  | none =>
    exact ⟨D, by simpa [loadRoi, hpoly] using hD, by simpa [loadRoi, hpoly] using hG⟩
  | some points =>
    cases points with
    | nil =>
      exact ⟨D, by simpa [loadRoi, hpoly] using hD, by simpa [loadRoi, hpoly] using hG⟩
    | cons p rest =>
      cases rest with
      | nil =>
        have hseg : (loadRoi rtReader loadable st roi).segmentationShItemID
            = st.segmentationShItemID := by
          simp [loadRoi, hpoly]
        refine ⟨D ++ ((if st.fiducialSeriesShItemID = INVALID_ITEM_ID then [none] else [])
            ++ [some (.MarkupsFiducialNode roi.RoiName p roi.RoiDisplayColor)]), ?_, ?_⟩
        · simp [loadRoi, hpoly, DataNodes_fiducialSeriesItem, hD]
        · rw [hseg]
          rcases hG with h1 | ⟨A, B, G, h1, h2⟩
          · exact Or.inl h1
          · exact Or.inr ⟨A, B ++ ((if st.fiducialSeriesShItemID = INVALID_ITEM_ID then [none]
              else []) ++ [some (.MarkupsFiducialNode roi.RoiName p roi.RoiDisplayColor)]), G,
              by simp [h1], h2⟩
      | cons q rest =>
        have hlen : st.scene.Items.length = s.Items.length + D.length := by
          have := congrArg List.length hD
          simpa using this
        have hlen' : (warnDifferentReferencedSeries st roi).Items.length
            = s.Items.length + D.length := by
          unfold warnDifferentReferencedSeries
          split_ifs <;> exact hlen
        by_cases hsegid : st.segmentationShItemID = INVALID_ITEM_ID
        · have hcreate := createSegmentationItem_spec rtReader loadable
            (warnDifferentReferencedSeries st roi) roi
            (if st.structureSetReferencedSeriesUid = "" then roi.RoiReferencedSeriesUid
              else st.structureSetReferencedSeriesUid)
          refine ⟨D ++ [some (.SegmentationNode
            [⟨roi.RoiName, roi.RoiDisplayColor, p :: q :: rest⟩] false)], ?_, ?_⟩
          · simp only [loadRoi, hpoly, segmentationItem, hsegid, if_true]
            simp only [List.length_cons, Nat.succ_ne_zero, if_false, Nat.add_eq_zero,
              one_ne_zero, and_false, Nat.succ.injEq]
            rw [Scene.DataNodes_AddSegment _ (s.DataNodes ++ D) [] [] false _ _
              (by rw [hcreate.2, hlen']; simp) (by rw [hcreate.1]; simp [hD])]
            simp
          · refine Or.inr ⟨D, [], _, rfl, ?_⟩
            simp [loadRoi, hpoly, segmentationItem, hsegid, hcreate.2, hlen']
        · obtain ⟨A, B, G, h1, h2⟩ : ∃ (A B : List (Option (vtkMRMLNode R)))
              (G : List (vtkSegment R)), D = A ++ some (.SegmentationNode G false) :: B
              ∧ st.segmentationShItemID = s.Items.length + A.length + 2 := by
            rcases hG with h1 | h
            · exact absurd h1 hsegid
            · exact h
          refine ⟨A ++ some (.SegmentationNode
            (G ++ [⟨roi.RoiName, roi.RoiDisplayColor, p :: q :: rest⟩]) false) :: B, ?_, ?_⟩
          · simp only [loadRoi, hpoly, segmentationItem, hsegid, if_false]
            simp only [List.length_cons, Nat.succ_ne_zero, if_false, Nat.add_eq_zero,
              one_ne_zero, and_false, Nat.succ.injEq]
            rw [Scene.DataNodes_AddSegment _ (s.DataNodes ++ A) B G false _ _
              (by rw [h2]; simp) (by simp [hD, h1])]
            simp
          · refine Or.inr ⟨A, B, _, rfl, ?_⟩
            simp only [loadRoi, hpoly, segmentationItem, hsegid, if_false]
            simp [h2]

theorem foldl_loadRoi_display_invariant (s : Scene R) (rtReader : vtkSlicerDicomRtReader R)
    (loadable : vtkSlicerDICOMLoadable R) (rois : List (RoiData R)) (st : RoiLoopState R)
    (h : RoiLoopDisplayInvariant s st) :
    RoiLoopDisplayInvariant s (rois.foldl (loadRoi rtReader loadable) st) := by
  induction rois generalizing st with
  | nil => exact h
  | cons roi rois ih =>
    exact ih _ (loadRoi_display_invariant s rtReader loadable st roi h)

/-- After the loop over the ROIs the segmentation node, if there is one, does not show the
closed surface. -/
theorem foldl_loadRoi_display (s : Scene R) (rtReader : vtkSlicerDicomRtReader R)
    (loadable : vtkSlicerDICOMLoadable R) (segments : List (vtkSegment R))
    (closedSurface : Bool)
    (h : (rtReader.Rois.foldl (loadRoi rtReader loadable)
          ⟨s.StartState, INVALID_ITEM_ID, INVALID_ITEM_ID, "", -1, 0⟩).scene.GetItemDataNode
        (rtReader.Rois.foldl (loadRoi rtReader loadable)
          ⟨s.StartState, INVALID_ITEM_ID, INVALID_ITEM_ID, "", -1, 0⟩).segmentationShItemID
      = some (.SegmentationNode segments closedSurface)) :
    closedSurface = false := by
  have hinit : RoiLoopDisplayInvariant s
      (⟨s.StartState, INVALID_ITEM_ID, INVALID_ITEM_ID, "", -1, 0⟩ : RoiLoopState R) :=
    ⟨[], by simp, Or.inl rfl⟩
  obtain ⟨D, hD, hG⟩ := foldl_loadRoi_display_invariant s rtReader loadable rtReader.Rois _ hinit
  rcases hG with h1 | ⟨A, B, G, h1, h2⟩
  · rw [h1] at h
    simp [Scene.GetItemDataNode, Scene.GetItem, INVALID_ITEM_ID] at h
  · rw [h2, Scene.GetItemDataNode_eq_DataNodes, hD, h1, ← List.append_assoc,
      List.getElem?_append_right (by simp)] at h
    simp at h
    exact h.2

end FlagInvariant

section LargeContours

variable {R : Type} [CommRing R]

/-- The end of `LoadRtStructureSet` for a structure set that gives a segment: the warning for
large contours is logged once when the largest point count of a segment is 800000 or more or
the sum of the point counts of all ROIs is 3000000 or more, and then the segmentation node
stays without the closed surface display, as the loop left it; otherwise the warning is not
logged and the segmentation node shows the closed surface. -/
theorem LoadRtStructureSet_large_contours (env : Env R) (s : Scene R)
    (rtReader : vtkSlicerDicomRtReader R) (loadable : vtkSlicerDICOMLoadable R)
    (hseg : segmentPointCounts rtReader.Rois ≠ []) :
    (LoadRtStructureSet env s rtReader loadable).1.Messages.count largeContoursWarning
        = s.Messages.count largeContoursWarning
          + (if 800000 ≤ (segmentPointCounts rtReader.Rois).foldr max 0
                ∨ 3000000 ≤ (rtReader.Rois.map roiPointCount).sum then 1 else 0)
    ∧ (rtReader.Rois.foldl (loadRoi rtReader loadable)
          ⟨s.StartState, INVALID_ITEM_ID, INVALID_ITEM_ID, "", -1, 0⟩).segmentationShItemID
        ≠ INVALID_ITEM_ID
    ∧ (rtReader.Rois.foldl (loadRoi rtReader loadable)
          ⟨s.StartState, INVALID_ITEM_ID, INVALID_ITEM_ID, "", -1, 0⟩).scene.GetItemDataNode
          (rtReader.Rois.foldl (loadRoi rtReader loadable)
            ⟨s.StartState, INVALID_ITEM_ID, INVALID_ITEM_ID, "", -1, 0⟩).segmentationShItemID
        = some (.SegmentationNode (rtReader.Rois.filterMap RoiData.segment) false)
    ∧ (LoadRtStructureSet env s rtReader loadable).1.GetItemDataNode
          (rtReader.Rois.foldl (loadRoi rtReader loadable)
            ⟨s.StartState, INVALID_ITEM_ID, INVALID_ITEM_ID, "", -1, 0⟩).segmentationShItemID
        = some (.SegmentationNode (rtReader.Rois.filterMap RoiData.segment)
            (if 800000 ≤ (segmentPointCounts rtReader.Rois).foldr max 0
                ∨ 3000000 ≤ (rtReader.Rois.map roiPointCount).sum then false else true)) := by
  obtain ⟨hMseg, hM, hG⟩ := foldr_max_segmentPointCounts rtReader.Rois hseg
  rw [hMseg]
  have hinit : RoiLoopInvariant s
      (⟨s.StartState, INVALID_ITEM_ID, INVALID_ITEM_ID, "", -1, 0⟩ : RoiLoopState R) [] [] :=
    ⟨[], by simp, rfl, Or.inl ⟨rfl, rfl, rfl⟩⟩
  have hloop := foldl_loadRoi_invariant s rtReader loadable rtReader.Rois _ _ _ hinit
  simp only [List.nil_append] at hloop
  obtain ⟨hT, hmax⟩ := counters_foldl_loadRoi rtReader loadable rtReader.Rois
    (⟨s.StartState, INVALID_ITEM_ID, INVALID_ITEM_ID, "", -1, 0⟩ : RoiLoopState R)
  have hcount := count_foldl_loadRoi rtReader loadable rtReader.Rois
    (⟨s.StartState, INVALID_ITEM_ID, INVALID_ITEM_ID, "", -1, 0⟩ : RoiLoopState R)
  simp only [Scene.Messages_StartState] at hcount
  simp only [zero_add] at hT
  rw [if_neg (by omega)] at hmax
  have hmax' : (rtReader.Rois.foldl (loadRoi rtReader loadable)
      (⟨s.StartState, INVALID_ITEM_ID, INVALID_ITEM_ID, "", -1, 0⟩ :
        RoiLoopState R)).maximumNumberOfPoints
      = (((rtReader.Rois.map roiPointCount).foldr max 0 : Nat) : Int) := by
    rw [hmax]
    simp only [max_def]
    split_ifs <;> omega
  have hflag := foldl_loadRoi_display s rtReader loadable
  obtain ⟨st, hst⟩ : ∃ st : RoiLoopState R, st = rtReader.Rois.foldl (loadRoi rtReader loadable)
      (⟨s.StartState, INVALID_ITEM_ID, INVALID_ITEM_ID, "", -1, 0⟩ : RoiLoopState R) := ⟨_, rfl⟩
  rw [← hst] at hloop hT hmax' hcount hflag ⊢
  clear hmax
  obtain ⟨D, hD, _, hseg2⟩ := hloop
  obtain ⟨A, B, cs, h1, h2, _, _⟩ : ∃ (A B : List (Option (vtkMRMLNode R))) (closedSurface : Bool),
      D = A ++ some (.SegmentationNode (rtReader.Rois.filterMap RoiData.segment) closedSurface) :: B
      ∧ st.segmentationShItemID = s.Items.length + A.length + 2
      ∧ segmentsOf A = [] ∧ segmentsOf B = [] := by
    rcases hseg2 with ⟨_, h, _⟩ | h
    · exact absurd h hG
    · exact h
  have hid : st.segmentationShItemID ≠ INVALID_ITEM_ID := by
    rw [h2]
    simp [INVALID_ITEM_ID]
  have hnode : st.scene.GetItemDataNode st.segmentationShItemID
      = some (.SegmentationNode (rtReader.Rois.filterMap RoiData.segment) cs) := by
    rw [h2, Scene.GetItemDataNode_eq_DataNodes, hD, h1, ← List.append_assoc,
      List.getElem?_append_right (by simp)]
    simp
  obtain rfl : cs = false := hflag _ _ hnode
  have hcond : (st.maximumNumberOfPoints < 800000 ∧ st.totalNumberOfPoints < 3000000)
      ↔ ¬ (800000 ≤ (rtReader.Rois.map roiPointCount).foldr max 0
          ∨ 3000000 ≤ (rtReader.Rois.map roiPointCount).sum) := by
    rw [hmax', hT]
    constructor
    · rintro ⟨a, b⟩ h
      rcases h with h | h <;> omega
    · intro h
      constructor <;> omega
  have hresult : (LoadRtStructureSet env s rtReader loadable).1
      = (InsertSeriesInSubjectHierarchy env
          (if st.maximumNumberOfPoints < 800000 ∧ st.totalNumberOfPoints < 3000000 then
            st.scene.SetClosedSurfaceDisplay st.segmentationShItemID
          else st.scene.log .Warning largeContoursWarning.text) rtReader).EndState := by
    subst hst
    simp only [LoadRtStructureSet, hid, ne_eq, not_false_eq_true, if_true, largeContoursWarning]
  rw [hresult]
  refine ⟨?_, hid, hnode, ?_⟩
  · rw [Scene.Messages_EndState, count_InsertSeriesInSubjectHierarchy]
    by_cases hc : 800000 ≤ (rtReader.Rois.map roiPointCount).foldr max 0
          ∨ 3000000 ≤ (rtReader.Rois.map roiPointCount).sum
    · rw [if_neg (fun h => hcond.1 h hc), if_pos hc, Scene.count_log,
        if_pos (by simp [largeContoursWarning]), hcount]
    · rw [if_pos (hcond.2 hc), if_neg hc, Scene.Messages_SetClosedSurfaceDisplay, hcount,
        Nat.add_zero]
  · by_cases hc : 800000 ≤ (rtReader.Rois.map roiPointCount).foldr max 0
          ∨ 3000000 ≤ (rtReader.Rois.map roiPointCount).sum
    · rw [if_neg (fun h => hcond.1 h hc), if_pos hc]
      simp only [Scene.GetItemDataNode_EndState, GetItemDataNode_InsertSeriesInSubjectHierarchy,
        Scene.GetItemDataNode_log, hnode]
    · rw [if_pos (hcond.2 hc), if_neg hc]
      simp only [Scene.GetItemDataNode_EndState, GetItemDataNode_InsertSeriesInSubjectHierarchy]
      unfold Scene.SetClosedSurfaceDisplay
      rw [hnode]
      simp only
      rw [Scene.GetItemDataNode_SetItemDataNode, if_pos]
      refine ⟨rfl, ?_⟩
      unfold Scene.GetItemDataNode at hnode
      cases hg : st.scene.GetItem st.segmentationShItemID with
      | none => simp [hg] at hnode
      | some it => rfl

end LargeContours

theorem roiPointCounts_largeStructureSetReader :
    largeStructureSetReader.Rois.map roiPointCount = [1, 799999, 799999, 799999, 600002] := by
  simp only [largeStructureSetReader, List.map, roiPointCount, List.length_replicate,
    List.length_singleton]

theorem segmentPointCounts_largeStructureSetReader :
    segmentPointCounts largeStructureSetReader.Rois = [799999, 799999, 799999, 600002] := by
  rw [segmentPointCounts_eq_filter, roiPointCounts_largeStructureSetReader]
  decide

/-- C24, evaluation at the failing input.  The structure set `largeStructureSetReader` has one
single-point ROI and four segments; the largest point count of a segment is 799999 and the
point counts of the segments sum to 2999999, both below the thresholds, yet
`LoadRtStructureSet` logs the warning for large contours and leaves the segmentation node
without the closed surface display: the counter that the code calls the total number of points
in the segmentation also counts the point of the single-point ROI and reaches 3000000. -/
theorem loadRtStructureSet_fiducial_point_counted :
    (segmentPointCounts largeStructureSetReader.Rois).foldr max 0 = 799999
    ∧ (segmentPointCounts largeStructureSetReader.Rois).sum = 2999999
    ∧ (largeStructureSetReader.Rois.map roiPointCount).sum = 3000000
    ∧ (Scene.empty : Scene ℤ).Messages.count largeContoursWarning = 0
    ∧ (LoadRtStructureSet sampleEnv Scene.empty largeStructureSetReader
          sampleStructureSetLoadable).1.Messages.count largeContoursWarning = 1
    ∧ ∃ i : Nat, i ≠ INVALID_ITEM_ID
        ∧ (LoadRtStructureSet sampleEnv Scene.empty largeStructureSetReader
            sampleStructureSetLoadable).1.GetItemDataNode i
          = some (.SegmentationNode
              (largeStructureSetReader.Rois.filterMap RoiData.segment) false) := by
  have hseg : segmentPointCounts largeStructureSetReader.Rois ≠ [] := by
    rw [segmentPointCounts_largeStructureSetReader]
    exact fun h => List.noConfusion h
  obtain ⟨h1, h2, _, h4⟩ := LoadRtStructureSet_large_contours sampleEnv Scene.empty
    largeStructureSetReader sampleStructureSetLoadable hseg
  rw [segmentPointCounts_largeStructureSetReader, roiPointCounts_largeStructureSetReader]
    at h1 h4
  rw [segmentPointCounts_largeStructureSetReader, roiPointCounts_largeStructureSetReader]
  refine ⟨by decide, by decide, by decide, rfl, ?_, _, h2, ?_⟩
  · rw [h1]
    decide
  · rw [h4, if_pos (by decide)]

section DicomUIDLemmas

variable {R : Type}

theorem Scene.UniqueDicomUIDs_iff_count (s : Scene R) :
    s.UniqueDicomUIDs ↔ ∀ v : String, v ≠ "" → s.DicomUIDs.count v ≤ 1 := by
  unfold Scene.UniqueDicomUIDs Scene.DicomUIDs
  rw [List.nodup_iff_count_le_one]
  constructor
  · intro h v hv
    have := h v
    rwa [List.count_filter (by simpa using hv)] at this
  · intro h v
    by_cases hv : v = ""
    · rw [List.count_eq_zero_of_not_mem]
      · omega
      · simp [hv]
    · rw [List.count_filter (by simpa using hv)]
      exact h v hv

theorem Scene.DicomUIDs_modifyItem_keep (s : Scene R) (j : Nat) (f : ShItem R → ShItem R)
    (hf : ∀ it, (f it).UIDs .DICOMUIDName = it.UIDs .DICOMUIDName) :
    (s.modifyItem j f).DicomUIDs = s.DicomUIDs := by
  unfold Scene.modifyItem Scene.DicomUIDs
  split_ifs
  · rfl
  · apply List.ext_getElem?
    intro i
    simp only [List.getElem?_map, List.getElem?_modify]
    cases s.Items[i]? with
    | none => rfl
    | some it =>
      by_cases h : j - 2 = i <;> simp [h, hf]

@[simp] theorem Scene.DicomUIDs_SetItemAttribute (s : Scene R) (j : Nat) (a : AttributeName)
    (v : String) : (s.SetItemAttribute j a v).DicomUIDs = s.DicomUIDs :=
  Scene.DicomUIDs_modifyItem_keep s j _ (fun _ => rfl)

@[simp] theorem Scene.DicomUIDs_SetItemName (s : Scene R) (j : Nat) (v : String) :
    (s.SetItemName j v).DicomUIDs = s.DicomUIDs :=
  Scene.DicomUIDs_modifyItem_keep s j _ (fun _ => rfl)

@[simp] theorem Scene.DicomUIDs_SetItemParent (s : Scene R) (j p : Nat) :
    (s.SetItemParent j p).DicomUIDs = s.DicomUIDs :=
  Scene.DicomUIDs_modifyItem_keep s j _ (fun _ => rfl)

@[simp] theorem Scene.DicomUIDs_SetItemDataNode (s : Scene R) (j : Nat) (node : vtkMRMLNode R) :
    (s.SetItemDataNode j node).DicomUIDs = s.DicomUIDs :=
  Scene.DicomUIDs_modifyItem_keep s j _ (fun _ => rfl)

@[simp] theorem Scene.DicomUIDs_SetItemUID_instance (s : Scene R) (j : Nat) (v : String) :
    (s.SetItemUID j .DICOMInstanceUIDName v).DicomUIDs = s.DicomUIDs :=
  Scene.DicomUIDs_modifyItem_keep s j _ (fun it => by simp [Function.update])

@[simp] theorem Scene.DicomUIDs_log (s : Scene R) (sev : Severity) (text : String) :
    (s.log sev text).DicomUIDs = s.DicomUIDs := rfl

@[simp] theorem Scene.DicomUIDs_StartState (s : Scene R) : s.StartState.DicomUIDs = s.DicomUIDs :=
  rfl

@[simp] theorem Scene.DicomUIDs_EndState (s : Scene R) : s.EndState.DicomUIDs = s.DicomUIDs :=
  rfl

@[simp] theorem Scene.DicomUIDs_ite (c : Prop) [Decidable c] (a b : Scene R) :
    (if c then a else b).DicomUIDs = if c then a.DicomUIDs else b.DicomUIDs := by
  split_ifs <;> rfl

@[simp] theorem Scene.DicomUIDs_CreateItem (s : Scene R) (parent : Nat) (name : String)
    (node : Option (vtkMRMLNode R)) :
    (s.CreateItem parent name node).1.DicomUIDs = s.DicomUIDs ++ [""] := by
  simp [Scene.CreateItem, Scene.DicomUIDs]

@[simp] theorem Scene.DicomUIDs_AddNode (s : Scene R) (name : String) (node : vtkMRMLNode R) :
    (s.AddNode name node).1.DicomUIDs = s.DicomUIDs ++ [""] :=
  Scene.DicomUIDs_CreateItem s _ name _

theorem Scene.length_DicomUIDs (s : Scene R) : s.DicomUIDs.length = s.Items.length := by
  simp [Scene.DicomUIDs]

theorem Scene.DicomUIDs_SetItemUID (s : Scene R) (k : Nat) (v : String) :
    (s.SetItemUID (k + 2) .DICOMUIDName v).DicomUIDs = s.DicomUIDs.set k v := by
  unfold Scene.SetItemUID Scene.modifyItem Scene.DicomUIDs
  have h2 : ¬ k + 2 < 2 := by omega
  simp only [h2, if_false, Nat.add_sub_cancel]
  apply List.ext_getElem?
  intro i
  simp only [List.getElem?_map, List.getElem?_modify, List.getElem?_set]
  by_cases h : k = i
  · subst h
    cases hk : s.Items[k]? with
    | none =>
      have : ¬ k < s.Items.length := by
        intro hlt
        rw [List.getElem?_eq_getElem hlt] at hk
        exact Option.noConfusion hk
      simp [this]
    | some it =>
      have : k < s.Items.length := by
        by_contra hge
        rw [List.getElem?_eq_none (by omega)] at hk
        exact Option.noConfusion hk
      simp [this]
  · cases s.Items[i]? <;> simp [h]

/-- The lookup by UID fails only for a UID that no item carries. -/
theorem Scene.count_DicomUIDs_of_invalid (s : Scene R) (v : String) (hv : v ≠ "")
    (h : s.GetItemByUID .DICOMUIDName v = INVALID_ITEM_ID) : s.DicomUIDs.count v = 0 := by
  rw [List.count_eq_zero]
  intro hmem
  unfold Scene.DicomUIDs at hmem
  rw [List.mem_map] at hmem
  obtain ⟨it, hit, huid⟩ := hmem
  obtain ⟨k, hk, rfl⟩ := List.getElem_of_mem hit
  exact Scene.GetItemByUID_ne_invalid s .DICOMUIDName v (k + 2) hv
    (by rw [Scene.GetItemUID_eq_getElem s k hk]; exact huid) h

/-- A UID that no item carries is not in the list of the UIDs. -/
theorem Scene.count_DicomUIDs_of_none (s : Scene R) (v : String)
    (h : ∀ i : Nat, s.GetItemUID i .DICOMUIDName ≠ v) : s.DicomUIDs.count v = 0 := by
  have hv : v ≠ "" := fun e => h 0 (by rw [Scene.GetItemUID_of_lt_two s 0 (by omega), e])
  exact Scene.count_DicomUIDs_of_invalid s v hv
    (Scene.GetItemByUID_of_none s .DICOMUIDName v h)

theorem Scene.DicomUIDs_CreateItemWithUID (s : Scene R) (parent : Nat) (name uid : String) :
    (s.CreateItemWithUID parent name uid).DicomUIDs = s.DicomUIDs ++ [uid] := by
  unfold Scene.CreateItemWithUID
  rw [Scene.CreateItem_id, Scene.DicomUIDs_SetItemUID, Scene.DicomUIDs_CreateItem,
    ← Scene.length_DicomUIDs, List.set_length_append_cons]

/-- What `ensurePatientItem` and `ensureStudyItem` do to the number of items that carry a
UID: nothing, or a UID that no item carried is carried by one item. -/
theorem Scene.count_DicomUIDs_ensurePatientItem (s : Scene R) (patientId v : String)
    (hv : v ≠ "") :
    (s.ensurePatientItem patientId).DicomUIDs.count v = s.DicomUIDs.count v
    ∨ (s.DicomUIDs.count v = 0 ∧ (s.ensurePatientItem patientId).DicomUIDs.count v = 1) := by
  unfold Scene.ensurePatientItem
  split_ifs with h
  · rw [Scene.DicomUIDs_CreateItemWithUID, List.count_append, List.count_singleton]
    by_cases e : patientId = v
    · subst e
      right
      rw [Scene.count_DicomUIDs_of_invalid s patientId hv h]
      simp
    · left
      simp [e]
  · exact Or.inl rfl

theorem Scene.count_DicomUIDs_ensureStudyItem (s : Scene R) (patientId studyUid v : String)
    (hv : v ≠ "") :
    (s.ensureStudyItem patientId studyUid).DicomUIDs.count v = s.DicomUIDs.count v
    ∨ (s.DicomUIDs.count v = 0
        ∧ (s.ensureStudyItem patientId studyUid).DicomUIDs.count v = 1) := by
  unfold Scene.ensureStudyItem
  split_ifs with h
  · rw [Scene.DicomUIDs_CreateItemWithUID, List.count_append, List.count_singleton]
    by_cases e : studyUid = v
    · subst e
      right
      rw [Scene.count_DicomUIDs_of_invalid s studyUid hv h]
      simp
    · left
      simp [e]
  · exact Or.inl rfl

theorem Scene.count_DicomUIDs_InsertDicomSeriesInHierarchy (s : Scene R)
    (patientId studyUid seriesUid v : String) (hv : v ≠ "") :
    (s.InsertDicomSeriesInHierarchy patientId studyUid seriesUid).1.DicomUIDs.count v
        = s.DicomUIDs.count v
    ∨ (s.DicomUIDs.count v = 0
        ∧ (s.InsertDicomSeriesInHierarchy patientId studyUid seriesUid).1.DicomUIDs.count v
            = 1) := by
  unfold Scene.InsertDicomSeriesInHierarchy
  split_ifs
  · exact Or.inl rfl
  · exact Or.inl rfl
  · simp only [Scene.DicomUIDs_SetItemParent]
    rcases Scene.count_DicomUIDs_ensurePatientItem s patientId v hv with h1 | ⟨h1, h1'⟩
    · rcases Scene.count_DicomUIDs_ensureStudyItem (s.ensurePatientItem patientId) patientId
        studyUid v hv with h2 | ⟨h2, h2'⟩
      · left; rw [h2, h1]
      · right; exact ⟨by rw [← h1]; exact h2, h2'⟩
    · rcases Scene.count_DicomUIDs_ensureStudyItem (s.ensurePatientItem patientId) patientId
        studyUid v hv with h2 | ⟨h2, h2'⟩
      · right; exact ⟨h1, by rw [h2, h1']⟩
      · rw [h1'] at h2
        exact absurd h2 (by omega)

end DicomUIDLemmas

section DicomUIDLoaders

variable {R : Type} [CommRing R]

@[simp] theorem DicomUIDs_fillPatientItem (env : Env R) (s : Scene R)
    (rtReader : vtkSlicerDicomRtReader R) :
    (fillPatientItem env s rtReader).DicomUIDs = s.DicomUIDs := by
  unfold fillPatientItem
  simp only []
  split_ifs <;> simp

@[simp] theorem DicomUIDs_fillStudyItem (env : Env R) (s : Scene R)
    (rtReader : vtkSlicerDicomRtReader R) :
    (fillStudyItem env s rtReader).DicomUIDs = s.DicomUIDs := by
  unfold fillStudyItem
  simp only []
  split_ifs <;> simp

theorem count_DicomUIDs_InsertSeriesInSubjectHierarchy (env : Env R) (s : Scene R)
    (rtReader : vtkSlicerDicomRtReader R) (v : String) (hv : v ≠ "") :
    (InsertSeriesInSubjectHierarchy env s rtReader).DicomUIDs.count v = s.DicomUIDs.count v
    ∨ (s.DicomUIDs.count v = 0
        ∧ (InsertSeriesInSubjectHierarchy env s rtReader).DicomUIDs.count v = 1) := by
  have h := Scene.count_DicomUIDs_InsertDicomSeriesInHierarchy s rtReader.PatientId
    rtReader.StudyInstanceUid rtReader.SeriesInstanceUid v hv
  have e : (InsertSeriesInSubjectHierarchy env s rtReader).DicomUIDs
      = (s.InsertDicomSeriesInHierarchy rtReader.PatientId rtReader.StudyInstanceUid
          rtReader.SeriesInstanceUid).1.DicomUIDs := by
    unfold InsertSeriesInSubjectHierarchy
    simp only []
    split_ifs <;> simp
  rw [e]
  exact h

@[simp] theorem DicomUIDs_warnDifferentReferencedSeries (st : RoiLoopState R) (roi : RoiData R) :
    (warnDifferentReferencedSeries st roi).DicomUIDs = st.scene.DicomUIDs := by
  unfold warnDifferentReferencedSeries
  split_ifs <;> rfl

theorem DicomUIDs_fiducialSeriesItem (rtReader : vtkSlicerDicomRtReader R)
    (loadable : vtkSlicerDICOMLoadable R) (s : Scene R) (fiducialSeriesShItemID : Nat) :
    (fiducialSeriesItem rtReader loadable s fiducialSeriesShItemID).1.DicomUIDs
        = s.DicomUIDs ++ (if fiducialSeriesShItemID = INVALID_ITEM_ID then
            [rtReader.SeriesInstanceUid] else [])
    ∧ (fiducialSeriesItem rtReader loadable s fiducialSeriesShItemID).2 ≠ INVALID_ITEM_ID := by
  unfold fiducialSeriesItem
  split_ifs with h
  · refine ⟨?_, by simp [Scene.CreateItem_id, INVALID_ITEM_ID]⟩
    simp only [Scene.CreateItem_id]
    rw [Scene.DicomUIDs_SetItemUID, Scene.DicomUIDs_CreateItem, ← Scene.length_DicomUIDs,
      List.set_length_append_cons]
  · exact ⟨by simp, h⟩

@[simp] theorem DicomUIDs_addRoiPointItem (s : Scene R) (folder : Nat) (roi : RoiData R)
    (position : R × R × R) :
    (addRoiPointItem s folder roi position).DicomUIDs = s.DicomUIDs ++ [""] := by
  simp [addRoiPointItem]

@[simp] theorem DicomUIDs_checkReferencedVolume (s : Scene R) (uid : String) :
    (checkReferencedVolume s uid).DicomUIDs = s.DicomUIDs := by
  unfold checkReferencedVolume
  split_ifs <;> rfl

theorem DicomUIDs_createSegmentationItem (rtReader : vtkSlicerDicomRtReader R)
    (loadable : vtkSlicerDICOMLoadable R) (s : Scene R) (roi : RoiData R) (uid : String) :
    (createSegmentationItem rtReader loadable s roi uid).1.DicomUIDs
        = s.DicomUIDs ++ [rtReader.SeriesInstanceUid]
    ∧ (createSegmentationItem rtReader loadable s roi uid).2 ≠ INVALID_ITEM_ID := by
  unfold createSegmentationItem
  refine ⟨?_, by simp [Scene.AddNode_id, INVALID_ITEM_ID]⟩
  simp only [Scene.AddNode_id, Scene.DicomUIDs_SetItemAttribute]
  rw [Scene.DicomUIDs_SetItemUID, Scene.DicomUIDs_SetItemParent, DicomUIDs_checkReferencedVolume,
    Scene.DicomUIDs_AddNode, ← Scene.length_DicomUIDs, List.set_length_append_cons]

theorem DicomUIDs_segmentationItem (rtReader : vtkSlicerDicomRtReader R)
    (loadable : vtkSlicerDICOMLoadable R) (s : Scene R) (segmentationShItemID : Nat)
    (roi : RoiData R) (uid : String) :
    (segmentationItem rtReader loadable s segmentationShItemID roi uid).1.DicomUIDs
        = s.DicomUIDs ++ (if segmentationShItemID = INVALID_ITEM_ID then
            [rtReader.SeriesInstanceUid] else [])
    ∧ (segmentationItem rtReader loadable s segmentationShItemID roi uid).2
        ≠ INVALID_ITEM_ID := by
  unfold segmentationItem
  split_ifs with h
  · exact DicomUIDs_createSegmentationItem rtReader loadable s roi uid
  · exact ⟨by simp, h⟩

@[simp] theorem Scene.DicomUIDs_AddSegment (s : Scene R) (j : Nat) (segment : vtkSegment R) :
    (s.AddSegment j segment).DicomUIDs = s.DicomUIDs := by
  unfold Scene.AddSegment
  split <;> simp

@[simp] theorem Scene.DicomUIDs_SetClosedSurfaceDisplay (s : Scene R) (j : Nat) :
    (s.SetClosedSurfaceDisplay j).DicomUIDs = s.DicomUIDs := by
  unfold Scene.SetClosedSurfaceDisplay
  split <;> simp

theorem loadRoi_uid_invariant (s : Scene R) (rtReader : vtkSlicerDicomRtReader R)
    (loadable : vtkSlicerDICOMLoadable R) (st : RoiLoopState R) (nF nG : Nat) (roi : RoiData R)
    (h : RoiLoopUidInvariant s rtReader.SeriesInstanceUid st nF nG) :
    RoiLoopUidInvariant s rtReader.SeriesInstanceUid (loadRoi rtReader loadable st roi)
      (nF + roi.fiducial.toList.length) (nG + roi.segment.toList.length) := by
  obtain ⟨hcount, hF, hG⟩ := h
  cases hpoly : roi.RoiPolyData with
  | none =>
    simp only [RoiData.fiducial, RoiData.segment, hpoly, Option.toList_none, List.length_nil,
      Nat.add_zero]
    exact ⟨by simpa [loadRoi, hpoly] using hcount, by simpa [loadRoi, hpoly] using hF,
      by simpa [loadRoi, hpoly] using hG⟩
  | some points =>
    cases points with
    | nil =>
      simp only [RoiData.fiducial, RoiData.segment, hpoly, Option.toList_none, List.length_nil,
        Nat.add_zero]
      exact ⟨by simpa [loadRoi, hpoly] using hcount, by simpa [loadRoi, hpoly] using hF,
        by simpa [loadRoi, hpoly] using hG⟩
    | cons p rest =>
      cases rest with
      | nil =>
        simp only [RoiData.fiducial, RoiData.segment, hpoly, Option.toList_some,
          Option.toList_none, List.length_nil, List.length_singleton, Nat.add_zero]
        obtain ⟨h1, h2⟩ := DicomUIDs_fiducialSeriesItem rtReader loadable
          (warnDifferentReferencedSeries st roi) st.fiducialSeriesShItemID
        refine ⟨?_, ?_, ?_⟩
        · intro v hv
          have e : (loadRoi rtReader loadable st roi).scene.DicomUIDs
              = st.scene.DicomUIDs ++ (if st.fiducialSeriesShItemID = INVALID_ITEM_ID then
                  [rtReader.SeriesInstanceUid] else []) ++ [""] := by
            simp [loadRoi, hpoly, h1]
          rw [e, List.count_append, List.count_append, hcount v hv, List.count_singleton]
          have hne : ("" == v) = false := by
            rw [beq_eq_false_iff_ne]
            exact fun e => hv e.symm
          rw [hne]
          by_cases hfid : st.fiducialSeriesShItemID = INVALID_ITEM_ID
          · have h0 : nF = 0 := hF.1 hfid
            subst h0
            by_cases hs : v = rtReader.SeriesInstanceUid
            · subst hs
              simp [hfid]
              omega
            · have : rtReader.SeriesInstanceUid ≠ v := fun e => hs e.symm
              simp [hfid, hs, this]
          · have h0 : nF ≠ 0 := fun e => hfid (hF.2 e)
            have hmin : min nF 1 = 1 := by omega
            have hmin' : min (nF + 1) 1 = 1 := by omega
            simp [hfid, hmin, hmin']
        · simp only [loadRoi, hpoly, List.length_singleton, if_true, one_ne_zero, if_false]
          constructor
          · intro e; exact absurd e h2
          · intro e; omega
        · simpa [loadRoi, hpoly] using hG
      | cons q rest =>
        simp only [RoiData.fiducial, RoiData.segment, hpoly, Option.toList_some,
          Option.toList_none, List.length_nil, List.length_singleton, Nat.add_zero]
        obtain ⟨h1, h2⟩ := DicomUIDs_segmentationItem rtReader loadable
          (warnDifferentReferencedSeries st roi) st.segmentationShItemID roi
          (if st.structureSetReferencedSeriesUid = "" then roi.RoiReferencedSeriesUid
            else st.structureSetReferencedSeriesUid)
        have hlen : ¬ (p :: q :: rest).length = 1 := by simp
        have hlen0 : ¬ (p :: q :: rest).length = 0 := by simp
        refine ⟨?_, ?_, ?_⟩
        · intro v hv
          have e : (loadRoi rtReader loadable st roi).scene.DicomUIDs
              = st.scene.DicomUIDs ++ (if st.segmentationShItemID = INVALID_ITEM_ID then
                  [rtReader.SeriesInstanceUid] else []) := by
            simp only [loadRoi, hpoly, hlen, hlen0, if_false, Scene.DicomUIDs_AddSegment, h1,
              DicomUIDs_warnDifferentReferencedSeries]
          rw [e, List.count_append, hcount v hv]
          by_cases hseg : st.segmentationShItemID = INVALID_ITEM_ID
          · have h0 : nG = 0 := hG.1 hseg
            subst h0
            by_cases hs : v = rtReader.SeriesInstanceUid
            · subst hs
              simp [hseg]
              omega
            · have : rtReader.SeriesInstanceUid ≠ v := fun e => hs e.symm
              simp [hseg, hs, this]
          · have h0 : nG ≠ 0 := fun e => hseg (hG.2 e)
            have hmin : min nG 1 = 1 := by omega
            have hmin' : min (nG + 1) 1 = 1 := by omega
            simp [hseg, hmin, hmin']
        · simpa [loadRoi, hpoly, hlen, hlen0] using hF
        · simp only [loadRoi, hpoly, hlen, hlen0, if_false]
          constructor
          · intro e; exact absurd e h2
          · intro e; omega

theorem foldl_loadRoi_uid_invariant (s : Scene R) (rtReader : vtkSlicerDicomRtReader R)
    (loadable : vtkSlicerDICOMLoadable R) (rois : List (RoiData R)) :
    ∀ (st : RoiLoopState R) (nF nG : Nat),
      RoiLoopUidInvariant s rtReader.SeriesInstanceUid st nF nG →
      RoiLoopUidInvariant s rtReader.SeriesInstanceUid (rois.foldl (loadRoi rtReader loadable) st)
        (nF + (rois.filterMap RoiData.fiducial).length)
        (nG + (rois.filterMap RoiData.segment).length) := by
  induction rois with
  | nil => intro st nF nG h; simpa using h
  | cons roi rois ih =>
    intro st nF nG h
    have h1 := ih _ _ _ (loadRoi_uid_invariant s rtReader loadable st nF nG roi h)
    rw [List.foldl_cons]
    have e1 : nF + (List.filterMap RoiData.fiducial (roi :: rois)).length
        = nF + roi.fiducial.toList.length + (List.filterMap RoiData.fiducial rois).length := by
      cases hf : roi.fiducial <;> simp [List.filterMap_cons, hf] <;> omega
    have e2 : nG + (List.filterMap RoiData.segment (roi :: rois)).length
        = nG + roi.segment.toList.length + (List.filterMap RoiData.segment rois).length := by
      cases hf : roi.segment <;> simp [List.filterMap_cons, hf] <;> omega
    rw [e1, e2]
    exact h1

/-- The number of items that carry a non-empty UID after `LoadRtStructureSet`: the number
after the loop over the ROIs, except that a UID that no item carried may be carried by one
item (the patient or the study item that the insertion of the series creates). -/
theorem count_DicomUIDs_LoadRtStructureSet (env : Env R) (s : Scene R)
    (rtReader : vtkSlicerDicomRtReader R) (loadable : vtkSlicerDICOMLoadable R) (v : String)
    (hv : v ≠ "") :
    (LoadRtStructureSet env s rtReader loadable).1.DicomUIDs.count v
        = s.DicomUIDs.count v
          + (if v = rtReader.SeriesInstanceUid then
              min (rtReader.Rois.filterMap RoiData.fiducial).length 1
                + min (rtReader.Rois.filterMap RoiData.segment).length 1
            else 0)
    ∨ (s.DicomUIDs.count v
          + (if v = rtReader.SeriesInstanceUid then
              min (rtReader.Rois.filterMap RoiData.fiducial).length 1
                + min (rtReader.Rois.filterMap RoiData.segment).length 1
            else 0) = 0
        ∧ (LoadRtStructureSet env s rtReader loadable).1.DicomUIDs.count v = 1) := by
  have hinit : RoiLoopUidInvariant s rtReader.SeriesInstanceUid
      (⟨s.StartState, INVALID_ITEM_ID, INVALID_ITEM_ID, "", -1, 0⟩ : RoiLoopState R) 0 0 :=
    ⟨fun v _ => by simp, by simp, by simp⟩
  have hloop := foldl_loadRoi_uid_invariant s rtReader loadable rtReader.Rois _ _ _ hinit
  simp only [Nat.zero_add] at hloop
  obtain ⟨hcount, _, _⟩ := hloop
  rw [← hcount v hv]
  have e : (LoadRtStructureSet env s rtReader loadable).1.DicomUIDs
      = (InsertSeriesInSubjectHierarchy env
          (if (rtReader.Rois.foldl (loadRoi rtReader loadable)
                ⟨s.StartState, INVALID_ITEM_ID, INVALID_ITEM_ID, "", -1, 0⟩).segmentationShItemID
              ≠ INVALID_ITEM_ID then
            if (rtReader.Rois.foldl (loadRoi rtReader loadable)
                  ⟨s.StartState, INVALID_ITEM_ID, INVALID_ITEM_ID, "", -1, 0⟩).maximumNumberOfPoints
                < 800000
                ∧ (rtReader.Rois.foldl (loadRoi rtReader loadable)
                  ⟨s.StartState, INVALID_ITEM_ID, INVALID_ITEM_ID, "", -1, 0⟩).totalNumberOfPoints
                < 3000000 then
              (rtReader.Rois.foldl (loadRoi rtReader loadable)
                ⟨s.StartState, INVALID_ITEM_ID, INVALID_ITEM_ID, "", -1, 0⟩).scene.SetClosedSurfaceDisplay
                (rtReader.Rois.foldl (loadRoi rtReader loadable)
                  ⟨s.StartState, INVALID_ITEM_ID, INVALID_ITEM_ID, "", -1, 0⟩).segmentationShItemID
            else
              (rtReader.Rois.foldl (loadRoi rtReader loadable)
                ⟨s.StartState, INVALID_ITEM_ID, INVALID_ITEM_ID, "", -1, 0⟩).scene.log .Warning
                "LoadRtStructureSet: Structure set contains extremely large contours that will most likely take an unreasonably long time to load"
          else (rtReader.Rois.foldl (loadRoi rtReader loadable)
            ⟨s.StartState, INVALID_ITEM_ID, INVALID_ITEM_ID, "", -1, 0⟩).scene)
          rtReader).DicomUIDs := rfl
  rw [e]
  have h := count_DicomUIDs_InsertSeriesInSubjectHierarchy env
    (if (rtReader.Rois.foldl (loadRoi rtReader loadable)
          ⟨s.StartState, INVALID_ITEM_ID, INVALID_ITEM_ID, "", -1, 0⟩).segmentationShItemID
        ≠ INVALID_ITEM_ID then
      if (rtReader.Rois.foldl (loadRoi rtReader loadable)
            ⟨s.StartState, INVALID_ITEM_ID, INVALID_ITEM_ID, "", -1, 0⟩).maximumNumberOfPoints
          < 800000
          ∧ (rtReader.Rois.foldl (loadRoi rtReader loadable)
            ⟨s.StartState, INVALID_ITEM_ID, INVALID_ITEM_ID, "", -1, 0⟩).totalNumberOfPoints
          < 3000000 then
        (rtReader.Rois.foldl (loadRoi rtReader loadable)
          ⟨s.StartState, INVALID_ITEM_ID, INVALID_ITEM_ID, "", -1, 0⟩).scene.SetClosedSurfaceDisplay
          (rtReader.Rois.foldl (loadRoi rtReader loadable)
            ⟨s.StartState, INVALID_ITEM_ID, INVALID_ITEM_ID, "", -1, 0⟩).segmentationShItemID
      else
        (rtReader.Rois.foldl (loadRoi rtReader loadable)
          ⟨s.StartState, INVALID_ITEM_ID, INVALID_ITEM_ID, "", -1, 0⟩).scene.log .Warning
          "LoadRtStructureSet: Structure set contains extremely large contours that will most likely take an unreasonably long time to load"
    else (rtReader.Rois.foldl (loadRoi rtReader loadable)
      ⟨s.StartState, INVALID_ITEM_ID, INVALID_ITEM_ID, "", -1, 0⟩).scene) rtReader v hv
  simp only [Scene.DicomUIDs_ite, Scene.DicomUIDs_SetClosedSurfaceDisplay, Scene.DicomUIDs_log,
    ite_self] at h
  exact h

end DicomUIDLoaders

/-- C20, amended.  `LoadRtStructureSet` into a scene whose UIDs of the DICOM UID namespace are
unique.  The load gives the series instance UID of the structure set to one item when the
structure set has single-point ROIs and to one more item when it has ROIs of two or more
points.  The UIDs are unique after the load exactly when the series instance UID is empty or
the items that carried it before the load and the items that the load gives it to are one
item at most.  So the UIDs are unique after the load when no item carried the series instance
UID and the structure set has no single-point ROI or no ROI of two or more points; for a
structure set that has both and a series instance UID that is not empty, two more items carry
the series instance UID after the load and the UIDs are not unique.  In every case each other
non-empty UID is carried by at most one item. -/
theorem loadRtStructureSet_keeps_uids_unique {R : Type} [CommRing R] (env : Env R)
    (s : Scene R) (rtReader : vtkSlicerDicomRtReader R) (loadable : vtkSlicerDICOMLoadable R)
    (hunique : s.UniqueDicomUIDs) :
    ((LoadRtStructureSet env s rtReader loadable).1.UniqueDicomUIDs
        ↔ rtReader.SeriesInstanceUid = ""
          ∨ s.DicomUIDs.count rtReader.SeriesInstanceUid
              + min (rtReader.Rois.filterMap RoiData.fiducial).length 1
              + min (rtReader.Rois.filterMap RoiData.segment).length 1 ≤ 1)
    ∧ ((∀ i : Nat, s.GetItemUID i .DICOMUIDName ≠ rtReader.SeriesInstanceUid) →
        (rtReader.Rois.filterMap RoiData.fiducial = []
          ∨ rtReader.Rois.filterMap RoiData.segment = []) →
        (LoadRtStructureSet env s rtReader loadable).1.UniqueDicomUIDs)
    ∧ (rtReader.SeriesInstanceUid ≠ "" →
        rtReader.Rois.filterMap RoiData.fiducial ≠ [] →
        rtReader.Rois.filterMap RoiData.segment ≠ [] →
        (LoadRtStructureSet env s rtReader loadable).1.DicomUIDs.count
            rtReader.SeriesInstanceUid
          = s.DicomUIDs.count rtReader.SeriesInstanceUid + 2
        ∧ ¬ (LoadRtStructureSet env s rtReader loadable).1.UniqueDicomUIDs)
    ∧ (∀ v : String, v ≠ "" → v ≠ rtReader.SeriesInstanceUid →
        (LoadRtStructureSet env s rtReader loadable).1.DicomUIDs.count v ≤ 1) := by
  have hu := (Scene.UniqueDicomUIDs_iff_count s).1 hunique
  have hother : ∀ v : String, v ≠ "" → v ≠ rtReader.SeriesInstanceUid →
      (LoadRtStructureSet env s rtReader loadable).1.DicomUIDs.count v ≤ 1 := by
    intro v hv hne
    have := hu v hv
    rcases count_DicomUIDs_LoadRtStructureSet env s rtReader loadable v hv with h | ⟨_, h⟩
    · rw [h, if_neg hne]
      omega
    · omega
  have hiff : (LoadRtStructureSet env s rtReader loadable).1.UniqueDicomUIDs
      ↔ rtReader.SeriesInstanceUid = ""
        ∨ s.DicomUIDs.count rtReader.SeriesInstanceUid
            + min (rtReader.Rois.filterMap RoiData.fiducial).length 1
            + min (rtReader.Rois.filterMap RoiData.segment).length 1 ≤ 1 := by
    rw [Scene.UniqueDicomUIDs_iff_count]
    constructor
    · intro h
      by_cases hs : rtReader.SeriesInstanceUid = ""
      · exact Or.inl hs
      · right
        have h1 := h _ hs
        rcases count_DicomUIDs_LoadRtStructureSet env s rtReader loadable _ hs with e | ⟨e, _⟩
        · rw [e, if_pos rfl] at h1
          omega
        · rw [if_pos rfl] at e
          omega
    · intro h v hv
      by_cases hne : v = rtReader.SeriesInstanceUid
      · subst hne
        rcases h with h | h
        · exact absurd h hv
        · rcases count_DicomUIDs_LoadRtStructureSet env s rtReader loadable _ hv with
            e | ⟨_, e⟩
          · rw [e, if_pos rfl]
            omega
          · omega
      · exact hother v hv hne
  refine ⟨hiff, ?_, ?_, hother⟩
  · intro hfresh hkind
    apply hiff.2
    right
    rw [Scene.count_DicomUIDs_of_none s _ hfresh]
    rcases hkind with e | e <;> rw [e] <;> simp
  · intro hs hF hG
    have hF' : 0 < (rtReader.Rois.filterMap RoiData.fiducial).length :=
      List.length_pos.2 hF
    have hG' : 0 < (rtReader.Rois.filterMap RoiData.segment).length :=
      List.length_pos.2 hG
    have h2 : (LoadRtStructureSet env s rtReader loadable).1.DicomUIDs.count
        rtReader.SeriesInstanceUid = s.DicomUIDs.count rtReader.SeriesInstanceUid + 2 := by
      rcases count_DicomUIDs_LoadRtStructureSet env s rtReader loadable _ hs with
        h | ⟨h, _⟩
      · rw [h, if_pos rfl]
        omega
      · rw [if_pos rfl] at h
        omega
    refine ⟨h2, ?_⟩
    intro hun
    have := (Scene.UniqueDicomUIDs_iff_count _).1 hun _ hs
    omega

/-- Witness of the amended C20: the structure set `contourStructureSetReader`, which has two
contour ROIs and no single-point ROI, loaded into a scene that holds an RT image. -/
theorem loadRtStructureSet_keeps_uids_unique_witness :
    sceneWithUnrelatedImage.UniqueDicomUIDs
    ∧ (LoadRtStructureSet sampleEnv sceneWithUnrelatedImage contourStructureSetReader
        sampleStructureSetLoadable).1.UniqueDicomUIDs :=
  ⟨by decide,
   (loadRtStructureSet_keeps_uids_unique sampleEnv sceneWithUnrelatedImage
      contourStructureSetReader sampleStructureSetLoadable (by decide)).2.1
      (fun i => by
        rcases Nat.lt_or_ge i 2 with h | h
        · rw [Scene.GetItemUID_of_lt_two _ i h]; decide
        · rcases Nat.eq_or_lt_of_le h with e | h3
          · subst e; decide
          · rw [Scene.GetItemUID_of_length_le sceneWithUnrelatedImage i h3]; decide)
      (Or.inl rfl)⟩

/-- C28, counterexample.  In the arithmetic of `double` the matrix depends on the two distances
and not only on their difference.  Isocenter at the origin, couch angle 0, gantry angle 90,
image position (0, 0), identity image matrix: for SAD 1000 and SID 1500 the translation column
holds 500; with the double 0.1 added to both distances (the doubles 1000.1 and 1500.1) it
holds 499.9999999999999, the nearest double below 500. -/
theorem setupRtImageGeometry_sad_sid_rounding :
    binary64.add 1000 (roundToBinary64 (1 / 10)) = 8796972631510221 / 8796093022208
    ∧ binary64.add 1500 (roundToBinary64 (1 / 10)) = 3298754785653555 / 2199023255552
    ∧ binary64.isocenterToRtImageRas binary64Trig (0, 0, 0) 1000 90 0 1500 (0, 0)
        binary64.identityMatrix
      = !![4967757600021511 / 81129638414606681695789005144064,
            -4967757600021511 / 81129638414606681695789005144064, 1, 500;
          1, 684969180613545 / 182687704666362864775460604089535377456991567872,
            -4967757600021511 / 81129638414606681695789005144064,
            -2425662890635503 / 79228162514264337593543950336;
          0, 1, 4967757600021511 / 81129638414606681695789005144064, 0;
          0, 0, 0, 1]
    ∧ binary64.isocenterToRtImageRas binary64Trig (0, 0, 0)
        (binary64.add 1000 (roundToBinary64 (1 / 10))) 90 0
        (binary64.add 1500 (roundToBinary64 (1 / 10))) (0, 0) binary64.identityMatrix
      = !![4967757600021511 / 81129638414606681695789005144064,
            -4967757600021511 / 81129638414606681695789005144064, 1,
            4398046511103999 / 8796093022208;
          1, 684969180613545 / 182687704666362864775460604089535377456991567872,
            -4967757600021511 / 81129638414606681695789005144064,
            -2425662890635503 / 79228162514264337593543950336;
          0, 1, 4967757600021511 / 81129638414606681695789005144064, 0;
          0, 0, 0, 1]
    ∧ binary64.isocenterToRtImageRas binary64Trig (0, 0, 0)
        (binary64.add 1000 (roundToBinary64 (1 / 10))) 90 0
        (binary64.add 1500 (roundToBinary64 (1 / 10))) (0, 0) binary64.identityMatrix
      ≠ binary64.isocenterToRtImageRas binary64Trig (0, 0, 0) 1000 90 0 1500 (0, 0)
        binary64.identityMatrix := by
  decide!

theorem placement_binary64_sample :
    binary64.isocenterToRtImageRas binary64Trig (0, 0, 0) 1000 30 10 1500 (0, 0)
        binary64.identityMatrix
      = !![7681956805394091 / 9007199254740992, -3128167472937413 / 18014398509481984,
            4435179829497355 / 9007199254740992, 4331230302243511 / 17592186044416;
          9007199254740991 / 18014398509481984,
            4302204281461843 / 81129638414606681695789005144064,
            -7800463371553963 / 9007199254740992, -3808820005641583 / 8796093022208;
          1354536249427985 / 9007199254740992, 8870359658994711 / 9007199254740992,
            1564083736468707 / 18014398509481984, 3054851047790441 / 70368744177664;
          0, 0, 0, 1] := by
  decide!

/-- C22, counterexample.  In the arithmetic of `double` the placement is not exactly rigid.
Isocenter at the origin, couch angle 10, gantry angle 30, SAD 1000, SID 1500, image position
(0, 0), identity image matrix: the linear part `L` of the computed matrix is not orthogonal,
neither exactly (the first column has the squared length `1 + 5.8e-17`) nor when `Lᵀ L` is
computed in doubles (the entry of row 1, column 1 is 0.9999999999999999 and the entry of
row 0, column 2 is 1.7e-17), and the images of the points (1, 0, 0) and (0, 0, 0) are not at
the distance 1. -/
theorem setupRtImageGeometry_placement_not_rigid :
    ¬ IsRigid (binary64.isocenterToRtImageRas binary64Trig (0, 0, 0) 1000 30 10 1500 (0, 0)
        binary64.identityMatrix)
    ∧ ((linearPart (binary64.isocenterToRtImageRas binary64Trig (0, 0, 0) 1000 30 10 1500
            (0, 0) binary64.identityMatrix)).transpose
          * linearPart (binary64.isocenterToRtImageRas binary64Trig (0, 0, 0) 1000 30 10 1500
            (0, 0) binary64.identityMatrix)) 0 0
        = 324518553658426745672884571168105 / 324518553658426726783156020576256
    ∧ binary64.add
          (binary64.add
            (binary64.mul
              (binary64.isocenterToRtImageRas binary64Trig (0, 0, 0) 1000 30 10 1500 (0, 0)
                binary64.identityMatrix 0 1)
              (binary64.isocenterToRtImageRas binary64Trig (0, 0, 0) 1000 30 10 1500 (0, 0)
                binary64.identityMatrix 0 1))
            (binary64.mul
              (binary64.isocenterToRtImageRas binary64Trig (0, 0, 0) 1000 30 10 1500 (0, 0)
                binary64.identityMatrix 1 1)
              (binary64.isocenterToRtImageRas binary64Trig (0, 0, 0) 1000 30 10 1500 (0, 0)
                binary64.identityMatrix 1 1)))
          (binary64.mul
            (binary64.isocenterToRtImageRas binary64Trig (0, 0, 0) 1000 30 10 1500 (0, 0)
              binary64.identityMatrix 2 1)
            (binary64.isocenterToRtImageRas binary64Trig (0, 0, 0) 1000 30 10 1500 (0, 0)
              binary64.identityMatrix 2 1))
        = 9007199254740991 / 9007199254740992
    ∧ binary64.add
          (binary64.add
            (binary64.mul
              (binary64.isocenterToRtImageRas binary64Trig (0, 0, 0) 1000 30 10 1500 (0, 0)
                binary64.identityMatrix 0 0)
              (binary64.isocenterToRtImageRas binary64Trig (0, 0, 0) 1000 30 10 1500 (0, 0)
                binary64.identityMatrix 0 2))
            (binary64.mul
              (binary64.isocenterToRtImageRas binary64Trig (0, 0, 0) 1000 30 10 1500 (0, 0)
                binary64.identityMatrix 1 0)
              (binary64.isocenterToRtImageRas binary64Trig (0, 0, 0) 1000 30 10 1500 (0, 0)
                binary64.identityMatrix 1 2)))
          (binary64.mul
            (binary64.isocenterToRtImageRas binary64Trig (0, 0, 0) 1000 30 10 1500 (0, 0)
              binary64.identityMatrix 2 0)
            (binary64.isocenterToRtImageRas binary64Trig (0, 0, 0) 1000 30 10 1500 (0, 0)
              binary64.identityMatrix 2 2))
        = 5 / 288230376151711744
    ∧ squaredDistance
          (transformPoint (binary64.isocenterToRtImageRas binary64Trig (0, 0, 0) 1000 30 10 1500
            (0, 0) binary64.identityMatrix) (1, 0, 0))
          (transformPoint (binary64.isocenterToRtImageRas binary64Trig (0, 0, 0) 1000 30 10 1500
            (0, 0) binary64.identityMatrix) (0, 0, 0))
        ≠ squaredDistance ((1, 0, 0) : ℚ × ℚ × ℚ) (0, 0, 0) := by
  rw [placement_binary64_sample]
  have h00 : ((linearPart (!![7681956805394091 / 9007199254740992,
            -3128167472937413 / 18014398509481984,
            4435179829497355 / 9007199254740992, 4331230302243511 / 17592186044416;
          9007199254740991 / 18014398509481984,
            4302204281461843 / 81129638414606681695789005144064,
            -7800463371553963 / 9007199254740992, -3808820005641583 / 8796093022208;
          1354536249427985 / 9007199254740992, 8870359658994711 / 9007199254740992,
            1564083736468707 / 18014398509481984, 3054851047790441 / 70368744177664;
          0, 0, 0, 1] : Matrix4x4 ℚ)).transpose
        * linearPart (!![7681956805394091 / 9007199254740992,
            -3128167472937413 / 18014398509481984,
            4435179829497355 / 9007199254740992, 4331230302243511 / 17592186044416;
          9007199254740991 / 18014398509481984,
            4302204281461843 / 81129638414606681695789005144064,
            -7800463371553963 / 9007199254740992, -3808820005641583 / 8796093022208;
          1354536249427985 / 9007199254740992, 8870359658994711 / 9007199254740992,
            1564083736468707 / 18014398509481984, 3054851047790441 / 70368744177664;
          0, 0, 0, 1] : Matrix4x4 ℚ)) 0 0
      = 324518553658426745672884571168105 / 324518553658426726783156020576256 := by
    simp only [linearPart, Matrix.mul_apply, Fin.sum_univ_three, Matrix.transpose_apply]
    norm_num [Matrix.of_apply, Matrix.cons_val_zero, Matrix.cons_val_one, Matrix.head_cons]
  refine ⟨?_, h00, by decide!, by decide!, ?_⟩
  · intro h
    have h1 := congrFun (congrFun h.2.1 0) 0
    rw [h00] at h1
    norm_num at h1
  · simp only [squaredDistance, transformPoint]
    norm_num [Matrix.of_apply, Matrix.cons_val_zero, Matrix.cons_val_one, Matrix.head_cons]

end SlicerRT
